import Mathlib

/-!
# xdg-shell server core of KWin: a shallow embedding

The definitions below follow `src/xdgshellinterface.cpp`.  Every C++ object that
is reached through a pointer lives in a map of the `World`, keyed by a natural
number standing for the pointer; a handler is a function from the world (and the
request's arguments) to the new world together with the list of things the
handler did that are visible outside: protocol errors posted on the resource,
events sent to the client and Qt signals emitted to the compositor.
-/

namespace KWin

/-! ## Machine integers and the Qt value types -/

/-- Two's complement reading of an integer as a 32-bit `int`. -/
def wrapInt32 (z : Int) : Int := (z + 2147483648) % 4294967296 - 2147483648

/-- Largest `int`, the constant `INT_MAX`. -/
def INT_MAX : Int := 2147483647

/-- Smallest `int`, the constant `INT_MIN`. -/
def INT_MIN : Int := -2147483648

/-- Range of the protocol's `int32_t` arguments. -/
def isInt32 (z : Int) : Prop := INT_MIN ≤ z ∧ z ≤ INT_MAX

instance (z : Int) : Decidable (isInt32 z) := by unfold isInt32; infer_instance

/-- Range of the protocol's `uint32_t` arguments. -/
def isUInt32 (n : Nat) : Prop := n < 4294967296

instance (n : Nat) : Decidable (isUInt32 n) := by unfold isUInt32; infer_instance

/-- Qt's `QSize`: a width and a height. -/
structure QSize where
  wd : Int
  ht : Int
deriving DecidableEq, Repr

/-- The default constructor `QSize()` gives the invalid size (-1, -1). -/
def QSize.default : QSize := ⟨-1, -1⟩

/-- `QSize::isValid()`: both components are at least 0. -/
def QSize.isValid (s : QSize) : Bool := decide (0 ≤ s.wd) && decide (0 ≤ s.ht)

/-- `QSize::isEmpty()`: one component is below 1. -/
def QSize.isEmpty (s : QSize) : Bool := decide (s.wd < 1) || decide (s.ht < 1)

/-- Qt's `QPoint`. -/
structure QPoint where
  px : Int
  py : Int
deriving DecidableEq, Repr

/-- Qt's `QRect`, which stores the two corners (left, top) and (right, bottom). -/
structure QRect where
  x1 : Int
  y1 : Int
  x2 : Int
  y2 : Int
deriving DecidableEq, Repr

/-- The default constructor `QRect()` gives the null rectangle (0, 0, -1, -1). -/
def QRect.default : QRect := ⟨0, 0, -1, -1⟩

/-- The constructor `QRect(left, top, width, height)`: the right and bottom
corners are computed as `left + width - 1` and `top + height - 1` in `int`,
which wraps around past `INT_MAX`. -/
def QRect.fromXYWH (left top width height : Int) : QRect :=
  ⟨left, top, wrapInt32 (wrapInt32 (left + width) - 1),
    wrapInt32 (wrapInt32 (top + height) - 1)⟩

/-- `QRect::isValid()`: left is not past right and top is not past bottom. -/
def QRect.isValid (r : QRect) : Bool := decide (r.x1 ≤ r.x2) && decide (r.y1 ≤ r.y2)

/-- `QRect::width()`, computed as `x2 - x1 + 1` in `int`. -/
def QRect.width (r : QRect) : Int := wrapInt32 (wrapInt32 (r.x2 - r.x1) + 1)

/-- `QRect::height()`, computed as `y2 - y1 + 1` in `int`. -/
def QRect.height (r : QRect) : Int := wrapInt32 (wrapInt32 (r.y2 - r.y1) + 1)

/-- The flag set `Qt::Edges`, one boolean per edge. -/
structure Edges where
  top : Bool := false
  left : Bool := false
  right : Bool := false
  bottom : Bool := false
deriving DecidableEq, Repr

/-- The flag set `Qt::Orientations`, one boolean per orientation. -/
structure Orientations where
  horizontal : Bool := false
  vertical : Bool := false
deriving DecidableEq, Repr

/-- Modelled from the spec: the flag set `XdgToplevelInterface::States`, declared
in a header that is not among the sources: the five states `sendConfigure` tests. -/
structure States where
  MaximizedHorizontal : Bool := false
  MaximizedVertical : Bool := false
  FullScreen : Bool := false
  Resizing : Bool := false
  Activated : Bool := false
deriving DecidableEq, Repr

/-! ## Handles, errors, events and signals -/

/-- A `wl_client*`. -/
abbrev ClientId := Nat
/-- A `SurfaceInterface*` of the generic surface subsystem. -/
abbrev SurfaceId := Nat
/-- An `XdgSurfaceInterface*`. -/
abbrev XdgSurfaceId := Nat
/-- An `XdgToplevelInterface*`. -/
abbrev ToplevelId := Nat
/-- An `XdgPopupInterface*`. -/
abbrev PopupId := Nat
/-- The `wl_resource*` of an `xdg_positioner`. -/
abbrev PositionerId := Nat
/-- A `QTimer*` of the ping registry. -/
abbrev TimerId := Nat
/-- A `SeatInterface*`. -/
abbrev SeatId := Nat
/-- An `OutputInterface*`. -/
abbrev OutputId := Nat

/-- The error codes given to `wl_resource_post_error`; `anonymous` is the code `-1`. -/
inductive ProtocolError where
  | XDG_WM_BASE_ERROR_DEFUNCT_SURFACES
  | XDG_WM_BASE_ERROR_INVALID_POSITIONER
  | XDG_SURFACE_ERROR_NOT_CONSTRUCTED
  | XDG_SURFACE_ERROR_ALREADY_CONSTRUCTED
  | XDG_SURFACE_ERROR_UNCONFIGURED_BUFFER
  | XDG_POSITIONER_ERROR_INVALID_INPUT
  | anonymous
deriving DecidableEq, Repr

/-- The role object registered on a surface by the `SurfaceRole` constructor. -/
inductive SurfaceRole where
  | toplevel (t : ToplevelId)
  | popup (p : PopupId)
deriving DecidableEq, Repr

/-- Events sent to the client (the `send_*` calls). -/
inductive WireEvent where
  | xdg_wm_base_ping (client : ClientId) (serial : Nat)
  | xdg_surface_configure (x : XdgSurfaceId) (serial : Nat)
  | xdg_toplevel_configure (t : ToplevelId) (width height : Int) (states : List Nat)
  | xdg_toplevel_close (t : ToplevelId)
  | xdg_popup_configure (p : PopupId) (x y width height : Int)
  | xdg_popup_popup_done (p : PopupId)
deriving DecidableEq, Repr

/-- Qt signals emitted to the compositor (the `emit` statements), each tagged
with the object that emits it. -/
inductive Signal where
  | toplevelCreated (t : ToplevelId)
  | popupCreated (p : PopupId)
  | pingDelayed (serial : Nat)
  | pingTimeout (serial : Nat)
  | pongReceived (serial : Nat)
  | windowGeometryChanged (x : XdgSurfaceId) (r : QRect)
  | configureAcknowledged (x : XdgSurfaceId) (serial : Nat)
  | initializeRequested (role : SurfaceRole)
  | minimumSizeChanged (t : ToplevelId) (s : QSize)
  | maximumSizeChanged (t : ToplevelId) (s : QSize)
  | parentXdgToplevelChanged (t : ToplevelId)
  | windowTitleChanged (t : ToplevelId) (title : String)
  | windowClassChanged (t : ToplevelId) (appId : String)
  | windowMenuRequested (t : ToplevelId) (seat : Option SeatId) (pos : QPoint) (serial : Nat)
  | moveRequested (t : ToplevelId) (seat : Option SeatId) (serial : Nat)
  | resizeRequested (t : ToplevelId) (seat : Option SeatId) (edges : Edges) (serial : Nat)
  | maximizeRequested (t : ToplevelId)
  | unmaximizeRequested (t : ToplevelId)
  | fullscreenRequested (t : ToplevelId) (output : Option OutputId)
  | unfullscreenRequested (t : ToplevelId)
  | minimizeRequested (t : ToplevelId)
  | grabRequested (p : PopupId) (seat : Option SeatId) (serial : Nat)
deriving DecidableEq, Repr

/-- What a handler does that is visible outside of the state. -/
inductive Event where
  | error (code : ProtocolError)
  | send (e : WireEvent)
  | signal (s : Signal)
  | warning
deriving DecidableEq, Repr

/-- The signals among a list of events, in order. -/
def signalsOf : List Event → List Signal
  | [] => []
  | Event.signal s :: es => s :: signalsOf es
  | _ :: es => signalsOf es

/-- The protocol errors among a list of events, in order. -/
def errorsOf : List Event → List ProtocolError
  | [] => []
  | Event.error c :: es => c :: errorsOf es
  | _ :: es => errorsOf es

/-! ## The objects -/

/-- The part of `SurfaceInterface` the shell reads: whether the surface has a
buffer, and the role registered on it. -/
structure SurfaceInterface where
  buffer : Bool := false
  role : Option SurfaceRole := none
deriving DecidableEq, Repr

/-- Modelled from the spec: the state record of an xdg-surface (`next` and
`current`), declared in a header that is not among the sources; its one field
is the window geometry, a default-constructed `QRect`. -/
structure XdgSurfaceState where
  windowGeometry : QRect := QRect.default
deriving DecidableEq, Repr

/-- Modelled from the spec: the fields of `XdgSurfaceInterfacePrivate`, declared
in a header that is not among the sources: the fields the handlers use, with
the role pointers null and `isConfigured` false at construction ("becomes true
after the first configure is sent"); `client` is `resource()->client()`. -/
structure XdgSurfaceInterfacePrivate where
  client : ClientId
  surface : SurfaceId
  toplevel : Option ToplevelId := none
  popup : Option PopupId := none
  next : XdgSurfaceState := {}
  current : XdgSurfaceState := {}
  isConfigured : Bool := false
deriving DecidableEq, Repr

/-- Modelled from the spec: the state record of a toplevel (`next` and
`current`), declared in a header that is not among the sources: the minimum
and the maximum size, default-constructed `QSize`s. -/
structure XdgToplevelState where
  minimumSize : QSize := QSize.default
  maximumSize : QSize := QSize.default
deriving DecidableEq, Repr

/-- Modelled from the spec: the fields of `XdgToplevelInterfacePrivate`, declared
in a header that is not among the sources: the fields the handlers use, with no
parent and empty strings at construction. -/
structure XdgToplevelInterfacePrivate where
  xdgSurface : XdgSurfaceId
  parentXdgToplevel : Option ToplevelId := none
  windowTitle : String := ""
  windowClass : String := ""
  next : XdgToplevelState := {}
  current : XdgToplevelState := {}
deriving DecidableEq, Repr

/-- Modelled from the spec: the shared payload `XdgPositionerData` of a
positioner, declared in a header that is not among the sources: the fields the
handlers use, default-constructed (empty flag sets, `QPoint()`, `QSize()`, `QRect()`). -/
structure XdgPositionerData where
  slideConstraintAdjustments : Orientations := {}
  flipConstraintAdjustments : Orientations := {}
  resizeConstraintAdjustments : Orientations := {}
  anchorEdges : Edges := {}
  gravityEdges : Edges := {}
  offset : QPoint := ⟨0, 0⟩
  size : QSize := QSize.default
  anchorRect : QRect := QRect.default
deriving DecidableEq, Repr

/-- The value type `XdgPositioner`: a handle on a payload, copied by value here. -/
abbrev XdgPositioner := XdgPositionerData

/-- Modelled from the spec: the fields of `XdgPopupInterfacePrivate`, declared in
a header that is not among the sources: the fields the constructor sets. -/
structure XdgPopupInterfacePrivate where
  xdgSurface : XdgSurfaceId
  parentXdgSurface : XdgSurfaceId
  positioner : XdgPositioner
deriving DecidableEq, Repr

/-- A ping timer: the `QTimer` together with the `serial` and the `attempt`
counter captured by the closure connected to its timeout. -/
structure PingTimer where
  serial : Nat
  attempt : Int := 0
deriving DecidableEq, Repr

/-- The whole state: the display's serial counter, the surfaces, the shell
(`XdgShellInterfacePrivate`: resource map, `xdgSurfaces`, `pings`) and the heap
of objects created by the handlers. -/
structure World where
  /-- Last serial handed out by the display. -/
  serial : Nat := 0
  /-- Next unused object identity, for `new`. -/
  fresh : Nat := 0
  /-- The surfaces of the surface subsystem. -/
  surfaces : SurfaceId → SurfaceInterface := fun _ => {}
  /-- The shell's `resourceMap()`: one entry per bound `xdg_wm_base` resource. -/
  resourceMap : List ClientId := []
  /-- The shell's `QMultiMap<wl_client *, XdgSurfaceInterface *> xdgSurfaces`. -/
  xdgSurfaces : List (ClientId × XdgSurfaceId) := []
  /-- The shell's `QMap<quint32, QTimer *> pings`. -/
  pings : Nat → Option TimerId := fun _ => none
  /-- The live ping timers. -/
  timers : TimerId → Option PingTimer := fun _ => none
  /-- The live `XdgSurfaceInterface` objects. -/
  xdgSurfaceObjects : XdgSurfaceId → Option XdgSurfaceInterfacePrivate := fun _ => none
  /-- The live `XdgToplevelInterface` objects. -/
  toplevels : ToplevelId → Option XdgToplevelInterfacePrivate := fun _ => none
  /-- The live `XdgPopupInterface` objects. -/
  popups : PopupId → Option XdgPopupInterfacePrivate := fun _ => none
  /-- The live `xdg_positioner` resources. -/
  positioners : PositionerId → Option XdgPositionerData := fun _ => none

/-- The state before any client has connected. -/
def World.init : World := {}

/-! ## The display and the surface subsystem -/

/-- `Display::nextSerial()`: the value it returns, the counter advanced by one
in `quint32`. -/
def World.nextSerial (w : World) : Nat := (w.serial + 1) % 4294967296

/-- Modelled from the spec: `SurfaceRole::get(surface)`, whose class is declared
outside the sources; the role attached to the surface, if any ("one-shot
attachment of a role (toplevel or popup) to a generic surface"). -/
def SurfaceRole.get (w : World) (surface : SurfaceId) : Option SurfaceRole :=
  (w.surfaces surface).role

/-- Modelled from the spec: the constructor `SurfaceRole(surface)`, run by the
constructors of the toplevel and popup private classes, which attaches the role
object to the surface; the class is declared outside the sources. -/
def SurfaceRole.attach (w : World) (surface : SurfaceId) (role : SurfaceRole) : World :=
  { w with surfaces :=
      Function.update w.surfaces surface { w.surfaces surface with role := some role } }

/-- Modelled from the spec: the destructor of `SurfaceRole`, run when a role
object is deleted; the class is declared outside the sources.  The pointers to
a role object are non-owning and "cleared on role destruction": the surface the
role object was attached to has no role again, so a later commit of the surface
does not reach the deleted object. -/
def SurfaceRole.detach (w : World) (role : SurfaceRole) : World :=
  { w with surfaces := fun s =>
      if (w.surfaces s).role = some role then { w.surfaces s with role := none }
      else w.surfaces s }

/-! ## XdgShellInterface -/

/-- `clientFromXdgSurface`: the client of the xdg-surface's resource. -/
def clientFromXdgSurface (w : World) (surface : XdgSurfaceId) : Option ClientId :=
  (w.xdgSurfaceObjects surface).map (fun d => d.client)

/-- `XdgShellInterfacePrivate::registerXdgSurface`: `QMultiMap::insert`. -/
def XdgShellInterfacePrivate.registerXdgSurface (w : World) (surface : XdgSurfaceId) : World :=
  match clientFromXdgSurface w surface with
  | none => w
  | some client => { w with xdgSurfaces := (client, surface) :: w.xdgSurfaces }

/-- `XdgShellInterfacePrivate::unregisterXdgSurface`: `QMultiMap::remove(key, value)`. -/
def XdgShellInterfacePrivate.unregisterXdgSurface (w : World) (surface : XdgSurfaceId) : World :=
  match clientFromXdgSurface w surface with
  | none => w
  | some client =>
    { w with xdgSurfaces := w.xdgSurfaces.filter (fun e => decide (e ≠ (client, surface))) }

/-- `XdgShellInterfacePrivate::registerPing`: a new timer whose closure holds
`serial` and `attempt = 0` is stored under the serial (`QMap::insert`). -/
def XdgShellInterfacePrivate.registerPing (w : World) (serial : Nat) : World :=
  let timer := w.fresh
  { w with
    fresh := w.fresh + 1
    timers := Function.update w.timers timer (some { serial := serial, attempt := 0 })
    pings := Function.update w.pings serial (some timer) }

/-- The closure connected to `QTimer::timeout` in `registerPing`, run for the
timer `timer`.  A deleted timer does not fire. -/
def XdgShellInterfacePrivate.pingTimerTimeout (w : World) (timer : TimerId) :
    World × List Event :=
  match w.timers timer with
  | none => (w, [])
  | some tm =>
    -- `++attempt`, in `int`
    let attempt := wrapInt32 (tm.attempt + 1)
    let w1 := { w with timers := Function.update w.timers timer (some { tm with attempt := attempt }) }
    if attempt = 1 then
      (w1, [Event.signal (Signal.pingDelayed tm.serial)])
    else
      -- `delete pings.take(serial)`
      let taken := w1.pings tm.serial
      let w2 := { w1 with pings := Function.update w1.pings tm.serial none }
      match taken with
      | none => (w2, [Event.signal (Signal.pingTimeout tm.serial)])
      | some t =>
        ({ w2 with timers := Function.update w2.timers t none },
          [Event.signal (Signal.pingTimeout tm.serial)])

/-- A client binds the `xdg_wm_base` global: its resource enters the resource map. -/
def XdgShellInterfacePrivate.bind (w : World) (client : ClientId) : World × List Event :=
  ({ w with resourceMap := client :: w.resourceMap }, [])

/-- `XdgShellInterfacePrivate::xdg_wm_base_destroy`, for a resource of `client`. -/
def XdgShellInterfacePrivate.xdg_wm_base_destroy (w : World) (client : ClientId) :
    World × List Event :=
  if w.xdgSurfaces.any (fun e => decide (e.1 = client)) then
    (w, [Event.error ProtocolError.XDG_WM_BASE_ERROR_DEFUNCT_SURFACES])
  else
    ({ w with resourceMap := w.resourceMap.erase client }, [])

/-- `XdgShellInterfacePrivate::xdg_wm_base_create_positioner`: a positioner
resource with a default-constructed payload. -/
def XdgShellInterfacePrivate.xdg_wm_base_create_positioner (w : World) (_client : ClientId) :
    World × List Event :=
  ({ w with
      fresh := w.fresh + 1
      positioners := Function.update w.positioners w.fresh (some {}) }, [])

/-- `XdgShellInterfacePrivate::xdg_wm_base_get_xdg_surface`, for a resource of `client`. -/
def XdgShellInterfacePrivate.xdg_wm_base_get_xdg_surface (w : World) (client : ClientId)
    (surface : SurfaceId) : World × List Event :=
  if (w.surfaces surface).buffer then
    (w, [Event.error ProtocolError.XDG_SURFACE_ERROR_UNCONFIGURED_BUFFER])
  else
    let xdgSurface := w.fresh
    let w1 := { w with
      fresh := w.fresh + 1
      xdgSurfaceObjects :=
        Function.update w.xdgSurfaceObjects xdgSurface (some { client := client, surface := surface }) }
    (XdgShellInterfacePrivate.registerXdgSurface w1 xdgSurface, [])

/-- `XdgShellInterfacePrivate::xdg_wm_base_pong`. -/
def XdgShellInterfacePrivate.xdg_wm_base_pong (w : World) (serial : Nat) : World × List Event :=
  match w.pings serial with
  | some timer =>
    ({ w with
        pings := Function.update w.pings serial none
        timers := Function.update w.timers timer none },
      [Event.signal (Signal.pongReceived serial)])
  | none => (w, [])

/-- `XdgShellInterface::ping`; the last component is the returned serial. -/
def XdgShellInterface.ping (w : World) (surface : XdgSurfaceId) : World × List Event × Nat :=
  match clientFromXdgSurface w surface with
  | none => (w, [], 0)
  | some client =>
    if client ∈ w.resourceMap then
      let serial := w.nextSerial
      let w1 := { w with serial := serial }
      (XdgShellInterfacePrivate.registerPing w1 serial,
        [Event.send (WireEvent.xdg_wm_base_ping client serial)], serial)
    else
      (w, [], 0)

/-! ## XdgPositioner (the value type) -/

/-- `XdgPositioner::isComplete`. -/
def XdgPositioner.isComplete (d : XdgPositioner) : Bool :=
  d.size.isValid && d.anchorRect.isValid

/-- `XdgPositioner::get(resource)`: a copy of the resource's payload, or a
default-constructed positioner when the resource is not a positioner. -/
def XdgPositioner.get (w : World) (resource : PositionerId) : XdgPositioner :=
  match w.positioners resource with
  | some data => data
  | none => {}

/-! ## XdgSurfaceInterface -/

/-- `XdgSurfaceInterface::get(resource)`: the xdg-surface of the resource, null
for a null resource or one that is no xdg-surface. -/
def XdgSurfaceInterface.get (w : World) (resource : Option XdgSurfaceId) : Option XdgSurfaceId :=
  match resource with
  | none => none
  | some r => if (w.xdgSurfaceObjects r).isSome then some r else none

/-- `XdgSurfaceInterface::windowGeometry`. -/
def XdgSurfaceInterface.windowGeometry (d : XdgSurfaceInterfacePrivate) : QRect :=
  d.current.windowGeometry

/-- `XdgSurfaceInterfacePrivate::commit`, for the xdg-surface `q`. -/
def XdgSurfaceInterfacePrivate.commit (q : XdgSurfaceId) (d : XdgSurfaceInterfacePrivate) :
    XdgSurfaceInterfacePrivate × List Event :=
  if d.current.windowGeometry ≠ d.next.windowGeometry then
    let d1 := { d with current := { d.current with windowGeometry := d.next.windowGeometry } }
    (d1, [Event.signal (Signal.windowGeometryChanged q d1.current.windowGeometry)])
  else
    (d, [])

/-- `XdgSurfaceInterfacePrivate::xdg_surface_destroy_resource`. -/
def XdgSurfaceInterfacePrivate.xdg_surface_destroy_resource (w : World) (q : XdgSurfaceId) :
    World :=
  let w1 := XdgShellInterfacePrivate.unregisterXdgSurface w q
  { w1 with xdgSurfaceObjects := Function.update w1.xdgSurfaceObjects q none }

/-- `XdgSurfaceInterfacePrivate::xdg_surface_destroy`; destroying the resource
runs `xdg_surface_destroy_resource`. -/
def XdgSurfaceInterfacePrivate.xdg_surface_destroy (w : World) (q : XdgSurfaceId) :
    World × List Event :=
  match w.xdgSurfaceObjects q with
  | none => (w, [])
  | some d =>
    let warn := if d.toplevel.isSome || d.popup.isSome then [Event.warning] else []
    (XdgSurfaceInterfacePrivate.xdg_surface_destroy_resource w q, warn)

/-- `XdgSurfaceInterfacePrivate::xdg_surface_get_toplevel`. -/
def XdgSurfaceInterfacePrivate.xdg_surface_get_toplevel (w : World) (q : XdgSurfaceId) :
    World × List Event :=
  match w.xdgSurfaceObjects q with
  | none => (w, [])
  | some d =>
    if (SurfaceRole.get w d.surface).isSome then
      (w, [Event.error ProtocolError.XDG_SURFACE_ERROR_ALREADY_CONSTRUCTED])
    else
      let toplevel := w.fresh
      -- `new XdgToplevelInterface(q, toplevelResource)`
      let w1 := { w with
        fresh := w.fresh + 1
        toplevels := Function.update w.toplevels toplevel (some { xdgSurface := q }) }
      let w2 := SurfaceRole.attach w1 d.surface (SurfaceRole.toplevel toplevel)
      let w3 := { w2 with
        xdgSurfaceObjects :=
          Function.update w2.xdgSurfaceObjects q (some { d with toplevel := some toplevel }) }
      (w3, [Event.signal (Signal.toplevelCreated toplevel)])

/-- `XdgSurfaceInterfacePrivate::xdg_surface_get_popup`. -/
def XdgSurfaceInterfacePrivate.xdg_surface_get_popup (w : World) (q : XdgSurfaceId)
    (parentResource : Option XdgSurfaceId) (positionerResource : PositionerId) :
    World × List Event :=
  match w.xdgSurfaceObjects q with
  | none => (w, [])
  | some d =>
    if (SurfaceRole.get w d.surface).isSome then
      (w, [Event.error ProtocolError.XDG_SURFACE_ERROR_ALREADY_CONSTRUCTED])
    else
      let positioner := XdgPositioner.get w positionerResource
      if !positioner.isComplete then
        (w, [Event.error ProtocolError.XDG_WM_BASE_ERROR_INVALID_POSITIONER])
      else
        match XdgSurfaceInterface.get w parentResource with
        | none => (w, [Event.error ProtocolError.anonymous])
        | some parentSurface =>
          let popup := w.fresh
          -- `new XdgPopupInterface(q, parentSurface, positioner, popupResource)`
          let w1 := { w with
            fresh := w.fresh + 1
            popups := Function.update w.popups popup
              (some { xdgSurface := q, parentXdgSurface := parentSurface,
                      positioner := positioner }) }
          let w2 := SurfaceRole.attach w1 d.surface (SurfaceRole.popup popup)
          let w3 := { w2 with
            xdgSurfaceObjects :=
              Function.update w2.xdgSurfaceObjects q (some { d with popup := some popup }) }
          (w3, [Event.signal (Signal.popupCreated popup)])

/-- `XdgSurfaceInterfacePrivate::xdg_surface_set_window_geometry`. -/
def XdgSurfaceInterfacePrivate.xdg_surface_set_window_geometry (d : XdgSurfaceInterfacePrivate)
    (x y width height : Int) : XdgSurfaceInterfacePrivate × List Event :=
  if d.toplevel.isNone && d.popup.isNone then
    (d, [Event.error ProtocolError.XDG_SURFACE_ERROR_NOT_CONSTRUCTED])
  else if width < 1 || height < 1 then
    (d, [Event.error ProtocolError.anonymous])
  else
    ({ d with next := { d.next with windowGeometry := QRect.fromXYWH x y width height } }, [])

/-- `XdgSurfaceInterfacePrivate::xdg_surface_ack_configure`, for the xdg-surface `q`. -/
def XdgSurfaceInterfacePrivate.xdg_surface_ack_configure (q : XdgSurfaceId) (serial : Nat) :
    List Event :=
  [Event.signal (Signal.configureAcknowledged q serial)]

/-- Runs a handler that only touches the xdg-surface `q` itself; a handle that
names no live object receives no request. -/
def World.onXdgSurface (w : World) (q : XdgSurfaceId)
    (f : XdgSurfaceInterfacePrivate → XdgSurfaceInterfacePrivate × List Event) :
    World × List Event :=
  match w.xdgSurfaceObjects q with
  | none => (w, [])
  | some d =>
    ({ w with xdgSurfaceObjects := Function.update w.xdgSurfaceObjects q (some (f d).1) },
      (f d).2)

/-! ## XdgToplevelInterface -/

/-- Wire value `XDG_TOPLEVEL_RESIZE_EDGE_TOP`. -/
def XDG_TOPLEVEL_RESIZE_EDGE_TOP : Nat := 1
/-- Wire value `XDG_TOPLEVEL_RESIZE_EDGE_BOTTOM`. -/
def XDG_TOPLEVEL_RESIZE_EDGE_BOTTOM : Nat := 2
/-- Wire value `XDG_TOPLEVEL_RESIZE_EDGE_LEFT`. -/
def XDG_TOPLEVEL_RESIZE_EDGE_LEFT : Nat := 4
/-- Wire value `XDG_TOPLEVEL_RESIZE_EDGE_RIGHT`. -/
def XDG_TOPLEVEL_RESIZE_EDGE_RIGHT : Nat := 8

/-- Wire value `XDG_TOPLEVEL_STATE_MAXIMIZED`. -/
def XDG_TOPLEVEL_STATE_MAXIMIZED : Nat := 1
/-- Wire value `XDG_TOPLEVEL_STATE_FULLSCREEN`. -/
def XDG_TOPLEVEL_STATE_FULLSCREEN : Nat := 2
/-- Wire value `XDG_TOPLEVEL_STATE_RESIZING`. -/
def XDG_TOPLEVEL_STATE_RESIZING : Nat := 3
/-- Wire value `XDG_TOPLEVEL_STATE_ACTIVATED`. -/
def XDG_TOPLEVEL_STATE_ACTIVATED : Nat := 4

/-- `XdgToplevelInterface::get(resource)`: the toplevel of the resource, null
for a null resource or one that is no toplevel. -/
def XdgToplevelInterface.get (w : World) (resource : Option ToplevelId) : Option ToplevelId :=
  match resource with
  | none => none
  | some r => if (w.toplevels r).isSome then some r else none

/-- Modelled from the spec: the role pointer `toplevel` of the xdg-surface `q`,
declared in a header that is not among the sources, when the toplevel
`toplevel` is deleted: "the XdgSurface holds a non-owning pointer that is
cleared on role destruction". -/
def XdgSurfaceInterfacePrivate.clearToplevel (w : World) (q : XdgSurfaceId)
    (toplevel : ToplevelId) : World :=
  match w.xdgSurfaceObjects q with
  | none => w
  | some xs =>
    if xs.toplevel = some toplevel then
      { w with xdgSurfaceObjects :=
          Function.update w.xdgSurfaceObjects q (some { xs with toplevel := none }) }
    else w

/-- `XdgToplevelInterfacePrivate::xdg_toplevel_destroy_resource`: `delete q`.
The toplevel object goes away; its base class `SurfaceRole` releases the
surface, and the role pointer of its xdg-surface is cleared. -/
def XdgToplevelInterfacePrivate.xdg_toplevel_destroy_resource (w : World) (q : ToplevelId) :
    World :=
  match w.toplevels q with
  | none => w
  | some d =>
    let w1 := SurfaceRole.detach w (SurfaceRole.toplevel q)
    let w2 := { w1 with toplevels := Function.update w1.toplevels q none }
    XdgSurfaceInterfacePrivate.clearToplevel w2 d.xdgSurface q

/-- `XdgToplevelInterfacePrivate::xdg_toplevel_destroy`; destroying the resource
runs `xdg_toplevel_destroy_resource`. -/
def XdgToplevelInterfacePrivate.xdg_toplevel_destroy (w : World) (q : ToplevelId) :
    World × List Event :=
  (XdgToplevelInterfacePrivate.xdg_toplevel_destroy_resource w q, [])

/-- `XdgToplevelInterfacePrivate::commit`, for the toplevel `q`, on the
toplevel's fields `d` and the fields `xs` of its xdg-surface. -/
def XdgToplevelInterfacePrivate.commit (q : ToplevelId) (d : XdgToplevelInterfacePrivate)
    (xs : XdgSurfaceInterfacePrivate) :
    XdgToplevelInterfacePrivate × XdgSurfaceInterfacePrivate × List Event :=
  if xs.isConfigured then
    let r0 := XdgSurfaceInterfacePrivate.commit d.xdgSurface xs
    let r1 : XdgToplevelInterfacePrivate × List Event :=
      if d.current.minimumSize ≠ d.next.minimumSize then
        let d1 := { d with current := { d.current with minimumSize := d.next.minimumSize } }
        (d1, [Event.signal (Signal.minimumSizeChanged q d1.current.minimumSize)])
      else (d, [])
    let r2 : XdgToplevelInterfacePrivate × List Event :=
      if r1.1.current.maximumSize ≠ r1.1.next.maximumSize then
        let d2 := { r1.1 with current := { r1.1.current with maximumSize := r1.1.next.maximumSize } }
        (d2, [Event.signal (Signal.maximumSizeChanged q d2.current.maximumSize)])
      else (r1.1, [])
    (r2.1, r0.1, r0.2 ++ r1.2 ++ r2.2)
  else
    (d, xs, [Event.signal (Signal.initializeRequested (SurfaceRole.toplevel q))])

/-- `XdgToplevelInterfacePrivate::xdg_toplevel_set_parent`. -/
def XdgToplevelInterfacePrivate.xdg_toplevel_set_parent (w : World) (q : ToplevelId)
    (d : XdgToplevelInterfacePrivate) (parentResource : Option ToplevelId) :
    XdgToplevelInterfacePrivate × List Event :=
  let parent := XdgToplevelInterface.get w parentResource
  if d.parentXdgToplevel = parent then
    (d, [])
  else
    ({ d with parentXdgToplevel := parent }, [Event.signal (Signal.parentXdgToplevelChanged q)])

/-- `XdgToplevelInterfacePrivate::xdg_toplevel_set_title`. -/
def XdgToplevelInterfacePrivate.xdg_toplevel_set_title (q : ToplevelId)
    (d : XdgToplevelInterfacePrivate) (title : String) :
    XdgToplevelInterfacePrivate × List Event :=
  if d.windowTitle = title then
    (d, [])
  else
    ({ d with windowTitle := title }, [Event.signal (Signal.windowTitleChanged q title)])

/-- `XdgToplevelInterfacePrivate::xdg_toplevel_set_app_id`. -/
def XdgToplevelInterfacePrivate.xdg_toplevel_set_app_id (q : ToplevelId)
    (d : XdgToplevelInterfacePrivate) (app_id : String) :
    XdgToplevelInterfacePrivate × List Event :=
  if d.windowClass = app_id then
    (d, [])
  else
    ({ d with windowClass := app_id }, [Event.signal (Signal.windowClassChanged q app_id)])

/-- `XdgToplevelInterfacePrivate::xdg_toplevel_show_window_menu`; `xs` are the
fields of the toplevel's xdg-surface. -/
def XdgToplevelInterfacePrivate.xdg_toplevel_show_window_menu (q : ToplevelId)
    (xs : XdgSurfaceInterfacePrivate) (seat : Option SeatId) (serial : Nat) (x y : Int) :
    List Event :=
  if !xs.isConfigured then
    [Event.error ProtocolError.XDG_SURFACE_ERROR_NOT_CONSTRUCTED]
  else
    [Event.signal (Signal.windowMenuRequested q seat ⟨x, y⟩ serial)]

/-- `XdgToplevelInterfacePrivate::xdg_toplevel_move`. -/
def XdgToplevelInterfacePrivate.xdg_toplevel_move (q : ToplevelId)
    (xs : XdgSurfaceInterfacePrivate) (seat : Option SeatId) (serial : Nat) : List Event :=
  if !xs.isConfigured then
    [Event.error ProtocolError.XDG_SURFACE_ERROR_NOT_CONSTRUCTED]
  else
    [Event.signal (Signal.moveRequested q seat serial)]

/-- `XdgToplevelInterfacePrivate::xdg_toplevel_resize`. -/
def XdgToplevelInterfacePrivate.xdg_toplevel_resize (q : ToplevelId)
    (xs : XdgSurfaceInterfacePrivate) (seat : Option SeatId) (serial : Nat) (xdgEdges : Nat) :
    List Event :=
  if !xs.isConfigured then
    [Event.error ProtocolError.XDG_SURFACE_ERROR_NOT_CONSTRUCTED]
  else
    let e0 : Edges := {}
    let e1 := if xdgEdges &&& XDG_TOPLEVEL_RESIZE_EDGE_TOP ≠ 0 then { e0 with top := true } else e0
    let e2 := if xdgEdges &&& XDG_TOPLEVEL_RESIZE_EDGE_RIGHT ≠ 0 then { e1 with right := true } else e1
    let e3 := if xdgEdges &&& XDG_TOPLEVEL_RESIZE_EDGE_BOTTOM ≠ 0 then { e2 with bottom := true } else e2
    let edges := if xdgEdges &&& XDG_TOPLEVEL_RESIZE_EDGE_LEFT ≠ 0 then { e3 with left := true } else e3
    [Event.signal (Signal.resizeRequested q seat edges serial)]

/-- `XdgToplevelInterfacePrivate::xdg_toplevel_set_max_size`. -/
def XdgToplevelInterfacePrivate.xdg_toplevel_set_max_size (d : XdgToplevelInterfacePrivate)
    (width height : Int) : XdgToplevelInterfacePrivate × List Event :=
  if width < 0 || height < 0 then
    (d, [Event.error ProtocolError.anonymous])
  else
    ({ d with next := { d.next with maximumSize := ⟨width, height⟩ } }, [])

/-- `XdgToplevelInterfacePrivate::xdg_toplevel_set_min_size`. -/
def XdgToplevelInterfacePrivate.xdg_toplevel_set_min_size (d : XdgToplevelInterfacePrivate)
    (width height : Int) : XdgToplevelInterfacePrivate × List Event :=
  if width < 0 || height < 0 then
    (d, [Event.error ProtocolError.anonymous])
  else
    ({ d with next := { d.next with minimumSize := ⟨width, height⟩ } }, [])

/-- `XdgToplevelInterfacePrivate::xdg_toplevel_set_maximized`. -/
def XdgToplevelInterfacePrivate.xdg_toplevel_set_maximized (q : ToplevelId) : List Event :=
  [Event.signal (Signal.maximizeRequested q)]

/-- `XdgToplevelInterfacePrivate::xdg_toplevel_unset_maximized`. -/
def XdgToplevelInterfacePrivate.xdg_toplevel_unset_maximized (q : ToplevelId) : List Event :=
  [Event.signal (Signal.unmaximizeRequested q)]

/-- `XdgToplevelInterfacePrivate::xdg_toplevel_set_fullscreen`. -/
def XdgToplevelInterfacePrivate.xdg_toplevel_set_fullscreen (q : ToplevelId)
    (output : Option OutputId) : List Event :=
  [Event.signal (Signal.fullscreenRequested q output)]

/-- `XdgToplevelInterfacePrivate::xdg_toplevel_unset_fullscreen`. -/
def XdgToplevelInterfacePrivate.xdg_toplevel_unset_fullscreen (q : ToplevelId) : List Event :=
  [Event.signal (Signal.unfullscreenRequested q)]

/-- `XdgToplevelInterfacePrivate::xdg_toplevel_set_minimized`. -/
def XdgToplevelInterfacePrivate.xdg_toplevel_set_minimized (q : ToplevelId) : List Event :=
  [Event.signal (Signal.minimizeRequested q)]

/-- `XdgToplevelInterface::windowTitle`. -/
def XdgToplevelInterface.windowTitle (d : XdgToplevelInterfacePrivate) : String :=
  d.windowTitle

/-- `XdgToplevelInterface::windowClass`. -/
def XdgToplevelInterface.windowClass (d : XdgToplevelInterfacePrivate) : String :=
  d.windowClass

/-- `XdgToplevelInterface::minimumSize`. -/
def XdgToplevelInterface.minimumSize (d : XdgToplevelInterfacePrivate) : QSize :=
  if d.current.minimumSize.isEmpty then ⟨0, 0⟩ else d.current.minimumSize

/-- `XdgToplevelInterface::maximumSize`. -/
def XdgToplevelInterface.maximumSize (d : XdgToplevelInterfacePrivate) : QSize :=
  if d.current.maximumSize.isEmpty then ⟨INT_MAX, INT_MAX⟩ else d.current.maximumSize

/-- The array `statesData` and the index `i` after the four tests of
`XdgToplevelInterface::sendConfigure`; a write past the end of the array is lost. -/
def XdgToplevelInterface.statesData (states : States) : List Nat × Nat :=
  let a0 : List Nat × Nat := ([0, 0, 0, 0], 0)
  let a1 := if states.MaximizedHorizontal && states.MaximizedVertical then
      (a0.1.set a0.2 XDG_TOPLEVEL_STATE_MAXIMIZED, a0.2 + 1) else a0
  let a2 := if states.FullScreen then
      (a1.1.set a1.2 XDG_TOPLEVEL_STATE_FULLSCREEN, a1.2 + 1) else a1
  let a3 := if states.Resizing then
      (a2.1.set a2.2 XDG_TOPLEVEL_STATE_RESIZING, a2.2 + 1) else a2
  if states.Activated then
    (a3.1.set a3.2 XDG_TOPLEVEL_STATE_ACTIVATED, a3.2 + 1) else a3

/-- The `xdgStates` byte array of `sendConfigure`, read as `uint32_t` entries:
the first `i` entries of `statesData`. -/
def XdgToplevelInterface.xdgStates (states : States) : List Nat :=
  (XdgToplevelInterface.statesData states).1.take (XdgToplevelInterface.statesData states).2

/-- `XdgToplevelInterface::sendConfigure`, for the toplevel `q`; the last
component is the returned serial. -/
def XdgToplevelInterface.sendConfigure (w : World) (q : ToplevelId) (size : QSize)
    (states : States) : World × List Event × Nat :=
  match w.toplevels q with
  | none => (w, [], 0)
  | some d =>
    match w.xdgSurfaceObjects d.xdgSurface with
    | none => (w, [], 0)
    | some xs =>
      let xdgStates := XdgToplevelInterface.xdgStates states
      let serial := w.nextSerial
      let w1 := { w with serial := serial }
      let w2 := { w1 with
        xdgSurfaceObjects :=
          Function.update w1.xdgSurfaceObjects d.xdgSurface (some { xs with isConfigured := true }) }
      (w2, [Event.send (WireEvent.xdg_toplevel_configure q size.wd size.ht xdgStates),
            Event.send (WireEvent.xdg_surface_configure d.xdgSurface serial)], serial)

/-- `XdgToplevelInterface::sendClose`. -/
def XdgToplevelInterface.sendClose (q : ToplevelId) : List Event :=
  [Event.send (WireEvent.xdg_toplevel_close q)]

/-! ## XdgPopupInterface -/

/-- Modelled from the spec: the role pointer `popup` of the xdg-surface `q`,
declared in a header that is not among the sources, when the popup `popup` is
deleted: "the XdgSurface holds a non-owning pointer that is cleared on role
destruction". -/
def XdgSurfaceInterfacePrivate.clearPopup (w : World) (q : XdgSurfaceId)
    (popup : PopupId) : World :=
  match w.xdgSurfaceObjects q with
  | none => w
  | some xs =>
    if xs.popup = some popup then
      { w with xdgSurfaceObjects :=
          Function.update w.xdgSurfaceObjects q (some { xs with popup := none }) }
    else w

/-- `XdgPopupInterfacePrivate::xdg_popup_destroy_resource`: `delete q`.  The
popup object goes away; its base class `SurfaceRole` releases the surface, and
the role pointer of its xdg-surface is cleared. -/
def XdgPopupInterfacePrivate.xdg_popup_destroy_resource (w : World) (q : PopupId) : World :=
  match w.popups q with
  | none => w
  | some d =>
    let w1 := SurfaceRole.detach w (SurfaceRole.popup q)
    let w2 := { w1 with popups := Function.update w1.popups q none }
    XdgSurfaceInterfacePrivate.clearPopup w2 d.xdgSurface q

/-- `XdgPopupInterfacePrivate::xdg_popup_destroy`, which does not check that the
popup is the topmost one; destroying the resource runs
`xdg_popup_destroy_resource`. -/
def XdgPopupInterfacePrivate.xdg_popup_destroy (w : World) (q : PopupId) :
    World × List Event :=
  (XdgPopupInterfacePrivate.xdg_popup_destroy_resource w q, [])

/-- `XdgPopupInterfacePrivate::commit`, for the popup `q`, on the fields `xs`
of its xdg-surface. -/
def XdgPopupInterfacePrivate.commit (q : PopupId) (d : XdgPopupInterfacePrivate)
    (xs : XdgSurfaceInterfacePrivate) : XdgSurfaceInterfacePrivate × List Event :=
  if xs.isConfigured then
    XdgSurfaceInterfacePrivate.commit d.xdgSurface xs
  else
    (xs, [Event.signal (Signal.initializeRequested (SurfaceRole.popup q))])

/-- `XdgPopupInterfacePrivate::xdg_popup_grab`. -/
def XdgPopupInterfacePrivate.xdg_popup_grab (q : PopupId) (seat : Option SeatId)
    (serial : Nat) : List Event :=
  [Event.signal (Signal.grabRequested q seat serial)]

/-- `XdgPopupInterface::parentXdgSurface`. -/
def XdgPopupInterface.parentXdgSurface (d : XdgPopupInterfacePrivate) : XdgSurfaceId :=
  d.parentXdgSurface

/-- `XdgPopupInterface::positioner`. -/
def XdgPopupInterface.positioner (d : XdgPopupInterfacePrivate) : XdgPositioner :=
  d.positioner

/-- `XdgPopupInterface::sendConfigure`, for the popup `q`; the last component
is the returned serial. -/
def XdgPopupInterface.sendConfigure (w : World) (q : PopupId) (rect : QRect) :
    World × List Event × Nat :=
  match w.popups q with
  | none => (w, [], 0)
  | some d =>
    match w.xdgSurfaceObjects d.xdgSurface with
    | none => (w, [], 0)
    | some xs =>
      let serial := w.nextSerial
      let w1 := { w with serial := serial }
      let w2 := { w1 with
        xdgSurfaceObjects :=
          Function.update w1.xdgSurfaceObjects d.xdgSurface (some { xs with isConfigured := true }) }
      (w2, [Event.send (WireEvent.xdg_popup_configure q rect.x1 rect.y1 rect.width rect.height),
            Event.send (WireEvent.xdg_surface_configure d.xdgSurface serial)], serial)

/-- `XdgPopupInterface::sendPopupDone`. -/
def XdgPopupInterface.sendPopupDone (q : PopupId) : List Event :=
  [Event.send (WireEvent.xdg_popup_popup_done q)]

/-! ## XdgPositionerPrivate (the `xdg_positioner` resource) -/

/-- Wire value `XDG_POSITIONER_ANCHOR_NONE`. -/
def XDG_POSITIONER_ANCHOR_NONE : Nat := 0
/-- Wire value `XDG_POSITIONER_ANCHOR_TOP`. -/
def XDG_POSITIONER_ANCHOR_TOP : Nat := 1
/-- Wire value `XDG_POSITIONER_ANCHOR_BOTTOM`. -/
def XDG_POSITIONER_ANCHOR_BOTTOM : Nat := 2
/-- Wire value `XDG_POSITIONER_ANCHOR_LEFT`. -/
def XDG_POSITIONER_ANCHOR_LEFT : Nat := 3
/-- Wire value `XDG_POSITIONER_ANCHOR_RIGHT`. -/
def XDG_POSITIONER_ANCHOR_RIGHT : Nat := 4
/-- Wire value `XDG_POSITIONER_ANCHOR_TOP_LEFT`. -/
def XDG_POSITIONER_ANCHOR_TOP_LEFT : Nat := 5
/-- Wire value `XDG_POSITIONER_ANCHOR_BOTTOM_LEFT`. -/
def XDG_POSITIONER_ANCHOR_BOTTOM_LEFT : Nat := 6
/-- Wire value `XDG_POSITIONER_ANCHOR_TOP_RIGHT`. -/
def XDG_POSITIONER_ANCHOR_TOP_RIGHT : Nat := 7
/-- Wire value `XDG_POSITIONER_ANCHOR_BOTTOM_RIGHT`. -/
def XDG_POSITIONER_ANCHOR_BOTTOM_RIGHT : Nat := 8

/-- Wire value `XDG_POSITIONER_GRAVITY_NONE`. -/
def XDG_POSITIONER_GRAVITY_NONE : Nat := 0
/-- Wire value `XDG_POSITIONER_GRAVITY_TOP`. -/
def XDG_POSITIONER_GRAVITY_TOP : Nat := 1
/-- Wire value `XDG_POSITIONER_GRAVITY_BOTTOM`. -/
def XDG_POSITIONER_GRAVITY_BOTTOM : Nat := 2
/-- Wire value `XDG_POSITIONER_GRAVITY_LEFT`. -/
def XDG_POSITIONER_GRAVITY_LEFT : Nat := 3
/-- Wire value `XDG_POSITIONER_GRAVITY_RIGHT`. -/
def XDG_POSITIONER_GRAVITY_RIGHT : Nat := 4
/-- Wire value `XDG_POSITIONER_GRAVITY_TOP_LEFT`. -/
def XDG_POSITIONER_GRAVITY_TOP_LEFT : Nat := 5
/-- Wire value `XDG_POSITIONER_GRAVITY_BOTTOM_LEFT`. -/
def XDG_POSITIONER_GRAVITY_BOTTOM_LEFT : Nat := 6
/-- Wire value `XDG_POSITIONER_GRAVITY_TOP_RIGHT`. -/
def XDG_POSITIONER_GRAVITY_TOP_RIGHT : Nat := 7
/-- Wire value `XDG_POSITIONER_GRAVITY_BOTTOM_RIGHT`. -/
def XDG_POSITIONER_GRAVITY_BOTTOM_RIGHT : Nat := 8

/-- Wire value `XDG_POSITIONER_CONSTRAINT_ADJUSTMENT_SLIDE_X`. -/
def XDG_POSITIONER_CONSTRAINT_ADJUSTMENT_SLIDE_X : Nat := 1
/-- Wire value `XDG_POSITIONER_CONSTRAINT_ADJUSTMENT_SLIDE_Y`. -/
def XDG_POSITIONER_CONSTRAINT_ADJUSTMENT_SLIDE_Y : Nat := 2
/-- Wire value `XDG_POSITIONER_CONSTRAINT_ADJUSTMENT_FLIP_X`. -/
def XDG_POSITIONER_CONSTRAINT_ADJUSTMENT_FLIP_X : Nat := 4
/-- Wire value `XDG_POSITIONER_CONSTRAINT_ADJUSTMENT_FLIP_Y`. -/
def XDG_POSITIONER_CONSTRAINT_ADJUSTMENT_FLIP_Y : Nat := 8
/-- Wire value `XDG_POSITIONER_CONSTRAINT_ADJUSTMENT_RESIZE_X`. -/
def XDG_POSITIONER_CONSTRAINT_ADJUSTMENT_RESIZE_X : Nat := 16
/-- Wire value `XDG_POSITIONER_CONSTRAINT_ADJUSTMENT_RESIZE_Y`. -/
def XDG_POSITIONER_CONSTRAINT_ADJUSTMENT_RESIZE_Y : Nat := 32

/-- `XdgPositionerPrivate::xdg_positioner_set_size`. -/
def XdgPositionerPrivate.xdg_positioner_set_size (data : XdgPositionerData)
    (width height : Int) : XdgPositionerData × List Event :=
  if width < 1 || height < 1 then
    (data, [Event.error ProtocolError.XDG_POSITIONER_ERROR_INVALID_INPUT])
  else
    ({ data with size := ⟨width, height⟩ }, [])

/-- `XdgPositionerPrivate::xdg_positioner_set_anchor_rect`. -/
def XdgPositionerPrivate.xdg_positioner_set_anchor_rect (data : XdgPositionerData)
    (x y width height : Int) : XdgPositionerData × List Event :=
  if width < 1 || height < 1 then
    (data, [Event.error ProtocolError.XDG_POSITIONER_ERROR_INVALID_INPUT])
  else
    ({ data with anchorRect := QRect.fromXYWH x y width height }, [])

/-- `XdgPositionerPrivate::xdg_positioner_set_anchor`. -/
def XdgPositionerPrivate.xdg_positioner_set_anchor (data : XdgPositionerData) (anchor : Nat) :
    XdgPositionerData × List Event :=
  if anchor > XDG_POSITIONER_ANCHOR_BOTTOM_RIGHT then
    (data, [Event.error ProtocolError.XDG_POSITIONER_ERROR_INVALID_INPUT])
  else if anchor = XDG_POSITIONER_ANCHOR_TOP then
    ({ data with anchorEdges := { top := true } }, [])
  else if anchor = XDG_POSITIONER_ANCHOR_TOP_RIGHT then
    ({ data with anchorEdges := { top := true, right := true } }, [])
  else if anchor = XDG_POSITIONER_ANCHOR_RIGHT then
    ({ data with anchorEdges := { right := true } }, [])
  else if anchor = XDG_POSITIONER_ANCHOR_BOTTOM_RIGHT then
    ({ data with anchorEdges := { bottom := true, right := true } }, [])
  else if anchor = XDG_POSITIONER_ANCHOR_BOTTOM then
    ({ data with anchorEdges := { bottom := true } }, [])
  else if anchor = XDG_POSITIONER_ANCHOR_BOTTOM_LEFT then
    ({ data with anchorEdges := { bottom := true, left := true } }, [])
  else if anchor = XDG_POSITIONER_ANCHOR_LEFT then
    ({ data with anchorEdges := { left := true } }, [])
  else if anchor = XDG_POSITIONER_ANCHOR_TOP_LEFT then
    ({ data with anchorEdges := { top := true, left := true } }, [])
  else
    ({ data with anchorEdges := {} }, [])

/-- `XdgPositionerPrivate::xdg_positioner_set_gravity`; the second case label
is the anchor constant, as in the source. -/
def XdgPositionerPrivate.xdg_positioner_set_gravity (data : XdgPositionerData) (gravity : Nat) :
    XdgPositionerData × List Event :=
  if gravity > XDG_POSITIONER_GRAVITY_BOTTOM_RIGHT then
    (data, [Event.error ProtocolError.XDG_POSITIONER_ERROR_INVALID_INPUT])
  else if gravity = XDG_POSITIONER_GRAVITY_TOP then
    ({ data with gravityEdges := { top := true } }, [])
  else if gravity = XDG_POSITIONER_ANCHOR_TOP_RIGHT then
    ({ data with gravityEdges := { top := true, right := true } }, [])
  else if gravity = XDG_POSITIONER_GRAVITY_RIGHT then
    ({ data with gravityEdges := { right := true } }, [])
  else if gravity = XDG_POSITIONER_GRAVITY_BOTTOM_RIGHT then
    ({ data with gravityEdges := { bottom := true, right := true } }, [])
  else if gravity = XDG_POSITIONER_GRAVITY_BOTTOM then
    ({ data with gravityEdges := { bottom := true } }, [])
  else if gravity = XDG_POSITIONER_GRAVITY_BOTTOM_LEFT then
    ({ data with gravityEdges := { bottom := true, left := true } }, [])
  else if gravity = XDG_POSITIONER_GRAVITY_LEFT then
    ({ data with gravityEdges := { left := true } }, [])
  else if gravity = XDG_POSITIONER_GRAVITY_TOP_LEFT then
    ({ data with gravityEdges := { top := true, left := true } }, [])
  else
    ({ data with gravityEdges := {} }, [])

/-- `XdgPositionerPrivate::xdg_positioner_set_constraint_adjustment`. -/
def XdgPositionerPrivate.xdg_positioner_set_constraint_adjustment (data : XdgPositionerData)
    (constraint_adjustment : Nat) : XdgPositionerData × List Event :=
  let flip0 := data.flipConstraintAdjustments
  let flip1 : Orientations :=
    if constraint_adjustment &&& XDG_POSITIONER_CONSTRAINT_ADJUSTMENT_FLIP_X ≠ 0 then
      { flip0 with horizontal := true } else { flip0 with horizontal := false }
  let flip2 : Orientations :=
    if constraint_adjustment &&& XDG_POSITIONER_CONSTRAINT_ADJUSTMENT_FLIP_Y ≠ 0 then
      { flip1 with vertical := true } else { flip1 with vertical := false }
  let slide0 := data.slideConstraintAdjustments
  let slide1 : Orientations :=
    if constraint_adjustment &&& XDG_POSITIONER_CONSTRAINT_ADJUSTMENT_SLIDE_X ≠ 0 then
      { slide0 with horizontal := true } else { slide0 with horizontal := false }
  let slide2 : Orientations :=
    if constraint_adjustment &&& XDG_POSITIONER_CONSTRAINT_ADJUSTMENT_SLIDE_Y ≠ 0 then
      { slide1 with vertical := true } else { slide1 with vertical := false }
  let resize0 := data.resizeConstraintAdjustments
  let resize1 : Orientations :=
    if constraint_adjustment &&& XDG_POSITIONER_CONSTRAINT_ADJUSTMENT_RESIZE_X ≠ 0 then
      { resize0 with horizontal := true } else { resize0 with horizontal := false }
  let resize2 : Orientations :=
    if constraint_adjustment &&& XDG_POSITIONER_CONSTRAINT_ADJUSTMENT_RESIZE_Y ≠ 0 then
      { resize1 with vertical := true } else { resize1 with vertical := false }
  ({ data with
      flipConstraintAdjustments := flip2
      slideConstraintAdjustments := slide2
      resizeConstraintAdjustments := resize2 }, [])

/-- `XdgPositionerPrivate::xdg_positioner_set_offset`. -/
def XdgPositionerPrivate.xdg_positioner_set_offset (data : XdgPositionerData) (x y : Int) :
    XdgPositionerData × List Event :=
  ({ data with offset := ⟨x, y⟩ }, [])

/-- `XdgPositionerPrivate::xdg_positioner_destroy`: the resource and its
payload handle go away. -/
def XdgPositionerPrivate.xdg_positioner_destroy (w : World) (resource : PositionerId) :
    World × List Event :=
  ({ w with positioners := Function.update w.positioners resource none }, [])

/-! ## Dispatch: requests, server calls and timer ticks on the whole state -/

/-- Runs a handler that only touches the toplevel `q` itself. -/
def World.onToplevel (w : World) (q : ToplevelId)
    (f : XdgToplevelInterfacePrivate → XdgToplevelInterfacePrivate × List Event) :
    World × List Event :=
  match w.toplevels q with
  | none => (w, [])
  | some d =>
    ({ w with toplevels := Function.update w.toplevels q (some (f d).1) }, (f d).2)

/-- Runs a handler of the toplevel `q` that reads the fields of the toplevel's
xdg-surface and changes no state. -/
def World.readToplevel (w : World) (q : ToplevelId)
    (f : XdgSurfaceInterfacePrivate → List Event) : World × List Event :=
  match w.toplevels q with
  | none => (w, [])
  | some d =>
    match w.xdgSurfaceObjects d.xdgSurface with
    | none => (w, [])
    | some xs => (w, f xs)

/-- Runs a handler that only touches the payload of the positioner `resource`. -/
def World.onPositioner (w : World) (resource : PositionerId)
    (f : XdgPositionerData → XdgPositionerData × List Event) : World × List Event :=
  match w.positioners resource with
  | none => (w, [])
  | some data =>
    ({ w with positioners := Function.update w.positioners resource (some (f data).1) },
      (f data).2)

/-- The virtual call `role->commit()` made by the surface subsystem when the
surface commits. -/
def SurfaceRole.commit (w : World) (role : SurfaceRole) : World × List Event :=
  match role with
  | SurfaceRole.toplevel t =>
    match w.toplevels t with
    | none => (w, [])
    | some d =>
      match w.xdgSurfaceObjects d.xdgSurface with
      | none => (w, [])
      | some xs =>
        let r := XdgToplevelInterfacePrivate.commit t d xs
        ({ w with
            toplevels := Function.update w.toplevels t (some r.1)
            xdgSurfaceObjects := Function.update w.xdgSurfaceObjects d.xdgSurface (some r.2.1) },
          r.2.2)
  | SurfaceRole.popup p =>
    match w.popups p with
    | none => (w, [])
    | some d =>
      match w.xdgSurfaceObjects d.xdgSurface with
      | none => (w, [])
      | some xs =>
        let r := XdgPopupInterfacePrivate.commit p d xs
        ({ w with
            xdgSurfaceObjects := Function.update w.xdgSurfaceObjects d.xdgSurface (some r.1) },
          r.2)

/-- A commit of the surface `surface`: the role's commit handler runs, if the
surface has a role. -/
def SurfaceInterface.commit (w : World) (surface : SurfaceId) : World × List Event :=
  match SurfaceRole.get w surface with
  | none => (w, [])
  | some role => SurfaceRole.commit w role

/-- Everything that can happen to the shell: client requests (named after the
wire request), calls made by the compositor, timer ticks, and the two things
the surface subsystem does (a surface gains or loses its buffer; a surface
commits). -/
inductive Op where
  | surface_set_buffer (surface : SurfaceId) (buffer : Bool)
  | surface_commit (surface : SurfaceId)
  | xdg_wm_base_bind (client : ClientId)
  | xdg_wm_base_destroy (client : ClientId)
  | xdg_wm_base_create_positioner (client : ClientId)
  | xdg_wm_base_get_xdg_surface (client : ClientId) (surface : SurfaceId)
  | xdg_wm_base_pong (serial : Nat)
  | ping (surface : XdgSurfaceId)
  | pingTimerTimeout (timer : TimerId)
  | xdg_surface_destroy (q : XdgSurfaceId)
  | xdg_surface_get_toplevel (q : XdgSurfaceId)
  | xdg_surface_get_popup (q : XdgSurfaceId) (parent : Option XdgSurfaceId)
      (positioner : PositionerId)
  | xdg_surface_set_window_geometry (q : XdgSurfaceId) (x y width height : Int)
  | xdg_surface_ack_configure (q : XdgSurfaceId) (serial : Nat)
  | xdg_toplevel_set_parent (q : ToplevelId) (parent : Option ToplevelId)
  | xdg_toplevel_set_title (q : ToplevelId) (title : String)
  | xdg_toplevel_set_app_id (q : ToplevelId) (app_id : String)
  | xdg_toplevel_show_window_menu (q : ToplevelId) (seat : Option SeatId) (serial : Nat)
      (x y : Int)
  | xdg_toplevel_move (q : ToplevelId) (seat : Option SeatId) (serial : Nat)
  | xdg_toplevel_resize (q : ToplevelId) (seat : Option SeatId) (serial : Nat) (edges : Nat)
  | xdg_toplevel_set_max_size (q : ToplevelId) (width height : Int)
  | xdg_toplevel_set_min_size (q : ToplevelId) (width height : Int)
  | xdg_toplevel_set_maximized (q : ToplevelId)
  | xdg_toplevel_unset_maximized (q : ToplevelId)
  | xdg_toplevel_set_fullscreen (q : ToplevelId) (output : Option OutputId)
  | xdg_toplevel_unset_fullscreen (q : ToplevelId)
  | xdg_toplevel_set_minimized (q : ToplevelId)
  | toplevelSendConfigure (q : ToplevelId) (size : QSize) (states : States)
  | toplevelSendClose (q : ToplevelId)
  | xdg_toplevel_destroy (q : ToplevelId)
  | xdg_popup_destroy (q : PopupId)
  | xdg_popup_grab (q : PopupId) (seat : Option SeatId) (serial : Nat)
  | popupSendConfigure (q : PopupId) (rect : QRect)
  | popupSendPopupDone (q : PopupId)
  | xdg_positioner_destroy (resource : PositionerId)
  | xdg_positioner_set_size (resource : PositionerId) (width height : Int)
  | xdg_positioner_set_anchor_rect (resource : PositionerId) (x y width height : Int)
  | xdg_positioner_set_anchor (resource : PositionerId) (anchor : Nat)
  | xdg_positioner_set_gravity (resource : PositionerId) (gravity : Nat)
  | xdg_positioner_set_constraint_adjustment (resource : PositionerId) (mask : Nat)
  | xdg_positioner_set_offset (resource : PositionerId) (x y : Int)
deriving DecidableEq, Repr

/-- One step of the shell: the state after `op` and what the handler did. -/
def step (w : World) : Op → World × List Event
  | Op.surface_set_buffer surface buffer =>
    ({ w with surfaces :=
        Function.update w.surfaces surface { w.surfaces surface with buffer := buffer } }, [])
  | Op.surface_commit surface => SurfaceInterface.commit w surface
  | Op.xdg_wm_base_bind client => XdgShellInterfacePrivate.bind w client
  | Op.xdg_wm_base_destroy client => XdgShellInterfacePrivate.xdg_wm_base_destroy w client
  | Op.xdg_wm_base_create_positioner client =>
    XdgShellInterfacePrivate.xdg_wm_base_create_positioner w client
  | Op.xdg_wm_base_get_xdg_surface client surface =>
    XdgShellInterfacePrivate.xdg_wm_base_get_xdg_surface w client surface
  | Op.xdg_wm_base_pong serial => XdgShellInterfacePrivate.xdg_wm_base_pong w serial
  | Op.ping surface => ((XdgShellInterface.ping w surface).1, (XdgShellInterface.ping w surface).2.1)
  | Op.pingTimerTimeout timer => XdgShellInterfacePrivate.pingTimerTimeout w timer
  | Op.xdg_surface_destroy q => XdgSurfaceInterfacePrivate.xdg_surface_destroy w q
  | Op.xdg_surface_get_toplevel q => XdgSurfaceInterfacePrivate.xdg_surface_get_toplevel w q
  | Op.xdg_surface_get_popup q parent positioner =>
    XdgSurfaceInterfacePrivate.xdg_surface_get_popup w q parent positioner
  | Op.xdg_surface_set_window_geometry q x y width height =>
    w.onXdgSurface q
      (fun d => XdgSurfaceInterfacePrivate.xdg_surface_set_window_geometry d x y width height)
  | Op.xdg_surface_ack_configure q serial =>
    w.onXdgSurface q (fun d => (d, XdgSurfaceInterfacePrivate.xdg_surface_ack_configure q serial))
  | Op.xdg_toplevel_set_parent q parent =>
    w.onToplevel q (fun d => XdgToplevelInterfacePrivate.xdg_toplevel_set_parent w q d parent)
  | Op.xdg_toplevel_set_title q title =>
    w.onToplevel q (fun d => XdgToplevelInterfacePrivate.xdg_toplevel_set_title q d title)
  | Op.xdg_toplevel_set_app_id q app_id =>
    w.onToplevel q (fun d => XdgToplevelInterfacePrivate.xdg_toplevel_set_app_id q d app_id)
  | Op.xdg_toplevel_show_window_menu q seat serial x y =>
    w.readToplevel q
      (fun xs => XdgToplevelInterfacePrivate.xdg_toplevel_show_window_menu q xs seat serial x y)
  | Op.xdg_toplevel_move q seat serial =>
    w.readToplevel q (fun xs => XdgToplevelInterfacePrivate.xdg_toplevel_move q xs seat serial)
  | Op.xdg_toplevel_resize q seat serial edges =>
    w.readToplevel q
      (fun xs => XdgToplevelInterfacePrivate.xdg_toplevel_resize q xs seat serial edges)
  | Op.xdg_toplevel_set_max_size q width height =>
    w.onToplevel q (fun d => XdgToplevelInterfacePrivate.xdg_toplevel_set_max_size d width height)
  | Op.xdg_toplevel_set_min_size q width height =>
    w.onToplevel q (fun d => XdgToplevelInterfacePrivate.xdg_toplevel_set_min_size d width height)
  | Op.xdg_toplevel_set_maximized q =>
    w.onToplevel q (fun d => (d, XdgToplevelInterfacePrivate.xdg_toplevel_set_maximized q))
  | Op.xdg_toplevel_unset_maximized q =>
    w.onToplevel q (fun d => (d, XdgToplevelInterfacePrivate.xdg_toplevel_unset_maximized q))
  | Op.xdg_toplevel_set_fullscreen q output =>
    w.onToplevel q (fun d => (d, XdgToplevelInterfacePrivate.xdg_toplevel_set_fullscreen q output))
  | Op.xdg_toplevel_unset_fullscreen q =>
    w.onToplevel q (fun d => (d, XdgToplevelInterfacePrivate.xdg_toplevel_unset_fullscreen q))
  | Op.xdg_toplevel_set_minimized q =>
    w.onToplevel q (fun d => (d, XdgToplevelInterfacePrivate.xdg_toplevel_set_minimized q))
  | Op.toplevelSendConfigure q size states =>
    ((XdgToplevelInterface.sendConfigure w q size states).1,
      (XdgToplevelInterface.sendConfigure w q size states).2.1)
  | Op.toplevelSendClose q => w.onToplevel q (fun d => (d, XdgToplevelInterface.sendClose q))
  | Op.xdg_toplevel_destroy q => XdgToplevelInterfacePrivate.xdg_toplevel_destroy w q
  | Op.xdg_popup_destroy q => XdgPopupInterfacePrivate.xdg_popup_destroy w q
  | Op.xdg_popup_grab q seat serial =>
    match w.popups q with
    | none => (w, [])
    | some _ => (w, XdgPopupInterfacePrivate.xdg_popup_grab q seat serial)
  | Op.popupSendConfigure q rect =>
    ((XdgPopupInterface.sendConfigure w q rect).1, (XdgPopupInterface.sendConfigure w q rect).2.1)
  | Op.popupSendPopupDone q =>
    match w.popups q with
    | none => (w, [])
    | some _ => (w, XdgPopupInterface.sendPopupDone q)
  | Op.xdg_positioner_destroy resource => XdgPositionerPrivate.xdg_positioner_destroy w resource
  | Op.xdg_positioner_set_size resource width height =>
    w.onPositioner resource
      (fun data => XdgPositionerPrivate.xdg_positioner_set_size data width height)
  | Op.xdg_positioner_set_anchor_rect resource x y width height =>
    w.onPositioner resource
      (fun data => XdgPositionerPrivate.xdg_positioner_set_anchor_rect data x y width height)
  | Op.xdg_positioner_set_anchor resource anchor =>
    w.onPositioner resource
      (fun data => XdgPositionerPrivate.xdg_positioner_set_anchor data anchor)
  | Op.xdg_positioner_set_gravity resource gravity =>
    w.onPositioner resource
      (fun data => XdgPositionerPrivate.xdg_positioner_set_gravity data gravity)
  | Op.xdg_positioner_set_constraint_adjustment resource mask =>
    w.onPositioner resource
      (fun data => XdgPositionerPrivate.xdg_positioner_set_constraint_adjustment data mask)
  | Op.xdg_positioner_set_offset resource x y =>
    w.onPositioner resource (fun data => XdgPositionerPrivate.xdg_positioner_set_offset data x y)

/-- The state after a sequence of steps. -/
def run (w : World) : List Op → World
  | [] => w
  | op :: ops => run (step w op).1 ops

/-- Everything the handlers did during a sequence of steps, in order. -/
def runEvents (w : World) : List Op → List Event
  | [] => []
  | op :: ops => (step w op).2 ++ runEvents (step w op).1 ops

/-! ## Vocabulary of the statements -/

/-- Whether the step `op`, taken in the state `w`, is a `sendConfigure` of the
role object of the xdg-surface `q`. -/
def configures (w : World) (q : XdgSurfaceId) : Op → Bool
  | Op.toplevelSendConfigure t _ _ =>
    match w.toplevels t with
    | some d => decide (d.xdgSurface = q)
    | none => false
  | Op.popupSendConfigure p _ =>
    match w.popups p with
    | some d => decide (d.xdgSurface = q)
    | none => false
  | _ => false

/-- No step of the sequence `ops`, run from `w`, is a `sendConfigure` of the
role object of the xdg-surface `q`. -/
def neverConfigured (q : XdgSurfaceId) : World → List Op → Bool
  | _, [] => true
  | w, op :: ops => !configures w q op && neverConfigured q (step w op).1 ops

/-- The xdg-surface a role object points to (its field `xdgSurface`). -/
def SurfaceRole.xdgSurface (w : World) : SurfaceRole → Option XdgSurfaceId
  | SurfaceRole.toplevel t => (w.toplevels t).map (fun d => d.xdgSurface)
  | SurfaceRole.popup p => (w.popups p).map (fun d => d.xdgSurface)

/-- Scenario S1 up to the second commit: client 1 binds the shell, creates an
xdg-surface (object 0) for surface 5 and a toplevel (object 1) on it, sets the
title and commits; the compositor sends the first configure; the client
acknowledges serial 1 and sets the window geometry (0, 0, 800, 600). -/
def scenarioS1 : List Op :=
  [Op.xdg_wm_base_bind 1,
   Op.xdg_wm_base_get_xdg_surface 1 5,
   Op.xdg_surface_get_toplevel 0,
   Op.xdg_toplevel_set_title 1 "Hello",
   Op.surface_commit 5,
   Op.toplevelSendConfigure 1 ⟨800, 600⟩ { Activated := true },
   Op.xdg_surface_ack_configure 0 1,
   Op.xdg_surface_set_window_geometry 0 0 0 800 600]

/-- Object identities at or above `fresh` are unused: no live object, no
registry entry and no ping record names one. -/
def World.Fresh (w : World) : Prop :=
  (∀ i, w.fresh ≤ i →
      w.xdgSurfaceObjects i = none ∧ w.toplevels i = none ∧ w.popups i = none
        ∧ w.positioners i = none ∧ w.timers i = none)
  ∧ (∀ e, e ∈ w.xdgSurfaces → e.2 < w.fresh)
  ∧ (∀ s t, w.pings s = some t → t < w.fresh)

/-- The signal the shell emits when the role object is constructed. -/
def SurfaceRole.created : SurfaceRole → Signal
  | SurfaceRole.toplevel t => Signal.toplevelCreated t
  | SurfaceRole.popup p => Signal.popupCreated p

/-- The request that destroys the role object. -/
def SurfaceRole.destroy : SurfaceRole → Op
  | SurfaceRole.toplevel t => Op.xdg_toplevel_destroy t
  | SurfaceRole.popup p => Op.xdg_popup_destroy p

/-- The role pointers agree with the surfaces and the role objects: the role
object a live xdg-surface points to is live, points back to the xdg-surface,
and is the role attached to the xdg-surface's surface. -/
def World.RolesLinked (w : World) : Prop :=
  ∀ q xs, w.xdgSurfaceObjects q = some xs →
    (∀ t, xs.toplevel = some t →
      SurfaceRole.get w xs.surface = some (SurfaceRole.toplevel t)
        ∧ ∃ d, w.toplevels t = some d ∧ d.xdgSurface = q)
    ∧ (∀ p, xs.popup = some p →
      SurfaceRole.get w xs.surface = some (SurfaceRole.popup p)
        ∧ ∃ d, w.popups p = some d ∧ d.xdgSurface = q)

/-- A toplevel is created, destroyed and requested again: client 1 binds the
shell, creates an xdg-surface (object 0) for surface 5 and a toplevel (object
1) on it, and destroys the toplevel. -/
def scenarioRecreate : List Op :=
  [Op.xdg_wm_base_bind 1,
   Op.xdg_wm_base_get_xdg_surface 1 5,
   Op.xdg_surface_get_toplevel 0,
   Op.xdg_toplevel_destroy 1]

/-- The requests a client can make on an `xdg_positioner` resource (other than
destroying it). -/
inductive PositionerRequest where
  | set_size (width height : Int)
  | set_anchor_rect (x y width height : Int)
  | set_anchor (anchor : Nat)
  | set_gravity (gravity : Nat)
  | set_constraint_adjustment (mask : Nat)
  | set_offset (x y : Int)
deriving DecidableEq, Repr

/-- The arguments of the request fit the wire types `int32_t` and `uint32_t`. -/
def PositionerRequest.inRange : PositionerRequest → Bool
  | PositionerRequest.set_size width height => decide (isInt32 width) && decide (isInt32 height)
  | PositionerRequest.set_anchor_rect x y width height =>
    decide (isInt32 x) && decide (isInt32 y) && decide (isInt32 width) && decide (isInt32 height)
  | PositionerRequest.set_anchor anchor => decide (isUInt32 anchor)
  | PositionerRequest.set_gravity gravity => decide (isUInt32 gravity)
  | PositionerRequest.set_constraint_adjustment mask => decide (isUInt32 mask)
  | PositionerRequest.set_offset x y => decide (isInt32 x) && decide (isInt32 y)

/-- The handler of `XdgPositionerPrivate` that a request is dispatched to. -/
def XdgPositionerPrivate.request (data : XdgPositionerData) :
    PositionerRequest → XdgPositionerData × List Event
  | PositionerRequest.set_size width height =>
    XdgPositionerPrivate.xdg_positioner_set_size data width height
  | PositionerRequest.set_anchor_rect x y width height =>
    XdgPositionerPrivate.xdg_positioner_set_anchor_rect data x y width height
  | PositionerRequest.set_anchor anchor =>
    XdgPositionerPrivate.xdg_positioner_set_anchor data anchor
  | PositionerRequest.set_gravity gravity =>
    XdgPositionerPrivate.xdg_positioner_set_gravity data gravity
  | PositionerRequest.set_constraint_adjustment mask =>
    XdgPositionerPrivate.xdg_positioner_set_constraint_adjustment data mask
  | PositionerRequest.set_offset x y =>
    XdgPositionerPrivate.xdg_positioner_set_offset data x y

/-- The payload of a positioner after a sequence of requests, first to last. -/
def XdgPositionerPrivate.requests (data : XdgPositionerData) :
    List PositionerRequest → XdgPositionerData
  | [] => data
  | r :: rs => XdgPositionerPrivate.requests (XdgPositionerPrivate.request data r).1 rs

/-- The arguments of the last `set_anchor_rect` of the sequence that has
`width ≥ 1` and `height ≥ 1`, if there is one. -/
def lastAnchorRect : List PositionerRequest → Option (Int × Int × Int × Int)
  | [] => none
  | r :: rs =>
    match lastAnchorRect rs with
    | some v => some v
    | none =>
      match r with
      | PositionerRequest.set_anchor_rect x y width height =>
        if 1 ≤ width ∧ 1 ≤ height then some (x, y, width, height) else none
      | _ => none

/-- The rectangle an accepted `set_anchor_rect` constructs has its right and
bottom edges within `int`: `left + width - 1` and `top + height - 1`, which the
`QRect` constructor computes in `int`, are at most `INT_MAX`.  A rejected
request constructs no rectangle. -/
def PositionerRequest.rectInRange : PositionerRequest → Bool
  | PositionerRequest.set_anchor_rect x y width height =>
    decide (1 ≤ width ∧ 1 ≤ height → x + width - 1 ≤ INT_MAX ∧ y + height - 1 ≤ INT_MAX)
  | _ => true

/-- Scenario S3: the positioner requests made before `get_popup`. -/
def scenarioS3 : List PositionerRequest :=
  [PositionerRequest.set_size 100 50,
   PositionerRequest.set_anchor_rect 10 10 1 1,
   PositionerRequest.set_anchor XDG_POSITIONER_ANCHOR_TOP_RIGHT,
   PositionerRequest.set_gravity XDG_POSITIONER_GRAVITY_BOTTOM_RIGHT]

/-- The ping signals about the serial `s` among a list of events, in order. -/
def pingSignalsOf (s : Nat) (es : List Event) : List Signal :=
  (signalsOf es).filter (fun sig =>
    decide (sig = Signal.pingDelayed s) || decide (sig = Signal.pingTimeout s)
      || decide (sig = Signal.pongReceived s))

/-- The display does not hand out the serial `s` during the sequence `ops` run
from `w`: before every step the next serial differs from `s`. -/
def serialNotDrawn (s : Nat) : World → List Op → Bool
  | _, [] => true
  | w, op :: ops => decide (w.nextSerial ≠ s) && serialNotDrawn s (step w op).1 ops

/-- The state of the ping with serial `s` and timer `t` after `k` ticks of `t`
(`k` counts up to 2): the record is there with the attempt counter at `k`
while `k < 2` and gone from then on; no other live timer carries `s`, no other
serial is mapped to `t`, and `t` is an identity already handed out. -/
def PingPhase (s : Nat) (t : TimerId) (k : Nat) (w : World) : Prop :=
  w.pings s = (if k < 2 then some t else none)
  ∧ w.timers t = (if k < 2 then some { serial := s, attempt := k } else none)
  ∧ (∀ t' tm, w.timers t' = some tm → t' ≠ t → tm.serial ≠ s)
  ∧ (∀ s', w.pings s' = some t → s' = s)
  ∧ t < w.fresh

/-- What the tick number `k + 1` of the timer of the ping `s` emits. -/
def pingTickEvents (s : Nat) (k : Nat) : List Event :=
  if k = 0 then [Event.signal (Signal.pingDelayed s)]
  else if k = 1 then [Event.signal (Signal.pingTimeout s)]
  else []


/-- Scenario S4 before the ping: the display has handed out serial 6, client 1
has bound the shell and created the xdg-surface 0 for surface 5. -/
def scenarioS4 : World :=
  run { World.init with serial := 6 } [Op.xdg_wm_base_bind 1, Op.xdg_wm_base_get_xdg_surface 1 5]

/-- Scenario S4 after the ping (serial 7, timer 1): the timer ticks, a second
ping (serial 8, timer 2) is made and answered, and the first timer ticks twice more. -/
def scenarioS4Ops : List Op :=
  [Op.xdg_toplevel_set_title 3 "x",
   Op.pingTimerTimeout 1,
   Op.ping 0,
   Op.xdg_wm_base_pong 8,
   Op.pingTimerTimeout 1,
   Op.pingTimerTimeout 1]

/-- Two `get_xdg_surface` requests of client 1 naming the same surface 5. -/
def scenarioTwice : List Op :=
  [Op.xdg_wm_base_get_xdg_surface 1 5, Op.xdg_wm_base_get_xdg_surface 1 5]

/-- Client 1 creates an xdg-surface (object 0) for surface 5 and a positioner
(object 1) on which only `set_size(100, 50)` is made. -/
def scenarioIncomplete : List Op :=
  [Op.xdg_wm_base_get_xdg_surface 1 5,
   Op.xdg_wm_base_create_positioner 1,
   Op.xdg_positioner_set_size 1 100 50]

/-- The `windowGeometryChanged` signals among a list of events, in order. -/
def windowGeometrySignals (es : List Event) : List Signal :=
  (signalsOf es).filter (fun s => match s with
    | Signal.windowGeometryChanged _ _ => true
    | _ => false)

/-- The anchor and gravity decode table, by wire value: none = 0, top = 1,
bottom = 2, left = 3, right = 4, top_left = 5, bottom_left = 6, top_right = 7,
bottom_right = 8. -/
def edgeTable : Nat → Edges
  | 1 => { top := true }
  | 2 => { bottom := true }
  | 3 => { left := true }
  | 4 => { right := true }
  | 5 => { top := true, left := true }
  | 6 => { bottom := true, left := true }
  | 7 => { top := true, right := true }
  | 8 => { bottom := true, right := true }
  | _ => {}

/-- The sub-list of `[maximized, fullscreen, resizing, activated]` that a state
set selects: maximized needs both maximized states. -/
def selectedStates (states : States) : List Nat :=
  (if states.MaximizedHorizontal && states.MaximizedVertical then
      [XDG_TOPLEVEL_STATE_MAXIMIZED] else [])
  ++ (if states.FullScreen then [XDG_TOPLEVEL_STATE_FULLSCREEN] else [])
  ++ (if states.Resizing then [XDG_TOPLEVEL_STATE_RESIZING] else [])
  ++ (if states.Activated then [XDG_TOPLEVEL_STATE_ACTIVATED] else [])

/-- The byte length `sizeof(uint32_t) * i` given to `QByteArray::fromRawData`
in `XdgToplevelInterface::sendConfigure`. -/
def XdgToplevelInterface.xdgStatesSize (states : States) : Nat :=
  4 * (XdgToplevelInterface.statesData states).2

/-- Scenario S2: the toplevel of scenario S1 after its first configure; the
client sets the minimum size (300, 200) and the maximum size (0, 0) and commits. -/
def scenarioS2 : List Op :=
  scenarioS1.take 6 ++
  [Op.xdg_toplevel_set_min_size 1 300 200,
   Op.xdg_toplevel_set_max_size 1 0 0,
   Op.surface_commit 5]

/-- `XdgSurfaceConfigure` of `xdgshellclient.h`: a queued configure event, its
geometry and its serial. -/
structure XdgSurfaceConfigure where
  m_geometry : QRect := QRect.default
  m_serial : Nat := 0
deriving DecidableEq, Repr

/-- The two fields of `XdgSurfaceClient` (`xdgshellclient.h`) that the
acknowledgement of a configure touches: the FIFO `m_configureEvents`, oldest
first, and `m_lastAcknowledgedConfigure`, null at construction. -/
structure XdgSurfaceClient where
  m_configureEvents : List XdgSurfaceConfigure := []
  m_lastAcknowledgedConfigure : Option XdgSurfaceConfigure := none
deriving DecidableEq, Repr

/-- Modelled from the spec: the loop of `XdgSurfaceClient::handleConfigureAcknowledged`,
whose body is not among the sources (only its declaration in `xdgshellclient.h`
is): "ack_configure performs a prefix truncation" of the FIFO.  While the
oldest queued configure has a serial at most `serial` it is taken off the queue
and becomes the last acknowledged one. -/
def XdgSurfaceClient.takeAcknowledged (serial : Nat) :
    List XdgSurfaceConfigure → Option XdgSurfaceConfigure →
      List XdgSurfaceConfigure × Option XdgSurfaceConfigure
  | [], last => ([], last)
  | e :: rest, last =>
    if e.m_serial ≤ serial then XdgSurfaceClient.takeAcknowledged serial rest (some e)
    else (e :: rest, last)

/-- Modelled from the spec: `XdgSurfaceClient::handleConfigureAcknowledged(serial)`,
declared in `xdgshellclient.h` with its body outside the sources: "drop every
queued configure with serial ≤ acked; the newest such becomes
`lastAcknowledgedConfigure`", done as a prefix truncation of the FIFO. -/
def XdgSurfaceClient.handleConfigureAcknowledged (c : XdgSurfaceClient) (serial : Nat) :
    XdgSurfaceClient :=
  { m_configureEvents :=
      (XdgSurfaceClient.takeAcknowledged serial c.m_configureEvents
        c.m_lastAcknowledgedConfigure).1
    m_lastAcknowledgedConfigure :=
      (XdgSurfaceClient.takeAcknowledged serial c.m_configureEvents
        c.m_lastAcknowledgedConfigure).2 }

/-- The queued configures with a serial above `s`, in queue order: what the
acknowledgement of `s` is to leave in the queue. -/
def configuresAbove (s : Nat) (queue : List XdgSurfaceConfigure) : List XdgSurfaceConfigure :=
  queue.filter (fun e => decide (s < e.m_serial))

/-- The newest (last queued) configure with a serial at most `s`, if there is one. -/
def newestUpTo (s : Nat) (queue : List XdgSurfaceConfigure) : Option XdgSurfaceConfigure :=
  (queue.filter (fun e => decide (e.m_serial ≤ s))).getLast?

/-- A queue holding the configures with serials 1, 2 and 4. -/
def scenarioQueue : XdgSurfaceClient :=
  { m_configureEvents :=
      [{ m_geometry := QRect.fromXYWH 0 0 800 600, m_serial := 1 },
       { m_geometry := QRect.fromXYWH 0 0 640 480, m_serial := 2 },
       { m_geometry := QRect.fromXYWH 0 0 320 240, m_serial := 4 }] }

/-- Scenario S4 with an answer: after the ping (serial 7, timer 1) the timer
ticks once, a second ping (serial 8, timer 2) is made, `pong(7)` arrives; then
the first timer would tick again, `pong(7)` is repeated and the second timer ticks. -/
def scenarioS4Pong : List Op :=
  [Op.pingTimerTimeout 1, Op.ping 0] ++ Op.xdg_wm_base_pong 7 ::
    [Op.pingTimerTimeout 1, Op.xdg_wm_base_pong 7, Op.pingTimerTimeout 2]

/-- The events sent to the client among a list of events, in order. -/
def sendsOf : List Event → List WireEvent
  | [] => []
  | Event.send e :: es => e :: sendsOf es
  | _ :: es => sendsOf es

/-- The serials of the `xdg_surface.configure` events sent to the xdg-surface
`q` among a list of events, in order. -/
def configureSerials (q : XdgSurfaceId) (es : List Event) : List Nat :=
  (sendsOf es).filterMap (fun e => match e with
    | WireEvent.xdg_surface_configure x serial => if x = q then some serial else none
    | _ => none)

/-- The display's `nextSerial()` returns increasing values during the sequence
`ops` run from `w`: before every step the next serial is above the last one
handed out (the counter does not wrap). -/
def serialsIncrease : World → List Op → Bool
  | _, [] => true
  | w, op :: ops => decide (w.serial < w.nextSerial) && serialsIncrease (step w op).1 ops

/-- Two toplevels of client 1 (toplevel 1 on the xdg-surface 0, toplevel 3 on the
xdg-surface 2) are configured in turn, with a ping in between: the serials 1
and 4 go to the xdg-surface 0, the serial 2 to the ping and the serial 3 to
the xdg-surface 2. -/
def scenarioInterleaved : List Op :=
  [Op.xdg_wm_base_bind 1,
   Op.xdg_wm_base_get_xdg_surface 1 5,
   Op.xdg_surface_get_toplevel 0,
   Op.xdg_wm_base_get_xdg_surface 1 6,
   Op.xdg_surface_get_toplevel 2,
   Op.toplevelSendConfigure 1 ⟨800, 600⟩ {},
   Op.ping 0,
   Op.toplevelSendConfigure 3 ⟨640, 480⟩ {},
   Op.toplevelSendConfigure 1 ⟨800, 600⟩ { Activated := true }]

/-- Scenario S3 in a whole state: client 1 has a toplevel (object 1) on the
xdg-surface 0 of surface 5, a second xdg-surface (object 2) for surface 6 and a
positioner (object 3) on which the four requests of the scenario are made. -/
def scenarioS3Ops : List Op :=
  [Op.xdg_wm_base_bind 1,
   Op.xdg_wm_base_get_xdg_surface 1 5,
   Op.xdg_surface_get_toplevel 0,
   Op.xdg_wm_base_get_xdg_surface 1 6,
   Op.xdg_wm_base_create_positioner 1,
   Op.xdg_positioner_set_size 3 100 50,
   Op.xdg_positioner_set_anchor_rect 3 10 10 1 1,
   Op.xdg_positioner_set_anchor 3 XDG_POSITIONER_ANCHOR_TOP_RIGHT,
   Op.xdg_positioner_set_gravity 3 XDG_POSITIONER_GRAVITY_BOTTOM_RIGHT]

/-- A configured toplevel whose pending minimum size, maximum size and window
geometry all differ from the current ones: the toplevel's fields and the
fields of its xdg-surface. -/
def scenarioAllPending : XdgToplevelInterfacePrivate × XdgSurfaceInterfacePrivate :=
  ({ xdgSurface := 0, next := { minimumSize := ⟨300, 200⟩, maximumSize := ⟨1000, 800⟩ } },
   { client := 1, surface := 5, toplevel := some 1,
     next := { windowGeometry := QRect.fromXYWH 0 0 800 600 }, isConfigured := true })

/-- The request `r` made on the positioner resource `resource`, as an operation. -/
def PositionerRequest.toOp (resource : PositionerId) : PositionerRequest → Op
  | PositionerRequest.set_size width height => Op.xdg_positioner_set_size resource width height
  | PositionerRequest.set_anchor_rect x y width height =>
    Op.xdg_positioner_set_anchor_rect resource x y width height
  | PositionerRequest.set_anchor anchor => Op.xdg_positioner_set_anchor resource anchor
  | PositionerRequest.set_gravity gravity => Op.xdg_positioner_set_gravity resource gravity
  | PositionerRequest.set_constraint_adjustment mask =>
    Op.xdg_positioner_set_constraint_adjustment resource mask
  | PositionerRequest.set_offset x y => Op.xdg_positioner_set_offset resource x y

/-- Requests made on the positioner of scenario S3 after the popup was created
from it: a new size, an anchor rectangle that is rejected, a new anchor, an
offset and a constraint adjustment. -/
def scenarioAfterPopup : List PositionerRequest :=
  [PositionerRequest.set_size 1 1,
   PositionerRequest.set_anchor_rect 0 0 0 0,
   PositionerRequest.set_anchor XDG_POSITIONER_ANCHOR_LEFT,
   PositionerRequest.set_offset 3 4,
   PositionerRequest.set_constraint_adjustment 63]

/-- Scenario S1 after its second commit: the window geometry (0, 0, 800, 600)
is the current one. -/
def scenarioS1Committed : List Op :=
  scenarioS1 ++ [Op.surface_commit 5]

/-- The registry is exact: it holds the pair `(c, q)` exactly when `q` is a live
xdg-surface whose resource belongs to the client `c`, and holds it once. -/
def World.RegistryExact (w : World) : Prop :=
  (∀ c q, (c, q) ∈ w.xdgSurfaces ↔ ∃ xs, w.xdgSurfaceObjects q = some xs ∧ xs.client = c)
  ∧ w.xdgSurfaces.Nodup

/-- Client 1 creates two xdg-surfaces (objects 0 and 1), client 2 creates one
(object 2), and client 1 destroys its first one. -/
def scenarioRegistry : List Op :=
  [Op.xdg_wm_base_bind 1,
   Op.xdg_wm_base_bind 2,
   Op.xdg_wm_base_get_xdg_surface 1 5,
   Op.xdg_wm_base_get_xdg_surface 1 6,
   Op.xdg_wm_base_get_xdg_surface 2 7,
   Op.xdg_surface_destroy 0]

/-- The current size limits have been announced: for every toplevel, its
current minimum size is the one it was constructed with or was carried by a
`minimumSizeChanged` of that toplevel among the events `es`, and likewise its
current maximum size. -/
def World.SizesAnnounced (w : World) (es : List Event) : Prop :=
  ∀ t d, w.toplevels t = some d →
    (d.current.minimumSize = QSize.default
      ∨ Event.signal (Signal.minimumSizeChanged t d.current.minimumSize) ∈ es)
    ∧ (d.current.maximumSize = QSize.default
      ∨ Event.signal (Signal.maximumSizeChanged t d.current.maximumSize) ∈ es)

/-- The toplevel of scenario S1 after its first configure; the client sets the
minimum size (300, 0) and commits. -/
def scenarioOneZero : List Op :=
  scenarioS1.take 6 ++ [Op.xdg_toplevel_set_min_size 1 300 0, Op.surface_commit 5]

/-- The toplevel of scenario S1 after its first configure; the client sets the
minimum size (500, 500) and the maximum size (100, 100) and commits. -/
def scenarioCrossed : List Op :=
  scenarioS1.take 6 ++
  [Op.xdg_toplevel_set_min_size 1 500 500,
   Op.xdg_toplevel_set_max_size 1 100 100,
   Op.surface_commit 5]

/-! ## The payload of a positioner behind its shared pointer -/

/-- A payload `XdgPositionerData` on the heap, as `QSharedData`: the reference
count and the fields. -/
structure SharedPositionerData where
  ref : Nat
  data : XdgPositionerData
deriving DecidableEq, Repr

/-- Modelled from the spec: the positioner payloads at the level of pointers.
The members that hold them are declared in headers that are not among the
sources: `XdgPositionerPrivate::data` and the member `d` of the value type
`XdgPositioner` are `QSharedDataPointer<XdgPositionerData>` (the type of the
parameter of `XdgPositioner(const QSharedDataPointer<XdgPositionerData> &)`),
and a popup has a member `positioner` ("Positioners are copy-on-read value
types (snapshot at popup construction)").  `cells` is the heap, `next` the next
unused address, `resources` the pointer `data` of each live positioner
resource, `popups` the pointer of the member `positioner` of each live popup. -/
structure PositionerHeap where
  cells : Nat → Option SharedPositionerData := fun _ => none
  next : Nat := 0
  resources : PositionerId → Option Nat := fun _ => none
  popups : PopupId → Option Nat := fun _ => none

/-- The fields a pointer leads to (read through the const `operator->`). -/
def PositionerHeap.payload (h : PositionerHeap) (c : Nat) : XdgPositionerData :=
  match h.cells c with
  | some cell => cell.data
  | none => {}

/-- `QSharedDataPointer(new XdgPositionerData)`: a new payload with the given
fields and reference count 1; the second component is its address. -/
def PositionerHeap.create (h : PositionerHeap) (data : XdgPositionerData) :
    PositionerHeap × Nat :=
  ({ h with cells := Function.update h.cells h.next (some ⟨1, data⟩), next := h.next + 1 },
    h.next)

/-- The copy constructor of `QSharedDataPointer`: one more reference to the
payload at `c`. -/
def PositionerHeap.ref (h : PositionerHeap) (c : Nat) : PositionerHeap :=
  match h.cells c with
  | none => h
  | some cell =>
    { h with cells := Function.update h.cells c (some { cell with ref := cell.ref + 1 }) }

/-- The destructor of `QSharedDataPointer`: one reference less to the payload
at `c`, which is deleted with its last reference. -/
def PositionerHeap.deref (h : PositionerHeap) (c : Nat) : PositionerHeap :=
  match h.cells c with
  | none => h
  | some cell =>
    if cell.ref - 1 = 0 then
      { h with cells := Function.update h.cells c none }
    else
      { h with cells := Function.update h.cells c (some { cell with ref := cell.ref - 1 }) }

/-- `QSharedDataPointer::detach()` on the pointer `data` of the positioner
`resource`, run by the non-const `operator->`: when the payload is shared
(its reference count is not 1), the resource gets a copy of its own, with
reference count 1, and gives up its reference to the shared payload. -/
def PositionerHeap.detach (h : PositionerHeap) (resource : PositionerId) : PositionerHeap :=
  match h.resources resource with
  | none => h
  | some c =>
    match h.cells c with
    | none => h
    | some cell =>
      if cell.ref = 1 then h
      else
        let r := h.create cell.data
        let h1 := r.1.deref c
        { h1 with resources := Function.update h1.resources resource (some r.2) }

/-- An assignment `data->field = value` in a handler of the positioner
`resource`: the non-const `operator->` detaches, then the fields of the
resource's payload are assigned. -/
def PositionerHeap.assign (h : PositionerHeap) (resource : PositionerId)
    (data : XdgPositionerData) : PositionerHeap :=
  let h1 := h.detach resource
  match h1.resources resource with
  | none => h1
  | some c =>
    match h1.cells c with
    | none => h1
    | some cell => { h1 with cells := Function.update h1.cells c (some { cell with data := data }) }

/-- A request on the positioner `resource`, at the level of pointers: a handler
that posts an error returns before it touches `data`; every other handler
assigns fields through `data->`, with the values `XdgPositionerPrivate.request`
computes from the fields before the request. -/
def PositionerHeap.request (h : PositionerHeap) (resource : PositionerId)
    (r : PositionerRequest) : PositionerHeap :=
  match h.resources resource with
  | none => h
  | some c =>
    let result := XdgPositionerPrivate.request (h.payload c) r
    if errorsOf result.2 = [] then h.assign resource result.1 else h

/-- `XdgPositioner::get(resource)`, at the level of pointers: the result shares
the payload of the resource (`XdgPositioner(xdgPositionerPrivate->data)` copies
the pointer), or is `XdgPositioner()` with a new default payload when the
resource is not a positioner; the second component is the result's pointer. -/
def PositionerHeap.get (h : PositionerHeap) (resource : PositionerId) : PositionerHeap × Nat :=
  match h.resources resource with
  | some c => (h.ref c, c)
  | none => h.create {}

/-- `XdgShellInterfacePrivate::xdg_wm_base_create_positioner`, at the level of
pointers: the constructor of `XdgPositionerPrivate` initialises `data` with
`new XdgPositionerData`. -/
def PositionerHeap.xdg_wm_base_create_positioner (w : World) (h : PositionerHeap) :
    PositionerHeap :=
  let r := h.create {}
  { r.1 with resources := Function.update r.1.resources w.fresh (some r.2) }

/-- `XdgPositionerPrivate::xdg_positioner_destroy_resource`, at the level of
pointers: `delete this` destroys the member `data`. -/
def PositionerHeap.xdg_positioner_destroy (h : PositionerHeap) (resource : PositionerId) :
    PositionerHeap :=
  match h.resources resource with
  | none => h
  | some c =>
    let h1 := h.deref c
    { h1 with resources := Function.update h1.resources resource none }

/-- `XdgPopupInterfacePrivate::xdg_popup_destroy_resource`, at the level of
pointers: `delete q` destroys the member `positioner` of the popup. -/
def PositionerHeap.xdg_popup_destroy (h : PositionerHeap) (q : PopupId) : PositionerHeap :=
  match h.popups q with
  | none => h
  | some c =>
    let h1 := h.deref c
    { h1 with popups := Function.update h1.popups q none }

/-- `XdgSurfaceInterfacePrivate::xdg_surface_get_popup`, at the level of
pointers, in the state `w`: the local `positioner` is the result of
`XdgPositioner::get`; the constructor of the popup default-constructs the
member `positioner` and assigns the local to it (`operator=` takes a reference
to the local's payload and releases the member's own); the local is destroyed
when the handler returns. -/
def PositionerHeap.xdg_surface_get_popup (w : World) (h : PositionerHeap) (q : XdgSurfaceId)
    (parentResource : Option XdgSurfaceId) (positionerResource : PositionerId) :
    PositionerHeap :=
  match w.xdgSurfaceObjects q with
  | none => h
  | some d =>
    if (SurfaceRole.get w d.surface).isSome then h
    else
      let positioner := h.get positionerResource
      if !(XdgPositioner.isComplete (positioner.1.payload positioner.2)) then
        positioner.1.deref positioner.2
      else
        match XdgSurfaceInterface.get w parentResource with
        | none => positioner.1.deref positioner.2
        | some _ =>
          let popup := w.fresh
          let member := positioner.1.create {}
          let h1 := (member.1.ref positioner.2).deref member.2
          let h2 := { h1 with popups := Function.update h1.popups popup (some positioner.2) }
          h2.deref positioner.2

/-- One step of the shell, at the level of the pointers to positioner payloads;
`w` is the state in which the step is taken. -/
def PositionerHeap.step (w : World) (h : PositionerHeap) : Op → PositionerHeap
  | Op.xdg_wm_base_create_positioner _ => h.xdg_wm_base_create_positioner w
  | Op.xdg_surface_get_popup q parent positioner =>
    h.xdg_surface_get_popup w q parent positioner
  | Op.xdg_popup_destroy q => h.xdg_popup_destroy q
  | Op.xdg_positioner_destroy resource => h.xdg_positioner_destroy resource
  | Op.xdg_positioner_set_size resource width height =>
    h.request resource (PositionerRequest.set_size width height)
  | Op.xdg_positioner_set_anchor_rect resource x y width height =>
    h.request resource (PositionerRequest.set_anchor_rect x y width height)
  | Op.xdg_positioner_set_anchor resource anchor =>
    h.request resource (PositionerRequest.set_anchor anchor)
  | Op.xdg_positioner_set_gravity resource gravity =>
    h.request resource (PositionerRequest.set_gravity gravity)
  | Op.xdg_positioner_set_constraint_adjustment resource mask =>
    h.request resource (PositionerRequest.set_constraint_adjustment mask)
  | Op.xdg_positioner_set_offset resource x y =>
    h.request resource (PositionerRequest.set_offset x y)
  | _ => h

/-- The pointers after a sequence of steps taken from the state `w`. -/
def PositionerHeap.run (w : World) (h : PositionerHeap) : List Op → PositionerHeap
  | [] => h
  | op :: ops => PositionerHeap.run (KWin.step w op).1 (PositionerHeap.step w h op) ops

/-- `XdgPopupInterface::positioner()` of the popup `q`, read through the
popup's pointer. -/
def PositionerHeap.positioner (h : PositionerHeap) (q : PopupId) : Option XdgPositioner :=
  (h.popups q).map h.payload

/-- The number of the handles below `n` whose pointer is `c`. -/
def holders (f : Nat → Option Nat) (c : Nat) : Nat → Nat
  | 0 => 0
  | n + 1 => holders f c n + (if f n = some c then 1 else 0)

/-- The reference counts cover the pointers: a pointer of a resource or of a
popup leads to a live payload, whose reference count is at least the number of
resources and popups that point to it; addresses from `next` on and handles
from `n` on are unused. -/
def PositionerHeap.Counted (h : PositionerHeap) (n : Nat) : Prop :=
  (∀ c, h.next ≤ c → h.cells c = none)
  ∧ (∀ i, n ≤ i → h.resources i = none ∧ h.popups i = none)
  ∧ (∀ i c, h.resources i = some c → (h.cells c).isSome = true)
  ∧ (∀ i c, h.popups i = some c → (h.cells c).isSome = true)
  ∧ (∀ c cell, h.cells c = some cell →
      holders h.resources c n + holders h.popups c n ≤ cell.ref)

/-- The state `w` records by value what the pointers lead to: the payload of
every positioner resource and the positioner of every popup. -/
def PositionerHeap.Represents (h : PositionerHeap) (w : World) : Prop :=
  (∀ resource, w.positioners resource = (h.resources resource).map h.payload)
  ∧ (∀ q, (w.popups q).map XdgPopupInterface.positioner = (h.popups q).map h.payload)

/-- What `get_popup` does to the pointers when it constructs no popup: nothing
that a pointer could observe. -/
def PositionerHeap.Unchanged (h h' : PositionerHeap) : Prop :=
  (∀ x, h'.cells x = h.cells x) ∧ h.next ≤ h'.next ∧ h'.resources = h.resources
    ∧ h'.popups = h.popups

/-! ## Theorems -/

/-! ### Helper lemmas -/

theorem update_self_some {α : Type} (f : Nat → Option α) (i : Nat) (a : α) (h : f i = some a) :
    Function.update f i (some a) = f := by
  rw [← h]; exact Function.update_eq_self i f

/-! ### Window geometry requests and commits -/

/-- C3: `set_window_geometry` on an xdg-surface without a role posts
`not_constructed` whatever the size is; with a role it posts the anonymous
error exactly when `width < 1` or `height < 1`; otherwise it posts nothing and
the pending window geometry becomes `QRect(x, y, width, height)`.  A rejected
request leaves the xdg-surface as it was. -/
theorem set_window_geometry_contract (d : XdgSurfaceInterfacePrivate) (x y width height : Int) :
    ((d.toplevel = none ∧ d.popup = none) →
        XdgSurfaceInterfacePrivate.xdg_surface_set_window_geometry d x y width height
          = (d, [Event.error ProtocolError.XDG_SURFACE_ERROR_NOT_CONSTRUCTED]))
    ∧ (¬ (d.toplevel = none ∧ d.popup = none) →
        (errorsOf (XdgSurfaceInterfacePrivate.xdg_surface_set_window_geometry d x y width height).2
            = [ProtocolError.anonymous] ↔ (width < 1 ∨ height < 1))
        ∧ ((width < 1 ∨ height < 1) →
            XdgSurfaceInterfacePrivate.xdg_surface_set_window_geometry d x y width height
              = (d, [Event.error ProtocolError.anonymous]))
        ∧ (¬ (width < 1 ∨ height < 1) →
            XdgSurfaceInterfacePrivate.xdg_surface_set_window_geometry d x y width height
              = ({ d with next := { d.next with
                    windowGeometry := QRect.fromXYWH x y width height } }, []))) := by
  refine ⟨?_, ?_⟩
  · rintro ⟨ht, hp⟩
    simp [XdgSurfaceInterfacePrivate.xdg_surface_set_window_geometry, ht, hp]
  · intro hrole
    have hr : (d.toplevel.isNone && d.popup.isNone) = false := by
      cases ht : d.toplevel <;> cases hp : d.popup <;> simp_all
    by_cases hsz : width < 1 ∨ height < 1
    · have hb : (decide (width < 1) || decide (height < 1)) = true := by
        rcases hsz with h | h <;> simp [h]
      simp [XdgSurfaceInterfacePrivate.xdg_surface_set_window_geometry, hr, hb, hsz, errorsOf]
    · have hb : (decide (width < 1) || decide (height < 1)) = false := by
        push_neg at hsz; simp [hsz.1, hsz.2]
      simp [XdgSurfaceInterfacePrivate.xdg_surface_set_window_geometry, hr, hb, hsz, errorsOf]

/-- C3, at a concrete input: a toplevel's xdg-surface accepts the geometry (0, 0, 800, 600). -/
theorem set_window_geometry_contract_witness :
    XdgSurfaceInterfacePrivate.xdg_surface_set_window_geometry
        { client := 1, surface := 0, toplevel := some 0 } 0 0 800 600
      = ({ client := 1, surface := 0, toplevel := some 0,
           next := { windowGeometry := QRect.fromXYWH 0 0 800 600 } }, []) :=
  ((set_window_geometry_contract { client := 1, surface := 0, toplevel := some 0 }
      0 0 800 600).2 (by decide)).2.2 (by decide)

theorem xdgSurface_commit_fst (q : XdgSurfaceId) (xs : XdgSurfaceInterfacePrivate) :
    (XdgSurfaceInterfacePrivate.commit q xs).1
      = { xs with current := { xs.current with windowGeometry := xs.next.windowGeometry } } := by
  unfold XdgSurfaceInterfacePrivate.commit
  split
  · rfl
  · rename_i h
    have h' : xs.current.windowGeometry = xs.next.windowGeometry := not_not.mp h
    cases xs with
    | mk c s t p n cur ic =>
      cases cur with
      | mk g => simp at h'; simp [h']

theorem xdgSurface_commit_snd (q : XdgSurfaceId) (xs : XdgSurfaceInterfacePrivate) :
    (XdgSurfaceInterfacePrivate.commit q xs).2
      = if xs.current.windowGeometry ≠ xs.next.windowGeometry then
          [Event.signal (Signal.windowGeometryChanged q xs.next.windowGeometry)]
        else [] := by
  unfold XdgSurfaceInterfacePrivate.commit
  split <;> rfl

theorem toplevel_commit_configured (t : ToplevelId) (d : XdgToplevelInterfacePrivate)
    (xs : XdgSurfaceInterfacePrivate) (h : xs.isConfigured = true) :
    (XdgToplevelInterfacePrivate.commit t d xs).1 = { d with current := d.next }
    ∧ (XdgToplevelInterfacePrivate.commit t d xs).2.1
        = (XdgSurfaceInterfacePrivate.commit d.xdgSurface xs).1
    ∧ (XdgToplevelInterfacePrivate.commit t d xs).2.2
        = (XdgSurfaceInterfacePrivate.commit d.xdgSurface xs).2
          ++ (if d.current.minimumSize ≠ d.next.minimumSize then
                [Event.signal (Signal.minimumSizeChanged t d.next.minimumSize)] else [])
          ++ (if d.current.maximumSize ≠ d.next.maximumSize then
                [Event.signal (Signal.maximumSizeChanged t d.next.maximumSize)] else []) := by
  obtain ⟨xq, par, ti, cl, ⟨nmin, nmax⟩, ⟨cmin, cmax⟩⟩ := d
  unfold XdgToplevelInterfacePrivate.commit
  simp only [h, if_true]
  by_cases h1 : cmin = nmin <;> by_cases h2 : cmax = nmax <;> simp [h1, h2]

theorem toplevel_commit_unconfigured (t : ToplevelId) (d : XdgToplevelInterfacePrivate)
    (xs : XdgSurfaceInterfacePrivate) (h : xs.isConfigured = false) :
    XdgToplevelInterfacePrivate.commit t d xs
      = (d, xs, [Event.signal (Signal.initializeRequested (SurfaceRole.toplevel t))]) := by
  simp [XdgToplevelInterfacePrivate.commit, h]

theorem popup_commit_unconfigured (p : PopupId) (d : XdgPopupInterfacePrivate)
    (xs : XdgSurfaceInterfacePrivate) (h : xs.isConfigured = false) :
    XdgPopupInterfacePrivate.commit p d xs
      = (xs, [Event.signal (Signal.initializeRequested (SurfaceRole.popup p))]) := by
  simp [XdgPopupInterfacePrivate.commit, h]

theorem windowGeometrySignals_commit (q : XdgSurfaceId) (xs : XdgSurfaceInterfacePrivate) :
    windowGeometrySignals (XdgSurfaceInterfacePrivate.commit q xs).2
      = if xs.current.windowGeometry ≠ xs.next.windowGeometry then
          [Signal.windowGeometryChanged q xs.next.windowGeometry] else [] := by
  rw [xdgSurface_commit_snd]
  split <;> simp [windowGeometrySignals, signalsOf]

theorem signalsOf_append (a b : List Event) :
    signalsOf (a ++ b) = signalsOf a ++ signalsOf b := by
  induction a with
  | nil => simp [signalsOf]
  | cons e es ih => cases e <;> simp [signalsOf, ih]

theorem errorsOf_append (a b : List Event) :
    errorsOf (a ++ b) = errorsOf a ++ errorsOf b := by
  induction a with
  | nil => simp [errorsOf]
  | cons e es ih => cases e <;> simp [errorsOf, ih]

theorem windowGeometrySignals_append (a b : List Event) :
    windowGeometrySignals (a ++ b) = windowGeometrySignals a ++ windowGeometrySignals b := by
  simp [windowGeometrySignals, signalsOf_append]

/-- C2: a commit of a role whose xdg-surface `q` is configured makes the
current window geometry of `q` equal to the pending one and keeps the pending
one; it emits `windowGeometryChanged q` with the new value exactly once when
the pending geometry differed from the current one and not at all when they
were equal; a second commit right after it emits nothing. -/
theorem commit_promotes_window_geometry (w : World) (role : SurfaceRole) (q : XdgSurfaceId)
    (xs : XdgSurfaceInterfacePrivate)
    (hrole : SurfaceRole.xdgSurface w role = some q)
    (hlive : w.xdgSurfaceObjects q = some xs)
    (hconf : xs.isConfigured = true) :
    (∃ xs', (SurfaceRole.commit w role).1.xdgSurfaceObjects q = some xs'
        ∧ XdgSurfaceInterface.windowGeometry xs' = xs.next.windowGeometry
        ∧ xs'.next = xs.next)
    ∧ windowGeometrySignals (SurfaceRole.commit w role).2
        = (if xs.current.windowGeometry ≠ xs.next.windowGeometry then
            [Signal.windowGeometryChanged q xs.next.windowGeometry] else [])
    ∧ (SurfaceRole.commit (SurfaceRole.commit w role).1 role).2 = [] := by
  cases role with
  | toplevel t =>
    simp only [SurfaceRole.xdgSurface, Option.map_eq_some'] at hrole
    obtain ⟨d, hd, hq⟩ := hrole
    subst hq
    obtain ⟨h1, h2, h3⟩ := toplevel_commit_configured t d xs hconf
    have hc : (XdgSurfaceInterfacePrivate.commit d.xdgSurface xs).1.isConfigured = true := by
      rw [xdgSurface_commit_fst]; exact hconf
    obtain ⟨k1, k2, k3⟩ := toplevel_commit_configured t { d with current := d.next }
      (XdgSurfaceInterfacePrivate.commit d.xdgSurface xs).1 hc
    refine ⟨⟨(XdgSurfaceInterfacePrivate.commit d.xdgSurface xs).1, ?_, ?_, ?_⟩, ?_, ?_⟩
    · simp [SurfaceRole.commit, hd, hlive, h2]
    · rw [xdgSurface_commit_fst]; rfl
    · rw [xdgSurface_commit_fst]
    · simp only [SurfaceRole.commit, hd, hlive, h3, windowGeometrySignals_append,
        windowGeometrySignals_commit]
      split <;> split <;> split <;> simp [windowGeometrySignals, signalsOf]
    · simp only [SurfaceRole.commit, hd, hlive, h1, h2, Function.update_same]
      rw [k3, xdgSurface_commit_snd, xdgSurface_commit_fst]
      simp
  | popup p =>
    simp only [SurfaceRole.xdgSurface, Option.map_eq_some'] at hrole
    obtain ⟨d, hd, hq⟩ := hrole
    subst hq
    have hp : XdgPopupInterfacePrivate.commit p d xs
        = XdgSurfaceInterfacePrivate.commit d.xdgSurface xs := by
      simp [XdgPopupInterfacePrivate.commit, hconf]
    have hc : (XdgSurfaceInterfacePrivate.commit d.xdgSurface xs).1.isConfigured = true := by
      rw [xdgSurface_commit_fst]; exact hconf
    have hp2 : XdgPopupInterfacePrivate.commit p d
          (XdgSurfaceInterfacePrivate.commit d.xdgSurface xs).1
        = XdgSurfaceInterfacePrivate.commit d.xdgSurface
            (XdgSurfaceInterfacePrivate.commit d.xdgSurface xs).1 := by
      simp [XdgPopupInterfacePrivate.commit, hc]
    refine ⟨⟨(XdgSurfaceInterfacePrivate.commit d.xdgSurface xs).1, ?_, ?_, ?_⟩, ?_, ?_⟩
    · simp [SurfaceRole.commit, hd, hlive, hp]
    · rw [xdgSurface_commit_fst]; rfl
    · rw [xdgSurface_commit_fst]
    · simp only [SurfaceRole.commit, hd, hlive, hp, windowGeometrySignals_commit]
    · simp only [SurfaceRole.commit, hd, hlive, hp, Function.update_same, hp2]
      rw [xdgSurface_commit_snd, xdgSurface_commit_fst]
      simp

/-- C2, at a concrete input: in scenario S1 the commit after
`set_window_geometry(0, 0, 800, 600)` emits `windowGeometryChanged` with that rectangle. -/
theorem commit_promotes_window_geometry_witness :
    windowGeometrySignals
        (SurfaceRole.commit (run World.init scenarioS1) (SurfaceRole.toplevel 1)).2
      = [Signal.windowGeometryChanged 0 (QRect.fromXYWH 0 0 800 600)] :=
  (commit_promotes_window_geometry (run World.init scenarioS1) (SurfaceRole.toplevel 1) 0
    { client := 1, surface := 5, toplevel := some 1,
      next := { windowGeometry := QRect.fromXYWH 0 0 800 600 }, isConfigured := true }
    (by decide) (by decide) (by decide)).2.1

theorem toplevel_commit_frame (t : ToplevelId) (d : XdgToplevelInterfacePrivate)
    (xs : XdgSurfaceInterfacePrivate) :
    (XdgToplevelInterfacePrivate.commit t d xs).2.1.client = xs.client
    ∧ (XdgToplevelInterfacePrivate.commit t d xs).2.1.surface = xs.surface
    ∧ (XdgToplevelInterfacePrivate.commit t d xs).2.1.toplevel = xs.toplevel
    ∧ (XdgToplevelInterfacePrivate.commit t d xs).2.1.popup = xs.popup
    ∧ (XdgToplevelInterfacePrivate.commit t d xs).2.1.next = xs.next
    ∧ (XdgToplevelInterfacePrivate.commit t d xs).2.1.isConfigured = xs.isConfigured := by
  cases hc : xs.isConfigured
  · rw [toplevel_commit_unconfigured t d xs hc]; simp [hc]
  · rw [(toplevel_commit_configured t d xs hc).2.1, xdgSurface_commit_fst]; simp [hc]

theorem popup_commit_frame (p : PopupId) (d : XdgPopupInterfacePrivate)
    (xs : XdgSurfaceInterfacePrivate) :
    (XdgPopupInterfacePrivate.commit p d xs).1.client = xs.client
    ∧ (XdgPopupInterfacePrivate.commit p d xs).1.surface = xs.surface
    ∧ (XdgPopupInterfacePrivate.commit p d xs).1.toplevel = xs.toplevel
    ∧ (XdgPopupInterfacePrivate.commit p d xs).1.popup = xs.popup
    ∧ (XdgPopupInterfacePrivate.commit p d xs).1.next = xs.next
    ∧ (XdgPopupInterfacePrivate.commit p d xs).1.isConfigured = xs.isConfigured := by
  cases hc : xs.isConfigured
  · rw [popup_commit_unconfigured p d xs hc]; simp [hc]
  · simp only [XdgPopupInterfacePrivate.commit, hc, if_true, xdgSurface_commit_fst]; simp [hc]

theorem set_window_geometry_frame (d : XdgSurfaceInterfacePrivate) (x y width height : Int) :
    (XdgSurfaceInterfacePrivate.xdg_surface_set_window_geometry d x y width height).1.client
        = d.client
    ∧ (XdgSurfaceInterfacePrivate.xdg_surface_set_window_geometry d x y width height).1.surface
        = d.surface
    ∧ (XdgSurfaceInterfacePrivate.xdg_surface_set_window_geometry d x y width height).1.toplevel
        = d.toplevel
    ∧ (XdgSurfaceInterfacePrivate.xdg_surface_set_window_geometry d x y width height).1.popup
        = d.popup
    ∧ (XdgSurfaceInterfacePrivate.xdg_surface_set_window_geometry d x y width height).1.current
        = d.current
    ∧ (XdgSurfaceInterfacePrivate.xdg_surface_set_window_geometry d x y width height).1.isConfigured
        = d.isConfigured := by
  unfold XdgSurfaceInterfacePrivate.xdg_surface_set_window_geometry
  split
  · simp
  · split <;> simp

theorem step_isConfigured (w : World) (op : Op) (q : XdgSurfaceId) (xs' : XdgSurfaceInterfacePrivate)
    (h : (step w op).1.xdgSurfaceObjects q = some xs') (hc : configures w q op = false) :
    xs'.isConfigured = false
      ∨ ∃ xs, w.xdgSurfaceObjects q = some xs ∧ xs'.isConfigured = xs.isConfigured := by
  cases op
  all_goals simp only [step, SurfaceInterface.commit, SurfaceRole.commit,
    XdgShellInterfacePrivate.bind, XdgShellInterfacePrivate.xdg_wm_base_destroy,
    XdgShellInterfacePrivate.xdg_wm_base_create_positioner,
    XdgShellInterfacePrivate.xdg_wm_base_get_xdg_surface,
    XdgShellInterfacePrivate.xdg_wm_base_pong, XdgShellInterface.ping,
    XdgShellInterfacePrivate.pingTimerTimeout, XdgShellInterfacePrivate.registerPing,
    XdgShellInterfacePrivate.registerXdgSurface, XdgShellInterfacePrivate.unregisterXdgSurface,
    XdgSurfaceInterfacePrivate.xdg_surface_destroy,
    XdgSurfaceInterfacePrivate.xdg_surface_destroy_resource,
    XdgSurfaceInterfacePrivate.xdg_surface_get_toplevel,
    XdgSurfaceInterfacePrivate.xdg_surface_get_popup, SurfaceRole.attach,
    World.onXdgSurface, World.onToplevel, World.readToplevel, World.onPositioner,
    XdgToplevelInterface.sendConfigure, XdgPopupInterface.sendConfigure,
    XdgPositionerPrivate.xdg_positioner_destroy, clientFromXdgSurface,
    XdgToplevelInterfacePrivate.xdg_toplevel_destroy,
    XdgToplevelInterfacePrivate.xdg_toplevel_destroy_resource,
    XdgPopupInterfacePrivate.xdg_popup_destroy,
    XdgPopupInterfacePrivate.xdg_popup_destroy_resource,
    XdgSurfaceInterfacePrivate.clearToplevel, XdgSurfaceInterfacePrivate.clearPopup,
    SurfaceRole.detach, configures] at h hc
  all_goals repeat' split at h
  all_goals try simp only [Function.update_apply] at h
  all_goals repeat' split at h
  all_goals first
    | (cases h; done)
    | (right; exact ⟨_, h, rfl⟩)
    | (injection h with h; subst h; subst_vars
       first
        | (left; rfl)
        | (right; refine ⟨_, by assumption, ?_⟩
           first
            | rfl
            | exact (toplevel_commit_frame _ _ _).2.2.2.2.2
            | exact (popup_commit_frame _ _ _).2.2.2.2.2
            | exact (set_window_geometry_frame _ _ _ _ _).2.2.2.2.2)
        | simp_all)

theorem neverConfigured_run (q : XdgSurfaceId) (ops : List Op) :
    ∀ w : World, (∀ xs, w.xdgSurfaceObjects q = some xs → xs.isConfigured = false) →
      neverConfigured q w ops = true →
      ∀ xs, (run w ops).xdgSurfaceObjects q = some xs → xs.isConfigured = false := by
  induction ops with
  | nil => intro w hw _ xs h; exact hw xs h
  | cons op ops ih =>
    intro w hw hn xs h
    simp only [neverConfigured, Bool.and_eq_true, Bool.not_eq_true'] at hn
    refine ih (step w op).1 ?_ hn.2 xs h
    intro xs' h'
    rcases step_isConfigured w op q xs' h' hn.1 with h0 | ⟨xs0, hx0, he⟩
    · exact h0
    · rw [he]; exact hw xs0 hx0

/-- C1: when no `sendConfigure` has been made on the role of the xdg-surface
`q` since the shell was created, a commit of that role (toplevel or popup)
emits `initializeRequested` once and nothing else, and leaves the whole state
as it was: the current window geometry and the current minimum and maximum
size stay what they were, whatever the pending values are.  The same holds for
the commit of every surface the role is attached to. -/
theorem commit_before_first_configure (ops : List Op) (q : XdgSurfaceId)
    (xs : XdgSurfaceInterfacePrivate) (role : SurfaceRole)
    (hnever : neverConfigured q World.init ops = true)
    (hlive : (run World.init ops).xdgSurfaceObjects q = some xs)
    (hrole : SurfaceRole.xdgSurface (run World.init ops) role = some q) :
    SurfaceRole.commit (run World.init ops) role
        = (run World.init ops, [Event.signal (Signal.initializeRequested role)])
    ∧ ∀ surface, SurfaceRole.get (run World.init ops) surface = some role →
        step (run World.init ops) (Op.surface_commit surface)
          = (run World.init ops, [Event.signal (Signal.initializeRequested role)]) := by
  have hconf : xs.isConfigured = false :=
    neverConfigured_run q ops World.init (by intro xs h; cases h) hnever xs hlive
  have key : SurfaceRole.commit (run World.init ops) role
      = (run World.init ops, [Event.signal (Signal.initializeRequested role)]) := by
    cases role with
    | toplevel t =>
      simp only [SurfaceRole.xdgSurface, Option.map_eq_some'] at hrole
      obtain ⟨d, hd, hq⟩ := hrole
      subst hq
      simp only [SurfaceRole.commit, hd, hlive, toplevel_commit_unconfigured t d xs hconf,
        update_self_some _ _ _ hd, update_self_some _ _ _ hlive]
    | popup p =>
      simp only [SurfaceRole.xdgSurface, Option.map_eq_some'] at hrole
      obtain ⟨d, hd, hq⟩ := hrole
      subst hq
      simp only [SurfaceRole.commit, hd, hlive, popup_commit_unconfigured p d xs hconf,
        update_self_some _ _ _ hlive]
  refine ⟨key, fun surface hs => ?_⟩
  simp only [step, SurfaceInterface.commit, hs, key]

/-- C1, at a concrete input: the first commit of scenario S1 (of surface 5),
made before any configure, with a pending title set. -/
theorem commit_before_first_configure_witness :
    step (run World.init (scenarioS1.take 4)) (Op.surface_commit 5)
      = (run World.init (scenarioS1.take 4),
          [Event.signal (Signal.initializeRequested (SurfaceRole.toplevel 1))]) :=
  (commit_before_first_configure (scenarioS1.take 4) 0
    { client := 1, surface := 5, toplevel := some 1 } (SurfaceRole.toplevel 1)
    (by decide) (by decide) (by decide)).2 5 (by decide)

/-! ### Object identities -/

theorem step_fresh (w : World) (op : Op) (hw : w.Fresh) : (step w op).1.Fresh := by
  obtain ⟨h1, h2, h3⟩ := hw
  cases op
  all_goals simp only [step, SurfaceInterface.commit, SurfaceRole.commit,
    XdgShellInterfacePrivate.bind, XdgShellInterfacePrivate.xdg_wm_base_destroy,
    XdgShellInterfacePrivate.xdg_wm_base_create_positioner,
    XdgShellInterfacePrivate.xdg_wm_base_get_xdg_surface,
    XdgShellInterfacePrivate.xdg_wm_base_pong, XdgShellInterface.ping,
    XdgShellInterfacePrivate.pingTimerTimeout, XdgShellInterfacePrivate.registerPing,
    XdgShellInterfacePrivate.registerXdgSurface, XdgShellInterfacePrivate.unregisterXdgSurface,
    XdgSurfaceInterfacePrivate.xdg_surface_destroy,
    XdgSurfaceInterfacePrivate.xdg_surface_destroy_resource,
    XdgSurfaceInterfacePrivate.xdg_surface_get_toplevel,
    XdgSurfaceInterfacePrivate.xdg_surface_get_popup, SurfaceRole.attach,
    World.onXdgSurface, World.onToplevel, World.readToplevel, World.onPositioner,
    XdgToplevelInterface.sendConfigure, XdgPopupInterface.sendConfigure,
    XdgPositionerPrivate.xdg_positioner_destroy, clientFromXdgSurface,
    XdgToplevelInterfacePrivate.xdg_toplevel_destroy,
    XdgToplevelInterfacePrivate.xdg_toplevel_destroy_resource,
    XdgPopupInterfacePrivate.xdg_popup_destroy,
    XdgPopupInterfacePrivate.xdg_popup_destroy_resource,
    XdgSurfaceInterfacePrivate.clearToplevel, XdgSurfaceInterfacePrivate.clearPopup,
    SurfaceRole.detach]
  all_goals repeat' split
  all_goals first
    | exact ⟨h1, h2, h3⟩
    | skip
  all_goals refine ⟨?_, ?_, ?_⟩
  all_goals first
    | exact h1
    | exact h2
    | exact h3
    | (intro i hi
       have hi1 := h1 i (by simp only [] at hi; omega)
       simp only [Function.update_apply]
       refine ⟨?_, ?_, ?_, ?_, ?_⟩
       all_goals first
        | exact hi1.1
        | exact hi1.2.1
        | exact hi1.2.2.1
        | exact hi1.2.2.2.1
        | exact hi1.2.2.2.2
        | (split
           · first
              | rfl
              | (exfalso; subst_vars; simp only [] at hi; omega)
              | (exfalso; subst_vars; have := h1 _ (le_refl _); simp_all)
           · first
              | exact hi1.1
              | exact hi1.2.1
              | exact hi1.2.2.1
              | exact hi1.2.2.2.1
              | exact hi1.2.2.2.2
              | (split
                 · exfalso; subst_vars; simp_all
                 · exact hi1.2.2.2.2)))
    | (intro e he
       try dsimp only at he
       try simp only [List.mem_cons, List.mem_filter] at he
       try dsimp only
       first
        | exact h2 e he
        | exact Nat.lt_succ_of_lt (h2 e he)
        | exact h2 e he.1
        | exact Nat.lt_succ_of_lt (h2 e he.1)
        | (rcases he with he | he
           · subst he; exact Nat.lt_succ_self _
           · exact Nat.lt_succ_of_lt (h2 e he)))
    | (intro s t hst
       try dsimp only at hst
       try simp only [Function.update_apply] at hst
       try dsimp only
       first
        | exact h3 s t hst
        | exact Nat.lt_succ_of_lt (h3 s t hst)
        | (split at hst
           · first
              | (cases hst; done)
              | (injection hst with hst; subst hst; exact Nat.lt_succ_self _)
           · first
              | exact h3 s t hst
              | exact Nat.lt_succ_of_lt (h3 s t hst)))

theorem run_fresh_from (ops : List Op) : ∀ w : World, w.Fresh → (run w ops).Fresh := by
  induction ops with
  | nil => intro w hw; exact hw
  | cons op ops ih => intro w hw; exact ih _ (step_fresh w op hw)

theorem init_fresh : World.init.Fresh := by
  refine ⟨?_, ?_, ?_⟩
  · intro i _; exact ⟨rfl, rfl, rfl, rfl, rfl⟩
  · intro e he; cases he
  · intro s t h; cases h

theorem run_fresh (ops : List Op) : (run World.init ops).Fresh :=
  run_fresh_from ops World.init init_fresh

/-! ### The shell's registry of xdg-surfaces -/

/-- C4: in every reachable state `get_xdg_surface` posts `unconfigured_buffer`
exactly when the surface has a buffer; when it does, the whole state (so the
registry too) is unchanged and nothing is constructed; when it does not, no
error is posted, one xdg-surface object that did not exist before is
constructed for the client and the surface, and it is the one entry added to
the registry, under the requesting client. -/
theorem get_xdg_surface_contract (ops : List Op) (client : ClientId) (surface : SurfaceId) :
    (errorsOf (XdgShellInterfacePrivate.xdg_wm_base_get_xdg_surface
          (run World.init ops) client surface).2
        = [ProtocolError.XDG_SURFACE_ERROR_UNCONFIGURED_BUFFER]
      ↔ ((run World.init ops).surfaces surface).buffer = true)
    ∧ (((run World.init ops).surfaces surface).buffer = true →
        XdgShellInterfacePrivate.xdg_wm_base_get_xdg_surface (run World.init ops) client surface
          = (run World.init ops,
              [Event.error ProtocolError.XDG_SURFACE_ERROR_UNCONFIGURED_BUFFER]))
    ∧ (((run World.init ops).surfaces surface).buffer = false →
        (XdgShellInterfacePrivate.xdg_wm_base_get_xdg_surface
            (run World.init ops) client surface).2 = []
        ∧ (run World.init ops).xdgSurfaceObjects (run World.init ops).fresh = none
        ∧ (∀ c, (c, (run World.init ops).fresh) ∉ (run World.init ops).xdgSurfaces)
        ∧ (XdgShellInterfacePrivate.xdg_wm_base_get_xdg_surface
            (run World.init ops) client surface).1.xdgSurfaceObjects
            = Function.update (run World.init ops).xdgSurfaceObjects (run World.init ops).fresh
                (some { client := client, surface := surface })
        ∧ (XdgShellInterfacePrivate.xdg_wm_base_get_xdg_surface
            (run World.init ops) client surface).1.xdgSurfaces
            = (client, (run World.init ops).fresh) :: (run World.init ops).xdgSurfaces) := by
  obtain ⟨h1, h2, _⟩ := run_fresh ops
  generalize run World.init ops = w at h1 h2 ⊢
  cases hb : (w.surfaces surface).buffer
  · refine ⟨?_, ?_, ?_⟩
    · simp [XdgShellInterfacePrivate.xdg_wm_base_get_xdg_surface, hb, errorsOf,
        XdgShellInterfacePrivate.registerXdgSurface, clientFromXdgSurface]
    · intro h; cases h
    · intro _
      refine ⟨?_, (h1 w.fresh (le_refl _)).1, ?_, ?_, ?_⟩
      · simp [XdgShellInterfacePrivate.xdg_wm_base_get_xdg_surface, hb]
      · intro c hc
        exact absurd (h2 _ hc) (Nat.lt_irrefl _)
      · simp [XdgShellInterfacePrivate.xdg_wm_base_get_xdg_surface, hb,
          XdgShellInterfacePrivate.registerXdgSurface, clientFromXdgSurface]
      · simp [XdgShellInterfacePrivate.xdg_wm_base_get_xdg_surface, hb,
          XdgShellInterfacePrivate.registerXdgSurface, clientFromXdgSurface]
  · refine ⟨?_, ?_, ?_⟩
    · simp [XdgShellInterfacePrivate.xdg_wm_base_get_xdg_surface, hb, errorsOf]
    · intro _
      simp [XdgShellInterfacePrivate.xdg_wm_base_get_xdg_surface, hb]
    · intro h; cases h

/-- C4, at a concrete input: the `get_xdg_surface` of scenario S1, on the
bufferless surface 5. -/
theorem get_xdg_surface_contract_witness :
    (XdgShellInterfacePrivate.xdg_wm_base_get_xdg_surface
        (run World.init [Op.xdg_wm_base_bind 1]) 1 5).1.xdgSurfaces = [(1, 0)] :=
  ((get_xdg_surface_contract [Op.xdg_wm_base_bind 1] 1 5).2.2 (by decide)).2.2.2.2

/-- C5, refuted as stated: after two `get_xdg_surface` requests naming the same
bufferless surface 5, neither of which posted an error, the registry holds two
xdg-surfaces of that surface. -/
theorem get_xdg_surface_twice_counterexample :
    runEvents World.init scenarioTwice = []
    ∧ (run World.init scenarioTwice).xdgSurfaces = [(1, 1), (1, 0)]
    ∧ (run World.init scenarioTwice).xdgSurfaceObjects 0 = some { client := 1, surface := 5 }
    ∧ (run World.init scenarioTwice).xdgSurfaceObjects 1 = some { client := 1, surface := 5 } := by
  decide

/-- C5, amended: `get_xdg_surface` on a bufferless surface succeeds every time.
In every reachable state in which the surface has no buffer and already has an
xdg-surface `q`, a further `get_xdg_surface` naming it posts no error and
constructs and registers a second xdg-surface for it, next to `q`. -/
theorem get_xdg_surface_again (ops : List Op) (client : ClientId) (surface : SurfaceId)
    (q : XdgSurfaceId) (xs : XdgSurfaceInterfacePrivate)
    (hbuf : ((run World.init ops).surfaces surface).buffer = false)
    (hq : (run World.init ops).xdgSurfaceObjects q = some xs)
    (hs : xs.surface = surface) :
    (XdgShellInterfacePrivate.xdg_wm_base_get_xdg_surface (run World.init ops) client surface).2
        = []
    ∧ (run World.init ops).fresh ≠ q
    ∧ (XdgShellInterfacePrivate.xdg_wm_base_get_xdg_surface
          (run World.init ops) client surface).1.xdgSurfaceObjects q = some xs
    ∧ (XdgShellInterfacePrivate.xdg_wm_base_get_xdg_surface
          (run World.init ops) client surface).1.xdgSurfaceObjects (run World.init ops).fresh
        = some { client := client, surface := xs.surface }
    ∧ (XdgShellInterfacePrivate.xdg_wm_base_get_xdg_surface
          (run World.init ops) client surface).1.xdgSurfaces
        = (client, (run World.init ops).fresh) :: (run World.init ops).xdgSurfaces := by
  obtain ⟨h1, _, _⟩ := run_fresh ops
  generalize run World.init ops = w at h1 hbuf hq ⊢
  have hne : w.fresh ≠ q := by
    intro h
    have := (h1 q (le_of_eq h)).1
    rw [hq] at this
    cases this
  subst hs
  refine ⟨?_, hne, ?_, ?_, ?_⟩
  · simp [XdgShellInterfacePrivate.xdg_wm_base_get_xdg_surface, hbuf]
  · simp [XdgShellInterfacePrivate.xdg_wm_base_get_xdg_surface, hbuf,
      XdgShellInterfacePrivate.registerXdgSurface, clientFromXdgSurface,
      Function.update_apply, hq, Ne.symm hne]
  · simp [XdgShellInterfacePrivate.xdg_wm_base_get_xdg_surface, hbuf,
      XdgShellInterfacePrivate.registerXdgSurface, clientFromXdgSurface]
  · simp [XdgShellInterfacePrivate.xdg_wm_base_get_xdg_surface, hbuf,
      XdgShellInterfacePrivate.registerXdgSurface, clientFromXdgSurface]

/-- C5 amended, at a concrete input: the second request of the two-request scenario. -/
theorem get_xdg_surface_again_witness :
    (XdgShellInterfacePrivate.xdg_wm_base_get_xdg_surface
        (run World.init (scenarioTwice.take 1)) 1 5).1.xdgSurfaces
      = [(1, 1), (1, 0)] :=
  (get_xdg_surface_again (scenarioTwice.take 1) 1 5 0 { client := 1, surface := 5 }
    (by decide) (by decide) (by decide)).2.2.2.2

/-- C7: `wm_base.destroy` by client `c` posts `defunct_surfaces` exactly when
the registry holds an xdg-surface under `c`; when it does, the whole state is
unchanged (the shell resource stays in the resource map, the registry is as it
was); when it does not, no error is posted, one resource of `c` is released and
the registry, with whatever it holds under other clients, is unchanged. -/
theorem wm_base_destroy_contract (w : World) (c : ClientId) :
    (errorsOf (XdgShellInterfacePrivate.xdg_wm_base_destroy w c).2
        = [ProtocolError.XDG_WM_BASE_ERROR_DEFUNCT_SURFACES]
      ↔ ∃ q, (c, q) ∈ w.xdgSurfaces)
    ∧ ((∃ q, (c, q) ∈ w.xdgSurfaces) →
        XdgShellInterfacePrivate.xdg_wm_base_destroy w c
          = (w, [Event.error ProtocolError.XDG_WM_BASE_ERROR_DEFUNCT_SURFACES]))
    ∧ ((∀ q, (c, q) ∉ w.xdgSurfaces) →
        (XdgShellInterfacePrivate.xdg_wm_base_destroy w c).2 = []
        ∧ (XdgShellInterfacePrivate.xdg_wm_base_destroy w c).1.resourceMap
            = w.resourceMap.erase c
        ∧ (XdgShellInterfacePrivate.xdg_wm_base_destroy w c).1.xdgSurfaces = w.xdgSurfaces) := by
  have key : (w.xdgSurfaces.any (fun e => decide (e.1 = c))) = true
      ↔ ∃ q, (c, q) ∈ w.xdgSurfaces := by
    simp only [List.any_eq_true, decide_eq_true_eq]
    constructor
    · rintro ⟨⟨c', q⟩, hmem, hc⟩
      simp only at hc
      subst hc
      exact ⟨q, hmem⟩
    · rintro ⟨q, hmem⟩
      exact ⟨(c, q), hmem, rfl⟩
  by_cases h : ∃ q, (c, q) ∈ w.xdgSurfaces
  · have hany := key.mpr h
    refine ⟨?_, ?_, ?_⟩
    · simp [XdgShellInterfacePrivate.xdg_wm_base_destroy, hany, errorsOf, h]
    · intro _
      simp [XdgShellInterfacePrivate.xdg_wm_base_destroy, hany]
    · intro hn
      obtain ⟨q, hq⟩ := h
      exact absurd hq (hn q)
  · have hany : (w.xdgSurfaces.any (fun e => decide (e.1 = c))) = false := by
      cases hb : w.xdgSurfaces.any (fun e => decide (e.1 = c))
      · rfl
      · exact absurd (key.mp hb) h
    refine ⟨?_, ?_, ?_⟩
    · simp [XdgShellInterfacePrivate.xdg_wm_base_destroy, hany, errorsOf, h]
    · intro h'
      exact absurd h' h
    · intro _
      simp [XdgShellInterfacePrivate.xdg_wm_base_destroy, hany]

/-- C7, at a concrete input (scenario S5): client 1 has a live xdg-surface and
destroys its shell resource; the error is posted and nothing changes. -/
theorem wm_base_destroy_contract_witness :
    XdgShellInterfacePrivate.xdg_wm_base_destroy (run World.init (scenarioS1.take 2)) 1
      = (run World.init (scenarioS1.take 2),
          [Event.error ProtocolError.XDG_WM_BASE_ERROR_DEFUNCT_SURFACES]) :=
  (wm_base_destroy_contract (run World.init (scenarioS1.take 2)) 1).2.1 ⟨0, by decide⟩

/-! ### Role creation -/

/-- C9: `get_popup` on an xdg-surface whose surface has no role, given a
positioner that is not complete, posts `invalid_positioner` and leaves the
whole state unchanged (no popup is constructed, the role stays unset) and
emits no signal, whether the parent is null or not. -/
theorem get_popup_incomplete_positioner (w : World) (q : XdgSurfaceId)
    (d : XdgSurfaceInterfacePrivate) (parent : Option XdgSurfaceId) (positioner : PositionerId)
    (hlive : w.xdgSurfaceObjects q = some d)
    (hrole : SurfaceRole.get w d.surface = none)
    (hpos : (XdgPositioner.get w positioner).isComplete = false) :
    XdgSurfaceInterfacePrivate.xdg_surface_get_popup w q parent positioner
      = (w, [Event.error ProtocolError.XDG_WM_BASE_ERROR_INVALID_POSITIONER]) := by
  simp [XdgSurfaceInterfacePrivate.xdg_surface_get_popup, hlive, hrole, hpos]

/-- C9, at a concrete input: a positioner with a size but no anchor rectangle,
and a null parent. -/
theorem get_popup_incomplete_positioner_witness :
    XdgSurfaceInterfacePrivate.xdg_surface_get_popup (run World.init scenarioIncomplete) 0 none 1
      = (run World.init scenarioIncomplete,
          [Event.error ProtocolError.XDG_WM_BASE_ERROR_INVALID_POSITIONER]) :=
  get_popup_incomplete_positioner (run World.init scenarioIncomplete) 0
    { client := 1, surface := 5 } none 1 (by decide) (by decide) (by decide)

theorem run_append (w : World) (a b : List Op) : run w (a ++ b) = run (run w a) b := by
  induction a generalizing w with
  | nil => rfl
  | cons op a ih => exact ih (step w op).1

theorem step_fresh_le (w : World) (op : Op) : w.fresh ≤ (step w op).1.fresh := by
  cases op
  all_goals simp only [step, SurfaceInterface.commit, SurfaceRole.commit,
    XdgShellInterfacePrivate.bind, XdgShellInterfacePrivate.xdg_wm_base_destroy,
    XdgShellInterfacePrivate.xdg_wm_base_create_positioner,
    XdgShellInterfacePrivate.xdg_wm_base_get_xdg_surface,
    XdgShellInterfacePrivate.xdg_wm_base_pong, XdgShellInterface.ping,
    XdgShellInterfacePrivate.pingTimerTimeout, XdgShellInterfacePrivate.registerPing,
    XdgShellInterfacePrivate.registerXdgSurface, XdgShellInterfacePrivate.unregisterXdgSurface,
    XdgSurfaceInterfacePrivate.xdg_surface_destroy,
    XdgSurfaceInterfacePrivate.xdg_surface_destroy_resource,
    XdgSurfaceInterfacePrivate.xdg_surface_get_toplevel,
    XdgSurfaceInterfacePrivate.xdg_surface_get_popup, SurfaceRole.attach,
    World.onXdgSurface, World.onToplevel, World.readToplevel, World.onPositioner,
    XdgToplevelInterface.sendConfigure, XdgPopupInterface.sendConfigure,
    XdgPositionerPrivate.xdg_positioner_destroy, clientFromXdgSurface,
    XdgToplevelInterfacePrivate.xdg_toplevel_destroy,
    XdgToplevelInterfacePrivate.xdg_toplevel_destroy_resource,
    XdgPopupInterfacePrivate.xdg_popup_destroy,
    XdgPopupInterfacePrivate.xdg_popup_destroy_resource,
    XdgSurfaceInterfacePrivate.clearToplevel, XdgSurfaceInterfacePrivate.clearPopup,
    SurfaceRole.detach]
  all_goals repeat' split
  all_goals first
    | exact le_refl _
    | exact Nat.le_succ _

theorem clearToplevel_frame (w : World) (q : XdgSurfaceId) (t : ToplevelId) :
    (XdgSurfaceInterfacePrivate.clearToplevel w q t).surfaces = w.surfaces
    ∧ (XdgSurfaceInterfacePrivate.clearToplevel w q t).toplevels = w.toplevels
    ∧ (XdgSurfaceInterfacePrivate.clearToplevel w q t).popups = w.popups
    ∧ (XdgSurfaceInterfacePrivate.clearToplevel w q t).fresh = w.fresh := by
  unfold XdgSurfaceInterfacePrivate.clearToplevel
  split
  · exact ⟨rfl, rfl, rfl, rfl⟩
  · split <;> exact ⟨rfl, rfl, rfl, rfl⟩

theorem clearPopup_frame (w : World) (q : XdgSurfaceId) (p : PopupId) :
    (XdgSurfaceInterfacePrivate.clearPopup w q p).surfaces = w.surfaces
    ∧ (XdgSurfaceInterfacePrivate.clearPopup w q p).toplevels = w.toplevels
    ∧ (XdgSurfaceInterfacePrivate.clearPopup w q p).popups = w.popups
    ∧ (XdgSurfaceInterfacePrivate.clearPopup w q p).fresh = w.fresh := by
  unfold XdgSurfaceInterfacePrivate.clearPopup
  split
  · exact ⟨rfl, rfl, rfl, rfl⟩
  · split <;> exact ⟨rfl, rfl, rfl, rfl⟩

theorem clearToplevel_objects (w : World) (q : XdgSurfaceId) (t : ToplevelId) (x : XdgSurfaceId)
    (xs' : XdgSurfaceInterfacePrivate)
    (h : (XdgSurfaceInterfacePrivate.clearToplevel w q t).xdgSurfaceObjects x = some xs') :
    ∃ xs, w.xdgSurfaceObjects x = some xs ∧ xs'.surface = xs.surface ∧ xs'.popup = xs.popup
      ∧ ((x = q ∧ xs.toplevel = some t ∧ xs'.toplevel = none)
          ∨ (xs' = xs ∧ ¬ (x = q ∧ xs.toplevel = some t))) := by
  unfold XdgSurfaceInterfacePrivate.clearToplevel at h
  split at h
  · rename_i hq
    refine ⟨xs', h, rfl, rfl, Or.inr ⟨rfl, ?_⟩⟩
    rintro ⟨rfl, _⟩
    rw [hq] at h; cases h
  · rename_i xs hq
    split at h
    · rename_i ht
      simp only [Function.update_apply] at h
      split at h
      · rename_i hx
        injection h with h
        subst h; subst hx
        exact ⟨xs, hq, rfl, rfl, Or.inl ⟨rfl, ht, rfl⟩⟩
      · rename_i hx
        exact ⟨xs', h, rfl, rfl, Or.inr ⟨rfl, fun hc => hx hc.1⟩⟩
    · rename_i ht
      refine ⟨xs', h, rfl, rfl, Or.inr ⟨rfl, ?_⟩⟩
      rintro ⟨rfl, h2⟩
      rw [hq] at h
      injection h with h
      subst h
      exact ht h2

theorem clearPopup_objects (w : World) (q : XdgSurfaceId) (p : PopupId) (x : XdgSurfaceId)
    (xs' : XdgSurfaceInterfacePrivate)
    (h : (XdgSurfaceInterfacePrivate.clearPopup w q p).xdgSurfaceObjects x = some xs') :
    ∃ xs, w.xdgSurfaceObjects x = some xs ∧ xs'.surface = xs.surface ∧ xs'.toplevel = xs.toplevel
      ∧ ((x = q ∧ xs.popup = some p ∧ xs'.popup = none)
          ∨ (xs' = xs ∧ ¬ (x = q ∧ xs.popup = some p))) := by
  unfold XdgSurfaceInterfacePrivate.clearPopup at h
  split at h
  · rename_i hq
    refine ⟨xs', h, rfl, rfl, Or.inr ⟨rfl, ?_⟩⟩
    rintro ⟨rfl, _⟩
    rw [hq] at h; cases h
  · rename_i xs hq
    split at h
    · rename_i ht
      simp only [Function.update_apply] at h
      split at h
      · rename_i hx
        injection h with h
        subst h; subst hx
        exact ⟨xs, hq, rfl, rfl, Or.inl ⟨rfl, ht, rfl⟩⟩
      · rename_i hx
        exact ⟨xs', h, rfl, rfl, Or.inr ⟨rfl, fun hc => hx hc.1⟩⟩
    · rename_i ht
      refine ⟨xs', h, rfl, rfl, Or.inr ⟨rfl, ?_⟩⟩
      rintro ⟨rfl, h2⟩
      rw [hq] at h
      injection h with h
      subst h
      exact ht h2

theorem step_roles (w : World) (op : Op) (q : XdgSurfaceId) (xs' : XdgSurfaceInterfacePrivate)
    (hd1 : ∀ t, op ≠ Op.xdg_toplevel_destroy t) (hd2 : ∀ p, op ≠ Op.xdg_popup_destroy p)
    (h : (step w op).1.xdgSurfaceObjects q = some xs') :
    (q = w.fresh ∧ xs'.toplevel = none ∧ xs'.popup = none)
    ∨ (∃ xs, w.xdgSurfaceObjects q = some xs ∧ xs'.surface = xs.surface
        ∧ xs'.toplevel = xs.toplevel ∧ xs'.popup = xs.popup)
    ∨ (∃ xs, w.xdgSurfaceObjects q = some xs ∧ xs'.surface = xs.surface
        ∧ SurfaceRole.get w xs.surface = none
        ∧ ((xs'.toplevel.isSome = true ∧ xs'.popup = xs.popup)
            ∨ (xs'.toplevel = xs.toplevel ∧ xs'.popup.isSome = true))
        ∧ (SurfaceRole.get (step w op).1 xs.surface).isSome = true) := by
  cases op
  case xdg_toplevel_destroy t => exact absurd rfl (hd1 t)
  case xdg_popup_destroy p => exact absurd rfl (hd2 p)
  all_goals clear hd1 hd2
  all_goals simp only [step, SurfaceInterface.commit, SurfaceRole.commit,
    XdgShellInterfacePrivate.bind, XdgShellInterfacePrivate.xdg_wm_base_destroy,
    XdgShellInterfacePrivate.xdg_wm_base_create_positioner,
    XdgShellInterfacePrivate.xdg_wm_base_get_xdg_surface,
    XdgShellInterfacePrivate.xdg_wm_base_pong, XdgShellInterface.ping,
    XdgShellInterfacePrivate.pingTimerTimeout, XdgShellInterfacePrivate.registerPing,
    XdgShellInterfacePrivate.registerXdgSurface, XdgShellInterfacePrivate.unregisterXdgSurface,
    XdgSurfaceInterfacePrivate.xdg_surface_destroy,
    XdgSurfaceInterfacePrivate.xdg_surface_destroy_resource,
    XdgSurfaceInterfacePrivate.xdg_surface_get_toplevel,
    XdgSurfaceInterfacePrivate.xdg_surface_get_popup, SurfaceRole.attach,
    World.onXdgSurface, World.onToplevel, World.readToplevel, World.onPositioner,
    XdgToplevelInterface.sendConfigure, XdgPopupInterface.sendConfigure,
    XdgPositionerPrivate.xdg_positioner_destroy, clientFromXdgSurface,
    XdgToplevelInterfacePrivate.xdg_toplevel_destroy,
    XdgToplevelInterfacePrivate.xdg_toplevel_destroy_resource,
    XdgPopupInterfacePrivate.xdg_popup_destroy,
    XdgPopupInterfacePrivate.xdg_popup_destroy_resource,
    XdgSurfaceInterfacePrivate.clearToplevel, XdgSurfaceInterfacePrivate.clearPopup,
    SurfaceRole.detach] at h
  all_goals repeat' split at h
  all_goals try simp only [Function.update_apply] at h
  all_goals repeat' split at h
  all_goals first
    | (cases h; done)
    | (right; left; exact ⟨_, h, rfl, rfl, rfl⟩)
    | (injection h with h; subst h; subst_vars
       first
        | (left; exact ⟨rfl, rfl, rfl⟩)
        | (right; left; refine ⟨_, by assumption, ?_⟩
           first
            | exact ⟨rfl, rfl, rfl⟩
            | exact ⟨(toplevel_commit_frame _ _ _).2.1, (toplevel_commit_frame _ _ _).2.2.1,
                (toplevel_commit_frame _ _ _).2.2.2.1⟩
            | exact ⟨(popup_commit_frame _ _ _).2.1, (popup_commit_frame _ _ _).2.2.1,
                (popup_commit_frame _ _ _).2.2.2.1⟩
            | exact ⟨(set_window_geometry_frame _ _ _ _ _).2.1,
                (set_window_geometry_frame _ _ _ _ _).2.2.1,
                (set_window_geometry_frame _ _ _ _ _).2.2.2.1⟩)
        | (right; right; refine ⟨_, by assumption, ?_, ?_, ?_, ?_⟩
           · rfl
           · exact Option.not_isSome_iff_eq_none.mp (by assumption)
           · first
              | exact Or.inl ⟨rfl, rfl⟩
              | exact Or.inr ⟨rfl, rfl⟩
           · simp_all [step, XdgSurfaceInterfacePrivate.xdg_surface_get_toplevel,
               XdgSurfaceInterfacePrivate.xdg_surface_get_popup, SurfaceRole.get,
               SurfaceRole.attach]))

theorem step_surface_role (w : World) (op : Op) (s : SurfaceId) (r : SurfaceRole)
    (h : SurfaceRole.get w s = some r) (hd : op ≠ r.destroy) :
    SurfaceRole.get (step w op).1 s = some r := by
  unfold SurfaceRole.get at h ⊢
  cases op
  case xdg_toplevel_destroy t =>
    have hr : r ≠ SurfaceRole.toplevel t := by
      rintro rfl
      exact hd rfl
    simp only [step, XdgToplevelInterfacePrivate.xdg_toplevel_destroy,
      XdgToplevelInterfacePrivate.xdg_toplevel_destroy_resource]
    split
    · exact h
    · rw [(clearToplevel_frame _ _ _).1]
      simp only [SurfaceRole.detach]
      rw [if_neg (by rw [h]; simpa using hr)]
      exact h
  case xdg_popup_destroy p =>
    have hr : r ≠ SurfaceRole.popup p := by
      rintro rfl
      exact hd rfl
    simp only [step, XdgPopupInterfacePrivate.xdg_popup_destroy,
      XdgPopupInterfacePrivate.xdg_popup_destroy_resource]
    split
    · exact h
    · rw [(clearPopup_frame _ _ _).1]
      simp only [SurfaceRole.detach]
      rw [if_neg (by rw [h]; simpa using hr)]
      exact h
  all_goals clear hd
  all_goals simp only [step, SurfaceInterface.commit, SurfaceRole.commit,
    XdgShellInterfacePrivate.bind, XdgShellInterfacePrivate.xdg_wm_base_destroy,
    XdgShellInterfacePrivate.xdg_wm_base_create_positioner,
    XdgShellInterfacePrivate.xdg_wm_base_get_xdg_surface,
    XdgShellInterfacePrivate.xdg_wm_base_pong, XdgShellInterface.ping,
    XdgShellInterfacePrivate.pingTimerTimeout, XdgShellInterfacePrivate.registerPing,
    XdgShellInterfacePrivate.registerXdgSurface, XdgShellInterfacePrivate.unregisterXdgSurface,
    XdgSurfaceInterfacePrivate.xdg_surface_destroy,
    XdgSurfaceInterfacePrivate.xdg_surface_destroy_resource,
    XdgSurfaceInterfacePrivate.xdg_surface_get_toplevel,
    XdgSurfaceInterfacePrivate.xdg_surface_get_popup, SurfaceRole.attach, SurfaceRole.get,
    World.onXdgSurface, World.onToplevel, World.readToplevel, World.onPositioner,
    XdgToplevelInterface.sendConfigure, XdgPopupInterface.sendConfigure,
    XdgPositionerPrivate.xdg_positioner_destroy, clientFromXdgSurface,
    XdgToplevelInterfacePrivate.xdg_toplevel_destroy,
    XdgToplevelInterfacePrivate.xdg_toplevel_destroy_resource,
    XdgPopupInterfacePrivate.xdg_popup_destroy,
    XdgPopupInterfacePrivate.xdg_popup_destroy_resource,
    XdgSurfaceInterfacePrivate.clearToplevel, XdgSurfaceInterfacePrivate.clearPopup,
    SurfaceRole.detach]
  all_goals repeat' split
  all_goals first
    | exact h
    | (simp only [Function.update_apply]
       split
       · subst_vars; first | exact h | simp_all
       · exact h)


theorem step_xdgSurface_surface (w : World) (op : Op) (q : XdgSurfaceId)
    (xs' : XdgSurfaceInterfacePrivate) (h : (step w op).1.xdgSurfaceObjects q = some xs') :
    q = w.fresh ∨ ∃ xs, w.xdgSurfaceObjects q = some xs ∧ xs'.surface = xs.surface := by
  by_cases hd1 : ∃ t, op = Op.xdg_toplevel_destroy t
  · obtain ⟨t, rfl⟩ := hd1
    simp only [step, XdgToplevelInterfacePrivate.xdg_toplevel_destroy,
      XdgToplevelInterfacePrivate.xdg_toplevel_destroy_resource] at h
    split at h
    · exact Or.inr ⟨xs', h, rfl⟩
    · obtain ⟨xs, hx, hs, _⟩ := clearToplevel_objects _ _ _ _ _ h
      exact Or.inr ⟨xs, hx, hs⟩
  by_cases hd2 : ∃ p, op = Op.xdg_popup_destroy p
  · obtain ⟨p, rfl⟩ := hd2
    simp only [step, XdgPopupInterfacePrivate.xdg_popup_destroy,
      XdgPopupInterfacePrivate.xdg_popup_destroy_resource] at h
    split at h
    · exact Or.inr ⟨xs', h, rfl⟩
    · obtain ⟨xs, hx, hs, _⟩ := clearPopup_objects _ _ _ _ _ h
      exact Or.inr ⟨xs, hx, hs⟩
  rcases step_roles w op q xs' (fun t ht => hd1 ⟨t, ht⟩) (fun p hp => hd2 ⟨p, hp⟩) h with
    ⟨hq, _⟩ | ⟨xs, hx, hs, _⟩ | ⟨xs, hx, hs, _⟩
  · exact Or.inl hq
  · exact Or.inr ⟨xs, hx, hs⟩
  · exact Or.inr ⟨xs, hx, hs⟩

theorem toplevel_requests_xdgSurface (w : World) (q : ToplevelId)
    (d : XdgToplevelInterfacePrivate) :
    (∀ parent, (XdgToplevelInterfacePrivate.xdg_toplevel_set_parent w q d parent).1.xdgSurface
        = d.xdgSurface)
    ∧ (∀ title, (XdgToplevelInterfacePrivate.xdg_toplevel_set_title q d title).1.xdgSurface
        = d.xdgSurface)
    ∧ (∀ app_id, (XdgToplevelInterfacePrivate.xdg_toplevel_set_app_id q d app_id).1.xdgSurface
        = d.xdgSurface)
    ∧ (∀ width height,
        (XdgToplevelInterfacePrivate.xdg_toplevel_set_max_size d width height).1.xdgSurface
          = d.xdgSurface)
    ∧ (∀ width height,
        (XdgToplevelInterfacePrivate.xdg_toplevel_set_min_size d width height).1.xdgSurface
          = d.xdgSurface)
    ∧ (∀ xs, (XdgToplevelInterfacePrivate.commit q d xs).1.xdgSurface = d.xdgSurface) := by
  refine ⟨?_, ?_, ?_, ?_, ?_, ?_⟩
  · intro parent
    unfold XdgToplevelInterfacePrivate.xdg_toplevel_set_parent
    dsimp only
    split <;> rfl
  · intro title
    unfold XdgToplevelInterfacePrivate.xdg_toplevel_set_title
    split <;> rfl
  · intro app_id
    unfold XdgToplevelInterfacePrivate.xdg_toplevel_set_app_id
    split <;> rfl
  · intro width height
    unfold XdgToplevelInterfacePrivate.xdg_toplevel_set_max_size
    split <;> rfl
  · intro width height
    unfold XdgToplevelInterfacePrivate.xdg_toplevel_set_min_size
    split <;> rfl
  · intro xs
    unfold XdgToplevelInterfacePrivate.commit
    dsimp only
    split
    · split <;> split <;> rfl
    · rfl

theorem step_toplevel_live (w : World) (op : Op) (t : ToplevelId)
    (d : XdgToplevelInterfacePrivate) (h : w.toplevels t = some d)
    (hd : op ≠ Op.xdg_toplevel_destroy t) (hf : t ≠ w.fresh) :
    ∃ d', (step w op).1.toplevels t = some d' ∧ d'.xdgSurface = d.xdgSurface := by
  cases op
  case xdg_toplevel_destroy t' =>
    have ht : t ≠ t' := by
      rintro rfl
      exact hd rfl
    simp only [step, XdgToplevelInterfacePrivate.xdg_toplevel_destroy,
      XdgToplevelInterfacePrivate.xdg_toplevel_destroy_resource]
    split
    · exact ⟨d, h, rfl⟩
    · rw [(clearToplevel_frame _ _ _).2.1]
      simp only [SurfaceRole.detach, Function.update_apply, if_neg ht]
      exact ⟨d, h, rfl⟩
  case xdg_popup_destroy p =>
    simp only [step, XdgPopupInterfacePrivate.xdg_popup_destroy,
      XdgPopupInterfacePrivate.xdg_popup_destroy_resource]
    split
    · exact ⟨d, h, rfl⟩
    · rw [(clearPopup_frame _ _ _).2.1]
      exact ⟨d, h, rfl⟩
  all_goals clear hd
  all_goals simp only [step, SurfaceInterface.commit, SurfaceRole.commit,
    XdgShellInterfacePrivate.bind, XdgShellInterfacePrivate.xdg_wm_base_destroy,
    XdgShellInterfacePrivate.xdg_wm_base_create_positioner,
    XdgShellInterfacePrivate.xdg_wm_base_get_xdg_surface,
    XdgShellInterfacePrivate.xdg_wm_base_pong, XdgShellInterface.ping,
    XdgShellInterfacePrivate.pingTimerTimeout, XdgShellInterfacePrivate.registerPing,
    XdgShellInterfacePrivate.registerXdgSurface, XdgShellInterfacePrivate.unregisterXdgSurface,
    XdgSurfaceInterfacePrivate.xdg_surface_destroy,
    XdgSurfaceInterfacePrivate.xdg_surface_destroy_resource,
    XdgSurfaceInterfacePrivate.xdg_surface_get_toplevel,
    XdgSurfaceInterfacePrivate.xdg_surface_get_popup, SurfaceRole.attach,
    World.onXdgSurface, World.onToplevel, World.readToplevel, World.onPositioner,
    XdgToplevelInterface.sendConfigure, XdgPopupInterface.sendConfigure,
    XdgPositionerPrivate.xdg_positioner_destroy, clientFromXdgSurface]
  all_goals repeat' split
  all_goals first
    | exact ⟨d, h, rfl⟩
    | (simp only [Function.update_apply]
       split
       · subst_vars
         first
          | exact absurd rfl hf
          | (have hx := toplevel_requests_xdgSurface w
             simp_all only [Option.some.injEq, exists_eq_left']
             done)
          | (have hx := toplevel_requests_xdgSurface w
             simp_all
             first
              | done
              | exact (hx 0 _).2.2.2.1 _ _
              | exact (hx 0 _).2.2.2.2.1 _ _)
       · exact ⟨d, h, rfl⟩)

theorem step_popup_live (w : World) (op : Op) (p : PopupId)
    (d : XdgPopupInterfacePrivate) (h : w.popups p = some d)
    (hd : op ≠ Op.xdg_popup_destroy p) (hf : p ≠ w.fresh) :
    (step w op).1.popups p = some d := by
  cases op
  case xdg_toplevel_destroy t =>
    simp only [step, XdgToplevelInterfacePrivate.xdg_toplevel_destroy,
      XdgToplevelInterfacePrivate.xdg_toplevel_destroy_resource]
    split
    · exact h
    · rw [(clearToplevel_frame _ _ _).2.2.1]
      exact h
  case xdg_popup_destroy p' =>
    have hp : p ≠ p' := by
      rintro rfl
      exact hd rfl
    simp only [step, XdgPopupInterfacePrivate.xdg_popup_destroy,
      XdgPopupInterfacePrivate.xdg_popup_destroy_resource]
    split
    · exact h
    · rw [(clearPopup_frame _ _ _).2.2.1]
      simp only [SurfaceRole.detach, Function.update_apply, if_neg hp]
      exact h
  all_goals clear hd
  all_goals simp only [step, SurfaceInterface.commit, SurfaceRole.commit,
    XdgShellInterfacePrivate.bind, XdgShellInterfacePrivate.xdg_wm_base_destroy,
    XdgShellInterfacePrivate.xdg_wm_base_create_positioner,
    XdgShellInterfacePrivate.xdg_wm_base_get_xdg_surface,
    XdgShellInterfacePrivate.xdg_wm_base_pong, XdgShellInterface.ping,
    XdgShellInterfacePrivate.pingTimerTimeout, XdgShellInterfacePrivate.registerPing,
    XdgShellInterfacePrivate.registerXdgSurface, XdgShellInterfacePrivate.unregisterXdgSurface,
    XdgSurfaceInterfacePrivate.xdg_surface_destroy,
    XdgSurfaceInterfacePrivate.xdg_surface_destroy_resource,
    XdgSurfaceInterfacePrivate.xdg_surface_get_toplevel,
    XdgSurfaceInterfacePrivate.xdg_surface_get_popup, SurfaceRole.attach,
    World.onXdgSurface, World.onToplevel, World.readToplevel, World.onPositioner,
    XdgToplevelInterface.sendConfigure, XdgPopupInterface.sendConfigure,
    XdgPositionerPrivate.xdg_positioner_destroy, clientFromXdgSurface]
  all_goals repeat' split
  all_goals first
    | exact h
    | (simp only [Function.update_apply]
       split
       · subst_vars
         exact absurd rfl hf
       · exact h)

theorem destroy_toplevel_ne (t : ToplevelId) (p : PopupId) :
    SurfaceRole.toplevel t ≠ SurfaceRole.popup p := by
  intro h; cases h

/-- The links between xdg-surfaces, role objects and surfaces survive a step
that creates or destroys no role object. -/
theorem rolesLinked_of_frame (w w' : World) (hw : w.RolesLinked)
    (hs : ∀ s, SurfaceRole.get w' s = SurfaceRole.get w s)
    (hx : ∀ q xs', w'.xdgSurfaceObjects q = some xs' →
      (xs'.toplevel = none ∧ xs'.popup = none)
      ∨ ∃ xs, w.xdgSurfaceObjects q = some xs ∧ xs'.surface = xs.surface
          ∧ xs'.toplevel = xs.toplevel ∧ xs'.popup = xs.popup)
    (ht : ∀ t d, w.toplevels t = some d →
      ∃ d', w'.toplevels t = some d' ∧ d'.xdgSurface = d.xdgSurface)
    (hp : ∀ p d, w.popups p = some d → w'.popups p = some d) :
    w'.RolesLinked := by
  intro q xs' h
  rcases hx q xs' h with ⟨h1, h2⟩ | ⟨xs, hq, hsurf, h1, h2⟩
  · rw [h1, h2]
    exact ⟨fun t ht => (by cases ht), fun p hp => (by cases hp)⟩
  · obtain ⟨ha, hb⟩ := hw q xs hq
    rw [h1, h2, hsurf, hs]
    refine ⟨fun t htt => ?_, fun p hpp => ?_⟩
    · obtain ⟨hr, d, hd, hdq⟩ := ha t htt
      obtain ⟨d', hd', hdq'⟩ := ht t d hd
      exact ⟨hr, d', hd', hdq'.trans hdq⟩
    · obtain ⟨hr, d, hd, hdq⟩ := hb p hpp
      exact ⟨hr, d, hp p d hd, hdq⟩

theorem get_toplevel_rolesLinked (w : World) (q0 : XdgSurfaceId) (hf : w.Fresh)
    (hw : w.RolesLinked) :
    (XdgSurfaceInterfacePrivate.xdg_surface_get_toplevel w q0).1.RolesLinked := by
  unfold XdgSurfaceInterfacePrivate.xdg_surface_get_toplevel
  split
  · exact hw
  · rename_i d0 hq0
    split
    · exact hw
    · rename_i hrole
      have hnone : SurfaceRole.get w d0.surface = none :=
        Option.not_isSome_iff_eq_none.mp hrole
      have hfr : w.toplevels w.fresh = none := (hf.1 w.fresh (le_refl _)).2.1
      intro q xs' h
      simp only [SurfaceRole.attach, Function.update_apply] at h
      split at h
      · rename_i hq
        subst hq
        injection h with h
        subst h
        refine ⟨fun t ht => ?_, fun p hp => ?_⟩
        · injection ht with ht
          subst ht
          refine ⟨?_, { xdgSurface := q }, ?_, rfl⟩
          · simp [SurfaceRole.get, SurfaceRole.attach]
          · simp [SurfaceRole.attach]
        · have h1 := ((hw q d0 hq0).2 p hp).1
          rw [hnone] at h1
          cases h1
      · obtain ⟨ha, hb⟩ := hw q xs' h
        refine ⟨fun t ht => ?_, fun p hp => ?_⟩
        · obtain ⟨hr, d, hd, hdq⟩ := ha t ht
          have hsne : xs'.surface ≠ d0.surface := by
            intro e
            rw [e, hnone] at hr
            cases hr
          have htne : t ≠ w.fresh := by
            intro e
            rw [e, hfr] at hd
            cases hd
          refine ⟨?_, d, ?_, hdq⟩
          · simp only [SurfaceRole.get, SurfaceRole.attach, Function.update_apply, if_neg hsne]
            exact hr
          · simp only [SurfaceRole.attach, Function.update_apply, if_neg htne]
            exact hd
        · obtain ⟨hr, d, hd, hdq⟩ := hb p hp
          have hsne : xs'.surface ≠ d0.surface := by
            intro e
            rw [e, hnone] at hr
            cases hr
          refine ⟨?_, d, hd, hdq⟩
          simp only [SurfaceRole.get, SurfaceRole.attach, Function.update_apply, if_neg hsne]
          exact hr

theorem get_popup_rolesLinked (w : World) (q0 : XdgSurfaceId) (parent : Option XdgSurfaceId)
    (positioner : PositionerId) (hf : w.Fresh) (hw : w.RolesLinked) :
    (XdgSurfaceInterfacePrivate.xdg_surface_get_popup w q0 parent positioner).1.RolesLinked := by
  unfold XdgSurfaceInterfacePrivate.xdg_surface_get_popup
  split
  · exact hw
  · rename_i d0 hq0
    split
    · exact hw
    · rename_i hrole
      dsimp only
      split
      · exact hw
      · split
        · exact hw
        · rename_i parentSurface hpar
          have hnone : SurfaceRole.get w d0.surface = none :=
            Option.not_isSome_iff_eq_none.mp hrole
          have hfr : w.popups w.fresh = none := (hf.1 w.fresh (le_refl _)).2.2.1
          intro q xs' h
          simp only [SurfaceRole.attach, Function.update_apply] at h
          split at h
          · rename_i hq
            subst hq
            injection h with h
            subst h
            refine ⟨fun t ht => ?_, fun p hp => ?_⟩
            · have h1 := ((hw q d0 hq0).1 t ht).1
              rw [hnone] at h1
              cases h1
            · injection hp with hp
              subst hp
              refine ⟨?_, ⟨q, parentSurface, XdgPositioner.get w positioner⟩, ?_, rfl⟩
              · simp [SurfaceRole.get, SurfaceRole.attach]
              · simp [SurfaceRole.attach]
          · obtain ⟨ha, hb⟩ := hw q xs' h
            refine ⟨fun t ht => ?_, fun p hp => ?_⟩
            · obtain ⟨hr, d, hd, hdq⟩ := ha t ht
              have hsne : xs'.surface ≠ d0.surface := by
                intro e
                rw [e, hnone] at hr
                cases hr
              refine ⟨?_, d, hd, hdq⟩
              simp only [SurfaceRole.get, SurfaceRole.attach, Function.update_apply, if_neg hsne]
              exact hr
            · obtain ⟨hr, d, hd, hdq⟩ := hb p hp
              have hsne : xs'.surface ≠ d0.surface := by
                intro e
                rw [e, hnone] at hr
                cases hr
              have hpne : p ≠ w.fresh := by
                intro e
                rw [e, hfr] at hd
                cases hd
              refine ⟨?_, d, ?_, hdq⟩
              · simp only [SurfaceRole.get, SurfaceRole.attach, Function.update_apply,
                  if_neg hsne]
                exact hr
              · simp only [SurfaceRole.attach, Function.update_apply, if_neg hpne]
                exact hd

theorem toplevel_destroy_rolesLinked (w : World) (t : ToplevelId) (hw : w.RolesLinked) :
    (XdgToplevelInterfacePrivate.xdg_toplevel_destroy_resource w t).RolesLinked := by
  unfold XdgToplevelInterfacePrivate.xdg_toplevel_destroy_resource
  split
  · exact hw
  · rename_i d hd
    intro q xs' h
    obtain ⟨xs, hx, hs, hp, hcase⟩ := clearToplevel_objects _ _ _ _ _ h
    have hx' : w.xdgSurfaceObjects q = some xs := hx
    obtain ⟨ha, hb⟩ := hw q xs hx'
    simp only [SurfaceRole.get, (clearToplevel_frame _ _ _).1, (clearToplevel_frame _ _ _).2.1,
      (clearToplevel_frame _ _ _).2.2.1]
    refine ⟨fun t' ht' => ?_, fun p hpp => ?_⟩
    · rcases hcase with ⟨_, _, hnone⟩ | ⟨heq, hne⟩
      · rw [hnone] at ht'
        cases ht'
      · subst heq
        obtain ⟨hr, d', hd', hdq⟩ := ha t' ht'
        have htt : t' ≠ t := by
          rintro rfl
          rw [hd] at hd'
          injection hd' with e
          subst e
          exact hne ⟨hdq.symm, ht'⟩
        refine ⟨?_, d', ?_, hdq⟩
        · simp only [SurfaceRole.detach]
          unfold SurfaceRole.get at hr
          rw [if_neg (by rw [hr]; simpa using htt)]
          exact hr
        · simp only [SurfaceRole.detach, Function.update_apply, if_neg htt]
          exact hd'
    · rw [hp] at hpp
      rw [hs]
      obtain ⟨hr, d', hd', hdq⟩ := hb p hpp
      refine ⟨?_, d', hd', hdq⟩
      simp only [SurfaceRole.detach]
      unfold SurfaceRole.get at hr
      rw [if_neg (by rw [hr]; simp)]
      exact hr

theorem popup_destroy_rolesLinked (w : World) (p : PopupId) (hw : w.RolesLinked) :
    (XdgPopupInterfacePrivate.xdg_popup_destroy_resource w p).RolesLinked := by
  unfold XdgPopupInterfacePrivate.xdg_popup_destroy_resource
  split
  · exact hw
  · rename_i d hd
    intro q xs' h
    obtain ⟨xs, hx, hs, ht, hcase⟩ := clearPopup_objects _ _ _ _ _ h
    have hx' : w.xdgSurfaceObjects q = some xs := hx
    obtain ⟨ha, hb⟩ := hw q xs hx'
    simp only [SurfaceRole.get, (clearPopup_frame _ _ _).1, (clearPopup_frame _ _ _).2.1,
      (clearPopup_frame _ _ _).2.2.1]
    refine ⟨fun t htt => ?_, fun p' hp' => ?_⟩
    · rw [ht] at htt
      rw [hs]
      obtain ⟨hr, d', hd', hdq⟩ := ha t htt
      refine ⟨?_, d', hd', hdq⟩
      simp only [SurfaceRole.detach]
      unfold SurfaceRole.get at hr
      rw [if_neg (by rw [hr]; simp)]
      exact hr
    · rcases hcase with ⟨_, _, hnone⟩ | ⟨heq, hne⟩
      · rw [hnone] at hp'
        cases hp'
      · subst heq
        obtain ⟨hr, d', hd', hdq⟩ := hb p' hp'
        have hpp : p' ≠ p := by
          rintro rfl
          rw [hd] at hd'
          injection hd' with e
          subst e
          exact hne ⟨hdq.symm, hp'⟩
        refine ⟨?_, d', ?_, hdq⟩
        · simp only [SurfaceRole.detach]
          unfold SurfaceRole.get at hr
          rw [if_neg (by rw [hr]; simpa using hpp)]
          exact hr
        · simp only [SurfaceRole.detach, Function.update_apply, if_neg hpp]
          exact hd'

theorem step_role_unchanged (w : World) (op : Op) (s : SurfaceId)
    (h1 : ∀ q, op ≠ Op.xdg_surface_get_toplevel q)
    (h2 : ∀ q parent positioner, op ≠ Op.xdg_surface_get_popup q parent positioner)
    (h3 : ∀ t, op ≠ Op.xdg_toplevel_destroy t) (h4 : ∀ p, op ≠ Op.xdg_popup_destroy p) :
    SurfaceRole.get (step w op).1 s = SurfaceRole.get w s := by
  unfold SurfaceRole.get
  cases op
  case xdg_surface_get_toplevel q => exact absurd rfl (h1 q)
  case xdg_surface_get_popup q parent positioner => exact absurd rfl (h2 q parent positioner)
  case xdg_toplevel_destroy t => exact absurd rfl (h3 t)
  case xdg_popup_destroy p => exact absurd rfl (h4 p)
  all_goals clear h1 h2 h3 h4
  all_goals simp only [step, SurfaceInterface.commit, SurfaceRole.commit,
    XdgShellInterfacePrivate.bind, XdgShellInterfacePrivate.xdg_wm_base_destroy,
    XdgShellInterfacePrivate.xdg_wm_base_create_positioner,
    XdgShellInterfacePrivate.xdg_wm_base_get_xdg_surface,
    XdgShellInterfacePrivate.xdg_wm_base_pong, XdgShellInterface.ping,
    XdgShellInterfacePrivate.pingTimerTimeout, XdgShellInterfacePrivate.registerPing,
    XdgShellInterfacePrivate.registerXdgSurface, XdgShellInterfacePrivate.unregisterXdgSurface,
    XdgSurfaceInterfacePrivate.xdg_surface_destroy,
    XdgSurfaceInterfacePrivate.xdg_surface_destroy_resource,
    World.onXdgSurface, World.onToplevel, World.readToplevel, World.onPositioner,
    XdgToplevelInterface.sendConfigure, XdgPopupInterface.sendConfigure,
    XdgPositionerPrivate.xdg_positioner_destroy, clientFromXdgSurface]
  all_goals repeat' split
  all_goals first
    | rfl
    | (simp only [Function.update_apply]
       split
       · subst_vars; rfl
       · rfl)

theorem step_rolesLinked (w : World) (op : Op) (hf : w.Fresh) (hw : w.RolesLinked) :
    (step w op).1.RolesLinked := by
  by_cases h1 : ∃ q, op = Op.xdg_surface_get_toplevel q
  · obtain ⟨q, rfl⟩ := h1
    exact get_toplevel_rolesLinked w q hf hw
  by_cases h2 : ∃ q parent positioner, op = Op.xdg_surface_get_popup q parent positioner
  · obtain ⟨q, parent, positioner, rfl⟩ := h2
    exact get_popup_rolesLinked w q parent positioner hf hw
  by_cases h3 : ∃ t, op = Op.xdg_toplevel_destroy t
  · obtain ⟨t, rfl⟩ := h3
    exact toplevel_destroy_rolesLinked w t hw
  by_cases h4 : ∃ p, op = Op.xdg_popup_destroy p
  · obtain ⟨p, rfl⟩ := h4
    exact popup_destroy_rolesLinked w p hw
  have hs : ∀ s, SurfaceRole.get (step w op).1 s = SurfaceRole.get w s :=
    fun s => step_role_unchanged w op s (fun q hq => h1 ⟨q, hq⟩)
      (fun q a b hq => h2 ⟨q, a, b, hq⟩) (fun t ht => h3 ⟨t, ht⟩) (fun p hp => h4 ⟨p, hp⟩)
  refine rolesLinked_of_frame w (step w op).1 hw hs ?_ ?_ ?_
  · intro q xs' h
    rcases step_roles w op q xs' (fun t ht => h3 ⟨t, ht⟩) (fun p hp => h4 ⟨p, hp⟩) h with
      ⟨_, ht, hp⟩ | ⟨xs, hx, hsf, ht, hp⟩ | ⟨xs, hx, hsf, hnone, _, hnew⟩
    · exact Or.inl ⟨ht, hp⟩
    · exact Or.inr ⟨xs, hx, hsf, ht, hp⟩
    · rw [hs, hnone] at hnew
      cases hnew
  · intro t d hd
    refine step_toplevel_live w op t d hd (fun ht => h3 ⟨t, ht⟩) ?_
    intro e
    rw [e, (hf.1 w.fresh (le_refl _)).2.1] at hd
    cases hd
  · intro p d hd
    refine step_popup_live w op p d hd (fun hp => h4 ⟨p, hp⟩) ?_
    intro e
    rw [e, (hf.1 w.fresh (le_refl _)).2.2.1] at hd
    cases hd

theorem run_rolesLinked (ops : List Op) : (run World.init ops).RolesLinked := by
  have key : ∀ (l : List Op) (w : World), w.Fresh → w.RolesLinked → (run w l).RolesLinked := by
    intro l
    induction l with
    | nil => intro w _ hw; exact hw
    | cons op l ih =>
      intro w hf hw
      exact ih _ (step_fresh w op hf) (step_rolesLinked w op hf hw)
  exact key ops World.init init_fresh (by intro q xs h; cases h)

theorem role_request_success (w : World) (q : XdgSurfaceId) (first : Op) (role : SurfaceRole)
    (hfirst : first = Op.xdg_surface_get_toplevel q
      ∨ ∃ parent positioner, first = Op.xdg_surface_get_popup q parent positioner)
    (hs : (step w first).2 = [Event.signal role.created]) :
    ∃ xs, (step w first).1.xdgSurfaceObjects q = some xs
      ∧ SurfaceRole.get (step w first).1 xs.surface = some role := by
  rcases hfirst with rfl | ⟨parent, positioner, rfl⟩
  · simp only [step, XdgSurfaceInterfacePrivate.xdg_surface_get_toplevel] at hs ⊢
    cases hx : w.xdgSurfaceObjects q with
    | none => simp [hx] at hs
    | some d =>
      simp only [hx] at hs ⊢
      split at hs
      · simp at hs
      · rename_i hrole
        simp only [List.cons.injEq, Event.signal.injEq, and_true] at hs
        cases role with
        | toplevel t =>
          simp only [SurfaceRole.created, Signal.toplevelCreated.injEq] at hs
          subst hs
          simp only [SurfaceRole.get] at hrole ⊢
          simp [hrole, SurfaceRole.attach]
        | popup p => simp [SurfaceRole.created] at hs
  · simp only [step, XdgSurfaceInterfacePrivate.xdg_surface_get_popup] at hs ⊢
    cases hx : w.xdgSurfaceObjects q with
    | none => simp [hx] at hs
    | some d =>
      simp only [hx] at hs ⊢
      split at hs
      · simp at hs
      · rename_i hrole
        split at hs
        · simp at hs
        · rename_i hpos
          split at hs
          · simp at hs
          · rename_i r hpar
            simp only [List.cons.injEq, Event.signal.injEq, and_true] at hs
            cases role with
            | toplevel t => simp [SurfaceRole.created] at hs
            | popup p =>
              simp only [SurfaceRole.created, Signal.popupCreated.injEq] at hs
              subst hs
              simp only [SurfaceRole.get] at hrole ⊢
              simp [hrole, hpos, hpar, SurfaceRole.attach]

theorem surface_role_run (s : SurfaceId) (r : SurfaceRole) (ops : List Op) :
    ∀ w : World, SurfaceRole.get w s = some r → r.destroy ∉ ops →
      SurfaceRole.get (run w ops) s = some r := by
  induction ops with
  | nil => intro w h _; exact h
  | cons op ops ih =>
    intro w h hd
    refine ih (step w op).1 (step_surface_role w op s r h ?_) ?_
    · intro e
      exact hd (e ▸ List.mem_cons_self _ _)
    · intro hm
      exact hd (List.mem_cons_of_mem _ hm)

theorem xdgSurface_surface_run (q : XdgSurfaceId) (ops : List Op) :
    ∀ w : World, q < w.fresh →
      ∀ xs', (run w ops).xdgSurfaceObjects q = some xs' →
        ∃ xs, w.xdgSurfaceObjects q = some xs ∧ xs'.surface = xs.surface := by
  induction ops with
  | nil => intro w _ xs' h; exact ⟨xs', h, rfl⟩
  | cons op ops ih =>
    intro w hq xs' h
    obtain ⟨xs1, h1, hs1⟩ := ih (step w op).1 (lt_of_lt_of_le hq (step_fresh_le w op)) xs' h
    rcases step_xdgSurface_surface w op q xs1 h1 with hq' | ⟨xs, hx, hs⟩
    · exact absurd hq (by rw [hq']; exact Nat.lt_irrefl _)
    · exact ⟨xs, hx, hs1.trans hs⟩

theorem role_request_rejected (w : World) (q : XdgSurfaceId) (xs : XdgSurfaceInterfacePrivate)
    (hx : w.xdgSurfaceObjects q = some xs) (hr : (SurfaceRole.get w xs.surface).isSome = true) :
    step w (Op.xdg_surface_get_toplevel q)
        = (w, [Event.error ProtocolError.XDG_SURFACE_ERROR_ALREADY_CONSTRUCTED])
    ∧ ∀ parent positioner, step w (Op.xdg_surface_get_popup q parent positioner)
        = (w, [Event.error ProtocolError.XDG_SURFACE_ERROR_ALREADY_CONSTRUCTED]) := by
  refine ⟨?_, fun parent positioner => ?_⟩
  · simp [step, XdgSurfaceInterfacePrivate.xdg_surface_get_toplevel, hx, hr]
  · simp [step, XdgSurfaceInterfacePrivate.xdg_surface_get_popup, hx, hr]

theorem fromXYWH_isValid (x y width height : Int) (hx : isInt32 x) (hy : isInt32 y)
    (hw : isInt32 width) (hh : isInt32 height) (h1 : 1 ≤ width) (h2 : 1 ≤ height)
    (hb : x + width - 1 ≤ INT_MAX ∧ y + height - 1 ≤ INT_MAX) :
    (QRect.fromXYWH x y width height).isValid = true := by
  unfold isInt32 INT_MIN INT_MAX at *
  simp only [QRect.fromXYWH, QRect.isValid, wrapInt32, Bool.and_eq_true, decide_eq_true_eq]
  obtain ⟨a, b⟩ := hb
  constructor <;> omega

theorem request_size (d : XdgPositionerData) (r : PositionerRequest) :
    (XdgPositionerPrivate.request d r).1.size
      = match r with
        | PositionerRequest.set_size width height =>
          if 1 ≤ width ∧ 1 ≤ height then ⟨width, height⟩ else d.size
        | _ => d.size := by
  cases r with
  | set_size width height =>
    simp only [XdgPositionerPrivate.request, XdgPositionerPrivate.xdg_positioner_set_size]
    by_cases h1 : width < 1 <;> by_cases h2 : height < 1 <;> simp [h1, h2]
    all_goals first
      | rw [if_neg (by omega)]
      | rw [if_pos (by omega)]
  | set_anchor_rect x y width height =>
    simp only [XdgPositionerPrivate.request, XdgPositionerPrivate.xdg_positioner_set_anchor_rect,
      apply_ite Prod.fst, apply_ite XdgPositionerData.size, ite_self]
  | set_anchor anchor =>
    simp only [XdgPositionerPrivate.request, XdgPositionerPrivate.xdg_positioner_set_anchor,
      apply_ite Prod.fst, apply_ite XdgPositionerData.size, ite_self]
  | set_gravity gravity =>
    simp only [XdgPositionerPrivate.request, XdgPositionerPrivate.xdg_positioner_set_gravity,
      apply_ite Prod.fst, apply_ite XdgPositionerData.size, ite_self]
  | set_constraint_adjustment mask =>
    simp only [XdgPositionerPrivate.request,
      XdgPositionerPrivate.xdg_positioner_set_constraint_adjustment]
  | set_offset x y =>
    simp only [XdgPositionerPrivate.request, XdgPositionerPrivate.xdg_positioner_set_offset]

theorem request_anchorRect (d : XdgPositionerData) (r : PositionerRequest) :
    (XdgPositionerPrivate.request d r).1.anchorRect
      = match r with
        | PositionerRequest.set_anchor_rect x y width height =>
          if 1 ≤ width ∧ 1 ≤ height then QRect.fromXYWH x y width height else d.anchorRect
        | _ => d.anchorRect := by
  cases r with
  | set_size width height =>
    simp only [XdgPositionerPrivate.request, XdgPositionerPrivate.xdg_positioner_set_size,
      apply_ite Prod.fst, apply_ite XdgPositionerData.anchorRect, ite_self]
  | set_anchor_rect x y width height =>
    simp only [XdgPositionerPrivate.request, XdgPositionerPrivate.xdg_positioner_set_anchor_rect]
    by_cases h1 : width < 1 <;> by_cases h2 : height < 1 <;> simp [h1, h2]
    all_goals first
      | rw [if_neg (by omega)]
      | rw [if_pos (by omega)]
  | set_anchor anchor =>
    simp only [XdgPositionerPrivate.request, XdgPositionerPrivate.xdg_positioner_set_anchor,
      apply_ite Prod.fst, apply_ite XdgPositionerData.anchorRect, ite_self]
  | set_gravity gravity =>
    simp only [XdgPositionerPrivate.request, XdgPositionerPrivate.xdg_positioner_set_gravity,
      apply_ite Prod.fst, apply_ite XdgPositionerData.anchorRect, ite_self]
  | set_constraint_adjustment mask =>
    simp only [XdgPositionerPrivate.request,
      XdgPositionerPrivate.xdg_positioner_set_constraint_adjustment]
  | set_offset x y =>
    simp only [XdgPositionerPrivate.request, XdgPositionerPrivate.xdg_positioner_set_offset]

theorem requests_size_isValid (reqs : List PositionerRequest) :
    ∀ d : XdgPositionerData,
      (XdgPositionerPrivate.requests d reqs).size.isValid = true
        ↔ (d.size.isValid = true
            ∨ ∃ width height, PositionerRequest.set_size width height ∈ reqs
                ∧ 1 ≤ width ∧ 1 ≤ height) := by
  induction reqs with
  | nil => intro d; simp [XdgPositionerPrivate.requests]
  | cons r rs ih =>
    intro d
    rw [XdgPositionerPrivate.requests, ih, request_size]
    cases r with
    | set_size width height =>
      by_cases hacc : 1 ≤ width ∧ 1 ≤ height
      · simp only [hacc, and_self, if_true]
        have hv : QSize.isValid ⟨width, height⟩ = true := by
          simp only [QSize.isValid, Bool.and_eq_true, decide_eq_true_eq]
          constructor <;> omega
        constructor
        · intro _
          exact Or.inr ⟨width, height, List.mem_cons_self _ _, hacc.1, hacc.2⟩
        · intro _
          exact Or.inl hv
      · simp only [hacc, if_false]
        constructor
        · rintro (h | ⟨a, b, hm, h1, h2⟩)
          · exact Or.inl h
          · exact Or.inr ⟨a, b, List.mem_cons_of_mem _ hm, h1, h2⟩
        · rintro (h | ⟨a, b, hm, h1, h2⟩)
          · exact Or.inl h
          · rcases List.mem_cons.mp hm with heq | hm'
            · injection heq with e1 e2
              subst e1; subst e2
              exact absurd ⟨h1, h2⟩ hacc
            · exact Or.inr ⟨a, b, hm', h1, h2⟩
    | _ =>
      simp only [List.mem_cons]
      constructor
      · rintro (h | ⟨a, b, hm, h1, h2⟩)
        · exact Or.inl h
        · exact Or.inr ⟨a, b, Or.inr hm, h1, h2⟩
      · rintro (h | ⟨a, b, hm, h1, h2⟩)
        · exact Or.inl h
        · rcases hm with heq | hm'
          · cases heq
          · exact Or.inr ⟨a, b, hm', h1, h2⟩

theorem requests_anchorRect (reqs : List PositionerRequest) :
    ∀ d : XdgPositionerData,
      (XdgPositionerPrivate.requests d reqs).anchorRect
        = match lastAnchorRect reqs with
          | some v => QRect.fromXYWH v.1 v.2.1 v.2.2.1 v.2.2.2
          | none => d.anchorRect := by
  induction reqs with
  | nil => intro d; rfl
  | cons r rs ih =>
    intro d
    rw [XdgPositionerPrivate.requests, ih, request_anchorRect]
    simp only [lastAnchorRect]
    cases hl : lastAnchorRect rs with
    | some v => rfl
    | none =>
      cases r with
      | set_anchor_rect x y width height =>
        by_cases hacc : 1 ≤ width ∧ 1 ≤ height
        · simp [hacc]
        · simp [hacc]
      | _ => rfl

theorem lastAnchorRect_mem (reqs : List PositionerRequest) (v : Int × Int × Int × Int)
    (h : lastAnchorRect reqs = some v) :
    PositionerRequest.set_anchor_rect v.1 v.2.1 v.2.2.1 v.2.2.2 ∈ reqs
      ∧ 1 ≤ v.2.2.1 ∧ 1 ≤ v.2.2.2 := by
  induction reqs with
  | nil => cases h
  | cons r rs ih =>
    simp only [lastAnchorRect] at h
    cases hl : lastAnchorRect rs with
    | some u =>
      rw [hl] at h
      injection h with h
      subst h
      obtain ⟨hm, h1, h2⟩ := ih hl
      exact ⟨List.mem_cons_of_mem _ hm, h1, h2⟩
    | none =>
      rw [hl] at h
      cases r with
      | set_anchor_rect x y width height =>
        simp only at h
        split at h
        · rename_i hacc
          injection h with h
          subst h
          exact ⟨List.mem_cons_self _ _, hacc.1, hacc.2⟩
        · cases h
      | _ => cases h

theorem lastAnchorRect_none (reqs : List PositionerRequest) (h : lastAnchorRect reqs = none)
    (x y width height : Int) (hm : PositionerRequest.set_anchor_rect x y width height ∈ reqs) :
    ¬ (1 ≤ width ∧ 1 ≤ height) := by
  induction reqs with
  | nil => cases hm
  | cons r rs ih =>
    simp only [lastAnchorRect] at h
    cases hl : lastAnchorRect rs with
    | some u => rw [hl] at h; cases h
    | none =>
      rw [hl] at h
      rcases List.mem_cons.mp hm with heq | hm'
      · subst heq
        simp only at h
        split at h
        · cases h
        · assumption
      · exact ih hl hm'

theorem step_ping_frame (w : World) (op : Op) (h1 : ∀ x, op ≠ Op.ping x)
    (h2 : ∀ s, op ≠ Op.xdg_wm_base_pong s) (h3 : ∀ t, op ≠ Op.pingTimerTimeout t) :
    (step w op).1.timers = w.timers ∧ (step w op).1.pings = w.pings := by
  cases op
  case ping x => exact absurd rfl (h1 x)
  case xdg_wm_base_pong s => exact absurd rfl (h2 s)
  case pingTimerTimeout t => exact absurd rfl (h3 t)
  all_goals clear h1 h2 h3
  all_goals simp only [step, SurfaceInterface.commit, SurfaceRole.commit,
    XdgShellInterfacePrivate.bind, XdgShellInterfacePrivate.xdg_wm_base_destroy,
    XdgShellInterfacePrivate.xdg_wm_base_create_positioner,
    XdgShellInterfacePrivate.xdg_wm_base_get_xdg_surface,
    XdgShellInterfacePrivate.registerXdgSurface, XdgShellInterfacePrivate.unregisterXdgSurface,
    XdgSurfaceInterfacePrivate.xdg_surface_destroy,
    XdgSurfaceInterfacePrivate.xdg_surface_destroy_resource,
    XdgSurfaceInterfacePrivate.xdg_surface_get_toplevel,
    XdgSurfaceInterfacePrivate.xdg_surface_get_popup, SurfaceRole.attach,
    World.onXdgSurface, World.onToplevel, World.readToplevel, World.onPositioner,
    XdgToplevelInterface.sendConfigure, XdgPopupInterface.sendConfigure,
    XdgPositionerPrivate.xdg_positioner_destroy, clientFromXdgSurface,
    XdgToplevelInterfacePrivate.xdg_toplevel_destroy,
    XdgToplevelInterfacePrivate.xdg_toplevel_destroy_resource,
    XdgPopupInterfacePrivate.xdg_popup_destroy,
    XdgPopupInterfacePrivate.xdg_popup_destroy_resource,
    XdgSurfaceInterfacePrivate.clearToplevel, XdgSurfaceInterfacePrivate.clearPopup,
    SurfaceRole.detach]
  all_goals repeat' split
  all_goals first
    | exact ⟨rfl, rfl⟩
    | exact ⟨trivial, trivial⟩

theorem pingSignalsOf_nil (s : Nat) : pingSignalsOf s [] = [] := rfl

theorem pingSignalsOf_error (s : Nat) (c : ProtocolError) :
    pingSignalsOf s [Event.error c] = [] := rfl

theorem pingSignalsOf_append (s : Nat) (a b : List Event) :
    pingSignalsOf s (a ++ b) = pingSignalsOf s a ++ pingSignalsOf s b := by
  simp [pingSignalsOf, signalsOf_append]

theorem pingSignalsOf_xdgSurface_commit (s : Nat) (q : XdgSurfaceId)
    (d : XdgSurfaceInterfacePrivate) :
    pingSignalsOf s (XdgSurfaceInterfacePrivate.commit q d).2 = [] := by
  rw [xdgSurface_commit_snd]; split <;> rfl

theorem pingSignalsOf_toplevel_commit (s : Nat) (t : ToplevelId)
    (d : XdgToplevelInterfacePrivate) (xs : XdgSurfaceInterfacePrivate) :
    pingSignalsOf s (XdgToplevelInterfacePrivate.commit t d xs).2.2 = [] := by
  cases hc : xs.isConfigured
  · rw [toplevel_commit_unconfigured t d xs hc]; rfl
  · rw [(toplevel_commit_configured t d xs hc).2.2, pingSignalsOf_append, pingSignalsOf_append,
      pingSignalsOf_xdgSurface_commit]
    split <;> split <;> rfl

theorem pingSignalsOf_popup_commit (s : Nat) (p : PopupId)
    (d : XdgPopupInterfacePrivate) (xs : XdgSurfaceInterfacePrivate) :
    pingSignalsOf s (XdgPopupInterfacePrivate.commit p d xs).2 = [] := by
  cases hc : xs.isConfigured
  · rw [popup_commit_unconfigured p d xs hc]; rfl
  · simp only [XdgPopupInterfacePrivate.commit, hc, if_true, pingSignalsOf_xdgSurface_commit]

theorem pingSignalsOf_set_window_geometry (s : Nat) (d : XdgSurfaceInterfacePrivate)
    (x y width height : Int) :
    pingSignalsOf s
      (XdgSurfaceInterfacePrivate.xdg_surface_set_window_geometry d x y width height).2 = [] := by
  unfold XdgSurfaceInterfacePrivate.xdg_surface_set_window_geometry
  split
  · rfl
  · split <;> rfl

theorem pingSignalsOf_set_parent (s : Nat) (w : World) (q : ToplevelId)
    (d : XdgToplevelInterfacePrivate) (parent : Option ToplevelId) :
    pingSignalsOf s (XdgToplevelInterfacePrivate.xdg_toplevel_set_parent w q d parent).2 = [] := by
  unfold XdgToplevelInterfacePrivate.xdg_toplevel_set_parent
  dsimp only
  split <;> rfl

theorem pingSignalsOf_set_title (s : Nat) (q : ToplevelId)
    (d : XdgToplevelInterfacePrivate) (title : String) :
    pingSignalsOf s (XdgToplevelInterfacePrivate.xdg_toplevel_set_title q d title).2 = [] := by
  unfold XdgToplevelInterfacePrivate.xdg_toplevel_set_title
  split <;> rfl

theorem pingSignalsOf_set_app_id (s : Nat) (q : ToplevelId)
    (d : XdgToplevelInterfacePrivate) (app_id : String) :
    pingSignalsOf s (XdgToplevelInterfacePrivate.xdg_toplevel_set_app_id q d app_id).2 = [] := by
  unfold XdgToplevelInterfacePrivate.xdg_toplevel_set_app_id
  split <;> rfl

theorem pingSignalsOf_show_window_menu (s : Nat) (q : ToplevelId)
    (xs : XdgSurfaceInterfacePrivate) (seat : Option SeatId) (serial : Nat) (x y : Int) :
    pingSignalsOf s
      (XdgToplevelInterfacePrivate.xdg_toplevel_show_window_menu q xs seat serial x y) = [] := by
  unfold XdgToplevelInterfacePrivate.xdg_toplevel_show_window_menu
  split <;> rfl

theorem pingSignalsOf_move (s : Nat) (q : ToplevelId)
    (xs : XdgSurfaceInterfacePrivate) (seat : Option SeatId) (serial : Nat) :
    pingSignalsOf s (XdgToplevelInterfacePrivate.xdg_toplevel_move q xs seat serial) = [] := by
  unfold XdgToplevelInterfacePrivate.xdg_toplevel_move
  split <;> rfl

theorem pingSignalsOf_resize (s : Nat) (q : ToplevelId)
    (xs : XdgSurfaceInterfacePrivate) (seat : Option SeatId) (serial : Nat) (edges : Nat) :
    pingSignalsOf s (XdgToplevelInterfacePrivate.xdg_toplevel_resize q xs seat serial edges)
      = [] := by
  unfold XdgToplevelInterfacePrivate.xdg_toplevel_resize
  split
  · rfl
  · simp only [pingSignalsOf, signalsOf, List.filter, reduceCtorEq, decide_False, Bool.or_self]

theorem pingSignalsOf_set_max_size (s : Nat) (d : XdgToplevelInterfacePrivate)
    (width height : Int) :
    pingSignalsOf s (XdgToplevelInterfacePrivate.xdg_toplevel_set_max_size d width height).2
      = [] := by
  unfold XdgToplevelInterfacePrivate.xdg_toplevel_set_max_size
  split <;> rfl

theorem pingSignalsOf_set_min_size (s : Nat) (d : XdgToplevelInterfacePrivate)
    (width height : Int) :
    pingSignalsOf s (XdgToplevelInterfacePrivate.xdg_toplevel_set_min_size d width height).2
      = [] := by
  unfold XdgToplevelInterfacePrivate.xdg_toplevel_set_min_size
  split <;> rfl

theorem pingSignalsOf_positioner (s : Nat) (data : XdgPositionerData) (r : PositionerRequest) :
    pingSignalsOf s (XdgPositionerPrivate.request data r).2 = [] := by
  cases r with
  | set_size width height =>
    simp only [XdgPositionerPrivate.request, XdgPositionerPrivate.xdg_positioner_set_size]
    split <;> rfl
  | set_anchor_rect x y width height =>
    simp only [XdgPositionerPrivate.request, XdgPositionerPrivate.xdg_positioner_set_anchor_rect]
    split <;> rfl
  | set_anchor anchor =>
    simp only [XdgPositionerPrivate.request, XdgPositionerPrivate.xdg_positioner_set_anchor,
      apply_ite Prod.snd, apply_ite (pingSignalsOf s), pingSignalsOf_nil, pingSignalsOf_error,
      ite_self]
  | set_gravity gravity =>
    simp only [XdgPositionerPrivate.request, XdgPositionerPrivate.xdg_positioner_set_gravity,
      apply_ite Prod.snd, apply_ite (pingSignalsOf s), pingSignalsOf_nil, pingSignalsOf_error,
      ite_self]
  | set_constraint_adjustment mask =>
    simp only [XdgPositionerPrivate.request,
      XdgPositionerPrivate.xdg_positioner_set_constraint_adjustment, pingSignalsOf_nil]
  | set_offset x y =>
    simp only [XdgPositionerPrivate.request, XdgPositionerPrivate.xdg_positioner_set_offset,
      pingSignalsOf_nil]

theorem pingSignalsOf_onXdgSurface (s : Nat) (w : World) (q : XdgSurfaceId)
    (f : XdgSurfaceInterfacePrivate → XdgSurfaceInterfacePrivate × List Event)
    (hf : ∀ d, pingSignalsOf s (f d).2 = []) : pingSignalsOf s (w.onXdgSurface q f).2 = [] := by
  unfold World.onXdgSurface
  split
  · rfl
  · exact hf _

theorem pingSignalsOf_onToplevel (s : Nat) (w : World) (q : ToplevelId)
    (f : XdgToplevelInterfacePrivate → XdgToplevelInterfacePrivate × List Event)
    (hf : ∀ d, pingSignalsOf s (f d).2 = []) : pingSignalsOf s (w.onToplevel q f).2 = [] := by
  unfold World.onToplevel
  split
  · rfl
  · exact hf _

theorem pingSignalsOf_readToplevel (s : Nat) (w : World) (q : ToplevelId)
    (f : XdgSurfaceInterfacePrivate → List Event)
    (hf : ∀ xs, pingSignalsOf s (f xs) = []) : pingSignalsOf s (w.readToplevel q f).2 = [] := by
  unfold World.readToplevel
  split
  · rfl
  · split
    · rfl
    · exact hf _

theorem pingSignalsOf_onPositioner (s : Nat) (w : World) (resource : PositionerId)
    (f : XdgPositionerData → XdgPositionerData × List Event)
    (hf : ∀ d, pingSignalsOf s (f d).2 = []) :
    pingSignalsOf s (w.onPositioner resource f).2 = [] := by
  unfold World.onPositioner
  split
  · rfl
  · exact hf _

theorem pingSignalsOf_surface_commit (s : Nat) (w : World) (surface : SurfaceId) :
    pingSignalsOf s (SurfaceInterface.commit w surface).2 = [] := by
  unfold SurfaceInterface.commit
  split
  · rfl
  · rename_i role _
    unfold SurfaceRole.commit
    cases role with
    | toplevel t =>
      dsimp only
      split
      · rfl
      · split
        · rfl
        · exact pingSignalsOf_toplevel_commit _ _ _ _
    | popup p =>
      dsimp only
      split
      · rfl
      · split
        · rfl
        · exact pingSignalsOf_popup_commit _ _ _ _

theorem step_ping_signals (w : World) (op : Op)
    (h2 : ∀ s, op ≠ Op.xdg_wm_base_pong s) (h3 : ∀ t, op ≠ Op.pingTimerTimeout t) (s : Nat) :
    pingSignalsOf s (step w op).2 = [] := by
  cases op with
  | xdg_wm_base_pong s => exact absurd rfl (h2 s)
  | pingTimerTimeout t => exact absurd rfl (h3 t)
  | surface_set_buffer surface buffer => rfl
  | surface_commit surface => exact pingSignalsOf_surface_commit s w surface
  | xdg_wm_base_bind client => rfl
  | xdg_wm_base_destroy client =>
    simp only [step, XdgShellInterfacePrivate.xdg_wm_base_destroy]
    split <;> rfl
  | xdg_wm_base_create_positioner client => rfl
  | xdg_wm_base_get_xdg_surface client surface =>
    simp only [step, XdgShellInterfacePrivate.xdg_wm_base_get_xdg_surface]
    split <;> rfl
  | ping surface =>
    simp only [step, XdgShellInterface.ping]
    split
    · rfl
    · split <;> rfl
  | xdg_surface_destroy q =>
    simp only [step, XdgSurfaceInterfacePrivate.xdg_surface_destroy]
    split
    · rfl
    · dsimp only
      split <;> rfl
  | xdg_surface_get_toplevel q =>
    simp only [step, XdgSurfaceInterfacePrivate.xdg_surface_get_toplevel]
    split
    · rfl
    · split <;> rfl
  | xdg_surface_get_popup q parent positioner =>
    simp only [step, XdgSurfaceInterfacePrivate.xdg_surface_get_popup]
    split
    · rfl
    · split
      · rfl
      · split
        · rfl
        · split <;> rfl
  | xdg_surface_set_window_geometry q x y width height =>
    exact pingSignalsOf_onXdgSurface s w q _
      (fun d => pingSignalsOf_set_window_geometry s d x y width height)
  | xdg_surface_ack_configure q serial =>
    exact pingSignalsOf_onXdgSurface s w q _ (fun _ => rfl)
  | xdg_toplevel_set_parent q parent =>
    exact pingSignalsOf_onToplevel s w q _ (fun d => pingSignalsOf_set_parent s w q d parent)
  | xdg_toplevel_set_title q title =>
    exact pingSignalsOf_onToplevel s w q _ (fun d => pingSignalsOf_set_title s q d title)
  | xdg_toplevel_set_app_id q app_id =>
    exact pingSignalsOf_onToplevel s w q _ (fun d => pingSignalsOf_set_app_id s q d app_id)
  | xdg_toplevel_show_window_menu q seat serial x y =>
    exact pingSignalsOf_readToplevel s w q _
      (fun xs => pingSignalsOf_show_window_menu s q xs seat serial x y)
  | xdg_toplevel_move q seat serial =>
    exact pingSignalsOf_readToplevel s w q _ (fun xs => pingSignalsOf_move s q xs seat serial)
  | xdg_toplevel_resize q seat serial edges =>
    exact pingSignalsOf_readToplevel s w q _
      (fun xs => pingSignalsOf_resize s q xs seat serial edges)
  | xdg_toplevel_set_max_size q width height =>
    exact pingSignalsOf_onToplevel s w q _
      (fun d => pingSignalsOf_set_max_size s d width height)
  | xdg_toplevel_set_min_size q width height =>
    exact pingSignalsOf_onToplevel s w q _
      (fun d => pingSignalsOf_set_min_size s d width height)
  | xdg_toplevel_set_maximized q => exact pingSignalsOf_onToplevel s w q _ (fun _ => rfl)
  | xdg_toplevel_unset_maximized q => exact pingSignalsOf_onToplevel s w q _ (fun _ => rfl)
  | xdg_toplevel_set_fullscreen q output => exact pingSignalsOf_onToplevel s w q _ (fun _ => rfl)
  | xdg_toplevel_unset_fullscreen q => exact pingSignalsOf_onToplevel s w q _ (fun _ => rfl)
  | xdg_toplevel_set_minimized q => exact pingSignalsOf_onToplevel s w q _ (fun _ => rfl)
  | toplevelSendConfigure q size states =>
    simp only [step, XdgToplevelInterface.sendConfigure]
    split
    · rfl
    · split <;> rfl
  | toplevelSendClose q => exact pingSignalsOf_onToplevel s w q _ (fun _ => rfl)
  | xdg_popup_grab q seat serial =>
    simp only [step]
    split <;> rfl
  | popupSendConfigure q rect =>
    simp only [step, XdgPopupInterface.sendConfigure]
    split
    · rfl
    · split <;> rfl
  | popupSendPopupDone q =>
    simp only [step]
    split <;> rfl
  | xdg_positioner_destroy resource => rfl
  | xdg_toplevel_destroy q => rfl
  | xdg_popup_destroy q => rfl
  | xdg_positioner_set_size resource width height =>
    exact pingSignalsOf_onPositioner s w resource _
      (fun d => pingSignalsOf_positioner s d (PositionerRequest.set_size width height))
  | xdg_positioner_set_anchor_rect resource x y width height =>
    exact pingSignalsOf_onPositioner s w resource _
      (fun d => pingSignalsOf_positioner s d (PositionerRequest.set_anchor_rect x y width height))
  | xdg_positioner_set_anchor resource anchor =>
    exact pingSignalsOf_onPositioner s w resource _
      (fun d => pingSignalsOf_positioner s d (PositionerRequest.set_anchor anchor))
  | xdg_positioner_set_gravity resource gravity =>
    exact pingSignalsOf_onPositioner s w resource _
      (fun d => pingSignalsOf_positioner s d (PositionerRequest.set_gravity gravity))
  | xdg_positioner_set_constraint_adjustment resource mask =>
    exact pingSignalsOf_onPositioner s w resource _
      (fun d => pingSignalsOf_positioner s d (PositionerRequest.set_constraint_adjustment mask))
  | xdg_positioner_set_offset resource x y =>
    exact pingSignalsOf_onPositioner s w resource _
      (fun d => pingSignalsOf_positioner s d (PositionerRequest.set_offset x y))

theorem pingPhase_frame (s : Nat) (t : TimerId) (k : Nat) (w w' : World)
    (h : PingPhase s t k w) (ht : w'.timers = w.timers) (hp : w'.pings = w.pings)
    (hf : w.fresh ≤ w'.fresh) : PingPhase s t k w' := by
  obtain ⟨h1, h2, h3, h4, h5⟩ := h
  refine ⟨?_, ?_, ?_, ?_, ?_⟩
  · rw [hp]; exact h1
  · rw [ht]; exact h2
  · rw [ht]; exact h3
  · rw [hp]; exact h4
  · exact lt_of_lt_of_le h5 hf

theorem wrapInt32_one : wrapInt32 1 = 1 := by decide

theorem wrapInt32_two : wrapInt32 2 = 2 := by decide

theorem pingPhase_tick_self (s : Nat) (t : TimerId) (k : Nat) (w : World) (hk : k ≤ 2)
    (h : PingPhase s t k w) :
    PingPhase s t (min 2 (k + 1)) (step w (Op.pingTimerTimeout t)).1
      ∧ (step w (Op.pingTimerTimeout t)).2 = pingTickEvents s k := by
  obtain ⟨h1, h2, h3, h4, h5⟩ := h
  have hk3 : k = 0 ∨ k = 1 ∨ k = 2 := by omega
  rcases hk3 with rfl | rfl | rfl
  · simp only [Nat.lt_irrefl, if_true, Nat.zero_lt_succ, Nat.zero_lt_two, Nat.cast_zero] at h1 h2
    simp only [step, XdgShellInterfacePrivate.pingTimerTimeout, h2, pingTickEvents, zero_add,
      wrapInt32_one, if_true]
    refine ⟨⟨?_, ?_, ?_, ?_, ?_⟩, ?_⟩
    · simpa using h1
    · simp
    · intro t' tm ht' hne
      simp only [Function.update_apply, if_neg hne] at ht'
      exact h3 t' tm ht' hne
    · simpa using h4
    · simpa using h5
    · trivial
  · simp only [Nat.one_lt_two, if_true, Nat.cast_one] at h1 h2
    have h21 : (2 : Int) ≠ 1 := by decide
    simp only [step, XdgShellInterfacePrivate.pingTimerTimeout, h2, pingTickEvents,
      one_add_one_eq_two, wrapInt32_two, h21, if_false, h1]
    refine ⟨⟨?_, ?_, ?_, ?_, ?_⟩, ?_⟩
    · simp
    · simp
    · intro t' tm ht' hne
      simp only [Function.update_apply, if_neg hne] at ht'
      exact h3 t' tm ht' hne
    · intro s' hs'
      simp only [Function.update_apply] at hs'
      split at hs'
      · cases hs'
      · exact h4 s' hs'
    · exact h5
    · simp
  · simp only [Nat.lt_irrefl, if_false] at h1 h2
    simp only [step, XdgShellInterfacePrivate.pingTimerTimeout, h2, pingTickEvents]
    refine ⟨⟨?_, ?_, h3, h4, h5⟩, ?_⟩
    · simpa using h1
    · simpa using h2
    · simp

theorem pingSignalsOf_single (s : Nat) (sig : Signal)
    (h1 : sig ≠ Signal.pingDelayed s) (h2 : sig ≠ Signal.pingTimeout s)
    (h3 : sig ≠ Signal.pongReceived s) : pingSignalsOf s [Event.signal sig] = [] := by
  simp [pingSignalsOf, signalsOf, h1, h2, h3]

theorem pingPhase_tick_other (s : Nat) (t t' : TimerId) (k : Nat) (w : World)
    (hne : t' ≠ t) (h : PingPhase s t k w) :
    PingPhase s t k (step w (Op.pingTimerTimeout t')).1
      ∧ pingSignalsOf s (step w (Op.pingTimerTimeout t')).2 = [] := by
  obtain ⟨h1, h2, h3, h4, h5⟩ := h
  simp only [step, XdgShellInterfacePrivate.pingTimerTimeout]
  cases htm : w.timers t' with
  | none => exact ⟨⟨h1, h2, h3, h4, h5⟩, rfl⟩
  | some tm =>
    have hser : tm.serial ≠ s := h3 t' tm htm hne
    have hser' : s ≠ tm.serial := fun e => hser e.symm
    have hne' : t ≠ t' := fun e => hne e.symm
    dsimp only
    split
    · refine ⟨⟨h1, ?_, ?_, h4, h5⟩, ?_⟩
      · simp only [Function.update_apply, if_neg hne']; exact h2
      · intro u um hu hut
        simp only [Function.update_apply] at hu
        split at hu
        · injection hu with hu; subst hu; exact hser
        · exact h3 u um hu hut
      · exact pingSignalsOf_single s _ (by simp [hser]) (by simp) (by simp)
    · cases htk : w.pings tm.serial with
      | none =>
        dsimp only
        refine ⟨⟨?_, ?_, ?_, ?_, h5⟩, ?_⟩
        · simp only [Function.update_apply, if_neg hser']; exact h1
        · simp only [Function.update_apply, if_neg hne']; exact h2
        · intro u um hu hut
          simp only [Function.update_apply] at hu
          split at hu
          · injection hu with hu; subst hu; exact hser
          · exact h3 u um hu hut
        · intro s' hs'
          simp only [Function.update_apply] at hs'
          split at hs'
          · cases hs'
          · exact h4 s' hs'
        · exact pingSignalsOf_single s _ (by simp) (by simp [hser]) (by simp)
      | some u0 =>
        have hu0 : t ≠ u0 := by
          intro e
          subst e
          exact hser (h4 _ htk)
        dsimp only
        refine ⟨⟨?_, ?_, ?_, ?_, h5⟩, ?_⟩
        · simp only [Function.update_apply, if_neg hser']; exact h1
        · simp only [Function.update_apply, if_neg hne', if_neg hu0]; exact h2
        · intro u um hu hut
          simp only [Function.update_apply] at hu
          split at hu
          · cases hu
          · split at hu
            · injection hu with hu; subst hu; exact hser
            · exact h3 u um hu hut
        · intro s' hs'
          simp only [Function.update_apply] at hs'
          split at hs'
          · cases hs'
          · exact h4 s' hs'
        · exact pingSignalsOf_single s _ (by simp) (by simp [hser]) (by simp)

theorem pingPhase_pong (s s' : Nat) (t : TimerId) (k : Nat) (w : World)
    (hne : s' ≠ s) (h : PingPhase s t k w) :
    PingPhase s t k (step w (Op.xdg_wm_base_pong s')).1
      ∧ pingSignalsOf s (step w (Op.xdg_wm_base_pong s')).2 = [] := by
  obtain ⟨h1, h2, h3, h4, h5⟩ := h
  simp only [step, XdgShellInterfacePrivate.xdg_wm_base_pong]
  cases hp : w.pings s' with
  | none => exact ⟨⟨h1, h2, h3, h4, h5⟩, rfl⟩
  | some u0 =>
    have hu0 : t ≠ u0 := by
      intro e
      subst e
      exact hne (h4 _ hp)
    have hne' : s ≠ s' := fun e => hne e.symm
    dsimp only
    refine ⟨⟨?_, ?_, ?_, ?_, h5⟩, ?_⟩
    · simp only [Function.update_apply, if_neg hne']; exact h1
    · simp only [Function.update_apply, if_neg hu0]; exact h2
    · intro u um hu hut
      simp only [Function.update_apply] at hu
      split at hu
      · cases hu
      · exact h3 u um hu hut
    · intro s'' hs''
      simp only [Function.update_apply] at hs''
      split at hs''
      · cases hs''
      · exact h4 s'' hs''
    · exact pingSignalsOf_single s _ (by simp) (by simp) (by simp [hne])

theorem pingPhase_ping (s : Nat) (t : TimerId) (k : Nat) (w : World) (x : XdgSurfaceId)
    (hser : w.nextSerial ≠ s) (h : PingPhase s t k w) :
    PingPhase s t k (step w (Op.ping x)).1
      ∧ pingSignalsOf s (step w (Op.ping x)).2 = [] := by
  obtain ⟨h1, h2, h3, h4, h5⟩ := h
  have hser' : s ≠ w.nextSerial := fun e => hser e.symm
  have hf : t ≠ w.fresh := Nat.ne_of_lt h5
  simp only [step, XdgShellInterface.ping]
  split
  · exact ⟨⟨h1, h2, h3, h4, h5⟩, rfl⟩
  · split
    · simp only [XdgShellInterfacePrivate.registerPing]
      refine ⟨⟨?_, ?_, ?_, ?_, ?_⟩, rfl⟩
      · simp only [Function.update_apply, if_neg hser']; exact h1
      · simp only [Function.update_apply, if_neg hf]; exact h2
      · intro u um hu hut
        simp only [Function.update_apply] at hu
        split at hu
        · injection hu with hu; subst hu; exact hser
        · exact h3 u um hu hut
      · intro s' hs'
        simp only [Function.update_apply] at hs'
        split at hs'
        · injection hs' with hs'
          exact absurd hs'.symm hf
        · exact h4 s' hs'
      · exact Nat.lt_succ_of_lt h5
    · exact ⟨⟨h1, h2, h3, h4, h5⟩, rfl⟩

theorem pingPhase_step (s : Nat) (t : TimerId) (k : Nat) (w : World) (op : Op) (hk : k ≤ 2)
    (h : PingPhase s t k w) (hpong : op ≠ Op.xdg_wm_base_pong s) (hser : w.nextSerial ≠ s) :
    (op = Op.pingTimerTimeout t →
        PingPhase s t (min 2 (k + 1)) (step w op).1 ∧ (step w op).2 = pingTickEvents s k)
    ∧ (op ≠ Op.pingTimerTimeout t →
        PingPhase s t k (step w op).1 ∧ pingSignalsOf s (step w op).2 = []) := by
  refine ⟨?_, ?_⟩
  · rintro rfl
    exact pingPhase_tick_self s t k w hk h
  · intro hne
    by_cases hping : ∃ x, op = Op.ping x
    · obtain ⟨x, rfl⟩ := hping
      exact pingPhase_ping s t k w x hser h
    by_cases hpg : ∃ s', op = Op.xdg_wm_base_pong s'
    · obtain ⟨s', rfl⟩ := hpg
      exact pingPhase_pong s s' t k w (fun e => hpong (by rw [e])) h
    by_cases htick : ∃ t', op = Op.pingTimerTimeout t'
    · obtain ⟨t', rfl⟩ := htick
      exact pingPhase_tick_other s t t' k w (fun e => hne (by rw [e])) h
    · have f1 : ∀ x, op ≠ Op.ping x := fun x e => hping ⟨x, e⟩
      have f2 : ∀ s', op ≠ Op.xdg_wm_base_pong s' := fun s' e => hpg ⟨s', e⟩
      have f3 : ∀ t', op ≠ Op.pingTimerTimeout t' := fun t' e => htick ⟨t', e⟩
      obtain ⟨ht, hp⟩ := step_ping_frame w op f1 f2 f3
      exact ⟨pingPhase_frame s t k w _ h ht hp (step_fresh_le w op),
        step_ping_signals w op f2 f3 s⟩

theorem pingSignalsOf_tick (s : Nat) (k : Nat) :
    pingSignalsOf s (pingTickEvents s k)
      = (([Signal.pingDelayed s, Signal.pingTimeout s].drop k).take 1) := by
  unfold pingTickEvents
  split
  · subst_vars; simp [pingSignalsOf, signalsOf]
  · split
    · subst_vars; simp [pingSignalsOf, signalsOf]
    · have : 2 ≤ k := by omega
      rw [List.drop_eq_nil_of_le (by simpa using this)]
      rfl

theorem ping_lifecycle_aux (s : Nat) (t : TimerId) (ops : List Op) :
    ∀ (w : World) (k : Nat), k ≤ 2 → PingPhase s t k w →
      (∀ op ∈ ops, op ≠ Op.xdg_wm_base_pong s) → serialNotDrawn s w ops = true →
      pingSignalsOf s (runEvents w ops)
          = (([Signal.pingDelayed s, Signal.pingTimeout s].drop k).take
              (ops.count (Op.pingTimerTimeout t)))
        ∧ PingPhase s t (min 2 (k + ops.count (Op.pingTimerTimeout t))) (run w ops) := by
  induction ops with
  | nil =>
    intro w k hk h _ _
    refine ⟨by simp [runEvents, pingSignalsOf, signalsOf], ?_⟩
    simpa [run, Nat.min_eq_right hk] using h
  | cons op ops ih =>
    intro w k hk h hpong hser
    simp only [serialNotDrawn, Bool.and_eq_true, decide_eq_true_eq] at hser
    obtain ⟨hstep1, hstep2⟩ :=
      pingPhase_step s t k w op hk h (hpong op (List.mem_cons_self _ _)) hser.1
    have hpong' : ∀ o ∈ ops, o ≠ Op.xdg_wm_base_pong s :=
      fun o ho => hpong o (List.mem_cons_of_mem _ ho)
    by_cases hop : op = Op.pingTimerTimeout t
    · obtain ⟨hJ, hev⟩ := hstep1 hop
      obtain ⟨ih1, ih2⟩ := ih (step w op).1 (min 2 (k + 1)) (Nat.min_le_left _ _) hJ hpong' hser.2
      have hcount : (op :: ops).count (Op.pingTimerTimeout t)
          = ops.count (Op.pingTimerTimeout t) + 1 := by
        rw [hop]; simp
      refine ⟨?_, ?_⟩
      · rw [runEvents, pingSignalsOf_append, hev, pingSignalsOf_tick, ih1, hcount]
        have hk3 : k = 0 ∨ k = 1 ∨ k = 2 := by omega
        rcases hk3 with rfl | rfl | rfl
        · cases ops.count (Op.pingTimerTimeout t) <;> simp
        · cases ops.count (Op.pingTimerTimeout t) <;> simp
        · simp
      · rw [run, hcount]
        have : min 2 (min 2 (k + 1) + ops.count (Op.pingTimerTimeout t))
            = min 2 (k + (ops.count (Op.pingTimerTimeout t) + 1)) := by omega
        rw [← this]; exact ih2
    · obtain ⟨hJ, hev⟩ := hstep2 hop
      obtain ⟨ih1, ih2⟩ := ih (step w op).1 k hk hJ hpong' hser.2
      have hcount : (op :: ops).count (Op.pingTimerTimeout t)
          = ops.count (Op.pingTimerTimeout t) := by
        rw [List.count_cons]
        simp [hop]
      refine ⟨?_, ?_⟩
      · rw [runEvents, pingSignalsOf_append, hev, ih1, hcount]; rfl
      · rw [run, hcount]; exact ih2

theorem serialNotDrawn_append (s : Nat) (a b : List Op) :
    ∀ w : World, serialNotDrawn s w (a ++ b) = true →
      serialNotDrawn s w a = true ∧ serialNotDrawn s (run w a) b = true := by
  induction a with
  | nil => intro w h; exact ⟨rfl, h⟩
  | cons op a ih =>
    intro w h
    simp only [List.cons_append, serialNotDrawn, Bool.and_eq_true, decide_eq_true_eq] at h ⊢
    obtain ⟨h1, h2⟩ := ih (step w op).1 h.2
    exact ⟨⟨h.1, h1⟩, h2⟩

theorem pingPhase_after_ping (w0 : World) (surface : XdgSurfaceId) (client : ClientId)
    (hclient : clientFromXdgSurface w0 surface = some client)
    (hbound : client ∈ w0.resourceMap)
    (hfresh : w0.Fresh)
    (hnew : ∀ t tm, w0.timers t = some tm → tm.serial ≠ w0.nextSerial) :
    (XdgShellInterface.ping w0 surface).2.2 = w0.nextSerial
      ∧ PingPhase w0.nextSerial w0.fresh 0 (XdgShellInterface.ping w0 surface).1 := by
  simp only [XdgShellInterface.ping, hclient, hbound, if_true,
    XdgShellInterfacePrivate.registerPing]
  refine ⟨trivial, ?_, ?_, ?_, ?_, ?_⟩
  · simp
  · simp
  · intro t tm ht hne
    simp only [Function.update_apply, if_neg hne] at ht
    exact hnew t tm ht
  · intro s' hs'
    simp only [Function.update_apply] at hs'
    split at hs'
    · assumption
    · exact absurd (hfresh.2.2 s' _ hs') (Nat.lt_irrefl _)
  · exact Nat.lt_succ_self _

/-- C10: a ping is made on `surface` and registers the serial `s` with a
timer; afterwards any operations happen, none of them `pong(s)` and the display
not handing out `s` again.  Then the ping signals about `s` in the whole trace
are `pingDelayed(s)` once the timer has ticked once and `pingDelayed(s)`,
`pingTimeout(s)`, in this order, once it has ticked twice or more, and nothing
else; the record stays in the registry until the second tick and is gone, with
its timer, from then on; and each tick of the timer emits exactly
`pingDelayed(s)` when it is the first, exactly `pingTimeout(s)` when it is the
second, and does not happen (emits nothing) afterwards. -/
theorem ping_timeout_lifecycle (w0 : World) (surface : XdgSurfaceId) (client : ClientId)
    (ops : List Op)
    (hclient : clientFromXdgSurface w0 surface = some client)
    (hbound : client ∈ w0.resourceMap)
    (hfresh : w0.Fresh)
    (hnew : ∀ t tm, w0.timers t = some tm → tm.serial ≠ w0.nextSerial)
    (hpong : ∀ op ∈ ops, op ≠ Op.xdg_wm_base_pong w0.nextSerial)
    (hser : serialNotDrawn w0.nextSerial (XdgShellInterface.ping w0 surface).1 ops = true) :
    (XdgShellInterface.ping w0 surface).2.2 = w0.nextSerial
    ∧ pingSignalsOf w0.nextSerial (runEvents (XdgShellInterface.ping w0 surface).1 ops)
        = [Signal.pingDelayed w0.nextSerial, Signal.pingTimeout w0.nextSerial].take
            (ops.count (Op.pingTimerTimeout w0.fresh))
    ∧ (ops.count (Op.pingTimerTimeout w0.fresh) < 2 →
        (run (XdgShellInterface.ping w0 surface).1 ops).pings w0.nextSerial = some w0.fresh)
    ∧ (2 ≤ ops.count (Op.pingTimerTimeout w0.fresh) →
        (run (XdgShellInterface.ping w0 surface).1 ops).pings w0.nextSerial = none
        ∧ (run (XdgShellInterface.ping w0 surface).1 ops).timers w0.fresh = none)
    ∧ (∀ a b, ops = a ++ Op.pingTimerTimeout w0.fresh :: b →
        (step (run (XdgShellInterface.ping w0 surface).1 a) (Op.pingTimerTimeout w0.fresh)).2
          = pingTickEvents w0.nextSerial (min 2 (a.count (Op.pingTimerTimeout w0.fresh)))) := by
  obtain ⟨hret, hphase⟩ := pingPhase_after_ping w0 surface client hclient hbound hfresh hnew
  obtain ⟨hsig, hend⟩ := ping_lifecycle_aux w0.nextSerial w0.fresh ops
    (XdgShellInterface.ping w0 surface).1 0 (Nat.zero_le _) hphase hpong hser
  simp only [Nat.zero_add, List.drop_zero] at hsig hend
  refine ⟨hret, hsig, ?_, ?_, ?_⟩
  · intro hlt
    have h1 := hend.1
    rw [Nat.min_eq_right (Nat.le_of_lt hlt), if_pos hlt] at h1
    exact h1
  · intro hge
    have h1 := hend.1
    have h2 := hend.2.1
    rw [Nat.min_eq_left hge] at h1 h2
    exact ⟨by simpa using h1, by simpa using h2⟩
  · intro a b hab
    subst hab
    have hpa : ∀ op ∈ a, op ≠ Op.xdg_wm_base_pong w0.nextSerial :=
      fun op ho => hpong op (List.mem_append_left _ ho)
    obtain ⟨hsa, _⟩ := serialNotDrawn_append w0.nextSerial a _ _ hser
    obtain ⟨_, hmid⟩ := ping_lifecycle_aux w0.nextSerial w0.fresh a
      (XdgShellInterface.ping w0 surface).1 0 (Nat.zero_le _) hphase hpa hsa
    simp only [Nat.zero_add] at hmid
    exact (pingPhase_tick_self w0.nextSerial w0.fresh _ _ (Nat.min_le_left _ _) hmid).2

/-- C10, at a concrete input (scenario S4): the ping gives serial 7; with
other operations interleaved, the ping signals about 7 are `pingDelayed(7)`
then `pingTimeout(7)`, and afterwards the registry no longer contains 7. -/
theorem ping_timeout_lifecycle_witness :
    (XdgShellInterface.ping scenarioS4 0).2.2 = 7
    ∧ pingSignalsOf 7 (runEvents (XdgShellInterface.ping scenarioS4 0).1 scenarioS4Ops)
        = [Signal.pingDelayed 7, Signal.pingTimeout 7]
    ∧ (run (XdgShellInterface.ping scenarioS4 0).1 scenarioS4Ops).pings 7 = none := by
  have h := ping_timeout_lifecycle scenarioS4 0 1 scenarioS4Ops (by decide) (by decide)
    (run_fresh_from _ _ (by
      refine ⟨?_, ?_, ?_⟩
      · intro i _; exact ⟨rfl, rfl, rfl, rfl, rfl⟩
      · intro e he; cases he
      · intro s t h; cases h))
    (by intro t tm h; cases h) (by decide) (by decide)
  exact ⟨h.1, h.2.1, (h.2.2.2.1 (by decide)).1⟩

/-! ### Toplevel requests that need a configured surface -/

/-- A mask has a nonzero conjunction with `2 ^ i` exactly when its bit `i` is set. -/
theorem and_two_pow_ne_zero (m i : Nat) : (m &&& 2 ^ i ≠ 0) ↔ m.testBit i = true := by
  constructor
  · intro h
    by_contra hb
    apply h
    apply Nat.eq_of_testBit_eq
    intro j
    rw [Nat.testBit_and, Nat.testBit_two_pow, Nat.zero_testBit]
    by_cases hij : i = j
    · subst hij; simp [hb]
    · simp [hij]
  · intro h h0
    have h1 : (m &&& 2 ^ i).testBit i = true := by
      rw [Nat.testBit_and, Nat.testBit_two_pow_self, h]; rfl
    rw [h0, Nat.zero_testBit] at h1
    cases h1

/-- What `resize` emits on a configured xdg-surface, in terms of the bits of the edges value. -/
theorem resize_edges (q : ToplevelId) (xs : XdgSurfaceInterfacePrivate) (seat : Option SeatId)
    (serial e : Nat) (hconf : xs.isConfigured = true) :
    XdgToplevelInterfacePrivate.xdg_toplevel_resize q xs seat serial e
      = [Event.signal (Signal.resizeRequested q seat
          { top := e.testBit 0, bottom := e.testBit 1, left := e.testBit 2, right := e.testBit 3 }
          serial)] := by
  have h0 := and_two_pow_ne_zero e 0
  have h1 := and_two_pow_ne_zero e 1
  have h2 := and_two_pow_ne_zero e 2
  have h3 := and_two_pow_ne_zero e 3
  simp only [Nat.reducePow] at h0 h1 h2 h3
  simp only [XdgToplevelInterfacePrivate.xdg_toplevel_resize, hconf, Bool.not_true,
    Bool.false_eq_true, if_false, XDG_TOPLEVEL_RESIZE_EDGE_TOP, XDG_TOPLEVEL_RESIZE_EDGE_RIGHT,
    XDG_TOPLEVEL_RESIZE_EDGE_BOTTOM, XDG_TOPLEVEL_RESIZE_EDGE_LEFT]
  cases b0 : e.testBit 0 <;> cases b1 : e.testBit 1 <;> cases b2 : e.testBit 2
    <;> cases b3 : e.testBit 3 <;> simp_all

/-- C19: on a toplevel `q` whose xdg-surface is configured, `resize` with any
edges value `e` posts no error, leaves the state unchanged and emits exactly one
`resizeRequested` with the request's seat and serial and the edge set that has
Top iff the bit of value 1 of `e` is set, Bottom iff the bit of value 2, Left
iff the bit of value 4 and Right iff the bit of value 8; each named wire value
decodes to the edges in its name. -/
theorem resize_decodes_edges (w : World) (q : ToplevelId) (d : XdgToplevelInterfacePrivate)
    (xs : XdgSurfaceInterfacePrivate) (seat : Option SeatId) (serial : Nat)
    (hq : w.toplevels q = some d) (hxs : w.xdgSurfaceObjects d.xdgSurface = some xs)
    (hconf : xs.isConfigured = true) :
    (∀ e : Nat, step w (Op.xdg_toplevel_resize q seat serial e)
        = (w, [Event.signal (Signal.resizeRequested q seat
            { top := e.testBit 0, bottom := e.testBit 1, left := e.testBit 2,
              right := e.testBit 3 } serial)]))
    ∧ (step w (Op.xdg_toplevel_resize q seat serial 0)).2
        = [Event.signal (Signal.resizeRequested q seat {} serial)]
    ∧ (step w (Op.xdg_toplevel_resize q seat serial 1)).2
        = [Event.signal (Signal.resizeRequested q seat { top := true } serial)]
    ∧ (step w (Op.xdg_toplevel_resize q seat serial 2)).2
        = [Event.signal (Signal.resizeRequested q seat { bottom := true } serial)]
    ∧ (step w (Op.xdg_toplevel_resize q seat serial 4)).2
        = [Event.signal (Signal.resizeRequested q seat { left := true } serial)]
    ∧ (step w (Op.xdg_toplevel_resize q seat serial 5)).2
        = [Event.signal (Signal.resizeRequested q seat { top := true, left := true } serial)]
    ∧ (step w (Op.xdg_toplevel_resize q seat serial 6)).2
        = [Event.signal (Signal.resizeRequested q seat { bottom := true, left := true } serial)]
    ∧ (step w (Op.xdg_toplevel_resize q seat serial 8)).2
        = [Event.signal (Signal.resizeRequested q seat { right := true } serial)]
    ∧ (step w (Op.xdg_toplevel_resize q seat serial 9)).2
        = [Event.signal (Signal.resizeRequested q seat { top := true, right := true } serial)]
    ∧ (step w (Op.xdg_toplevel_resize q seat serial 10)).2
        = [Event.signal (Signal.resizeRequested q seat { bottom := true, right := true } serial)] := by
  have key : ∀ e : Nat, step w (Op.xdg_toplevel_resize q seat serial e)
      = (w, [Event.signal (Signal.resizeRequested q seat
          { top := e.testBit 0, bottom := e.testBit 1, left := e.testBit 2,
            right := e.testBit 3 } serial)]) := by
    intro e
    simp only [step, World.readToplevel, hq, hxs, resize_edges q xs seat serial e hconf]
  refine ⟨key, ?_, ?_, ?_, ?_, ?_, ?_, ?_, ?_, ?_⟩ <;> rw [key] <;> rfl

/-- C19, at a concrete input: after scenario S1, `resize` with the value 9
(`top_right`) on the toplevel 1 asks for a resize by the top and right edges. -/
theorem resize_decodes_edges_witness :
    step (run World.init scenarioS1) (Op.xdg_toplevel_resize 1 (some 2) 9 9)
      = (run World.init scenarioS1,
          [Event.signal (Signal.resizeRequested 1 (some 2) { top := true, right := true } 9)]) :=
  (resize_decodes_edges (run World.init scenarioS1) 1 { xdgSurface := 0, windowTitle := "Hello" }
    { client := 1, surface := 5, toplevel := some 1,
      next := { windowGeometry := QRect.fromXYWH 0 0 800 600 }, isConfigured := true }
    (some 2) 9 (by decide) (by decide) (by decide)).1 9

/-- C20: `show_window_menu`, `move` and `resize` on a toplevel whose xdg-surface
is not configured each post `not_constructed`, emit no signal and leave the
state unchanged; on a configured one each posts no error, leaves the state
unchanged and emits exactly one signal (`windowMenuRequested`, `moveRequested`,
`resizeRequested`) carrying the request's seat and serial and, for
`show_window_menu`, the point `(x, y)`. -/
theorem configured_requests (w : World) (q : ToplevelId) (d : XdgToplevelInterfacePrivate)
    (xs : XdgSurfaceInterfacePrivate) (seat : Option SeatId) (serial : Nat) (x y : Int)
    (edges : Nat)
    (hq : w.toplevels q = some d) (hxs : w.xdgSurfaceObjects d.xdgSurface = some xs) :
    (xs.isConfigured = false →
        step w (Op.xdg_toplevel_show_window_menu q seat serial x y)
            = (w, [Event.error ProtocolError.XDG_SURFACE_ERROR_NOT_CONSTRUCTED])
        ∧ step w (Op.xdg_toplevel_move q seat serial)
            = (w, [Event.error ProtocolError.XDG_SURFACE_ERROR_NOT_CONSTRUCTED])
        ∧ step w (Op.xdg_toplevel_resize q seat serial edges)
            = (w, [Event.error ProtocolError.XDG_SURFACE_ERROR_NOT_CONSTRUCTED]))
    ∧ (xs.isConfigured = true →
        step w (Op.xdg_toplevel_show_window_menu q seat serial x y)
            = (w, [Event.signal (Signal.windowMenuRequested q seat ⟨x, y⟩ serial)])
        ∧ step w (Op.xdg_toplevel_move q seat serial)
            = (w, [Event.signal (Signal.moveRequested q seat serial)])
        ∧ ∃ E, step w (Op.xdg_toplevel_resize q seat serial edges)
            = (w, [Event.signal (Signal.resizeRequested q seat E serial)])) := by
  refine ⟨fun hc => ⟨?_, ?_, ?_⟩, fun hc => ⟨?_, ?_, ?_⟩⟩
  · simp [step, World.readToplevel, hq, hxs,
      XdgToplevelInterfacePrivate.xdg_toplevel_show_window_menu, hc]
  · simp [step, World.readToplevel, hq, hxs, XdgToplevelInterfacePrivate.xdg_toplevel_move, hc]
  · simp only [step, World.readToplevel, hq, hxs,
      XdgToplevelInterfacePrivate.xdg_toplevel_resize, hc, Bool.not_false, if_true]
  · simp [step, World.readToplevel, hq, hxs,
      XdgToplevelInterfacePrivate.xdg_toplevel_show_window_menu, hc]
  · simp [step, World.readToplevel, hq, hxs, XdgToplevelInterfacePrivate.xdg_toplevel_move, hc]
  · refine ⟨{ top := edges.testBit 0, bottom := edges.testBit 1, left := edges.testBit 2,
              right := edges.testBit 3 }, ?_⟩
    simp only [step, World.readToplevel, hq, hxs, resize_edges q xs seat serial edges hc]

/-- C20, at concrete inputs: `move` on the toplevel of scenario S1 before its
first configure is rejected, and after it is passed on. -/
theorem configured_requests_witness :
    step (run World.init (scenarioS1.take 4)) (Op.xdg_toplevel_move 1 (some 2) 9)
        = (run World.init (scenarioS1.take 4),
            [Event.error ProtocolError.XDG_SURFACE_ERROR_NOT_CONSTRUCTED])
    ∧ step (run World.init scenarioS1) (Op.xdg_toplevel_move 1 (some 2) 9)
        = (run World.init scenarioS1, [Event.signal (Signal.moveRequested 1 (some 2) 9)]) :=
  ⟨((configured_requests (run World.init (scenarioS1.take 4)) 1
        { xdgSurface := 0, windowTitle := "Hello" }
        { client := 1, surface := 5, toplevel := some 1 }
        (some 2) 9 3 4 1 (by decide) (by decide)).1 (by decide)).2.1,
   ((configured_requests (run World.init scenarioS1) 1
        { xdgSurface := 0, windowTitle := "Hello" }
        { client := 1, surface := 5, toplevel := some 1,
          next := { windowGeometry := QRect.fromXYWH 0 0 800 600 }, isConfigured := true }
        (some 2) 9 3 4 1 (by decide) (by decide)).2 (by decide)).2.1⟩

/-! ### Positioner decoding -/

/-- C18: `set_constraint_adjustment(m)` never posts an error, and afterwards the
three orientation sets are a function of `m` alone, whatever the positioner was
before: slide has Horizontal iff the bit of value 1 is set and Vertical iff the
bit of value 2, flip has Horizontal iff the bit of value 4 and Vertical iff the
bit of value 8, resize has Horizontal iff the bit of value 16 and Vertical iff
the bit of value 32; no other field changes; higher bits are ignored; the
request is idempotent and the last call wins. -/
theorem constraint_adjustment_decodes (data : XdgPositionerData) (m : Nat) :
    XdgPositionerPrivate.xdg_positioner_set_constraint_adjustment data m
        = ({ data with
              slideConstraintAdjustments :=
                { horizontal := m.testBit 0, vertical := m.testBit 1 }
              flipConstraintAdjustments :=
                { horizontal := m.testBit 2, vertical := m.testBit 3 }
              resizeConstraintAdjustments :=
                { horizontal := m.testBit 4, vertical := m.testBit 5 } }, [])
    ∧ XdgPositionerPrivate.xdg_positioner_set_constraint_adjustment data (m % 64)
        = XdgPositionerPrivate.xdg_positioner_set_constraint_adjustment data m
    ∧ XdgPositionerPrivate.xdg_positioner_set_constraint_adjustment
          (XdgPositionerPrivate.xdg_positioner_set_constraint_adjustment data m).1 m
        = XdgPositionerPrivate.xdg_positioner_set_constraint_adjustment data m
    ∧ ∀ m', XdgPositionerPrivate.xdg_positioner_set_constraint_adjustment
          (XdgPositionerPrivate.xdg_positioner_set_constraint_adjustment data m').1 m
        = XdgPositionerPrivate.xdg_positioner_set_constraint_adjustment data m := by
  have key : ∀ (d : XdgPositionerData) (n : Nat),
      XdgPositionerPrivate.xdg_positioner_set_constraint_adjustment d n
        = ({ d with
              slideConstraintAdjustments :=
                { horizontal := n.testBit 0, vertical := n.testBit 1 }
              flipConstraintAdjustments :=
                { horizontal := n.testBit 2, vertical := n.testBit 3 }
              resizeConstraintAdjustments :=
                { horizontal := n.testBit 4, vertical := n.testBit 5 } }, []) := by
    intro d n
    have h0 := and_two_pow_ne_zero n 0
    have h1 := and_two_pow_ne_zero n 1
    have h2 := and_two_pow_ne_zero n 2
    have h3 := and_two_pow_ne_zero n 3
    have h4 := and_two_pow_ne_zero n 4
    have h5 := and_two_pow_ne_zero n 5
    simp only [Nat.reducePow] at h0 h1 h2 h3 h4 h5
    simp only [XdgPositionerPrivate.xdg_positioner_set_constraint_adjustment,
      XDG_POSITIONER_CONSTRAINT_ADJUSTMENT_FLIP_X, XDG_POSITIONER_CONSTRAINT_ADJUSTMENT_FLIP_Y,
      XDG_POSITIONER_CONSTRAINT_ADJUSTMENT_SLIDE_X, XDG_POSITIONER_CONSTRAINT_ADJUSTMENT_SLIDE_Y,
      XDG_POSITIONER_CONSTRAINT_ADJUSTMENT_RESIZE_X,
      XDG_POSITIONER_CONSTRAINT_ADJUSTMENT_RESIZE_Y]
    cases b0 : n.testBit 0 <;> cases b1 : n.testBit 1 <;> cases b2 : n.testBit 2
      <;> cases b3 : n.testBit 3 <;> cases b4 : n.testBit 4 <;> cases b5 : n.testBit 5
      <;> simp_all
  refine ⟨key data m, ?_, ?_, ?_⟩
  · rw [key, key]
    have hb : ∀ i, i < 6 → (m % 64).testBit i = m.testBit i := by
      intro i hi
      have : (64 : Nat) = 2 ^ 6 := by norm_num
      rw [this, Nat.testBit_mod_two_pow]
      simp [hi]
    rw [hb 0 (by norm_num), hb 1 (by norm_num), hb 2 (by norm_num), hb 3 (by norm_num),
      hb 4 (by norm_num), hb 5 (by norm_num)]
  · rw [key data m, key]
  · intro m'
    rw [key data m', key, key]

/-- C16: for every anchor code, `set_anchor` posts `invalid_input` and leaves
the positioner as it was when the code is above `bottom_right` (8); otherwise
it posts nothing, sets `anchorEdges` to the table entry of the code whatever
the previous value was, and changes no other field. -/
theorem set_anchor_decodes (data : XdgPositionerData) (anchor : Nat) :
    (8 < anchor →
        XdgPositionerPrivate.xdg_positioner_set_anchor data anchor
          = (data, [Event.error ProtocolError.XDG_POSITIONER_ERROR_INVALID_INPUT]))
    ∧ (anchor ≤ 8 →
        XdgPositionerPrivate.xdg_positioner_set_anchor data anchor
          = ({ data with anchorEdges := edgeTable anchor }, [])) := by
  refine ⟨fun h => ?_, fun h => ?_⟩
  · have h' : anchor > XDG_POSITIONER_ANCHOR_BOTTOM_RIGHT := h
    simp only [XdgPositionerPrivate.xdg_positioner_set_anchor, h', if_true]
  · interval_cases anchor <;> rfl

/-- C16, at a concrete input: `set_anchor(top_right)` in scenario S3. -/
theorem set_anchor_decodes_witness :
    XdgPositionerPrivate.xdg_positioner_set_anchor {} XDG_POSITIONER_ANCHOR_TOP_RIGHT
      = ({ anchorEdges := { top := true, right := true } }, []) :=
  (set_anchor_decodes {} XDG_POSITIONER_ANCHOR_TOP_RIGHT).2 (by decide)

/-- C17: the gravity decoder agrees with the anchor decoder on every code:
`set_gravity` posts `invalid_input` exactly when `set_anchor` does (for codes
above 8), both leaving the positioner as it was, and when the code is accepted
the `gravityEdges` stored by the one equal the `anchorEdges` stored by the
other; each changes no field but its own. -/
theorem set_gravity_agrees (data : XdgPositionerData) (code : Nat) :
    (XdgPositionerPrivate.xdg_positioner_set_gravity data code).2
        = (XdgPositionerPrivate.xdg_positioner_set_anchor data code).2
    ∧ ((XdgPositionerPrivate.xdg_positioner_set_gravity data code).2
          = [Event.error ProtocolError.XDG_POSITIONER_ERROR_INVALID_INPUT] ↔ 8 < code)
    ∧ (8 < code → (XdgPositionerPrivate.xdg_positioner_set_gravity data code).1 = data)
    ∧ (code ≤ 8 →
        (XdgPositionerPrivate.xdg_positioner_set_gravity data code).1
            = { data with gravityEdges := edgeTable code }
        ∧ (XdgPositionerPrivate.xdg_positioner_set_gravity data code).1.gravityEdges
            = (XdgPositionerPrivate.xdg_positioner_set_anchor data code).1.anchorEdges)
    ∧ (XdgPositionerPrivate.xdg_positioner_set_gravity data 7).1.gravityEdges
        = { top := true, right := true } := by
  by_cases h : 8 < code
  · have h1 : code > XDG_POSITIONER_GRAVITY_BOTTOM_RIGHT := h
    have h2 : code > XDG_POSITIONER_ANCHOR_BOTTOM_RIGHT := h
    have hg : XdgPositionerPrivate.xdg_positioner_set_gravity data code
        = (data, [Event.error ProtocolError.XDG_POSITIONER_ERROR_INVALID_INPUT]) := by
      simp only [XdgPositionerPrivate.xdg_positioner_set_gravity, h1, if_true]
    have ha : XdgPositionerPrivate.xdg_positioner_set_anchor data code
        = (data, [Event.error ProtocolError.XDG_POSITIONER_ERROR_INVALID_INPUT]) := by
      simp only [XdgPositionerPrivate.xdg_positioner_set_anchor, h2, if_true]
    refine ⟨by rw [hg, ha], by simp [hg, h], fun _ => by rw [hg], fun hle => ?_, rfl⟩
    exact absurd h (by omega)
  · have hle : code ≤ 8 := by omega
    have hg : XdgPositionerPrivate.xdg_positioner_set_gravity data code
        = ({ data with gravityEdges := edgeTable code }, []) := by
      interval_cases code <;> rfl
    have ha : XdgPositionerPrivate.xdg_positioner_set_anchor data code
        = ({ data with anchorEdges := edgeTable code }, []) := by
      interval_cases code <;> rfl
    refine ⟨by rw [hg, ha], by simp [hg, h], fun h' => absurd h' h, fun _ => ?_, rfl⟩
    rw [hg, ha]
    exact ⟨rfl, rfl⟩

/-- C17, at a concrete input: `set_gravity(bottom_right)` in scenario S3. -/
theorem set_gravity_agrees_witness :
    (XdgPositionerPrivate.xdg_positioner_set_gravity {} XDG_POSITIONER_GRAVITY_BOTTOM_RIGHT).1
      = { gravityEdges := { bottom := true, right := true } } :=
  ((set_gravity_agrees {} XDG_POSITIONER_GRAVITY_BOTTOM_RIGHT).2.2.2.1 (by decide)).1

/-! ### Size limits and the states array of a toplevel -/

/-- C14: effective size limits of a toplevel.  A toplevel as constructed
reports the minimum (0, 0) and the maximum (INT_MAX, INT_MAX).  On a toplevel
whose xdg-surface is configured, for all `wd ≥ 1` and `ht ≥ 1`, `set_min_size(wd, ht)`
followed by a commit makes `minimumSize()` equal to `(wd, ht)`, and
`set_max_size(wd, ht)` followed by a commit makes `maximumSize()` equal to
`(wd, ht)`; `set_max_size(0, 0)` and a commit give `(INT_MAX, INT_MAX)`,
`set_min_size(0, 0)` and a commit give `(0, 0)`; none of these requests posts
an error.  Scenario S2 gives (300, 200) and (INT_MAX, INT_MAX). -/
theorem effective_size_limits (q : ToplevelId) (d : XdgToplevelInterfacePrivate)
    (xs : XdgSurfaceInterfacePrivate) (hconf : xs.isConfigured = true) :
    (∀ xdgSurface : XdgSurfaceId,
        XdgToplevelInterface.minimumSize { xdgSurface := xdgSurface } = ⟨0, 0⟩
        ∧ XdgToplevelInterface.maximumSize { xdgSurface := xdgSurface } = ⟨INT_MAX, INT_MAX⟩)
    ∧ (∀ wd ht : Int, 1 ≤ wd → 1 ≤ ht →
        (XdgToplevelInterfacePrivate.xdg_toplevel_set_min_size d wd ht).2 = []
        ∧ XdgToplevelInterface.minimumSize
            (XdgToplevelInterfacePrivate.commit q
              (XdgToplevelInterfacePrivate.xdg_toplevel_set_min_size d wd ht).1 xs).1 = ⟨wd, ht⟩
        ∧ (XdgToplevelInterfacePrivate.xdg_toplevel_set_max_size d wd ht).2 = []
        ∧ XdgToplevelInterface.maximumSize
            (XdgToplevelInterfacePrivate.commit q
              (XdgToplevelInterfacePrivate.xdg_toplevel_set_max_size d wd ht).1 xs).1 = ⟨wd, ht⟩)
    ∧ (XdgToplevelInterfacePrivate.xdg_toplevel_set_max_size d 0 0).2 = []
    ∧ XdgToplevelInterface.maximumSize
        (XdgToplevelInterfacePrivate.commit q
          (XdgToplevelInterfacePrivate.xdg_toplevel_set_max_size d 0 0).1 xs).1
        = ⟨INT_MAX, INT_MAX⟩
    ∧ (XdgToplevelInterfacePrivate.xdg_toplevel_set_min_size d 0 0).2 = []
    ∧ XdgToplevelInterface.minimumSize
        (XdgToplevelInterfacePrivate.commit q
          (XdgToplevelInterfacePrivate.xdg_toplevel_set_min_size d 0 0).1 xs).1 = ⟨0, 0⟩
    ∧ ((run World.init scenarioS2).toplevels 1).map XdgToplevelInterface.minimumSize
        = some ⟨300, 200⟩
    ∧ ((run World.init scenarioS2).toplevels 1).map XdgToplevelInterface.maximumSize
        = some ⟨INT_MAX, INT_MAX⟩ := by
  have hcur : ∀ d' : XdgToplevelInterfacePrivate,
      (XdgToplevelInterfacePrivate.commit q d' xs).1.current = d'.next := by
    intro d'
    rw [(toplevel_commit_configured q d' xs hconf).1]
  have hmin : ∀ wd ht : Int, 0 ≤ wd → 0 ≤ ht →
      XdgToplevelInterfacePrivate.xdg_toplevel_set_min_size d wd ht
        = ({ d with next := { d.next with minimumSize := ⟨wd, ht⟩ } }, []) := by
    intro wd ht h1 h2
    have : ¬ (wd < 0 ∨ ht < 0) := by omega
    simp [XdgToplevelInterfacePrivate.xdg_toplevel_set_min_size, this]
  have hmax : ∀ wd ht : Int, 0 ≤ wd → 0 ≤ ht →
      XdgToplevelInterfacePrivate.xdg_toplevel_set_max_size d wd ht
        = ({ d with next := { d.next with maximumSize := ⟨wd, ht⟩ } }, []) := by
    intro wd ht h1 h2
    have : ¬ (wd < 0 ∨ ht < 0) := by omega
    simp [XdgToplevelInterfacePrivate.xdg_toplevel_set_max_size, this]
  refine ⟨fun _ => ⟨rfl, rfl⟩, ?_, ?_, ?_, ?_, ?_, by decide, by decide⟩
  · intro wd ht h1 h2
    have e1 : ¬ (wd < 1 ∨ ht < 1) := by omega
    rw [hmin wd ht (by omega) (by omega), hmax wd ht (by omega) (by omega)]
    refine ⟨rfl, ?_, rfl, ?_⟩
    · simp [XdgToplevelInterface.minimumSize, hcur, QSize.isEmpty, e1]
    · simp [XdgToplevelInterface.maximumSize, hcur, QSize.isEmpty, e1]
  · rw [hmax 0 0 (le_refl _) (le_refl _)]
  · rw [hmax 0 0 (le_refl _) (le_refl _)]
    simp [XdgToplevelInterface.maximumSize, hcur, QSize.isEmpty]
  · rw [hmin 0 0 (le_refl _) (le_refl _)]
  · rw [hmin 0 0 (le_refl _) (le_refl _)]
    simp [XdgToplevelInterface.minimumSize, hcur, QSize.isEmpty]

/-- C14, at a concrete input: `set_min_size(300, 200)` and a commit on a
configured toplevel that had no size limits. -/
theorem effective_size_limits_witness :
    XdgToplevelInterface.minimumSize
        (XdgToplevelInterfacePrivate.commit 1
          (XdgToplevelInterfacePrivate.xdg_toplevel_set_min_size { xdgSurface := 0 } 300 200).1
          { client := 1, surface := 5, toplevel := some 1, isConfigured := true }).1
      = ⟨300, 200⟩ :=
  ((effective_size_limits 1 { xdgSurface := 0 }
      { client := 1, surface := 5, toplevel := some 1, isConfigured := true } rfl).2.1
    300 200 (by decide) (by decide)).2.1

/-- C15: for every state set, the states array that the toplevel's
`sendConfigure` sends is the sub-list of `[maximized, fullscreen, resizing, activated]`
that keeps `maximized` iff both maximized states are in the set, `fullscreen`
iff FullScreen is, `resizing` iff Resizing is and `activated` iff Activated is;
it has no duplicates, its number of entries is the final index `i`, which is at
most 4, and its byte length is 4 times the number of entries. -/
theorem sendConfigure_states (states : States) :
    XdgToplevelInterface.xdgStates states = selectedStates states
    ∧ List.Sublist (XdgToplevelInterface.xdgStates states)
        [XDG_TOPLEVEL_STATE_MAXIMIZED, XDG_TOPLEVEL_STATE_FULLSCREEN,
         XDG_TOPLEVEL_STATE_RESIZING, XDG_TOPLEVEL_STATE_ACTIVATED]
    ∧ (XdgToplevelInterface.xdgStates states).Nodup
    ∧ (XDG_TOPLEVEL_STATE_MAXIMIZED ∈ XdgToplevelInterface.xdgStates states
        ↔ states.MaximizedHorizontal = true ∧ states.MaximizedVertical = true)
    ∧ (XDG_TOPLEVEL_STATE_FULLSCREEN ∈ XdgToplevelInterface.xdgStates states
        ↔ states.FullScreen = true)
    ∧ (XDG_TOPLEVEL_STATE_RESIZING ∈ XdgToplevelInterface.xdgStates states
        ↔ states.Resizing = true)
    ∧ (XDG_TOPLEVEL_STATE_ACTIVATED ∈ XdgToplevelInterface.xdgStates states
        ↔ states.Activated = true)
    ∧ (XdgToplevelInterface.xdgStates states).length
        = (XdgToplevelInterface.statesData states).2
    ∧ (XdgToplevelInterface.statesData states).2 ≤ 4
    ∧ XdgToplevelInterface.xdgStatesSize states
        = 4 * (XdgToplevelInterface.xdgStates states).length
    ∧ (∀ (w : World) (q : ToplevelId) (size : QSize) (d : XdgToplevelInterfacePrivate)
        (xs : XdgSurfaceInterfacePrivate),
        w.toplevels q = some d → w.xdgSurfaceObjects d.xdgSurface = some xs →
        (XdgToplevelInterface.sendConfigure w q size states).2.1
          = [Event.send (WireEvent.xdg_toplevel_configure q size.wd size.ht
                (selectedStates states)),
             Event.send (WireEvent.xdg_surface_configure d.xdgSurface w.nextSerial)]) := by
  have h1 : XdgToplevelInterface.xdgStates states = selectedStates states := by
    obtain ⟨a, b, c, d, e⟩ := states
    cases a <;> cases b <;> cases c <;> cases d <;> cases e <;> rfl
  refine ⟨h1, ?_, ?_, ?_, ?_, ?_, ?_, ?_, ?_, ?_, ?_⟩
  · obtain ⟨a, b, c, d, e⟩ := states
    cases a <;> cases b <;> cases c <;> cases d <;> cases e <;> decide
  · obtain ⟨a, b, c, d, e⟩ := states
    cases a <;> cases b <;> cases c <;> cases d <;> cases e <;> decide
  · obtain ⟨a, b, c, d, e⟩ := states
    cases a <;> cases b <;> cases c <;> cases d <;> cases e <;> decide
  · obtain ⟨a, b, c, d, e⟩ := states
    cases a <;> cases b <;> cases c <;> cases d <;> cases e <;> decide
  · obtain ⟨a, b, c, d, e⟩ := states
    cases a <;> cases b <;> cases c <;> cases d <;> cases e <;> decide
  · obtain ⟨a, b, c, d, e⟩ := states
    cases a <;> cases b <;> cases c <;> cases d <;> cases e <;> decide
  · obtain ⟨a, b, c, d, e⟩ := states
    cases a <;> cases b <;> cases c <;> cases d <;> cases e <;> rfl
  · obtain ⟨a, b, c, d, e⟩ := states
    cases a <;> cases b <;> cases c <;> cases d <;> cases e <;> decide
  · obtain ⟨a, b, c, d, e⟩ := states
    cases a <;> cases b <;> cases c <;> cases d <;> cases e <;> rfl
  · intro w q size d xs hq hxs
    simp only [XdgToplevelInterface.sendConfigure, hq, hxs, h1]

/-- C15, at a concrete input: the configure of scenario S1 carries `[activated]`,
and a toplevel maximized in one direction only, fullscreen and resizing gets
`[fullscreen, resizing]`. -/
theorem sendConfigure_states_witness :
    (XdgToplevelInterface.sendConfigure (run World.init (scenarioS1.take 5)) 1 ⟨800, 600⟩
        { Activated := true }).2.1
      = [Event.send (WireEvent.xdg_toplevel_configure 1 800 600 [XDG_TOPLEVEL_STATE_ACTIVATED]),
         Event.send (WireEvent.xdg_surface_configure 0 1)] :=
  (sendConfigure_states { Activated := true }).2.2.2.2.2.2.2.2.2.2
    (run World.init (scenarioS1.take 5)) 1 ⟨800, 600⟩ { xdgSurface := 0, windowTitle := "Hello" }
    { client := 1, surface := 5, toplevel := some 1 } (by decide) (by decide)

/-! ### The configure queue of the compositor-side client -/

theorem takeAcknowledged_sorted (s : Nat) (queue : List XdgSurfaceConfigure)
    (hsorted : queue.Pairwise (fun a b => a.m_serial < b.m_serial))
    (last : Option XdgSurfaceConfigure) :
    (XdgSurfaceClient.takeAcknowledged s queue last).1 = configuresAbove s queue
    ∧ (XdgSurfaceClient.takeAcknowledged s queue last).2
        = (match newestUpTo s queue with
            | some e => some e
            | none => last) := by
  induction queue generalizing last with
  | nil => exact ⟨rfl, rfl⟩
  | cons e rest ih =>
    rw [List.pairwise_cons] at hsorted
    by_cases he : e.m_serial ≤ s
    · have ih' := ih hsorted.2 (some e)
      have hn : ¬ s < e.m_serial := by omega
      simp only [XdgSurfaceClient.takeAcknowledged, he, if_true]
      refine ⟨?_, ?_⟩
      · rw [ih'.1]
        simp [configuresAbove, List.filter_cons, hn]
      · rw [ih'.2]
        simp only [newestUpTo, List.filter_cons, he, decide_True, if_true]
        rw [List.getLast?_cons]
        cases hr : (rest.filter (fun e => decide (e.m_serial ≤ s))).getLast? <;> rfl
    · have hall : ∀ x ∈ rest, s < x.m_serial := fun x hx => by
        have := hsorted.1 x hx
        omega
      simp only [XdgSurfaceClient.takeAcknowledged, he, if_false]
      refine ⟨?_, ?_⟩
      · simp only [configuresAbove]
        rw [List.filter_eq_self.mpr]
        intro x hx
        rcases List.mem_cons.mp hx with h | h
        · subst h; simp; omega
        · simpa using hall x h
      · have hnil : newestUpTo s (e :: rest) = none := by
          simp only [newestUpTo]
          rw [List.getLast?_eq_none_iff, List.filter_eq_nil_iff]
          intro x hx
          rcases List.mem_cons.mp hx with h | h
          · subst h; simpa using he
          · have := hall x h
            simp; omega
        rw [hnil]

theorem getLast_sorted_max (l : List XdgSurfaceConfigure)
    (h : l.Pairwise (fun a b => a.m_serial < b.m_serial)) (n : XdgSurfaceConfigure)
    (hn : l.getLast? = some n) : ∀ e ∈ l, e.m_serial ≤ n.m_serial := by
  induction l generalizing n with
  | nil => intro e he; cases he
  | cons a rest ih =>
    rw [List.pairwise_cons] at h
    intro e he
    rw [List.getLast?_cons] at hn
    cases hr : rest.getLast? with
    | none =>
      rw [List.getLast?_eq_none_iff] at hr
      subst hr
      simp at hn he
      subst hn; subst he
      exact le_refl _
    | some x =>
      rw [hr] at hn
      simp at hn
      subst hn
      rcases List.mem_cons.mp he with h1 | h1
      · subst h1
        exact le_of_lt (h.1 x (List.mem_of_getLast?_eq_some hr))
      · exact ih h.2 x hr e h1

/-- C13: for every configure queue with strictly increasing serials and every
acknowledged serial `s`, after `handleConfigureAcknowledged(s)` the queue holds
exactly the previously queued configures with a serial above `s`, in their
original order, and the last acknowledged configure is the newest previously
queued one with a serial at most `s`, or what it was when there is none; each
configure with a serial at most `s` has a serial at most that of the newest one.
The request `ack_configure(s)` passes `s` on in `configureAcknowledged`. -/
theorem configureAcknowledged_truncates (c : XdgSurfaceClient) (s : Nat)
    (hsorted : c.m_configureEvents.Pairwise (fun a b => a.m_serial < b.m_serial)) :
    (XdgSurfaceClient.handleConfigureAcknowledged c s).m_configureEvents
        = configuresAbove s c.m_configureEvents
    ∧ (XdgSurfaceClient.handleConfigureAcknowledged c s).m_lastAcknowledgedConfigure
        = (match newestUpTo s c.m_configureEvents with
            | some e => some e
            | none => c.m_lastAcknowledgedConfigure)
    ∧ (∀ e, e ∈ (XdgSurfaceClient.handleConfigureAcknowledged c s).m_configureEvents
          ↔ e ∈ c.m_configureEvents ∧ s < e.m_serial)
    ∧ (∀ n, newestUpTo s c.m_configureEvents = some n →
          n ∈ c.m_configureEvents ∧ n.m_serial ≤ s
          ∧ ∀ e ∈ c.m_configureEvents, e.m_serial ≤ s → e.m_serial ≤ n.m_serial)
    ∧ (newestUpTo s c.m_configureEvents = none ↔ ∀ e ∈ c.m_configureEvents, s < e.m_serial)
    ∧ (∀ q : XdgSurfaceId, XdgSurfaceInterfacePrivate.xdg_surface_ack_configure q s
          = [Event.signal (Signal.configureAcknowledged q s)]) := by
  have h := takeAcknowledged_sorted s c.m_configureEvents hsorted c.m_lastAcknowledgedConfigure
  refine ⟨h.1, h.2, ?_, ?_, ?_, fun _ => rfl⟩
  · intro e
    show e ∈ (XdgSurfaceClient.takeAcknowledged s c.m_configureEvents
        c.m_lastAcknowledgedConfigure).1 ↔ _
    rw [h.1]
    simp [configuresAbove, List.mem_filter]
  · intro n hn
    have hmem : n ∈ c.m_configureEvents.filter (fun e => decide (e.m_serial ≤ s)) :=
      List.mem_of_getLast?_eq_some hn
    rw [List.mem_filter] at hmem
    refine ⟨hmem.1, by simpa using hmem.2, ?_⟩
    intro e he hes
    exact getLast_sorted_max _ (hsorted.sublist (List.filter_sublist _)) n hn e
      (List.mem_filter.mpr ⟨he, by simpa using hes⟩)
  · simp only [newestUpTo]
    rw [List.getLast?_eq_none_iff, List.filter_eq_nil_iff]
    constructor
    · intro h e he
      have := h e he
      simp at this; omega
    · intro h e he
      have := h e he
      simp; omega

/-- C13, at a concrete input: the queue with serials 1, 2 and 4 after the
acknowledgement of serial 3 holds the configure 4 alone, and the configure 2 is
the last acknowledged one. -/
theorem configureAcknowledged_truncates_witness :
    (XdgSurfaceClient.handleConfigureAcknowledged scenarioQueue 3).m_configureEvents
        = [{ m_geometry := QRect.fromXYWH 0 0 320 240, m_serial := 4 }]
    ∧ (XdgSurfaceClient.handleConfigureAcknowledged scenarioQueue 3).m_lastAcknowledgedConfigure
        = some { m_geometry := QRect.fromXYWH 0 0 640 480, m_serial := 2 } :=
  ⟨(configureAcknowledged_truncates scenarioQueue 3 (by decide)).1,
   (configureAcknowledged_truncates scenarioQueue 3 (by decide)).2.1⟩

/-! ### Answers to pings -/

theorem runEvents_append (w : World) (a b : List Op) :
    runEvents w (a ++ b) = runEvents w a ++ runEvents (run w a) b := by
  induction a generalizing w with
  | nil => rfl
  | cons op a ih =>
    show (step w op).2 ++ runEvents (step w op).1 (a ++ b) = _
    rw [ih]
    simp only [runEvents, run, List.append_assoc]

/-- `pong(s)` while the ping `s` is in phase `k < 2` removes the record and its
timer and emits `pongReceived(s)`. -/
theorem pingPhase_pong_self (s : Nat) (t : TimerId) (k : Nat) (w : World) (hk : k < 2)
    (h : PingPhase s t k w) :
    PingPhase s t 2 (step w (Op.xdg_wm_base_pong s)).1
      ∧ (step w (Op.xdg_wm_base_pong s)).2 = [Event.signal (Signal.pongReceived s)] := by
  obtain ⟨h1, h2, h3, h4, h5⟩ := h
  rw [if_pos hk] at h1
  simp only [step, XdgShellInterfacePrivate.xdg_wm_base_pong, h1]
  refine ⟨⟨?_, ?_, ?_, ?_, h5⟩, trivial⟩
  · simp
  · simp
  · intro t' tm ht' hne
    simp only [Function.update_apply, if_neg hne] at ht'
    exact h3 t' tm ht' hne
  · intro s' hs'
    simp only [Function.update_apply] at hs'
    split at hs'
    · cases hs'
    · exact h4 s' hs'

/-- Once the record of the ping `s` is gone, no operation brings it back or
emits a ping signal about `s`, as long as the display does not hand out `s` again. -/
theorem pingPhase_dead (s : Nat) (t : TimerId) (ops : List Op) :
    ∀ w : World, PingPhase s t 2 w → serialNotDrawn s w ops = true →
      pingSignalsOf s (runEvents w ops) = [] ∧ PingPhase s t 2 (run w ops) := by
  induction ops with
  | nil => intro w h _; exact ⟨rfl, h⟩
  | cons op ops ih =>
    intro w h hser
    simp only [serialNotDrawn, Bool.and_eq_true, decide_eq_true_eq] at hser
    have hstep : PingPhase s t 2 (step w op).1 ∧ pingSignalsOf s (step w op).2 = [] := by
      by_cases hp : op = Op.xdg_wm_base_pong s
      · subst hp
        have h1 := h.1
        simp only [Nat.lt_irrefl, if_false] at h1
        simp only [step, XdgShellInterfacePrivate.xdg_wm_base_pong, h1]
        exact ⟨h, rfl⟩
      · obtain ⟨hs1, hs2⟩ := pingPhase_step s t 2 w op (le_refl _) h hp hser.1
        by_cases ht : op = Op.pingTimerTimeout t
        · obtain ⟨hJ, hev⟩ := hs1 ht
          refine ⟨by simpa using hJ, ?_⟩
          rw [hev]; rfl
        · exact hs2 ht
    obtain ⟨ih1, ih2⟩ := ih (step w op).1 hstep.1 hser.2
    exact ⟨by rw [runEvents, pingSignalsOf_append, hstep.2, ih1]; rfl, ih2⟩

/-- A serial that the display has not handed out has no record in the registry. -/
theorem pings_none_run (s : Nat) (ops : List Op) :
    ∀ w : World, w.pings s = none → serialNotDrawn s w ops = true → (run w ops).pings s = none := by
  induction ops with
  | nil => intro w h _; exact h
  | cons op ops ih =>
    intro w h hser
    simp only [serialNotDrawn, Bool.and_eq_true, decide_eq_true_eq] at hser
    refine ih (step w op).1 ?_ hser.2
    by_cases hping : ∃ x, op = Op.ping x
    · obtain ⟨x, rfl⟩ := hping
      have hne : s ≠ w.nextSerial := fun e => hser.1 e.symm
      simp only [step, XdgShellInterface.ping]
      split
      · exact h
      · split
        · simp only [XdgShellInterfacePrivate.registerPing, Function.update_apply, if_neg hne]
          exact h
        · exact h
    by_cases hpg : ∃ s', op = Op.xdg_wm_base_pong s'
    · obtain ⟨s', rfl⟩ := hpg
      simp only [step, XdgShellInterfacePrivate.xdg_wm_base_pong]
      split
      · simp only [Function.update_apply]
        split
        · rfl
        · exact h
      · exact h
    by_cases htick : ∃ t', op = Op.pingTimerTimeout t'
    · obtain ⟨t', rfl⟩ := htick
      simp only [step, XdgShellInterfacePrivate.pingTimerTimeout]
      split
      · exact h
      · split
        · exact h
        · split <;> (simp only [Function.update_apply]; split <;> first | rfl | exact h)
    · have f1 : ∀ x, op ≠ Op.ping x := fun x e => hping ⟨x, e⟩
      have f2 : ∀ s', op ≠ Op.xdg_wm_base_pong s' := fun s' e => hpg ⟨s', e⟩
      have f3 : ∀ t', op ≠ Op.pingTimerTimeout t' := fun t' e => htick ⟨t', e⟩
      rw [(step_ping_frame w op f1 f2 f3).2]
      exact h
/-- No two serials of the registry share a timer: each `registerPing` stores a
new timer. -/
theorem pings_injective_step (w : World) (op : Op) (hf : w.Fresh)
    (h : ∀ s1 s2 t, w.pings s1 = some t → w.pings s2 = some t → s1 = s2) :
    ∀ s1 s2 t, (step w op).1.pings s1 = some t → (step w op).1.pings s2 = some t → s1 = s2 := by
  by_cases hping : ∃ x, op = Op.ping x
  · obtain ⟨x, rfl⟩ := hping
    simp only [step, XdgShellInterface.ping]
    split
    · exact h
    · split
      · intro s1 s2 t h1 h2
        simp only [XdgShellInterfacePrivate.registerPing, Function.update_apply] at h1 h2
        split at h1 <;> split at h2
        · subst_vars; rfl
        · injection h1 with h1
          subst h1
          exact absurd (hf.2.2 _ _ h2) (Nat.lt_irrefl _)
        · injection h2 with h2
          subst h2
          exact absurd (hf.2.2 _ _ h1) (Nat.lt_irrefl _)
        · exact h s1 s2 t h1 h2
      · exact h
  by_cases hpg : ∃ s', op = Op.xdg_wm_base_pong s'
  · obtain ⟨s', rfl⟩ := hpg
    simp only [step, XdgShellInterfacePrivate.xdg_wm_base_pong]
    split
    · intro s1 s2 t h1 h2
      simp only [Function.update_apply] at h1 h2
      split at h1
      · cases h1
      · split at h2
        · cases h2
        · exact h s1 s2 t h1 h2
    · exact h
  by_cases htick : ∃ t', op = Op.pingTimerTimeout t'
  · obtain ⟨t', rfl⟩ := htick
    simp only [step, XdgShellInterfacePrivate.pingTimerTimeout]
    split
    · exact h
    · split
      · exact h
      · split <;>
        · intro s1 s2 t h1 h2
          simp only [Function.update_apply] at h1 h2
          split at h1
          · cases h1
          · split at h2
            · cases h2
            · exact h s1 s2 t h1 h2
  · have f1 : ∀ x, op ≠ Op.ping x := fun x e => hping ⟨x, e⟩
    have f2 : ∀ s', op ≠ Op.xdg_wm_base_pong s' := fun s' e => hpg ⟨s', e⟩
    have f3 : ∀ t', op ≠ Op.pingTimerTimeout t' := fun t' e => htick ⟨t', e⟩
    rw [(step_ping_frame w op f1 f2 f3).2]
    exact h

theorem pings_injective_run (ops : List Op) :
    ∀ w : World, w.Fresh →
      (∀ s1 s2 t, w.pings s1 = some t → w.pings s2 = some t → s1 = s2) →
      ∀ s1 s2 t, (run w ops).pings s1 = some t → (run w ops).pings s2 = some t → s1 = s2 := by
  induction ops with
  | nil => intro w _ h; exact h
  | cons op ops ih =>
    intro w hf h
    exact ih (step w op).1 (step_fresh w op hf) (pings_injective_step w op hf h)

/-- What `pong(s)` does, by whether the registry has a record for `s`. -/
theorem pong_step (w : World) (s : Nat) :
    ((step w (Op.xdg_wm_base_pong s)).2 = [Event.signal (Signal.pongReceived s)]
        ↔ (w.pings s).isSome = true)
    ∧ (∀ t, w.pings s = some t →
        step w (Op.xdg_wm_base_pong s)
          = ({ w with
                pings := Function.update w.pings s none
                timers := Function.update w.timers t none },
              [Event.signal (Signal.pongReceived s)]))
    ∧ (w.pings s = none → step w (Op.xdg_wm_base_pong s) = (w, []))
    ∧ (∀ s', s' ≠ s → (step w (Op.xdg_wm_base_pong s)).1.pings s' = w.pings s') := by
  simp only [step, XdgShellInterfacePrivate.xdg_wm_base_pong]
  cases hp : w.pings s with
  | none =>
    refine ⟨by simp, (fun t ht => by cases ht), fun _ => rfl, fun _ _ => rfl⟩
  | some t =>
    refine ⟨by simp, ?_, (fun h => by cases h), ?_⟩
    · intro t' ht'
      injection ht' with ht'
      subst ht'
      rfl
    · intro s' hne
      simp only [Function.update_apply, if_neg hne]

/-- The signals about `s` of a trace in which the ping `s`, in phase `k`, is
answered after the operations `a`. -/
theorem pong_trace (s : Nat) (t : TimerId) (a b : List Op) (w : World) (hp : PingPhase s t 0 w)
    (hpong : ∀ op ∈ a, op ≠ Op.xdg_wm_base_pong s)
    (hser : serialNotDrawn s w (a ++ Op.xdg_wm_base_pong s :: b) = true) :
    (step (run w a) (Op.xdg_wm_base_pong s)).2
        = (if a.count (Op.pingTimerTimeout t) < 2 then
            [Event.signal (Signal.pongReceived s)] else [])
    ∧ PingPhase s t 2 (run w (a ++ [Op.xdg_wm_base_pong s]))
    ∧ pingSignalsOf s (runEvents (run w (a ++ [Op.xdg_wm_base_pong s])) b) = []
    ∧ pingSignalsOf s (runEvents w (a ++ Op.xdg_wm_base_pong s :: b))
        = [Signal.pingDelayed s, Signal.pingTimeout s].take (a.count (Op.pingTimerTimeout t))
          ++ (if a.count (Op.pingTimerTimeout t) < 2 then [Signal.pongReceived s] else []) := by
  obtain ⟨hsa, hsb⟩ := serialNotDrawn_append s a _ w hser
  simp only [serialNotDrawn, Bool.and_eq_true, decide_eq_true_eq] at hsb
  obtain ⟨hsig, hphase⟩ := ping_lifecycle_aux s t a w 0 (Nat.zero_le _) hp hpong hsa
  simp only [Nat.zero_add, List.drop_zero] at hsig hphase
  have hstep : PingPhase s t 2 (step (run w a) (Op.xdg_wm_base_pong s)).1
      ∧ (step (run w a) (Op.xdg_wm_base_pong s)).2
          = (if a.count (Op.pingTimerTimeout t) < 2 then
              [Event.signal (Signal.pongReceived s)] else []) := by
    by_cases hn : a.count (Op.pingTimerTimeout t) < 2
    · rw [Nat.min_eq_right (Nat.le_of_lt hn)] at hphase
      rw [if_pos hn]
      exact pingPhase_pong_self s t _ _ hn hphase
    · rw [Nat.min_eq_left (by omega)] at hphase
      rw [if_neg hn]
      have h1 := hphase.1
      simp only [Nat.lt_irrefl, if_false] at h1
      refine ⟨?_, ?_⟩
      · rw [((pong_step (run w a) s).2.2.1 h1)]; exact hphase
      · rw [((pong_step (run w a) s).2.2.1 h1)]
  have hrun : run w (a ++ [Op.xdg_wm_base_pong s]) = (step (run w a) (Op.xdg_wm_base_pong s)).1 := by
    rw [run_append]; rfl
  obtain ⟨hd1, _⟩ := pingPhase_dead s t b _ hstep.1 hsb.2
  refine ⟨hstep.2, by rw [hrun]; exact hstep.1, by rw [hrun]; exact hd1, ?_⟩
  rw [runEvents_append, pingSignalsOf_append, hsig]
  show _ ++ pingSignalsOf s ((step (run w a) (Op.xdg_wm_base_pong s)).2
      ++ runEvents (step (run w a) (Op.xdg_wm_base_pong s)).1 b) = _
  rw [pingSignalsOf_append, hd1, hstep.2, List.append_nil]
  split
  · simp [pingSignalsOf, signalsOf]
  · rfl
/-- After the registration of the ping `s`, whatever happens, the trace has at
most one `pongReceived(s)` and not both a `pongReceived(s)` and a `pingTimeout(s)`. -/
theorem ping_trace_exclusive (s : Nat) (t : TimerId) (ops : List Op) (w : World)
    (hp : PingPhase s t 0 w) (hser : serialNotDrawn s w ops = true) :
    ¬ (Signal.pongReceived s ∈ pingSignalsOf s (runEvents w ops)
        ∧ Signal.pingTimeout s ∈ pingSignalsOf s (runEvents w ops))
    ∧ (pingSignalsOf s (runEvents w ops)).count (Signal.pongReceived s) ≤ 1 := by
  have htake : ∀ n : Nat, 2 ≤ n →
      [Signal.pingDelayed s, Signal.pingTimeout s].take n
        = [Signal.pingDelayed s, Signal.pingTimeout s] :=
    fun n hn => List.take_of_length_le (by simpa using hn)
  by_cases hmem : Op.xdg_wm_base_pong s ∈ ops
  · obtain ⟨a, b, rfl, hna⟩ := List.eq_append_cons_of_mem hmem
    have hpong : ∀ op ∈ a, op ≠ Op.xdg_wm_base_pong s := fun op ho e => hna (e ▸ ho)
    rw [(pong_trace s t a b w hp hpong hser).2.2.2]
    generalize a.count (Op.pingTimerTimeout t) = n
    have hn3 : n = 0 ∨ n = 1 ∨ 2 ≤ n := by omega
    rcases hn3 with rfl | rfl | hn
    · simp
    · simp
    · rw [htake n hn, if_neg (by omega)]
      simp
  · have hpong : ∀ op ∈ ops, op ≠ Op.xdg_wm_base_pong s := fun op ho e => hmem (e ▸ ho)
    rw [(ping_lifecycle_aux s t ops w 0 (Nat.zero_le _) hp hpong hser).1]
    simp only [List.drop_zero]
    generalize ops.count (Op.pingTimerTimeout t) = n
    have hn3 : n = 0 ∨ n = 1 ∨ 2 ≤ n := by omega
    rcases hn3 with rfl | rfl | hn
    · simp
    · simp
    · rw [htake n hn]
      simp

/-- C11: `pong(s)` emits `pongReceived(s)` exactly when the registry has a
record for `s`; then it removes the record and deletes its timer, and otherwise
it emits nothing and changes no state; the registry entries of all other
serials are unchanged, and in every reachable state so are their timers; a
serial that the display never handed out has no record.  After a ping that
registered the serial `s` (and as long as the display does not hand out `s`
again): the first `pong(s)` emits `pongReceived(s)` iff the timer has ticked
fewer than two times before it (the ping has not timed out); after it the
record and the timer are gone, and whatever follows (ticks, further `pong(s)`)
no `pingDelayed(s)`, `pingTimeout(s)` or `pongReceived(s)` is emitted; and in
any trace after the ping at most one `pongReceived(s)` occurs and never both a
`pongReceived(s)` and a `pingTimeout(s)`. -/
theorem pong_contract (w0 : World) (surface : XdgSurfaceId) (client : ClientId)
    (a b : List Op)
    (hclient : clientFromXdgSurface w0 surface = some client)
    (hbound : client ∈ w0.resourceMap)
    (hfresh : w0.Fresh)
    (hnew : ∀ t tm, w0.timers t = some tm → tm.serial ≠ w0.nextSerial)
    (hpong : ∀ op ∈ a, op ≠ Op.xdg_wm_base_pong w0.nextSerial)
    (hser : serialNotDrawn w0.nextSerial (XdgShellInterface.ping w0 surface).1
        (a ++ Op.xdg_wm_base_pong w0.nextSerial :: b) = true) :
    (∀ (w : World) (s : Nat),
        ((step w (Op.xdg_wm_base_pong s)).2 = [Event.signal (Signal.pongReceived s)]
            ↔ (w.pings s).isSome = true)
        ∧ (∀ t, w.pings s = some t →
            step w (Op.xdg_wm_base_pong s)
              = ({ w with
                    pings := Function.update w.pings s none
                    timers := Function.update w.timers t none },
                  [Event.signal (Signal.pongReceived s)]))
        ∧ (w.pings s = none → step w (Op.xdg_wm_base_pong s) = (w, []))
        ∧ (∀ s', s' ≠ s → (step w (Op.xdg_wm_base_pong s)).1.pings s' = w.pings s'))
    ∧ (∀ (ops : List Op) (s s' : Nat) (t' : TimerId), s' ≠ s →
        (run World.init ops).pings s' = some t' →
        (step (run World.init ops) (Op.xdg_wm_base_pong s)).1.pings s' = some t'
        ∧ (step (run World.init ops) (Op.xdg_wm_base_pong s)).1.timers t'
            = (run World.init ops).timers t')
    ∧ (∀ (ops : List Op) (s : Nat), serialNotDrawn s World.init ops = true →
        step (run World.init ops) (Op.xdg_wm_base_pong s) = (run World.init ops, []))
    ∧ (step (run (XdgShellInterface.ping w0 surface).1 a) (Op.xdg_wm_base_pong w0.nextSerial)).2
        = (if a.count (Op.pingTimerTimeout w0.fresh) < 2 then
            [Event.signal (Signal.pongReceived w0.nextSerial)] else [])
    ∧ (run (XdgShellInterface.ping w0 surface).1
          (a ++ [Op.xdg_wm_base_pong w0.nextSerial])).pings w0.nextSerial = none
    ∧ (run (XdgShellInterface.ping w0 surface).1
          (a ++ [Op.xdg_wm_base_pong w0.nextSerial])).timers w0.fresh = none
    ∧ pingSignalsOf w0.nextSerial
          (runEvents (run (XdgShellInterface.ping w0 surface).1
            (a ++ [Op.xdg_wm_base_pong w0.nextSerial])) b) = []
    ∧ pingSignalsOf w0.nextSerial
          (runEvents (XdgShellInterface.ping w0 surface).1
            (a ++ Op.xdg_wm_base_pong w0.nextSerial :: b))
        = [Signal.pingDelayed w0.nextSerial, Signal.pingTimeout w0.nextSerial].take
              (a.count (Op.pingTimerTimeout w0.fresh))
          ++ (if a.count (Op.pingTimerTimeout w0.fresh) < 2 then
                [Signal.pongReceived w0.nextSerial] else [])
    ∧ (∀ ops : List Op,
        serialNotDrawn w0.nextSerial (XdgShellInterface.ping w0 surface).1 ops = true →
        ¬ (Signal.pongReceived w0.nextSerial
              ∈ pingSignalsOf w0.nextSerial (runEvents (XdgShellInterface.ping w0 surface).1 ops)
            ∧ Signal.pingTimeout w0.nextSerial
              ∈ pingSignalsOf w0.nextSerial (runEvents (XdgShellInterface.ping w0 surface).1 ops))
        ∧ (pingSignalsOf w0.nextSerial
              (runEvents (XdgShellInterface.ping w0 surface).1 ops)).count
            (Signal.pongReceived w0.nextSerial) ≤ 1) := by
  obtain ⟨_, hphase⟩ := pingPhase_after_ping w0 surface client hclient hbound hfresh hnew
  obtain ⟨h1, h2, h3, h4⟩ := pong_trace w0.nextSerial w0.fresh a b _ hphase hpong hser
  refine ⟨pong_step, ?_, ?_, h1, ?_, ?_, h3, h4, ?_⟩
  · intro ops s s' t' hne hs'
    have hinj := pings_injective_run ops World.init init_fresh
      (fun s1 s2 t h => by cases h)
    rcases hp : (run World.init ops).pings s with _ | t
    · rw [(pong_step _ s).2.2.1 hp]
      exact ⟨hs', rfl⟩
    · rw [(pong_step _ s).2.1 t hp]
      have hne' : t' ≠ t := by
        intro e
        subst e
        exact hne (hinj s' s t' hs' hp)
      refine ⟨?_, ?_⟩
      · simp only [Function.update_apply, if_neg hne]; exact hs'
      · simp only [Function.update_apply, if_neg hne']
  · intro ops s hs
    exact (pong_step _ s).2.2.1 (pings_none_run s ops World.init rfl hs)
  · have := h2.1
    simpa using this
  · have := h2.2.1
    simpa using this
  · intro ops hs
    exact ping_trace_exclusive w0.nextSerial w0.fresh ops _ hphase hs

/-- C11, at a concrete input (scenario S4): after the ping with serial 7, the
timer ticks once, `pong(7)` arrives, and then the timer ticks and `pong(7)`
arrives once more: the signals about 7 are `pingDelayed(7)` and one
`pongReceived(7)`. -/
theorem pong_contract_witness :
    pingSignalsOf 7 (runEvents (XdgShellInterface.ping scenarioS4 0).1 scenarioS4Pong)
      = [Signal.pingDelayed 7, Signal.pongReceived 7] :=
  (pong_contract scenarioS4 0 1 [Op.pingTimerTimeout 1, Op.ping 0]
    [Op.pingTimerTimeout 1, Op.xdg_wm_base_pong 7, Op.pingTimerTimeout 2]
    (by decide) (by decide)
    (run_fresh_from _ _
      ⟨fun _ _ => ⟨rfl, rfl, rfl, rfl, rfl⟩, fun e he => (by cases he), fun s t h => (by cases h)⟩)
    (by intro t tm h; cases h) (by decide) (by decide)).2.2.2.2.2.2.2.1

/-! ### Configure serials -/

theorem sendsOf_append (a b : List Event) : sendsOf (a ++ b) = sendsOf a ++ sendsOf b := by
  induction a with
  | nil => rfl
  | cons e a ih => cases e <;> simp [sendsOf, ih]

theorem configureSerials_nil (q0 : XdgSurfaceId) : configureSerials q0 [] = [] := rfl

theorem configureSerials_error (q0 : XdgSurfaceId) (c : ProtocolError) :
    configureSerials q0 [Event.error c] = [] := rfl

theorem configureSerials_append (q0 : XdgSurfaceId) (a b : List Event) :
    configureSerials q0 (a ++ b) = configureSerials q0 a ++ configureSerials q0 b := by
  simp [configureSerials, sendsOf_append]

theorem configureSerials_xdgSurface_commit (q0 : XdgSurfaceId) (q : XdgSurfaceId)
    (d : XdgSurfaceInterfacePrivate) :
    configureSerials q0 (XdgSurfaceInterfacePrivate.commit q d).2 = [] := by
  rw [xdgSurface_commit_snd]; split <;> rfl

theorem configureSerials_toplevel_commit (q0 : XdgSurfaceId) (t : ToplevelId)
    (d : XdgToplevelInterfacePrivate) (xs : XdgSurfaceInterfacePrivate) :
    configureSerials q0 (XdgToplevelInterfacePrivate.commit t d xs).2.2 = [] := by
  cases hc : xs.isConfigured
  · rw [toplevel_commit_unconfigured t d xs hc]; rfl
  · rw [(toplevel_commit_configured t d xs hc).2.2, configureSerials_append, configureSerials_append,
      configureSerials_xdgSurface_commit]
    split <;> split <;> rfl

theorem configureSerials_popup_commit (q0 : XdgSurfaceId) (p : PopupId)
    (d : XdgPopupInterfacePrivate) (xs : XdgSurfaceInterfacePrivate) :
    configureSerials q0 (XdgPopupInterfacePrivate.commit p d xs).2 = [] := by
  cases hc : xs.isConfigured
  · rw [popup_commit_unconfigured p d xs hc]; rfl
  · simp only [XdgPopupInterfacePrivate.commit, hc, if_true, configureSerials_xdgSurface_commit]

theorem configureSerials_set_window_geometry (q0 : XdgSurfaceId) (d : XdgSurfaceInterfacePrivate)
    (x y width height : Int) :
    configureSerials q0
      (XdgSurfaceInterfacePrivate.xdg_surface_set_window_geometry d x y width height).2 = [] := by
  unfold XdgSurfaceInterfacePrivate.xdg_surface_set_window_geometry
  split
  · rfl
  · split <;> rfl

theorem configureSerials_set_parent (q0 : XdgSurfaceId) (w : World) (q : ToplevelId)
    (d : XdgToplevelInterfacePrivate) (parent : Option ToplevelId) :
    configureSerials q0 (XdgToplevelInterfacePrivate.xdg_toplevel_set_parent w q d parent).2 = [] := by
  unfold XdgToplevelInterfacePrivate.xdg_toplevel_set_parent
  dsimp only
  split <;> rfl

theorem configureSerials_set_title (q0 : XdgSurfaceId) (q : ToplevelId)
    (d : XdgToplevelInterfacePrivate) (title : String) :
    configureSerials q0 (XdgToplevelInterfacePrivate.xdg_toplevel_set_title q d title).2 = [] := by
  unfold XdgToplevelInterfacePrivate.xdg_toplevel_set_title
  split <;> rfl

theorem configureSerials_set_app_id (q0 : XdgSurfaceId) (q : ToplevelId)
    (d : XdgToplevelInterfacePrivate) (app_id : String) :
    configureSerials q0 (XdgToplevelInterfacePrivate.xdg_toplevel_set_app_id q d app_id).2 = [] := by
  unfold XdgToplevelInterfacePrivate.xdg_toplevel_set_app_id
  split <;> rfl

theorem configureSerials_show_window_menu (q0 : XdgSurfaceId) (q : ToplevelId)
    (xs : XdgSurfaceInterfacePrivate) (seat : Option SeatId) (serial : Nat) (x y : Int) :
    configureSerials q0
      (XdgToplevelInterfacePrivate.xdg_toplevel_show_window_menu q xs seat serial x y) = [] := by
  unfold XdgToplevelInterfacePrivate.xdg_toplevel_show_window_menu
  split <;> rfl

theorem configureSerials_move (q0 : XdgSurfaceId) (q : ToplevelId)
    (xs : XdgSurfaceInterfacePrivate) (seat : Option SeatId) (serial : Nat) :
    configureSerials q0 (XdgToplevelInterfacePrivate.xdg_toplevel_move q xs seat serial) = [] := by
  unfold XdgToplevelInterfacePrivate.xdg_toplevel_move
  split <;> rfl

theorem configureSerials_resize (q0 : XdgSurfaceId) (q : ToplevelId)
    (xs : XdgSurfaceInterfacePrivate) (seat : Option SeatId) (serial : Nat) (edges : Nat) :
    configureSerials q0 (XdgToplevelInterfacePrivate.xdg_toplevel_resize q xs seat serial edges)
      = [] := by
  unfold XdgToplevelInterfacePrivate.xdg_toplevel_resize
  split
  · rfl
  · rfl

theorem configureSerials_set_max_size (q0 : XdgSurfaceId) (d : XdgToplevelInterfacePrivate)
    (width height : Int) :
    configureSerials q0 (XdgToplevelInterfacePrivate.xdg_toplevel_set_max_size d width height).2
      = [] := by
  unfold XdgToplevelInterfacePrivate.xdg_toplevel_set_max_size
  split <;> rfl

theorem configureSerials_set_min_size (q0 : XdgSurfaceId) (d : XdgToplevelInterfacePrivate)
    (width height : Int) :
    configureSerials q0 (XdgToplevelInterfacePrivate.xdg_toplevel_set_min_size d width height).2
      = [] := by
  unfold XdgToplevelInterfacePrivate.xdg_toplevel_set_min_size
  split <;> rfl

theorem configureSerials_positioner (q0 : XdgSurfaceId) (data : XdgPositionerData) (r : PositionerRequest) :
    configureSerials q0 (XdgPositionerPrivate.request data r).2 = [] := by
  cases r with
  | set_size width height =>
    simp only [XdgPositionerPrivate.request, XdgPositionerPrivate.xdg_positioner_set_size]
    split <;> rfl
  | set_anchor_rect x y width height =>
    simp only [XdgPositionerPrivate.request, XdgPositionerPrivate.xdg_positioner_set_anchor_rect]
    split <;> rfl
  | set_anchor anchor =>
    simp only [XdgPositionerPrivate.request, XdgPositionerPrivate.xdg_positioner_set_anchor,
      apply_ite Prod.snd, apply_ite (configureSerials q0), configureSerials_nil, configureSerials_error,
      ite_self]
  | set_gravity gravity =>
    simp only [XdgPositionerPrivate.request, XdgPositionerPrivate.xdg_positioner_set_gravity,
      apply_ite Prod.snd, apply_ite (configureSerials q0), configureSerials_nil, configureSerials_error,
      ite_self]
  | set_constraint_adjustment mask =>
    simp only [XdgPositionerPrivate.request,
      XdgPositionerPrivate.xdg_positioner_set_constraint_adjustment, configureSerials_nil]
  | set_offset x y =>
    simp only [XdgPositionerPrivate.request, XdgPositionerPrivate.xdg_positioner_set_offset,
      configureSerials_nil]

theorem configureSerials_onXdgSurface (q0 : XdgSurfaceId) (w : World) (q : XdgSurfaceId)
    (f : XdgSurfaceInterfacePrivate → XdgSurfaceInterfacePrivate × List Event)
    (hf : ∀ d, configureSerials q0 (f d).2 = []) : configureSerials q0 (w.onXdgSurface q f).2 = [] := by
  unfold World.onXdgSurface
  split
  · rfl
  · exact hf _

theorem configureSerials_onToplevel (q0 : XdgSurfaceId) (w : World) (q : ToplevelId)
    (f : XdgToplevelInterfacePrivate → XdgToplevelInterfacePrivate × List Event)
    (hf : ∀ d, configureSerials q0 (f d).2 = []) : configureSerials q0 (w.onToplevel q f).2 = [] := by
  unfold World.onToplevel
  split
  · rfl
  · exact hf _

theorem configureSerials_readToplevel (q0 : XdgSurfaceId) (w : World) (q : ToplevelId)
    (f : XdgSurfaceInterfacePrivate → List Event)
    (hf : ∀ xs, configureSerials q0 (f xs) = []) : configureSerials q0 (w.readToplevel q f).2 = [] := by
  unfold World.readToplevel
  split
  · rfl
  · split
    · rfl
    · exact hf _

theorem configureSerials_onPositioner (q0 : XdgSurfaceId) (w : World) (resource : PositionerId)
    (f : XdgPositionerData → XdgPositionerData × List Event)
    (hf : ∀ d, configureSerials q0 (f d).2 = []) :
    configureSerials q0 (w.onPositioner resource f).2 = [] := by
  unfold World.onPositioner
  split
  · rfl
  · exact hf _

theorem configureSerials_surface_commit (q0 : XdgSurfaceId) (w : World) (surface : SurfaceId) :
    configureSerials q0 (SurfaceInterface.commit w surface).2 = [] := by
  unfold SurfaceInterface.commit
  split
  · rfl
  · rename_i role _
    unfold SurfaceRole.commit
    cases role with
    | toplevel t =>
      dsimp only
      split
      · rfl
      · split
        · rfl
        · exact configureSerials_toplevel_commit _ _ _ _
    | popup p =>
      dsimp only
      split
      · rfl
      · split
        · rfl
        · exact configureSerials_popup_commit _ _ _ _

/-- The only steps that send an `xdg_surface.configure` are the two
`sendConfigure`s. -/
theorem step_configureSerials (w : World) (op : Op)
    (h1 : ∀ q size states, op ≠ Op.toplevelSendConfigure q size states)
    (h2 : ∀ q rect, op ≠ Op.popupSendConfigure q rect) (q0 : XdgSurfaceId) :
    configureSerials q0 (step w op).2 = [] := by
  cases op with
  | toplevelSendConfigure q size states => exact absurd rfl (h1 q size states)
  | popupSendConfigure q rect => exact absurd rfl (h2 q rect)
  | xdg_wm_base_pong s =>
    simp only [step, XdgShellInterfacePrivate.xdg_wm_base_pong]
    split <;> rfl
  | pingTimerTimeout t =>
    simp only [step, XdgShellInterfacePrivate.pingTimerTimeout]
    split
    · rfl
    · split
      · rfl
      · split <;> rfl
  | surface_set_buffer surface buffer => rfl
  | surface_commit surface => exact configureSerials_surface_commit q0 w surface
  | xdg_wm_base_bind client => rfl
  | xdg_wm_base_destroy client =>
    simp only [step, XdgShellInterfacePrivate.xdg_wm_base_destroy]
    split <;> rfl
  | xdg_wm_base_create_positioner client => rfl
  | xdg_wm_base_get_xdg_surface client surface =>
    simp only [step, XdgShellInterfacePrivate.xdg_wm_base_get_xdg_surface]
    split <;> rfl
  | ping surface =>
    simp only [step, XdgShellInterface.ping]
    split
    · rfl
    · split <;> rfl
  | xdg_surface_destroy q =>
    simp only [step, XdgSurfaceInterfacePrivate.xdg_surface_destroy]
    split
    · rfl
    · dsimp only
      split <;> rfl
  | xdg_surface_get_toplevel q =>
    simp only [step, XdgSurfaceInterfacePrivate.xdg_surface_get_toplevel]
    split
    · rfl
    · split <;> rfl
  | xdg_surface_get_popup q parent positioner =>
    simp only [step, XdgSurfaceInterfacePrivate.xdg_surface_get_popup]
    split
    · rfl
    · split
      · rfl
      · split
        · rfl
        · split <;> rfl
  | xdg_surface_set_window_geometry q x y width height =>
    exact configureSerials_onXdgSurface q0 w q _
      (fun d => configureSerials_set_window_geometry q0 d x y width height)
  | xdg_surface_ack_configure q serial =>
    exact configureSerials_onXdgSurface q0 w q _ (fun _ => rfl)
  | xdg_toplevel_set_parent q parent =>
    exact configureSerials_onToplevel q0 w q _
      (fun d => configureSerials_set_parent q0 w q d parent)
  | xdg_toplevel_set_title q title =>
    exact configureSerials_onToplevel q0 w q _ (fun d => configureSerials_set_title q0 q d title)
  | xdg_toplevel_set_app_id q app_id =>
    exact configureSerials_onToplevel q0 w q _
      (fun d => configureSerials_set_app_id q0 q d app_id)
  | xdg_toplevel_show_window_menu q seat serial x y =>
    exact configureSerials_readToplevel q0 w q _
      (fun xs => configureSerials_show_window_menu q0 q xs seat serial x y)
  | xdg_toplevel_move q seat serial =>
    exact configureSerials_readToplevel q0 w q _
      (fun xs => configureSerials_move q0 q xs seat serial)
  | xdg_toplevel_resize q seat serial edges =>
    exact configureSerials_readToplevel q0 w q _
      (fun xs => configureSerials_resize q0 q xs seat serial edges)
  | xdg_toplevel_set_max_size q width height =>
    exact configureSerials_onToplevel q0 w q _
      (fun d => configureSerials_set_max_size q0 d width height)
  | xdg_toplevel_set_min_size q width height =>
    exact configureSerials_onToplevel q0 w q _
      (fun d => configureSerials_set_min_size q0 d width height)
  | xdg_toplevel_set_maximized q => exact configureSerials_onToplevel q0 w q _ (fun _ => rfl)
  | xdg_toplevel_unset_maximized q => exact configureSerials_onToplevel q0 w q _ (fun _ => rfl)
  | xdg_toplevel_set_fullscreen q output =>
    exact configureSerials_onToplevel q0 w q _ (fun _ => rfl)
  | xdg_toplevel_unset_fullscreen q => exact configureSerials_onToplevel q0 w q _ (fun _ => rfl)
  | xdg_toplevel_set_minimized q => exact configureSerials_onToplevel q0 w q _ (fun _ => rfl)
  | toplevelSendClose q => exact configureSerials_onToplevel q0 w q _ (fun _ => rfl)
  | xdg_popup_grab q seat serial =>
    simp only [step]
    split <;> rfl
  | popupSendPopupDone q =>
    simp only [step]
    split <;> rfl
  | xdg_positioner_destroy resource => rfl
  | xdg_toplevel_destroy q => rfl
  | xdg_popup_destroy q => rfl
  | xdg_positioner_set_size resource width height =>
    exact configureSerials_onPositioner q0 w resource _
      (fun d => configureSerials_positioner q0 d (PositionerRequest.set_size width height))
  | xdg_positioner_set_anchor_rect resource x y width height =>
    exact configureSerials_onPositioner q0 w resource _
      (fun d => configureSerials_positioner q0 d
        (PositionerRequest.set_anchor_rect x y width height))
  | xdg_positioner_set_anchor resource anchor =>
    exact configureSerials_onPositioner q0 w resource _
      (fun d => configureSerials_positioner q0 d (PositionerRequest.set_anchor anchor))
  | xdg_positioner_set_gravity resource gravity =>
    exact configureSerials_onPositioner q0 w resource _
      (fun d => configureSerials_positioner q0 d (PositionerRequest.set_gravity gravity))
  | xdg_positioner_set_constraint_adjustment resource mask =>
    exact configureSerials_onPositioner q0 w resource _
      (fun d => configureSerials_positioner q0 d
        (PositionerRequest.set_constraint_adjustment mask))
  | xdg_positioner_set_offset resource x y =>
    exact configureSerials_onPositioner q0 w resource _
      (fun d => configureSerials_positioner q0 d (PositionerRequest.set_offset x y))

/-- A step leaves the display's serial counter alone or draws one serial. -/
theorem step_serial (w : World) (op : Op) :
    (step w op).1.serial = w.serial ∨ (step w op).1.serial = w.nextSerial := by
  cases op
  all_goals simp only [step, SurfaceInterface.commit, SurfaceRole.commit,
    XdgShellInterfacePrivate.bind, XdgShellInterfacePrivate.xdg_wm_base_destroy,
    XdgShellInterfacePrivate.xdg_wm_base_create_positioner,
    XdgShellInterfacePrivate.xdg_wm_base_get_xdg_surface,
    XdgShellInterfacePrivate.xdg_wm_base_pong, XdgShellInterface.ping,
    XdgShellInterfacePrivate.pingTimerTimeout, XdgShellInterfacePrivate.registerPing,
    XdgShellInterfacePrivate.registerXdgSurface, XdgShellInterfacePrivate.unregisterXdgSurface,
    XdgSurfaceInterfacePrivate.xdg_surface_destroy,
    XdgSurfaceInterfacePrivate.xdg_surface_destroy_resource,
    XdgSurfaceInterfacePrivate.xdg_surface_get_toplevel,
    XdgSurfaceInterfacePrivate.xdg_surface_get_popup, SurfaceRole.attach,
    World.onXdgSurface, World.onToplevel, World.readToplevel, World.onPositioner,
    XdgToplevelInterface.sendConfigure, XdgPopupInterface.sendConfigure,
    XdgPositionerPrivate.xdg_positioner_destroy, clientFromXdgSurface,
    XdgToplevelInterfacePrivate.xdg_toplevel_destroy,
    XdgToplevelInterfacePrivate.xdg_toplevel_destroy_resource,
    XdgPopupInterfacePrivate.xdg_popup_destroy,
    XdgPopupInterfacePrivate.xdg_popup_destroy_resource,
    XdgSurfaceInterfacePrivate.clearToplevel, XdgSurfaceInterfacePrivate.clearPopup,
    SurfaceRole.detach]
  all_goals repeat' split
  all_goals first
    | exact Or.inl rfl
    | exact Or.inr rfl
    | trivial
    | simp

/-- What the toplevel's `sendConfigure` does on a live toplevel. -/
theorem toplevel_sendConfigure_eq (w : World) (t : ToplevelId) (size : QSize) (states : States)
    (d : XdgToplevelInterfacePrivate) (xs : XdgSurfaceInterfacePrivate)
    (ht : w.toplevels t = some d) (hxs : w.xdgSurfaceObjects d.xdgSurface = some xs) :
    XdgToplevelInterface.sendConfigure w t size states
      = ({ w with
            serial := w.nextSerial
            xdgSurfaceObjects :=
              Function.update w.xdgSurfaceObjects d.xdgSurface
                (some { xs with isConfigured := true }) },
          [Event.send (WireEvent.xdg_toplevel_configure t size.wd size.ht
              (XdgToplevelInterface.xdgStates states)),
           Event.send (WireEvent.xdg_surface_configure d.xdgSurface w.nextSerial)],
          w.nextSerial) := by
  simp only [XdgToplevelInterface.sendConfigure, ht, hxs]

/-- What the popup's `sendConfigure` does on a live popup. -/
theorem popup_sendConfigure_eq (w : World) (p : PopupId) (rect : QRect)
    (d : XdgPopupInterfacePrivate) (xs : XdgSurfaceInterfacePrivate)
    (hp : w.popups p = some d) (hxs : w.xdgSurfaceObjects d.xdgSurface = some xs) :
    XdgPopupInterface.sendConfigure w p rect
      = ({ w with
            serial := w.nextSerial
            xdgSurfaceObjects :=
              Function.update w.xdgSurfaceObjects d.xdgSurface
                (some { xs with isConfigured := true }) },
          [Event.send (WireEvent.xdg_popup_configure p rect.x1 rect.y1 rect.width rect.height),
           Event.send (WireEvent.xdg_surface_configure d.xdgSurface w.nextSerial)],
          w.nextSerial) := by
  simp only [XdgPopupInterface.sendConfigure, hp, hxs]

theorem configureSerials_pair (q0 x : XdgSurfaceId) (e : WireEvent) (serial : Nat)
    (he : ∀ y n, e ≠ WireEvent.xdg_surface_configure y n) :
    configureSerials q0 [Event.send e, Event.send (WireEvent.xdg_surface_configure x serial)]
      = if x = q0 then [serial] else [] := by
  cases e with
  | xdg_surface_configure y n => exact absurd rfl (he y n)
  | _ => by_cases h : x = q0 <;> simp [configureSerials, sendsOf, h]

/-- A step sends no `xdg_surface.configure` to `q0`, or exactly one, with the
serial it drew from the display. -/
theorem step_configure (w : World) (op : Op) (q0 : XdgSurfaceId) :
    configureSerials q0 (step w op).2 = []
    ∨ (configureSerials q0 (step w op).2 = [w.nextSerial]
        ∧ (step w op).1.serial = w.nextSerial) := by
  by_cases h1 : ∃ q size states, op = Op.toplevelSendConfigure q size states
  · obtain ⟨t, size, states, rfl⟩ := h1
    cases ht : w.toplevels t with
    | none => left; simp only [step, XdgToplevelInterface.sendConfigure, ht]; rfl
    | some d =>
      cases hxs : w.xdgSurfaceObjects d.xdgSurface with
      | none => left; simp only [step, XdgToplevelInterface.sendConfigure, ht, hxs]; rfl
      | some xs =>
        simp only [step, toplevel_sendConfigure_eq w t size states d xs ht hxs]
        rw [configureSerials_pair q0 _ _ _ (fun y n h => by cases h)]
        by_cases hq : d.xdgSurface = q0
        · right; exact ⟨by rw [if_pos hq], trivial⟩
        · left; rw [if_neg hq]
  by_cases h2 : ∃ q rect, op = Op.popupSendConfigure q rect
  · obtain ⟨p, rect, rfl⟩ := h2
    cases hp : w.popups p with
    | none => left; simp only [step, XdgPopupInterface.sendConfigure, hp]; rfl
    | some d =>
      cases hxs : w.xdgSurfaceObjects d.xdgSurface with
      | none => left; simp only [step, XdgPopupInterface.sendConfigure, hp, hxs]; rfl
      | some xs =>
        simp only [step, popup_sendConfigure_eq w p rect d xs hp hxs]
        rw [configureSerials_pair q0 _ _ _ (fun y n h => by cases h)]
        by_cases hq : d.xdgSurface = q0
        · right; exact ⟨by rw [if_pos hq], trivial⟩
        · left; rw [if_neg hq]
  · left
    exact step_configureSerials w op (fun q size states e => h1 ⟨q, size, states, e⟩)
      (fun q rect e => h2 ⟨q, rect, e⟩) q0

theorem configureSerials_run (q0 : XdgSurfaceId) (ops : List Op) :
    ∀ w : World, serialsIncrease w ops = true →
      (configureSerials q0 (runEvents w ops)).Pairwise (fun x y => x < y)
      ∧ (∀ x ∈ configureSerials q0 (runEvents w ops), w.serial < x) := by
  induction ops with
  | nil => intro w _; exact ⟨List.Pairwise.nil, fun x hx => by cases hx⟩
  | cons op ops ih =>
    intro w hinc
    simp only [serialsIncrease, Bool.and_eq_true, decide_eq_true_eq] at hinc
    obtain ⟨ih1, ih2⟩ := ih (step w op).1 hinc.2
    have hle : w.serial ≤ (step w op).1.serial := by
      rcases step_serial w op with h | h
      · rw [h]
      · rw [h]; exact Nat.le_of_lt hinc.1
    rw [runEvents, configureSerials_append]
    rcases step_configure w op q0 with h | ⟨h, hs⟩
    · rw [h, List.nil_append]
      exact ⟨ih1, fun x hx => lt_of_le_of_lt hle (ih2 x hx)⟩
    · rw [h, List.singleton_append]
      refine ⟨List.pairwise_cons.mpr ⟨fun x hx => ?_, ih1⟩, fun x hx => ?_⟩
      · have := ih2 x hx
        rw [hs] at this
        exact this
      · rcases List.mem_cons.mp hx with hx | hx
        · rw [hx]; exact hinc.1
        · exact lt_of_le_of_lt hle (ih2 x hx)

/-- C12: every `sendConfigure` on a live toplevel or popup draws one serial
from the display, sends it in the `xdg_surface.configure` event of its
xdg-surface (after the role's configure event) and returns it.  So, when the
display's `nextSerial()` returns increasing values during a sequence of
operations, the serials sent to any xdg-surface `q` in `xdg_surface.configure`
events form a strictly increasing sequence, whatever pings and configures of
other surfaces are interleaved, and all of them are above the serial the
display had handed out before. -/
theorem configure_serials_increase (w : World) (ops : List Op) (q : XdgSurfaceId)
    (hinc : serialsIncrease w ops = true) :
    (∀ (v : World) (t : ToplevelId) (size : QSize) (states : States)
        (d : XdgToplevelInterfacePrivate) (xs : XdgSurfaceInterfacePrivate),
        v.toplevels t = some d → v.xdgSurfaceObjects d.xdgSurface = some xs →
        (XdgToplevelInterface.sendConfigure v t size states).2.2 = v.nextSerial
        ∧ (XdgToplevelInterface.sendConfigure v t size states).1.serial = v.nextSerial
        ∧ (XdgToplevelInterface.sendConfigure v t size states).2.1
            = [Event.send (WireEvent.xdg_toplevel_configure t size.wd size.ht
                  (XdgToplevelInterface.xdgStates states)),
               Event.send (WireEvent.xdg_surface_configure d.xdgSurface v.nextSerial)])
    ∧ (∀ (v : World) (p : PopupId) (rect : QRect)
        (d : XdgPopupInterfacePrivate) (xs : XdgSurfaceInterfacePrivate),
        v.popups p = some d → v.xdgSurfaceObjects d.xdgSurface = some xs →
        (XdgPopupInterface.sendConfigure v p rect).2.2 = v.nextSerial
        ∧ (XdgPopupInterface.sendConfigure v p rect).1.serial = v.nextSerial
        ∧ (XdgPopupInterface.sendConfigure v p rect).2.1
            = [Event.send (WireEvent.xdg_popup_configure p rect.x1 rect.y1 rect.width
                  rect.height),
               Event.send (WireEvent.xdg_surface_configure d.xdgSurface v.nextSerial)])
    ∧ (configureSerials q (runEvents w ops)).Pairwise (fun x y => x < y)
    ∧ (∀ x ∈ configureSerials q (runEvents w ops), w.serial < x) := by
  refine ⟨?_, ?_, (configureSerials_run q ops w hinc).1, (configureSerials_run q ops w hinc).2⟩
  · intro v t size states d xs ht hxs
    rw [toplevel_sendConfigure_eq v t size states d xs ht hxs]
    exact ⟨rfl, rfl, rfl⟩
  · intro v p rect d xs hp hxs
    rw [popup_sendConfigure_eq v p rect d xs hp hxs]
    exact ⟨rfl, rfl, rfl⟩

/-- C12, at a concrete input: with two toplevels configured in turn and a ping
in between, the xdg-surface 0 is sent the serials 1 and 4. -/
theorem configure_serials_increase_witness :
    configureSerials 0 (runEvents World.init scenarioInterleaved) = [1, 4]
    ∧ (configureSerials 0 (runEvents World.init scenarioInterleaved)).Pairwise
        (fun x y => x < y) :=
  ⟨by decide, (configure_serials_increase World.init scenarioInterleaved 0 (by decide)).2.2.1⟩

/-! ### Titles, commit order and popups -/

/-- C25: `set_title(s)` makes `windowTitle()` equal to `s` and emits
`windowTitleChanged(s)` exactly once if `s` differs from the previous title and
nothing if it is equal; a repeated `set_title(s)` emits nothing; the window
class and every other field are unchanged.  The same holds for `set_app_id`
with `windowClass()` and `windowClassChanged`; neither request posts an error. -/
theorem set_title_app_id (q : ToplevelId) (d : XdgToplevelInterfacePrivate) (s : String) :
    (XdgToplevelInterfacePrivate.xdg_toplevel_set_title q d s).1 = { d with windowTitle := s }
    ∧ XdgToplevelInterface.windowTitle
        (XdgToplevelInterfacePrivate.xdg_toplevel_set_title q d s).1 = s
    ∧ XdgToplevelInterface.windowClass
        (XdgToplevelInterfacePrivate.xdg_toplevel_set_title q d s).1
        = XdgToplevelInterface.windowClass d
    ∧ (XdgToplevelInterfacePrivate.xdg_toplevel_set_title q d s).2
        = (if XdgToplevelInterface.windowTitle d = s then []
            else [Event.signal (Signal.windowTitleChanged q s)])
    ∧ (XdgToplevelInterfacePrivate.xdg_toplevel_set_title q
          (XdgToplevelInterfacePrivate.xdg_toplevel_set_title q d s).1 s)
        = ((XdgToplevelInterfacePrivate.xdg_toplevel_set_title q d s).1, [])
    ∧ (XdgToplevelInterfacePrivate.xdg_toplevel_set_app_id q d s).1 = { d with windowClass := s }
    ∧ XdgToplevelInterface.windowClass
        (XdgToplevelInterfacePrivate.xdg_toplevel_set_app_id q d s).1 = s
    ∧ XdgToplevelInterface.windowTitle
        (XdgToplevelInterfacePrivate.xdg_toplevel_set_app_id q d s).1
        = XdgToplevelInterface.windowTitle d
    ∧ (XdgToplevelInterfacePrivate.xdg_toplevel_set_app_id q d s).2
        = (if XdgToplevelInterface.windowClass d = s then []
            else [Event.signal (Signal.windowClassChanged q s)])
    ∧ (XdgToplevelInterfacePrivate.xdg_toplevel_set_app_id q
          (XdgToplevelInterfacePrivate.xdg_toplevel_set_app_id q d s).1 s)
        = ((XdgToplevelInterfacePrivate.xdg_toplevel_set_app_id q d s).1, [])
    ∧ (∀ w : World, w.toplevels q = some d →
        (step w (Op.xdg_toplevel_set_title q s)).1.toplevels q = some { d with windowTitle := s }
        ∧ (step w (Op.xdg_toplevel_set_title q s)).2
            = (if d.windowTitle = s then [] else [Event.signal (Signal.windowTitleChanged q s)])
        ∧ (step w (Op.xdg_toplevel_set_app_id q s)).1.toplevels q
            = some { d with windowClass := s }
        ∧ (step w (Op.xdg_toplevel_set_app_id q s)).2
            = (if d.windowClass = s then []
                else [Event.signal (Signal.windowClassChanged q s)])) := by
  have t1 : (XdgToplevelInterfacePrivate.xdg_toplevel_set_title q d s).1
      = { d with windowTitle := s } := by
    unfold XdgToplevelInterfacePrivate.xdg_toplevel_set_title
    split
    · rename_i h; subst h; rfl
    · rfl
  have t2 : (XdgToplevelInterfacePrivate.xdg_toplevel_set_title q d s).2
      = (if d.windowTitle = s then [] else [Event.signal (Signal.windowTitleChanged q s)]) := by
    unfold XdgToplevelInterfacePrivate.xdg_toplevel_set_title
    split <;> rfl
  have a1 : (XdgToplevelInterfacePrivate.xdg_toplevel_set_app_id q d s).1
      = { d with windowClass := s } := by
    unfold XdgToplevelInterfacePrivate.xdg_toplevel_set_app_id
    split
    · rename_i h; subst h; rfl
    · rfl
  have a2 : (XdgToplevelInterfacePrivate.xdg_toplevel_set_app_id q d s).2
      = (if d.windowClass = s then [] else [Event.signal (Signal.windowClassChanged q s)]) := by
    unfold XdgToplevelInterfacePrivate.xdg_toplevel_set_app_id
    split <;> rfl
  refine ⟨t1, by rw [t1]; rfl, by rw [t1]; rfl, t2, ?_, a1, by rw [a1]; rfl, by rw [a1]; rfl,
    a2, ?_, ?_⟩
  · rw [t1]
    simp [XdgToplevelInterfacePrivate.xdg_toplevel_set_title]
  · rw [a1]
    simp [XdgToplevelInterfacePrivate.xdg_toplevel_set_app_id]
  · intro w hw
    simp only [step, World.onToplevel, hw, t1, t2, a1, a2, Function.update_same]
    exact ⟨trivial, trivial, trivial, trivial⟩

/-- C25, at a concrete input: in scenario S1 the title is set to "Hello" on a
toplevel that has the empty title; the same request again emits nothing. -/
theorem set_title_app_id_witness :
    (step (run World.init (scenarioS1.take 3)) (Op.xdg_toplevel_set_title 1 "Hello")).2
        = [Event.signal (Signal.windowTitleChanged 1 "Hello")]
    ∧ (step (run World.init (scenarioS1.take 4)) (Op.xdg_toplevel_set_title 1 "Hello")).2 = [] :=
  ⟨((set_title_app_id 1 { xdgSurface := 0 } "Hello").2.2.2.2.2.2.2.2.2.2
      (run World.init (scenarioS1.take 3)) (by decide)).2.1,
   ((set_title_app_id 1 { xdgSurface := 0, windowTitle := "Hello" } "Hello").2.2.2.2.2.2.2.2.2.2
      (run World.init (scenarioS1.take 4)) (by decide)).2.1⟩

/-- C26, refuted as stated: on the commit of a configured toplevel whose three
pending values all differ from the current ones, `windowGeometryChanged` comes
first and the two size signals after it; the emitted sequence is not
`minimumSizeChanged`, `maximumSizeChanged`, `windowGeometryChanged`. -/
theorem commit_order_counterexample :
    (XdgToplevelInterfacePrivate.commit 1 scenarioAllPending.1 scenarioAllPending.2).2.2
        = [Event.signal (Signal.windowGeometryChanged 0 (QRect.fromXYWH 0 0 800 600)),
           Event.signal (Signal.minimumSizeChanged 1 ⟨300, 200⟩),
           Event.signal (Signal.maximumSizeChanged 1 ⟨1000, 800⟩)]
    ∧ (XdgToplevelInterfacePrivate.commit 1 scenarioAllPending.1 scenarioAllPending.2).2.2
        ≠ [Event.signal (Signal.minimumSizeChanged 1 ⟨300, 200⟩),
           Event.signal (Signal.maximumSizeChanged 1 ⟨1000, 800⟩),
           Event.signal (Signal.windowGeometryChanged 0 (QRect.fromXYWH 0 0 800 600))] := by
  decide

/-- C26, amended: on a commit of a configured toplevel the window geometry is
promoted first (by the commit of the xdg-surface, which emits
`windowGeometryChanged` when the pending geometry differs) and the pending
minimum and maximum sizes afterwards, each emitting its signal when it differs;
every signal carries the new value, and afterwards the three current values are
the pending ones.  When all three differ the emitted sequence is
`windowGeometryChanged`, `minimumSizeChanged`, `maximumSizeChanged`. -/
theorem commit_order (t : ToplevelId) (d : XdgToplevelInterfacePrivate)
    (xs : XdgSurfaceInterfacePrivate) (hconf : xs.isConfigured = true) :
    (XdgToplevelInterfacePrivate.commit t d xs).2.2
        = (if xs.current.windowGeometry ≠ xs.next.windowGeometry then
              [Event.signal (Signal.windowGeometryChanged d.xdgSurface xs.next.windowGeometry)]
            else [])
          ++ (if d.current.minimumSize ≠ d.next.minimumSize then
                [Event.signal (Signal.minimumSizeChanged t d.next.minimumSize)] else [])
          ++ (if d.current.maximumSize ≠ d.next.maximumSize then
                [Event.signal (Signal.maximumSizeChanged t d.next.maximumSize)] else [])
    ∧ (XdgToplevelInterfacePrivate.commit t d xs).1.current = d.next
    ∧ (XdgToplevelInterfacePrivate.commit t d xs).2.1.current.windowGeometry
        = xs.next.windowGeometry
    ∧ (xs.current.windowGeometry ≠ xs.next.windowGeometry →
        d.current.minimumSize ≠ d.next.minimumSize →
        d.current.maximumSize ≠ d.next.maximumSize →
        (XdgToplevelInterfacePrivate.commit t d xs).2.2
          = [Event.signal (Signal.windowGeometryChanged d.xdgSurface xs.next.windowGeometry),
             Event.signal (Signal.minimumSizeChanged t d.next.minimumSize),
             Event.signal (Signal.maximumSizeChanged t d.next.maximumSize)]) := by
  obtain ⟨h1, h2, h3⟩ := toplevel_commit_configured t d xs hconf
  have hev : (XdgToplevelInterfacePrivate.commit t d xs).2.2
      = (if xs.current.windowGeometry ≠ xs.next.windowGeometry then
            [Event.signal (Signal.windowGeometryChanged d.xdgSurface xs.next.windowGeometry)]
          else [])
        ++ (if d.current.minimumSize ≠ d.next.minimumSize then
              [Event.signal (Signal.minimumSizeChanged t d.next.minimumSize)] else [])
        ++ (if d.current.maximumSize ≠ d.next.maximumSize then
              [Event.signal (Signal.maximumSizeChanged t d.next.maximumSize)] else []) := by
    rw [h3, xdgSurface_commit_snd]
  refine ⟨hev, by rw [h1], by rw [h2, xdgSurface_commit_fst], ?_⟩
  intro g1 g2 g3
  rw [hev, if_pos g1, if_pos g2, if_pos g3]
  rfl

/-- C26 amended, at a concrete input: the commit of the toplevel with three
pending changes. -/
theorem commit_order_witness :
    (XdgToplevelInterfacePrivate.commit 1 scenarioAllPending.1 scenarioAllPending.2).2.2
      = [Event.signal (Signal.windowGeometryChanged 0 (QRect.fromXYWH 0 0 800 600)),
         Event.signal (Signal.minimumSizeChanged 1 ⟨300, 200⟩),
         Event.signal (Signal.maximumSizeChanged 1 ⟨1000, 800⟩)] :=
  (commit_order 1 scenarioAllPending.1 scenarioAllPending.2 rfl).2.2.2
    (by decide) (by decide) (by decide)

/-- C30: the three checks of `get_popup` have a fixed precedence.  On a live
xdg-surface: if the surface has a role the request posts `already_constructed`
whatever the positioner and the parent are; else if the positioner is not
complete it posts `invalid_positioner` whatever the parent is; else if the
parent is null (or names no xdg-surface) it posts the anonymous error.  In each
case the state is unchanged, so no popup is constructed, and nothing else is
emitted, so there is no `popupCreated`. -/
theorem get_popup_precedence (w : World) (q : XdgSurfaceId) (d : XdgSurfaceInterfacePrivate)
    (positioner : PositionerId) (hlive : w.xdgSurfaceObjects q = some d) :
    ((SurfaceRole.get w d.surface).isSome = true →
        ∀ parent positioner', step w (Op.xdg_surface_get_popup q parent positioner')
          = (w, [Event.error ProtocolError.XDG_SURFACE_ERROR_ALREADY_CONSTRUCTED]))
    ∧ (SurfaceRole.get w d.surface = none →
        (XdgPositioner.get w positioner).isComplete = false →
        ∀ parent, step w (Op.xdg_surface_get_popup q parent positioner)
          = (w, [Event.error ProtocolError.XDG_WM_BASE_ERROR_INVALID_POSITIONER]))
    ∧ (SurfaceRole.get w d.surface = none →
        (XdgPositioner.get w positioner).isComplete = true →
        step w (Op.xdg_surface_get_popup q none positioner)
            = (w, [Event.error ProtocolError.anonymous])
        ∧ ∀ parent, w.xdgSurfaceObjects parent = none →
            step w (Op.xdg_surface_get_popup q (some parent) positioner)
              = (w, [Event.error ProtocolError.anonymous])) := by
  refine ⟨?_, ?_, ?_⟩
  · intro hrole parent positioner'
    simp only [step, XdgSurfaceInterfacePrivate.xdg_surface_get_popup, hlive, hrole, if_true]
  · intro hrole hpos parent
    simp [step, XdgSurfaceInterfacePrivate.xdg_surface_get_popup, hlive, hrole, hpos]
  · intro hrole hpos
    refine ⟨?_, ?_⟩
    · simp [step, XdgSurfaceInterfacePrivate.xdg_surface_get_popup, hlive, hrole, hpos,
        XdgSurfaceInterface.get]
    · intro parent hp
      simp [step, XdgSurfaceInterfacePrivate.xdg_surface_get_popup, hlive, hrole, hpos,
        XdgSurfaceInterface.get, hp]

/-- C30, at a concrete input: in scenario S3 `get_popup` with a null parent on
the roleless xdg-surface 2 and the complete positioner 3 posts the anonymous
error, and on the xdg-surface 0, which has a toplevel, `already_constructed`. -/
theorem get_popup_precedence_witness :
    step (run World.init scenarioS3Ops) (Op.xdg_surface_get_popup 2 none 3)
        = (run World.init scenarioS3Ops, [Event.error ProtocolError.anonymous])
    ∧ step (run World.init scenarioS3Ops) (Op.xdg_surface_get_popup 0 none 7)
        = (run World.init scenarioS3Ops,
            [Event.error ProtocolError.XDG_SURFACE_ERROR_ALREADY_CONSTRUCTED]) :=
  ⟨((get_popup_precedence (run World.init scenarioS3Ops) 2 { client := 1, surface := 6 } 3
        (by decide)).2.2 (by decide) (by decide)).1,
   (get_popup_precedence (run World.init scenarioS3Ops) 0
        { client := 1, surface := 5, toplevel := some 1 } 7 (by decide)).1 (by decide) none 7⟩

/-- C23: `get_popup` on a live xdg-surface whose surface has no role, with a
complete positioner and a parent that is a live xdg-surface, posts no error and
emits exactly `popupCreated` for one newly constructed popup: the object did
not exist before, its `parentXdgSurface()` is the given parent, its
`positioner()` is the payload of the positioner resource at that moment, all
fields included, and it points to the xdg-surface; no other popup is created or
changed; the popup becomes the role of the surface. -/
theorem get_popup_contract (w : World) (q : XdgSurfaceId) (d : XdgSurfaceInterfacePrivate)
    (parent : XdgSurfaceId) (positioner : PositionerId)
    (hfresh : w.Fresh)
    (hlive : w.xdgSurfaceObjects q = some d)
    (hrole : SurfaceRole.get w d.surface = none)
    (hpos : (XdgPositioner.get w positioner).isComplete = true)
    (hparent : (w.xdgSurfaceObjects parent).isSome = true) :
    (step w (Op.xdg_surface_get_popup q (some parent) positioner)).2
        = [Event.signal (Signal.popupCreated w.fresh)]
    ∧ w.popups w.fresh = none
    ∧ (∃ data, w.positioners positioner = some data
        ∧ (step w (Op.xdg_surface_get_popup q (some parent) positioner)).1.popups w.fresh
            = some { xdgSurface := q, parentXdgSurface := parent, positioner := data })
    ∧ ((step w (Op.xdg_surface_get_popup q (some parent) positioner)).1.popups w.fresh).map
          XdgPopupInterface.parentXdgSurface = some parent
    ∧ ((step w (Op.xdg_surface_get_popup q (some parent) positioner)).1.popups w.fresh).map
          XdgPopupInterface.positioner = some (XdgPositioner.get w positioner)
    ∧ (∀ p, p ≠ w.fresh →
        (step w (Op.xdg_surface_get_popup q (some parent) positioner)).1.popups p = w.popups p)
    ∧ (step w (Op.xdg_surface_get_popup q (some parent) positioner)).1.xdgSurfaceObjects q
        = some { d with popup := some w.fresh }
    ∧ SurfaceRole.get (step w (Op.xdg_surface_get_popup q (some parent) positioner)).1 d.surface
        = some (SurfaceRole.popup w.fresh) := by
  have hdata : ∃ data, w.positioners positioner = some data := by
    cases hp : w.positioners positioner with
    | none =>
      simp only [XdgPositioner.get, hp] at hpos
      exact absurd hpos (by decide)
    | some data => exact ⟨data, rfl⟩
  obtain ⟨data, hdata⟩ := hdata
  have hget : XdgPositioner.get w positioner = data := by
    simp only [XdgPositioner.get, hdata]
  have hstep : step w (Op.xdg_surface_get_popup q (some parent) positioner)
      = ({ (SurfaceRole.attach
              { w with
                fresh := w.fresh + 1
                popups := Function.update w.popups w.fresh
                  (some { xdgSurface := q, parentXdgSurface := parent, positioner := data }) }
              d.surface (SurfaceRole.popup w.fresh)) with
            xdgSurfaceObjects :=
              Function.update w.xdgSurfaceObjects q (some { d with popup := some w.fresh }) },
          [Event.signal (Signal.popupCreated w.fresh)]) := by
    simp only [step, XdgSurfaceInterfacePrivate.xdg_surface_get_popup, hlive, hrole, hget]
    rw [hget] at hpos
    simp [hpos, XdgSurfaceInterface.get, hparent, SurfaceRole.attach]
  rw [hstep, hget]
  refine ⟨rfl, (hfresh.1 w.fresh (le_refl _)).2.2.1, ⟨data, hdata, ?_⟩, ?_, ?_, ?_, ?_, ?_⟩
  · simp [SurfaceRole.attach]
  · simp [SurfaceRole.attach, XdgPopupInterface.parentXdgSurface]
  · simp [SurfaceRole.attach, XdgPopupInterface.positioner]
  · intro p hp
    simp [SurfaceRole.attach, Function.update_apply, hp]
  · simp
  · simp [SurfaceRole.get, SurfaceRole.attach]

/-- C23, at a concrete input (scenario S3): the popup is the object 4, on the
xdg-surface 2 with the parent 0, and holds the size (100, 50), the anchor
rectangle (10, 10, 1, 1), the anchor edges top and right and the gravity edges
bottom and right. -/
theorem get_popup_contract_witness :
    (step (run World.init scenarioS3Ops) (Op.xdg_surface_get_popup 2 (some 0) 3)).2
        = [Event.signal (Signal.popupCreated 4)]
    ∧ ((step (run World.init scenarioS3Ops) (Op.xdg_surface_get_popup 2 (some 0) 3)).1.popups
          4).map XdgPopupInterface.positioner
        = some { size := ⟨100, 50⟩, anchorRect := QRect.fromXYWH 10 10 1 1,
                 anchorEdges := { top := true, right := true },
                 gravityEdges := { bottom := true, right := true } } :=
  ⟨(get_popup_contract (run World.init scenarioS3Ops) 2 { client := 1, surface := 6 } 0 3
      (run_fresh scenarioS3Ops) (by decide) (by decide) (by decide) (by decide)).1,
   (get_popup_contract (run World.init scenarioS3Ops) 2 { client := 1, surface := 6 } 0 3
      (run_fresh scenarioS3Ops) (by decide) (by decide) (by decide) (by decide)).2.2.2.2.1⟩

/-- A request on a positioner resource changes the payload of that resource and
nothing else. -/
theorem positioner_request_step (w : World) (resource : PositionerId) (r : PositionerRequest) :
    step w (PositionerRequest.toOp resource r)
      = w.onPositioner resource (fun data => XdgPositionerPrivate.request data r) := by
  cases r <;> rfl

theorem positioner_requests_run (resource : PositionerId) (reqs : List PositionerRequest) :
    ∀ w : World,
      (run w (reqs.map (PositionerRequest.toOp resource))).popups = w.popups
      ∧ (run w (reqs.map (PositionerRequest.toOp resource))).positioners resource
          = (w.positioners resource).map (fun data => XdgPositionerPrivate.requests data reqs) := by
  induction reqs with
  | nil =>
    intro w
    refine ⟨rfl, ?_⟩
    show w.positioners resource = _
    cases hp : w.positioners resource <;> rfl
  | cons r reqs ih =>
    intro w
    obtain ⟨ih1, ih2⟩ := ih (step w (PositionerRequest.toOp resource r)).1
    simp only [List.map_cons, run]
    rw [ih1, ih2, positioner_request_step]
    unfold World.onPositioner
    cases hp : w.positioners resource with
    | none => simp [hp]
    | some data => simp [XdgPositionerPrivate.requests]

/-! ### Requests before the first configure and rejected requests -/

/-- C21, refuted as stated: in scenario S1 the toplevel 1 has not been sent a
configure when `set_title("Hello")` arrives, and the request is not rejected:
it emits `windowTitleChanged` and sets the title.  Likewise `set_maximized`
emits `maximizeRequested` and `set_min_size(300, 200)` stores the pending size. -/
theorem toplevel_requests_unconfigured_counterexample :
    neverConfigured 0 World.init (scenarioS1.take 3) = true
    ∧ ((run World.init (scenarioS1.take 3)).xdgSurfaceObjects 0).map (fun xs => xs.isConfigured)
        = some false
    ∧ (step (run World.init (scenarioS1.take 3)) (Op.xdg_toplevel_set_title 1 "Hello")).2
        = [Event.signal (Signal.windowTitleChanged 1 "Hello")]
    ∧ ((step (run World.init (scenarioS1.take 3)) (Op.xdg_toplevel_set_title 1 "Hello")).1.toplevels
          1).map XdgToplevelInterface.windowTitle = some "Hello"
    ∧ (step (run World.init (scenarioS1.take 3)) (Op.xdg_toplevel_set_maximized 1)).2
        = [Event.signal (Signal.maximizeRequested 1)]
    ∧ (step (run World.init (scenarioS1.take 3)) (Op.xdg_toplevel_set_min_size 1 300 200)).2 = []
    ∧ ((step (run World.init (scenarioS1.take 3))
          (Op.xdg_toplevel_set_min_size 1 300 200)).1.toplevels 1).map
        (fun d => d.next.minimumSize) = some ⟨300, 200⟩ := by
  decide

/-- C21, amended: of the `xdg_toplevel` requests only `show_window_menu`,
`move` and `resize` need a configured surface.  On every live toplevel,
configured or not, `set_title` and `set_app_id` store the string and emit the
change signal when it differs, `set_max_size` and `set_min_size` store the
pending size when both arguments are non-negative and post the anonymous error
otherwise, and `set_maximized`, `unset_maximized`, `set_fullscreen`,
`unset_fullscreen` and `set_minimized` each emit their request signal; none of
the nine posts `not_constructed`. -/
theorem toplevel_requests_unconfigured (w : World) (q : ToplevelId)
    (d : XdgToplevelInterfacePrivate) (hq : w.toplevels q = some d) :
    (∀ s, step w (Op.xdg_toplevel_set_title q s)
        = ({ w with toplevels := Function.update w.toplevels q (some { d with windowTitle := s }) },
            if d.windowTitle = s then [] else [Event.signal (Signal.windowTitleChanged q s)]))
    ∧ (∀ s, step w (Op.xdg_toplevel_set_app_id q s)
        = ({ w with toplevels := Function.update w.toplevels q (some { d with windowClass := s }) },
            if d.windowClass = s then [] else [Event.signal (Signal.windowClassChanged q s)]))
    ∧ (∀ width height : Int, 0 ≤ width → 0 ≤ height →
        step w (Op.xdg_toplevel_set_max_size q width height)
          = ({ w with
                toplevels := (Function.update w.toplevels q
                  (some { d with next := { d.next with maximumSize := ⟨width, height⟩ } })) },
              [])
        ∧ step w (Op.xdg_toplevel_set_min_size q width height)
          = ({ w with
                toplevels := (Function.update w.toplevels q
                  (some { d with next := { d.next with minimumSize := ⟨width, height⟩ } })) },
              []))
    ∧ (∀ width height : Int, width < 0 ∨ height < 0 →
        step w (Op.xdg_toplevel_set_max_size q width height)
          = (w, [Event.error ProtocolError.anonymous])
        ∧ step w (Op.xdg_toplevel_set_min_size q width height)
          = (w, [Event.error ProtocolError.anonymous]))
    ∧ step w (Op.xdg_toplevel_set_maximized q) = (w, [Event.signal (Signal.maximizeRequested q)])
    ∧ step w (Op.xdg_toplevel_unset_maximized q)
        = (w, [Event.signal (Signal.unmaximizeRequested q)])
    ∧ (∀ output, step w (Op.xdg_toplevel_set_fullscreen q output)
        = (w, [Event.signal (Signal.fullscreenRequested q output)]))
    ∧ step w (Op.xdg_toplevel_unset_fullscreen q)
        = (w, [Event.signal (Signal.unfullscreenRequested q)])
    ∧ step w (Op.xdg_toplevel_set_minimized q) = (w, [Event.signal (Signal.minimizeRequested q)]) := by
  have hself : Function.update w.toplevels q (some d) = w.toplevels := by
    rw [← hq]; exact Function.update_eq_self q w.toplevels
  have hw : ({ w with toplevels := Function.update w.toplevels q (some d) } : World) = w := by
    rw [hself]
  refine ⟨?_, ?_, ?_, ?_, ?_, ?_, ?_, ?_, ?_⟩
  · intro s
    simp only [step, World.onToplevel, hq, XdgToplevelInterfacePrivate.xdg_toplevel_set_title]
    by_cases h : d.windowTitle = s
    · subst h; simp only [if_true]
    · simp only [if_neg h]
  · intro s
    simp only [step, World.onToplevel, hq, XdgToplevelInterfacePrivate.xdg_toplevel_set_app_id]
    by_cases h : d.windowClass = s
    · subst h; simp only [if_true]
    · simp only [if_neg h]
  · intro width height h1 h2
    have h : ¬ (width < 0 ∨ height < 0) := by omega
    simp [step, World.onToplevel, hq, XdgToplevelInterfacePrivate.xdg_toplevel_set_max_size,
      XdgToplevelInterfacePrivate.xdg_toplevel_set_min_size, h]
  · intro width height h
    simp only [step, World.onToplevel, hq, XdgToplevelInterfacePrivate.xdg_toplevel_set_max_size,
      XdgToplevelInterfacePrivate.xdg_toplevel_set_min_size, Bool.or_eq_true, decide_eq_true_eq,
      h, if_true, hw, and_self]
  · simp only [step, World.onToplevel, hq, hw,
      XdgToplevelInterfacePrivate.xdg_toplevel_set_maximized]
  · simp only [step, World.onToplevel, hq, hw,
      XdgToplevelInterfacePrivate.xdg_toplevel_unset_maximized]
  · intro output
    simp only [step, World.onToplevel, hq, hw,
      XdgToplevelInterfacePrivate.xdg_toplevel_set_fullscreen]
  · simp only [step, World.onToplevel, hq, hw,
      XdgToplevelInterfacePrivate.xdg_toplevel_unset_fullscreen]
  · simp only [step, World.onToplevel, hq, hw,
      XdgToplevelInterfacePrivate.xdg_toplevel_set_minimized]

/-- C21 amended, at a concrete input: `set_maximized` on the toplevel of
scenario S1 before its first configure. -/
theorem toplevel_requests_unconfigured_witness :
    step (run World.init (scenarioS1.take 3)) (Op.xdg_toplevel_set_maximized 1)
      = (run World.init (scenarioS1.take 3), [Event.signal (Signal.maximizeRequested 1)]) :=
  (toplevel_requests_unconfigured (run World.init (scenarioS1.take 3)) 1 { xdgSurface := 0 }
    (by decide)).2.2.2.2.1

theorem mem_errorsOf (c : ProtocolError) (es : List Event) (h : Event.error c ∈ es) :
    c ∈ errorsOf es := by
  induction es with
  | nil => cases h
  | cons e es ih =>
    cases e with
    | error c' =>
      rcases List.mem_cons.mp h with h | h
      · injection h with h; subst h; simp [errorsOf]
      · simp [errorsOf, ih h]
    | send e =>
      rcases List.mem_cons.mp h with h | h
      · cases h
      · simpa [errorsOf] using ih h
    | signal s =>
      rcases List.mem_cons.mp h with h | h
      · cases h
      · simpa [errorsOf] using ih h
    | warning =>
      rcases List.mem_cons.mp h with h | h
      · cases h
      · simpa [errorsOf] using ih h

theorem error_singleton {c c' : ProtocolError} (h : Event.error c ∈ [Event.error c']) :
    ([Event.error c'] : List Event) = [Event.error c] := by
  simp only [List.mem_singleton, Event.error.injEq] at h
  rw [h]

theorem no_error_of_errorsOf (es : List Event) (h : errorsOf es = []) (c : ProtocolError) :
    Event.error c ∉ es := by
  intro hm
  have := mem_errorsOf c es hm
  rw [h] at this
  cases this

theorem errorsOf_xdgSurface_commit (q : XdgSurfaceId) (d : XdgSurfaceInterfacePrivate) :
    errorsOf (XdgSurfaceInterfacePrivate.commit q d).2 = [] := by
  rw [xdgSurface_commit_snd]; split <;> rfl

theorem errorsOf_toplevel_commit (t : ToplevelId)
    (d : XdgToplevelInterfacePrivate) (xs : XdgSurfaceInterfacePrivate) :
    errorsOf (XdgToplevelInterfacePrivate.commit t d xs).2.2 = [] := by
  cases hc : xs.isConfigured
  · rw [toplevel_commit_unconfigured t d xs hc]; rfl
  · rw [(toplevel_commit_configured t d xs hc).2.2, errorsOf_append, errorsOf_append,
      errorsOf_xdgSurface_commit]
    split <;> split <;> rfl

theorem errorsOf_popup_commit (p : PopupId)
    (d : XdgPopupInterfacePrivate) (xs : XdgSurfaceInterfacePrivate) :
    errorsOf (XdgPopupInterfacePrivate.commit p d xs).2 = [] := by
  cases hc : xs.isConfigured
  · rw [popup_commit_unconfigured p d xs hc]; rfl
  · simp only [XdgPopupInterfacePrivate.commit, hc, if_true, errorsOf_xdgSurface_commit]

theorem errorsOf_surface_commit (w : World) (surface : SurfaceId) :
    errorsOf (SurfaceInterface.commit w surface).2 = [] := by
  unfold SurfaceInterface.commit
  split
  · rfl
  · rename_i role _
    unfold SurfaceRole.commit
    cases role with
    | toplevel t =>
      dsimp only
      split
      · rfl
      · split
        · rfl
        · exact errorsOf_toplevel_commit _ _ _
    | popup p =>
      dsimp only
      split
      · rfl
      · split
        · rfl
        · exact errorsOf_popup_commit _ _ _

/-- A handler that only touches one object is atomic on the whole state when
it is atomic on the object. -/
theorem atomic_onXdgSurface (w : World) (q : XdgSurfaceId)
    (f : XdgSurfaceInterfacePrivate → XdgSurfaceInterfacePrivate × List Event)
    (hf : ∀ d c, Event.error c ∈ (f d).2 → (f d).1 = d ∧ (f d).2 = [Event.error c])
    (c : ProtocolError) (h : Event.error c ∈ (w.onXdgSurface q f).2) :
    (w.onXdgSurface q f).1 = w ∧ (w.onXdgSurface q f).2 = [Event.error c] := by
  unfold World.onXdgSurface at h ⊢
  cases hq : w.xdgSurfaceObjects q with
  | none => rw [hq] at h; cases h
  | some d =>
    rw [hq] at h
    obtain ⟨h1, h2⟩ := hf d c h
    simp only [h1, h2, and_true]
    rw [← hq, Function.update_eq_self]

theorem atomic_onToplevel (w : World) (q : ToplevelId)
    (f : XdgToplevelInterfacePrivate → XdgToplevelInterfacePrivate × List Event)
    (hf : ∀ d c, Event.error c ∈ (f d).2 → (f d).1 = d ∧ (f d).2 = [Event.error c])
    (c : ProtocolError) (h : Event.error c ∈ (w.onToplevel q f).2) :
    (w.onToplevel q f).1 = w ∧ (w.onToplevel q f).2 = [Event.error c] := by
  unfold World.onToplevel at h ⊢
  cases hq : w.toplevels q with
  | none => rw [hq] at h; cases h
  | some d =>
    rw [hq] at h
    obtain ⟨h1, h2⟩ := hf d c h
    simp only [h1, h2, and_true]
    rw [← hq, Function.update_eq_self]

theorem atomic_onPositioner (w : World) (q : PositionerId)
    (f : XdgPositionerData → XdgPositionerData × List Event)
    (hf : ∀ d c, Event.error c ∈ (f d).2 → (f d).1 = d ∧ (f d).2 = [Event.error c])
    (c : ProtocolError) (h : Event.error c ∈ (w.onPositioner q f).2) :
    (w.onPositioner q f).1 = w ∧ (w.onPositioner q f).2 = [Event.error c] := by
  unfold World.onPositioner at h ⊢
  cases hq : w.positioners q with
  | none => rw [hq] at h; cases h
  | some d =>
    rw [hq] at h
    obtain ⟨h1, h2⟩ := hf d c h
    simp only [h1, h2, and_true]
    rw [← hq, Function.update_eq_self]

theorem atomic_readToplevel (w : World) (q : ToplevelId)
    (f : XdgSurfaceInterfacePrivate → List Event)
    (hf : ∀ xs c, Event.error c ∈ f xs → f xs = [Event.error c])
    (c : ProtocolError) (h : Event.error c ∈ (w.readToplevel q f).2) :
    (w.readToplevel q f).1 = w ∧ (w.readToplevel q f).2 = [Event.error c] := by
  unfold World.readToplevel at h ⊢
  split at h
  · cases h
  · split at h
    · cases h
    · rename_i h1 _ _ h2
      simp only [h1, h2]
      exact ⟨trivial, hf _ c h⟩

/-- A handler that emits no error is trivially atomic. -/
theorem atomic_of_signals (d : α) (es : List Event) (hes : errorsOf es = [])
    (c : ProtocolError) (h : Event.error c ∈ es) : d = d ∧ es = [Event.error c] :=
  absurd h (no_error_of_errorsOf es hes c)

theorem atomic_set_window_geometry (x y width height : Int) (d : XdgSurfaceInterfacePrivate)
    (c : ProtocolError)
    (h : Event.error c
      ∈ (XdgSurfaceInterfacePrivate.xdg_surface_set_window_geometry d x y width height).2) :
    (XdgSurfaceInterfacePrivate.xdg_surface_set_window_geometry d x y width height).1 = d
    ∧ (XdgSurfaceInterfacePrivate.xdg_surface_set_window_geometry d x y width height).2
        = [Event.error c] := by
  unfold XdgSurfaceInterfacePrivate.xdg_surface_set_window_geometry at h ⊢
  split
  · rename_i h1; rw [if_pos h1] at h; exact ⟨rfl, error_singleton h⟩
  · rename_i h1
    rw [if_neg h1] at h
    split
    · rename_i h2; rw [if_pos h2] at h; exact ⟨rfl, error_singleton h⟩
    · rename_i h2; rw [if_neg h2] at h; cases h

theorem atomic_set_max_size (width height : Int) (d : XdgToplevelInterfacePrivate)
    (c : ProtocolError)
    (h : Event.error c ∈ (XdgToplevelInterfacePrivate.xdg_toplevel_set_max_size d width height).2) :
    (XdgToplevelInterfacePrivate.xdg_toplevel_set_max_size d width height).1 = d
    ∧ (XdgToplevelInterfacePrivate.xdg_toplevel_set_max_size d width height).2
        = [Event.error c] := by
  unfold XdgToplevelInterfacePrivate.xdg_toplevel_set_max_size at h ⊢
  split
  · rename_i h1; rw [if_pos h1] at h; exact ⟨rfl, error_singleton h⟩
  · rename_i h1; rw [if_neg h1] at h; cases h

theorem atomic_set_min_size (width height : Int) (d : XdgToplevelInterfacePrivate)
    (c : ProtocolError)
    (h : Event.error c ∈ (XdgToplevelInterfacePrivate.xdg_toplevel_set_min_size d width height).2) :
    (XdgToplevelInterfacePrivate.xdg_toplevel_set_min_size d width height).1 = d
    ∧ (XdgToplevelInterfacePrivate.xdg_toplevel_set_min_size d width height).2
        = [Event.error c] := by
  unfold XdgToplevelInterfacePrivate.xdg_toplevel_set_min_size at h ⊢
  split
  · rename_i h1; rw [if_pos h1] at h; exact ⟨rfl, error_singleton h⟩
  · rename_i h1; rw [if_neg h1] at h; cases h

theorem atomic_positioner (r : PositionerRequest) (d : XdgPositionerData) (c : ProtocolError)
    (h : Event.error c ∈ (XdgPositionerPrivate.request d r).2) :
    (XdgPositionerPrivate.request d r).1 = d
    ∧ (XdgPositionerPrivate.request d r).2 = [Event.error c] := by
  cases r with
  | set_size width height =>
    simp only [XdgPositionerPrivate.request, XdgPositionerPrivate.xdg_positioner_set_size] at h ⊢
    split
    · rename_i h1; rw [if_pos h1] at h; exact ⟨rfl, error_singleton h⟩
    · rename_i h1; rw [if_neg h1] at h; cases h
  | set_anchor_rect x y width height =>
    simp only [XdgPositionerPrivate.request,
      XdgPositionerPrivate.xdg_positioner_set_anchor_rect] at h ⊢
    split
    · rename_i h1; rw [if_pos h1] at h; exact ⟨rfl, error_singleton h⟩
    · rename_i h1; rw [if_neg h1] at h; cases h
  | set_anchor anchor =>
    by_cases h8 : 8 < anchor
    · have h' : anchor > XDG_POSITIONER_ANCHOR_BOTTOM_RIGHT := h8
      simp only [XdgPositionerPrivate.request, XdgPositionerPrivate.xdg_positioner_set_anchor,
        h', if_true] at h ⊢
      exact ⟨trivial, error_singleton h⟩
    · have hle : anchor ≤ 8 := by omega
      have hno : errorsOf (XdgPositionerPrivate.request d (PositionerRequest.set_anchor anchor)).2
          = [] := by
        interval_cases anchor <;> rfl
      exact absurd h (no_error_of_errorsOf _ hno c)
  | set_gravity gravity =>
    by_cases h8 : 8 < gravity
    · have h' : gravity > XDG_POSITIONER_GRAVITY_BOTTOM_RIGHT := h8
      simp only [XdgPositionerPrivate.request, XdgPositionerPrivate.xdg_positioner_set_gravity,
        h', if_true] at h ⊢
      exact ⟨trivial, error_singleton h⟩
    · have hle : gravity ≤ 8 := by omega
      have hno : errorsOf (XdgPositionerPrivate.request d (PositionerRequest.set_gravity gravity)).2
          = [] := by
        interval_cases gravity <;> rfl
      exact absurd h (no_error_of_errorsOf _ hno c)
  | set_constraint_adjustment mask =>
    simp only [XdgPositionerPrivate.request,
      XdgPositionerPrivate.xdg_positioner_set_constraint_adjustment] at h
    cases h
  | set_offset x y =>
    simp only [XdgPositionerPrivate.request, XdgPositionerPrivate.xdg_positioner_set_offset] at h
    cases h

/-- C22: rejection is atomic.  Whenever a step posts a protocol error (any of
`defunct_surfaces`, `unconfigured_buffer`, `already_constructed`,
`invalid_positioner`, `not_constructed`, `invalid_input` or the anonymous one),
the whole state after it equals the state before it, and the error is all the
handler did: no signal is emitted and no event is sent. -/
theorem rejection_atomic (w : World) (op : Op) (c : ProtocolError)
    (h : Event.error c ∈ (step w op).2) :
    (step w op).1 = w ∧ (step w op).2 = [Event.error c] ∧ signalsOf (step w op).2 = [] := by
  have key : (step w op).1 = w ∧ (step w op).2 = [Event.error c] := by
    cases op with
    | surface_set_buffer surface buffer => cases h
    | surface_commit surface =>
      exact absurd h (no_error_of_errorsOf _ (errorsOf_surface_commit w surface) c)
    | xdg_wm_base_bind client => cases h
    | xdg_wm_base_destroy client =>
      simp only [step, XdgShellInterfacePrivate.xdg_wm_base_destroy] at h ⊢
      split
      · rename_i h1; rw [if_pos h1] at h; exact ⟨rfl, error_singleton h⟩
      · rename_i h1; rw [if_neg h1] at h; cases h
    | xdg_wm_base_create_positioner client => cases h
    | xdg_wm_base_get_xdg_surface client surface =>
      simp only [step, XdgShellInterfacePrivate.xdg_wm_base_get_xdg_surface] at h ⊢
      split
      · rename_i h1; rw [if_pos h1] at h; exact ⟨rfl, error_singleton h⟩
      · rename_i h1; rw [if_neg h1] at h; cases h
    | xdg_wm_base_pong s =>
      simp only [step, XdgShellInterfacePrivate.xdg_wm_base_pong] at h
      split at h <;> simp at h
    | ping surface =>
      simp only [step, XdgShellInterface.ping] at h
      split at h
      · cases h
      · split at h <;> simp at h
    | pingTimerTimeout t =>
      simp only [step, XdgShellInterfacePrivate.pingTimerTimeout] at h
      split at h
      · cases h
      · split at h
        · simp at h
        · split at h <;> simp at h
    | xdg_surface_destroy q =>
      simp only [step, XdgSurfaceInterfacePrivate.xdg_surface_destroy] at h
      split at h
      · cases h
      · dsimp only at h
        split at h <;> simp at h
    | xdg_surface_get_toplevel q =>
      simp only [step, XdgSurfaceInterfacePrivate.xdg_surface_get_toplevel] at h ⊢
      cases hq : w.xdgSurfaceObjects q with
      | none => rw [hq] at h; cases h
      | some d =>
        rw [hq] at h
        dsimp only at h ⊢
        split
        · rename_i h1; rw [if_pos h1] at h; exact ⟨rfl, error_singleton h⟩
        · rename_i h1; rw [if_neg h1] at h; simp at h
    | xdg_surface_get_popup q parent positioner =>
      simp only [step, XdgSurfaceInterfacePrivate.xdg_surface_get_popup] at h ⊢
      cases hq : w.xdgSurfaceObjects q with
      | none => rw [hq] at h; cases h
      | some d =>
        rw [hq] at h
        dsimp only at h ⊢
        split
        · rename_i h1; rw [if_pos h1] at h; exact ⟨rfl, error_singleton h⟩
        · rename_i h1
          rw [if_neg h1] at h
          split
          · rename_i h2; rw [if_pos h2] at h; exact ⟨rfl, error_singleton h⟩
          · rename_i h2
            rw [if_neg h2] at h
            cases hp : XdgSurfaceInterface.get w parent with
            | none => rw [hp] at h; exact ⟨rfl, error_singleton h⟩
            | some p => rw [hp] at h; simp at h
    | xdg_surface_set_window_geometry q x y width height =>
      exact atomic_onXdgSurface w q _ (atomic_set_window_geometry x y width height) c h
    | xdg_surface_ack_configure q serial =>
      exact atomic_onXdgSurface w q _
        (fun d c' h' => by
          simp [XdgSurfaceInterfacePrivate.xdg_surface_ack_configure] at h') c h
    | xdg_toplevel_set_parent q parent =>
      refine atomic_onToplevel w q _ (fun d c' h' => ?_) c h
      exfalso
      simp only [XdgToplevelInterfacePrivate.xdg_toplevel_set_parent] at h'
      split at h' <;> simp at h'
    | xdg_toplevel_set_title q title =>
      refine atomic_onToplevel w q _ (fun d c' h' => ?_) c h
      exfalso
      simp only [XdgToplevelInterfacePrivate.xdg_toplevel_set_title] at h'
      split at h' <;> simp at h'
    | xdg_toplevel_set_app_id q app_id =>
      refine atomic_onToplevel w q _ (fun d c' h' => ?_) c h
      exfalso
      simp only [XdgToplevelInterfacePrivate.xdg_toplevel_set_app_id] at h'
      split at h' <;> simp at h'
    | xdg_toplevel_show_window_menu q seat serial x y =>
      refine atomic_readToplevel w q _ (fun xs c' h' => ?_) c h
      simp only [XdgToplevelInterfacePrivate.xdg_toplevel_show_window_menu] at h' ⊢
      split
      · rename_i h1; rw [if_pos h1] at h'; exact error_singleton h'
      · rename_i h1; rw [if_neg h1] at h'; simp at h'
    | xdg_toplevel_move q seat serial =>
      refine atomic_readToplevel w q _ (fun xs c' h' => ?_) c h
      simp only [XdgToplevelInterfacePrivate.xdg_toplevel_move] at h' ⊢
      split
      · rename_i h1; rw [if_pos h1] at h'; exact error_singleton h'
      · rename_i h1; rw [if_neg h1] at h'; simp at h'
    | xdg_toplevel_resize q seat serial edges =>
      refine atomic_readToplevel w q _ (fun xs c' h' => ?_) c h
      simp only [XdgToplevelInterfacePrivate.xdg_toplevel_resize] at h' ⊢
      split
      · rename_i h1; rw [if_pos h1] at h'; exact error_singleton h'
      · rename_i h1; rw [if_neg h1] at h'; simp at h'
    | xdg_toplevel_set_max_size q width height =>
      exact atomic_onToplevel w q _ (atomic_set_max_size width height) c h
    | xdg_toplevel_set_min_size q width height =>
      exact atomic_onToplevel w q _ (atomic_set_min_size width height) c h
    | xdg_toplevel_set_maximized q =>
      exact atomic_onToplevel w q _
        (fun d c' h' => by
          simp [XdgToplevelInterfacePrivate.xdg_toplevel_set_maximized] at h') c h
    | xdg_toplevel_unset_maximized q =>
      exact atomic_onToplevel w q _
        (fun d c' h' => by
          simp [XdgToplevelInterfacePrivate.xdg_toplevel_unset_maximized] at h') c h
    | xdg_toplevel_set_fullscreen q output =>
      exact atomic_onToplevel w q _
        (fun d c' h' => by
          simp [XdgToplevelInterfacePrivate.xdg_toplevel_set_fullscreen] at h') c h
    | xdg_toplevel_unset_fullscreen q =>
      exact atomic_onToplevel w q _
        (fun d c' h' => by
          simp [XdgToplevelInterfacePrivate.xdg_toplevel_unset_fullscreen] at h') c h
    | xdg_toplevel_set_minimized q =>
      exact atomic_onToplevel w q _
        (fun d c' h' => by
          simp [XdgToplevelInterfacePrivate.xdg_toplevel_set_minimized] at h') c h
    | toplevelSendConfigure q size states =>
      simp only [step, XdgToplevelInterface.sendConfigure] at h
      split at h
      · cases h
      · split at h <;> simp at h
    | toplevelSendClose q =>
      exact atomic_onToplevel w q _
        (fun d c' h' => by simp [XdgToplevelInterface.sendClose] at h') c h
    | xdg_popup_grab q seat serial =>
      simp only [step] at h
      split at h <;> simp [XdgPopupInterfacePrivate.xdg_popup_grab] at h
    | popupSendConfigure q rect =>
      simp only [step, XdgPopupInterface.sendConfigure] at h
      split at h
      · cases h
      · split at h <;> simp at h
    | popupSendPopupDone q =>
      simp only [step] at h
      split at h <;> simp [XdgPopupInterface.sendPopupDone] at h
    | xdg_positioner_destroy resource =>
      simp [step, XdgPositionerPrivate.xdg_positioner_destroy] at h
    | xdg_toplevel_destroy q =>
      simp [step, XdgToplevelInterfacePrivate.xdg_toplevel_destroy] at h
    | xdg_popup_destroy q =>
      simp [step, XdgPopupInterfacePrivate.xdg_popup_destroy] at h
    | xdg_positioner_set_size resource width height =>
      exact atomic_onPositioner w resource _
        (atomic_positioner (PositionerRequest.set_size width height)) c h
    | xdg_positioner_set_anchor_rect resource x y width height =>
      exact atomic_onPositioner w resource _
        (atomic_positioner (PositionerRequest.set_anchor_rect x y width height)) c h
    | xdg_positioner_set_anchor resource anchor =>
      exact atomic_onPositioner w resource _
        (atomic_positioner (PositionerRequest.set_anchor anchor)) c h
    | xdg_positioner_set_gravity resource gravity =>
      exact atomic_onPositioner w resource _
        (atomic_positioner (PositionerRequest.set_gravity gravity)) c h
    | xdg_positioner_set_constraint_adjustment resource mask =>
      exact atomic_onPositioner w resource _
        (atomic_positioner (PositionerRequest.set_constraint_adjustment mask)) c h
    | xdg_positioner_set_offset resource x y =>
      exact atomic_onPositioner w resource _
        (atomic_positioner (PositionerRequest.set_offset x y)) c h
  refine ⟨key.1, key.2, ?_⟩
  rw [key.2]
  rfl

/-- C22, at concrete inputs: `set_window_geometry` with a zero width on the
toplevel's xdg-surface of scenario S1 and `set_anchor(9)` on the positioner of
scenario S3 are rejected and leave the state as it was. -/
theorem rejection_atomic_witness :
    step (run World.init scenarioS1) (Op.xdg_surface_set_window_geometry 0 0 0 0 600)
        = (run World.init scenarioS1, [Event.error ProtocolError.anonymous])
    ∧ step (run World.init scenarioS3Ops) (Op.xdg_positioner_set_anchor 3 9)
        = (run World.init scenarioS3Ops,
            [Event.error ProtocolError.XDG_POSITIONER_ERROR_INVALID_INPUT]) :=
  ⟨Prod.ext
      (rejection_atomic (run World.init scenarioS1)
        (Op.xdg_surface_set_window_geometry 0 0 0 0 600) ProtocolError.anonymous (by decide)).1
      (rejection_atomic (run World.init scenarioS1)
        (Op.xdg_surface_set_window_geometry 0 0 0 0 600) ProtocolError.anonymous (by decide)).2.1,
   Prod.ext
      (rejection_atomic (run World.init scenarioS3Ops) (Op.xdg_positioner_set_anchor 3 9)
        ProtocolError.XDG_POSITIONER_ERROR_INVALID_INPUT (by decide)).1
      (rejection_atomic (run World.init scenarioS3Ops) (Op.xdg_positioner_set_anchor 3 9)
        ProtocolError.XDG_POSITIONER_ERROR_INVALID_INPUT (by decide)).2.1⟩

/-! ### Frame properties: current state, the configured flag and the registry -/

/-- What a step can do to an xdg-surface object: it is new (made by
`get_xdg_surface`, unconfigured, with default state), or it existed before with
the same client, still configured if it was, and with the same current state
unless the step is a surface commit. -/
theorem step_xdgSurface_frame (w : World) (op : Op) (q : XdgSurfaceId)
    (xs' : XdgSurfaceInterfacePrivate)
    (h : (step w op).1.xdgSurfaceObjects q = some xs') :
    (q = w.fresh ∧ xs'.isConfigured = false ∧ xs'.current = {} ∧ xs'.next = {})
    ∨ (∃ xs, w.xdgSurfaceObjects q = some xs ∧ xs'.client = xs.client
        ∧ (xs.isConfigured = true → xs'.isConfigured = true)
        ∧ ((∀ s, op ≠ Op.surface_commit s) → xs'.current = xs.current)) := by
  cases op
  all_goals simp only [step, SurfaceInterface.commit, SurfaceRole.commit,
    XdgShellInterfacePrivate.bind, XdgShellInterfacePrivate.xdg_wm_base_destroy,
    XdgShellInterfacePrivate.xdg_wm_base_create_positioner,
    XdgShellInterfacePrivate.xdg_wm_base_get_xdg_surface,
    XdgShellInterfacePrivate.xdg_wm_base_pong, XdgShellInterface.ping,
    XdgShellInterfacePrivate.pingTimerTimeout, XdgShellInterfacePrivate.registerPing,
    XdgShellInterfacePrivate.registerXdgSurface, XdgShellInterfacePrivate.unregisterXdgSurface,
    XdgSurfaceInterfacePrivate.xdg_surface_destroy,
    XdgSurfaceInterfacePrivate.xdg_surface_destroy_resource,
    XdgSurfaceInterfacePrivate.xdg_surface_get_toplevel,
    XdgSurfaceInterfacePrivate.xdg_surface_get_popup, SurfaceRole.attach,
    World.onXdgSurface, World.onToplevel, World.readToplevel, World.onPositioner,
    XdgToplevelInterface.sendConfigure, XdgPopupInterface.sendConfigure,
    XdgPositionerPrivate.xdg_positioner_destroy, clientFromXdgSurface,
    XdgToplevelInterfacePrivate.xdg_toplevel_destroy,
    XdgToplevelInterfacePrivate.xdg_toplevel_destroy_resource,
    XdgPopupInterfacePrivate.xdg_popup_destroy,
    XdgPopupInterfacePrivate.xdg_popup_destroy_resource,
    XdgSurfaceInterfacePrivate.clearToplevel, XdgSurfaceInterfacePrivate.clearPopup,
    SurfaceRole.detach] at h
  all_goals repeat' split at h
  all_goals try simp only [Function.update_apply] at h
  all_goals repeat' split at h
  all_goals first
    | (cases h; done)
    | (right; exact ⟨_, h, rfl, id, fun _ => rfl⟩)
    | (injection h with h; subst h; subst_vars
       first
        | (left; exact ⟨rfl, rfl, rfl, rfl⟩)
        | (right; refine ⟨_, by assumption, ?_⟩
           first
            | exact ⟨rfl, id, fun _ => rfl⟩
            | exact ⟨rfl, fun _ => rfl, fun _ => rfl⟩
            | exact ⟨(toplevel_commit_frame _ _ _).1,
                fun hc => ((toplevel_commit_frame _ _ _).2.2.2.2.2).trans hc,
                fun hne => absurd rfl (hne _)⟩
            | exact ⟨(popup_commit_frame _ _ _).1,
                fun hc => ((popup_commit_frame _ _ _).2.2.2.2.2).trans hc,
                fun hne => absurd rfl (hne _)⟩
            | exact ⟨(set_window_geometry_frame _ _ _ _ _).1,
                fun hc => ((set_window_geometry_frame _ _ _ _ _).2.2.2.2.2).trans hc,
                fun _ => (set_window_geometry_frame _ _ _ _ _).2.2.2.2.1⟩))

theorem toplevel_requests_current (w : World) (q : ToplevelId) (d : XdgToplevelInterfacePrivate) :
    (∀ parent, (XdgToplevelInterfacePrivate.xdg_toplevel_set_parent w q d parent).1.current
        = d.current)
    ∧ (∀ title, (XdgToplevelInterfacePrivate.xdg_toplevel_set_title q d title).1.current
        = d.current)
    ∧ (∀ app_id, (XdgToplevelInterfacePrivate.xdg_toplevel_set_app_id q d app_id).1.current
        = d.current)
    ∧ (∀ width height,
        (XdgToplevelInterfacePrivate.xdg_toplevel_set_max_size d width height).1.current
          = d.current)
    ∧ (∀ width height,
        (XdgToplevelInterfacePrivate.xdg_toplevel_set_min_size d width height).1.current
          = d.current) := by
  refine ⟨?_, ?_, ?_, ?_, ?_⟩
  · intro parent
    unfold XdgToplevelInterfacePrivate.xdg_toplevel_set_parent
    dsimp only
    split <;> rfl
  · intro title
    unfold XdgToplevelInterfacePrivate.xdg_toplevel_set_title
    split <;> rfl
  · intro app_id
    unfold XdgToplevelInterfacePrivate.xdg_toplevel_set_app_id
    split <;> rfl
  · intro width height
    unfold XdgToplevelInterfacePrivate.xdg_toplevel_set_max_size
    split <;> rfl
  · intro width height
    unfold XdgToplevelInterfacePrivate.xdg_toplevel_set_min_size
    split <;> rfl

/-- What a step can do to a toplevel object: it is new (made by `get_toplevel`,
with default state), or it existed before, with the same current state unless
the step is a surface commit. -/
theorem step_toplevel_frame (w : World) (op : Op) (t : ToplevelId)
    (d' : XdgToplevelInterfacePrivate)
    (h : (step w op).1.toplevels t = some d') :
    (t = w.fresh ∧ d'.current = {} ∧ d'.next = {})
    ∨ (∃ d, w.toplevels t = some d
        ∧ ((∀ s, op ≠ Op.surface_commit s) → d'.current = d.current)) := by
  cases op
  all_goals simp only [step, SurfaceInterface.commit, SurfaceRole.commit,
    XdgShellInterfacePrivate.bind, XdgShellInterfacePrivate.xdg_wm_base_destroy,
    XdgShellInterfacePrivate.xdg_wm_base_create_positioner,
    XdgShellInterfacePrivate.xdg_wm_base_get_xdg_surface,
    XdgShellInterfacePrivate.xdg_wm_base_pong, XdgShellInterface.ping,
    XdgShellInterfacePrivate.pingTimerTimeout, XdgShellInterfacePrivate.registerPing,
    XdgShellInterfacePrivate.registerXdgSurface, XdgShellInterfacePrivate.unregisterXdgSurface,
    XdgSurfaceInterfacePrivate.xdg_surface_destroy,
    XdgSurfaceInterfacePrivate.xdg_surface_destroy_resource,
    XdgSurfaceInterfacePrivate.xdg_surface_get_toplevel,
    XdgSurfaceInterfacePrivate.xdg_surface_get_popup, SurfaceRole.attach,
    World.onXdgSurface, World.onToplevel, World.readToplevel, World.onPositioner,
    XdgToplevelInterface.sendConfigure, XdgPopupInterface.sendConfigure,
    XdgPositionerPrivate.xdg_positioner_destroy, clientFromXdgSurface,
    XdgToplevelInterfacePrivate.xdg_toplevel_destroy,
    XdgToplevelInterfacePrivate.xdg_toplevel_destroy_resource,
    XdgPopupInterfacePrivate.xdg_popup_destroy,
    XdgPopupInterfacePrivate.xdg_popup_destroy_resource,
    XdgSurfaceInterfacePrivate.clearToplevel, XdgSurfaceInterfacePrivate.clearPopup,
    SurfaceRole.detach] at h
  all_goals repeat' split at h
  all_goals try simp only [Function.update_apply] at h
  all_goals repeat' split at h
  all_goals first
    | (cases h; done)
    | (right; exact ⟨_, h, fun _ => rfl⟩)
    | (injection h with h; subst h; subst_vars
       first
        | (left; exact ⟨rfl, rfl, rfl⟩)
        | (right; refine ⟨_, by assumption, ?_⟩
           first
            | exact fun _ => rfl
            | exact fun hne => absurd rfl (hne _)
            | exact fun _ => (toplevel_requests_current _ _ _).1 _
            | exact fun _ => (toplevel_requests_current w _ _).2.1 _
            | exact fun _ => (toplevel_requests_current w _ _).2.2.1 _
            | exact fun _ => (toplevel_requests_current w 0 _).2.2.2.1 _ _
            | exact fun _ => (toplevel_requests_current w 0 _).2.2.2.2 _ _))

/-- C27: the current state is mutated only by a commit.  In every state whose
object identities are in order (so in every reachable state), for every
operation other than a surface commit, every xdg-surface that exists before
and after it has the same `windowGeometry()`, and every toplevel that exists
before and after it has the same `minimumSize()` and `maximumSize()`. -/
theorem current_only_by_commit (w : World) (op : Op) (hf : w.Fresh)
    (hop : ∀ s, op ≠ Op.surface_commit s) :
    (∀ q xs xs', w.xdgSurfaceObjects q = some xs →
        (step w op).1.xdgSurfaceObjects q = some xs' →
        xs'.current = xs.current
        ∧ XdgSurfaceInterface.windowGeometry xs' = XdgSurfaceInterface.windowGeometry xs)
    ∧ (∀ t d d', w.toplevels t = some d → (step w op).1.toplevels t = some d' →
        d'.current = d.current
        ∧ XdgToplevelInterface.minimumSize d' = XdgToplevelInterface.minimumSize d
        ∧ XdgToplevelInterface.maximumSize d' = XdgToplevelInterface.maximumSize d) := by
  refine ⟨?_, ?_⟩
  · intro q xs xs' h0 h
    rcases step_xdgSurface_frame w op q xs' h with ⟨hq, _⟩ | ⟨xs0, h1, _, _, hcur⟩
    · have := (hf.1 q (le_of_eq hq.symm)).1
      rw [h0] at this
      cases this
    · rw [h0] at h1
      injection h1 with h1
      subst h1
      have := hcur hop
      exact ⟨this, by simp only [XdgSurfaceInterface.windowGeometry, this]⟩
  · intro t d d' h0 h
    rcases step_toplevel_frame w op t d' h with ⟨ht, _⟩ | ⟨d0, h1, hcur⟩
    · have := (hf.1 t (le_of_eq ht.symm)).2.1
      rw [h0] at this
      cases this
    · rw [h0] at h1
      injection h1 with h1
      subst h1
      have := hcur hop
      exact ⟨this, by simp only [XdgToplevelInterface.minimumSize, this],
        by simp only [XdgToplevelInterface.maximumSize, this]⟩

/-- C27, at a concrete input: after the second commit of scenario S1 the
current window geometry is (0, 0, 800, 600), and a `set_window_geometry` with
another rectangle leaves `windowGeometry()` as it is. -/
theorem current_only_by_commit_witness :
    ((step (run World.init scenarioS1Committed)
        (Op.xdg_surface_set_window_geometry 0 5 5 100 100)).1.xdgSurfaceObjects 0).map
        XdgSurfaceInterface.windowGeometry
      = some (QRect.fromXYWH 0 0 800 600) := by
  have hafter : (step (run World.init scenarioS1Committed)
      (Op.xdg_surface_set_window_geometry 0 5 5 100 100)).1.xdgSurfaceObjects 0
      = some { client := 1, surface := 5, toplevel := some 1,
               next := { windowGeometry := QRect.fromXYWH 5 5 100 100 },
               current := { windowGeometry := QRect.fromXYWH 0 0 800 600 },
               isConfigured := true } := by decide
  rw [hafter]
  exact congrArg some
    ((current_only_by_commit (run World.init scenarioS1Committed)
      (Op.xdg_surface_set_window_geometry 0 5 5 100 100) (run_fresh _)
      (fun s e => by cases e)).1 0
      { client := 1, surface := 5, toplevel := some 1,
        next := { windowGeometry := QRect.fromXYWH 0 0 800 600 },
        current := { windowGeometry := QRect.fromXYWH 0 0 800 600 }, isConfigured := true }
      _ (by decide) hafter).2

theorem configured_stays (q : XdgSurfaceId) (ops : List Op) :
    ∀ w : World, q < w.fresh →
      (∀ xs, w.xdgSurfaceObjects q = some xs → xs.isConfigured = true) →
      ∀ xs', (run w ops).xdgSurfaceObjects q = some xs' → xs'.isConfigured = true := by
  induction ops with
  | nil => intro w _ h xs' hx; exact h xs' hx
  | cons op ops ih =>
    intro w hq h xs' hx
    refine ih (step w op).1 (lt_of_lt_of_le hq (step_fresh_le w op)) ?_ xs' hx
    intro ys hy
    rcases step_xdgSurface_frame w op q ys hy with ⟨hfr, _⟩ | ⟨xs0, h0, _, hc, _⟩
    · exact absurd hq (by rw [hfr]; exact Nat.lt_irrefl _)
    · exact hc (h xs0 h0)

/-- C28: the configure state of an xdg-surface is a one-way latch.  In every
state whose object identities are in order (so in every reachable state): a
newly created xdg-surface is unconfigured; an unconfigured one stays
unconfigured as long as no `sendConfigure` is made on its role; after a
toplevel's or a popup's `sendConfigure` its xdg-surface is configured, the
other fields unchanged; no operation whatever (request, commit, ack, ping, tick)
and no sequence of operations makes a configured xdg-surface unconfigured; and
a `sendConfigure` on the role of another xdg-surface leaves it as it is. -/
theorem configured_latch (w : World) (q : XdgSurfaceId) (hf : w.Fresh) :
    (∀ client surface, (w.surfaces surface).buffer = false →
        ((step w (Op.xdg_wm_base_get_xdg_surface client surface)).1.xdgSurfaceObjects
            w.fresh).map (fun xs => xs.isConfigured) = some false)
    ∧ (∀ ops, (∀ xs, w.xdgSurfaceObjects q = some xs → xs.isConfigured = false) →
        neverConfigured q w ops = true →
        ∀ xs, (run w ops).xdgSurfaceObjects q = some xs → xs.isConfigured = false)
    ∧ (∀ t size states d xs, w.toplevels t = some d → d.xdgSurface = q →
        w.xdgSurfaceObjects q = some xs →
        (step w (Op.toplevelSendConfigure t size states)).1.xdgSurfaceObjects q
          = some { xs with isConfigured := true })
    ∧ (∀ p rect d xs, w.popups p = some d → d.xdgSurface = q →
        w.xdgSurfaceObjects q = some xs →
        (step w (Op.popupSendConfigure p rect)).1.xdgSurfaceObjects q
          = some { xs with isConfigured := true })
    ∧ (∀ op xs xs', w.xdgSurfaceObjects q = some xs → xs.isConfigured = true →
        (step w op).1.xdgSurfaceObjects q = some xs' → xs'.isConfigured = true)
    ∧ (∀ ops xs xs', w.xdgSurfaceObjects q = some xs → xs.isConfigured = true →
        (run w ops).xdgSurfaceObjects q = some xs' → xs'.isConfigured = true)
    ∧ (∀ t size states d, w.toplevels t = some d → d.xdgSurface ≠ q →
        (step w (Op.toplevelSendConfigure t size states)).1.xdgSurfaceObjects q
          = w.xdgSurfaceObjects q)
    ∧ (∀ p rect d, w.popups p = some d → d.xdgSurface ≠ q →
        (step w (Op.popupSendConfigure p rect)).1.xdgSurfaceObjects q
          = w.xdgSurfaceObjects q) := by
  have hlt : ∀ xs, w.xdgSurfaceObjects q = some xs → q < w.fresh := by
    intro xs h0
    by_contra hge
    have := (hf.1 q (Nat.le_of_not_lt hge)).1
    rw [h0] at this
    cases this
  refine ⟨?_, ?_, ?_, ?_, ?_, ?_, ?_, ?_⟩
  · intro client surface hbuf
    simp [step, XdgShellInterfacePrivate.xdg_wm_base_get_xdg_surface, hbuf,
      XdgShellInterfacePrivate.registerXdgSurface, clientFromXdgSurface]
  · intro ops h0 hn xs hx
    exact neverConfigured_run q ops w h0 hn xs hx
  · intro t size states d xs ht hd hx
    subst hd
    simp only [step, toplevel_sendConfigure_eq w t size states d xs ht hx,
      Function.update_same]
  · intro p rect d xs hp hd hx
    subst hd
    simp only [step, popup_sendConfigure_eq w p rect d xs hp hx, Function.update_same]
  · intro op xs xs' h0 hc h
    exact configured_stays q [op] w (hlt xs h0)
      (fun ys hy => by rw [h0] at hy; injection hy with hy; subst hy; exact hc) xs' h
  · intro ops xs xs' h0 hc h
    exact configured_stays q ops w (hlt xs h0)
      (fun ys hy => by rw [h0] at hy; injection hy with hy; subst hy; exact hc) xs' h
  · intro t size states d ht hne
    cases hx : w.xdgSurfaceObjects d.xdgSurface with
    | none => simp only [step, XdgToplevelInterface.sendConfigure, ht, hx]
    | some xs =>
      simp only [step, toplevel_sendConfigure_eq w t size states d xs ht hx,
        Function.update_apply, if_neg (Ne.symm hne)]
  · intro p rect d hp hne
    cases hx : w.xdgSurfaceObjects d.xdgSurface with
    | none => simp only [step, XdgPopupInterface.sendConfigure, hp, hx]
    | some xs =>
      simp only [step, popup_sendConfigure_eq w p rect d xs hp hx,
        Function.update_apply, if_neg (Ne.symm hne)]

/-- C28, at a concrete input: the xdg-surface 0 of the interleaved scenario is
configured after its toplevel's first `sendConfigure` and is still configured
at the end, after a ping, a configure of the other toplevel and two commits. -/
theorem configured_latch_witness :
    ((run (run World.init (scenarioInterleaved.take 6))
        (scenarioInterleaved.drop 6 ++ [Op.surface_commit 5, Op.surface_commit 6])
      ).xdgSurfaceObjects 0).map (fun xs => xs.isConfigured) = some true := by
  have hafter : (run (run World.init (scenarioInterleaved.take 6))
      (scenarioInterleaved.drop 6 ++ [Op.surface_commit 5, Op.surface_commit 6])
      ).xdgSurfaceObjects 0
      = some { client := 1, surface := 5, toplevel := some 1, isConfigured := true } := by
    decide
  rw [hafter]
  exact congrArg some
    ((configured_latch (run World.init (scenarioInterleaved.take 6)) 0
        (run_fresh _)).2.2.2.2.2.1
      (scenarioInterleaved.drop 6 ++ [Op.surface_commit 5, Op.surface_commit 6])
      { client := 1, surface := 5, toplevel := some 1, isConfigured := true } _
      (by decide) rfl hafter)

theorem map_client_update (f : XdgSurfaceId → Option XdgSurfaceInterfacePrivate)
    (q0 q : XdgSurfaceId) (d d' : XdgSurfaceInterfacePrivate) (h0 : f q0 = some d)
    (hc : d'.client = d.client) :
    (Function.update f q0 (some d') q).map (fun xs => xs.client)
      = (f q).map (fun xs => xs.client) := by
  simp only [Function.update_apply]
  split
  · rename_i h; subst h; rw [h0]; simp [hc]
  · rfl

/-- Operations other than `get_xdg_surface` and the destruction of an
xdg-surface leave the registry, the set of live xdg-surfaces and their clients
as they are. -/
theorem step_registry_frame (w : World) (op : Op)
    (h1 : ∀ client surface, op ≠ Op.xdg_wm_base_get_xdg_surface client surface)
    (h2 : ∀ q, op ≠ Op.xdg_surface_destroy q) :
    (step w op).1.xdgSurfaces = w.xdgSurfaces
    ∧ ∀ q, ((step w op).1.xdgSurfaceObjects q).map (fun xs => xs.client)
        = (w.xdgSurfaceObjects q).map (fun xs => xs.client) := by
  cases op
  case xdg_wm_base_get_xdg_surface client surface => exact absurd rfl (h1 client surface)
  case xdg_surface_destroy q => exact absurd rfl (h2 q)
  all_goals clear h1 h2
  all_goals simp only [step, SurfaceInterface.commit, SurfaceRole.commit,
    XdgShellInterfacePrivate.bind, XdgShellInterfacePrivate.xdg_wm_base_destroy,
    XdgShellInterfacePrivate.xdg_wm_base_create_positioner,
    XdgShellInterfacePrivate.xdg_wm_base_pong, XdgShellInterface.ping,
    XdgShellInterfacePrivate.pingTimerTimeout, XdgShellInterfacePrivate.registerPing,
    XdgSurfaceInterfacePrivate.xdg_surface_get_toplevel,
    XdgSurfaceInterfacePrivate.xdg_surface_get_popup, SurfaceRole.attach,
    World.onXdgSurface, World.onToplevel, World.readToplevel, World.onPositioner,
    XdgToplevelInterface.sendConfigure, XdgPopupInterface.sendConfigure,
    XdgPositionerPrivate.xdg_positioner_destroy, clientFromXdgSurface,
    XdgToplevelInterfacePrivate.xdg_toplevel_destroy,
    XdgToplevelInterfacePrivate.xdg_toplevel_destroy_resource,
    XdgPopupInterfacePrivate.xdg_popup_destroy,
    XdgPopupInterfacePrivate.xdg_popup_destroy_resource,
    XdgSurfaceInterfacePrivate.clearToplevel, XdgSurfaceInterfacePrivate.clearPopup,
    SurfaceRole.detach]
  all_goals repeat' split
  all_goals first
    | (refine ⟨rfl, fun q0 => ?_⟩)
    | (refine ⟨trivial, fun q0 => ?_⟩)
  all_goals try dsimp only
  all_goals first
    | rfl
    | trivial
    | (apply map_client_update
       · assumption
       · first
          | rfl
          | exact (toplevel_commit_frame _ _ _).1
          | exact (popup_commit_frame _ _ _).1
          | exact (set_window_geometry_frame _ _ _ _ _).1)

theorem registryExact_of_frame (w w' : World) (h : w.RegistryExact)
    (h1 : w'.xdgSurfaces = w.xdgSurfaces)
    (h2 : ∀ q, (w'.xdgSurfaceObjects q).map (fun xs => xs.client)
        = (w.xdgSurfaceObjects q).map (fun xs => xs.client)) : w'.RegistryExact := by
  refine ⟨fun c q => ?_, by rw [h1]; exact h.2⟩
  rw [h1, h.1 c q]
  have := h2 q
  cases ha : w'.xdgSurfaceObjects q <;> cases hb : w.xdgSurfaceObjects q <;>
    simp [ha, hb] at this ⊢
  rw [this]

theorem get_xdg_surface_registry (w : World) (client : ClientId) (surface : SurfaceId)
    (hbuf : (w.surfaces surface).buffer = false) :
    (step w (Op.xdg_wm_base_get_xdg_surface client surface)).1.xdgSurfaces
        = (client, w.fresh) :: w.xdgSurfaces
    ∧ (step w (Op.xdg_wm_base_get_xdg_surface client surface)).1.xdgSurfaceObjects
        = Function.update w.xdgSurfaceObjects w.fresh
            (some { client := client, surface := surface }) := by
  simp [step, XdgShellInterfacePrivate.xdg_wm_base_get_xdg_surface, hbuf,
    XdgShellInterfacePrivate.registerXdgSurface, clientFromXdgSurface]

theorem destroy_registry (w : World) (q : XdgSurfaceId) (xs : XdgSurfaceInterfacePrivate)
    (hq : w.xdgSurfaceObjects q = some xs) :
    (step w (Op.xdg_surface_destroy q)).1.xdgSurfaces
        = w.xdgSurfaces.filter (fun e => decide (e ≠ (xs.client, q)))
    ∧ (step w (Op.xdg_surface_destroy q)).1.xdgSurfaceObjects
        = Function.update w.xdgSurfaceObjects q none := by
  simp [step, XdgSurfaceInterfacePrivate.xdg_surface_destroy,
    XdgSurfaceInterfacePrivate.xdg_surface_destroy_resource,
    XdgShellInterfacePrivate.unregisterXdgSurface, clientFromXdgSurface, hq]

theorem step_registryExact (w : World) (op : Op) (hf : w.Fresh) (h : w.RegistryExact) :
    (step w op).1.RegistryExact := by
  by_cases h1 : ∃ client surface, op = Op.xdg_wm_base_get_xdg_surface client surface
  · obtain ⟨client, surface, rfl⟩ := h1
    cases hbuf : (w.surfaces surface).buffer with
    | true =>
      have : step w (Op.xdg_wm_base_get_xdg_surface client surface)
          = (w, [Event.error ProtocolError.XDG_SURFACE_ERROR_UNCONFIGURED_BUFFER]) := by
        simp [step, XdgShellInterfacePrivate.xdg_wm_base_get_xdg_surface, hbuf]
      rw [this]; exact h
    | false =>
      obtain ⟨e1, e2⟩ := get_xdg_surface_registry w client surface hbuf
      have hnot : ∀ c, (c, w.fresh) ∉ w.xdgSurfaces := by
        intro c hc
        exact absurd (hf.2.1 _ hc) (Nat.lt_irrefl _)
      refine ⟨fun c q => ?_, ?_⟩
      · rw [e1, e2, List.mem_cons, h.1 c q]
        by_cases hq : q = w.fresh
        · subst hq
          have hnone := (hf.1 w.fresh (le_refl _)).1
          simp [hnone]
          exact eq_comm
        · simp [Function.update_apply, hq]
      · rw [e1]
        exact List.nodup_cons.mpr ⟨hnot client, h.2⟩
  by_cases h2 : ∃ q, op = Op.xdg_surface_destroy q
  · obtain ⟨q, rfl⟩ := h2
    cases hq : w.xdgSurfaceObjects q with
    | none =>
      have : step w (Op.xdg_surface_destroy q) = (w, []) := by
        simp [step, XdgSurfaceInterfacePrivate.xdg_surface_destroy, hq]
      rw [this]; exact h
    | some xs =>
      obtain ⟨e1, e2⟩ := destroy_registry w q xs hq
      refine ⟨fun c q' => ?_, ?_⟩
      · rw [e1, e2, List.mem_filter, h.1 c q']
        by_cases hqq : q' = q
        · subst hqq
          simp [hq]
          exact fun e => e.symm
        · simp [Function.update_apply, hqq]
      · rw [e1]
        exact h.2.filter _
  · obtain ⟨e1, e2⟩ := step_registry_frame w op
      (fun client surface e => h1 ⟨client, surface, e⟩) (fun q e => h2 ⟨q, e⟩)
    exact registryExact_of_frame w _ h e1 e2

theorem run_registryExact (ops : List Op) : (run World.init ops).RegistryExact := by
  have : ∀ w : World, w.Fresh → w.RegistryExact → (run w ops).RegistryExact := by
    induction ops with
    | nil => intro w _ h; exact h
    | cons op ops ih =>
      intro w hf h
      exact ih _ (step_fresh w op hf) (step_registryExact w op hf h)
  refine this World.init init_fresh ⟨fun c q => ?_, List.nodup_nil⟩
  simp [World.init]

/-- C29: the registry invariant.  In every reachable state the registry holds
the pair `(c, q)` exactly when `q` is a live xdg-surface (created and not yet
destroyed) whose resource belongs to `c`, and holds no pair twice.  A
successful `get_xdg_surface` of `c` adds one new xdg-surface under `c`; the
destruction of an xdg-surface removes its entry and its object and nothing
else; every other operation leaves the registry, the set of live xdg-surfaces
and their clients as they are.  So `xdg_wm_base.destroy` by `c` succeeds
exactly when no live xdg-surface belongs to `c`, and posts `defunct_surfaces`
exactly when one does. -/
theorem registry_invariant (ops : List Op) (c : ClientId) :
    (∀ q, (c, q) ∈ (run World.init ops).xdgSurfaces
        ↔ ∃ xs, (run World.init ops).xdgSurfaceObjects q = some xs ∧ xs.client = c)
    ∧ (run World.init ops).xdgSurfaces.Nodup
    ∧ (∀ surface, ((run World.init ops).surfaces surface).buffer = false →
        (step (run World.init ops) (Op.xdg_wm_base_get_xdg_surface c surface)).1.xdgSurfaces
            = (c, (run World.init ops).fresh) :: (run World.init ops).xdgSurfaces
        ∧ (run World.init ops).xdgSurfaceObjects (run World.init ops).fresh = none
        ∧ (step (run World.init ops)
              (Op.xdg_wm_base_get_xdg_surface c surface)).1.xdgSurfaceObjects
            = Function.update (run World.init ops).xdgSurfaceObjects (run World.init ops).fresh
                (some { client := c, surface := surface }))
    ∧ (∀ q xs, (run World.init ops).xdgSurfaceObjects q = some xs →
        (∀ e, e ∈ (step (run World.init ops) (Op.xdg_surface_destroy q)).1.xdgSurfaces
            ↔ e ∈ (run World.init ops).xdgSurfaces ∧ e ≠ (xs.client, q))
        ∧ (step (run World.init ops) (Op.xdg_surface_destroy q)).1.xdgSurfaceObjects
            = Function.update (run World.init ops).xdgSurfaceObjects q none)
    ∧ (∀ op, (∀ client surface, op ≠ Op.xdg_wm_base_get_xdg_surface client surface) →
        (∀ q, op ≠ Op.xdg_surface_destroy q) →
        (step (run World.init ops) op).1.xdgSurfaces = (run World.init ops).xdgSurfaces
        ∧ ∀ q, ((step (run World.init ops) op).1.xdgSurfaceObjects q).map (fun xs => xs.client)
            = ((run World.init ops).xdgSurfaceObjects q).map (fun xs => xs.client))
    ∧ (step (run World.init ops) (Op.xdg_wm_base_destroy c)
          = ({ run World.init ops with
                resourceMap := (run World.init ops).resourceMap.erase c }, [])
        ↔ ∀ q xs, (run World.init ops).xdgSurfaceObjects q = some xs → xs.client ≠ c)
    ∧ (step (run World.init ops) (Op.xdg_wm_base_destroy c)
          = (run World.init ops, [Event.error ProtocolError.XDG_WM_BASE_ERROR_DEFUNCT_SURFACES])
        ↔ ∃ q xs, (run World.init ops).xdgSurfaceObjects q = some xs ∧ xs.client = c) := by
  have hinv := run_registryExact ops
  have hf := run_fresh ops
  generalize run World.init ops = w at hinv hf ⊢
  have hany : w.xdgSurfaces.any (fun e => decide (e.1 = c)) = true
      ↔ ∃ q xs, w.xdgSurfaceObjects q = some xs ∧ xs.client = c := by
    rw [List.any_eq_true]
    constructor
    · rintro ⟨⟨c', q⟩, hmem, hc⟩
      simp only [decide_eq_true_eq] at hc
      subst hc
      obtain ⟨xs, h1, h2⟩ := (hinv.1 c' q).mp hmem
      exact ⟨q, xs, h1, h2⟩
    · rintro ⟨q, xs, h1, h2⟩
      exact ⟨(c, q), (hinv.1 c q).mpr ⟨xs, h1, h2⟩, by simp⟩
  refine ⟨hinv.1 c, hinv.2, ?_, ?_, ?_, ?_, ?_⟩
  · intro surface hbuf
    obtain ⟨e1, e2⟩ := get_xdg_surface_registry w c surface hbuf
    exact ⟨e1, (hf.1 w.fresh (le_refl _)).1, e2⟩
  · intro q xs hq
    obtain ⟨e1, e2⟩ := destroy_registry w q xs hq
    refine ⟨fun e => ?_, e2⟩
    rw [e1, List.mem_filter]
    simp
  · intro op h1 h2
    exact step_registry_frame w op h1 h2
  · simp only [step, XdgShellInterfacePrivate.xdg_wm_base_destroy]
    by_cases ha : w.xdgSurfaces.any (fun e => decide (e.1 = c)) = true
    · rw [if_pos ha]
      constructor
      · intro h; injection h with _ h; cases h
      · intro h
        obtain ⟨q, xs, h1, h2⟩ := hany.mp ha
        exact absurd h2 (h q xs h1)
    · rw [if_neg ha]
      refine ⟨fun _ q xs h1 h2 => ha (hany.mpr ⟨q, xs, h1, h2⟩), fun _ => rfl⟩
  · simp only [step, XdgShellInterfacePrivate.xdg_wm_base_destroy]
    by_cases ha : w.xdgSurfaces.any (fun e => decide (e.1 = c)) = true
    · rw [if_pos ha]
      exact ⟨fun _ => hany.mp ha, fun _ => rfl⟩
    · rw [if_neg ha]
      constructor
      · intro h; injection h with _ h; cases h
      · intro h; exact absurd (hany.mpr h) ha

/-- C29, at a concrete input: after client 1 has destroyed one of its two
xdg-surfaces, `xdg_wm_base.destroy` by client 1 is still refused, because the
xdg-surface 1 is live; once that one is destroyed too it succeeds, although
client 2 still has an xdg-surface. -/
theorem registry_invariant_witness :
    step (run World.init scenarioRegistry) (Op.xdg_wm_base_destroy 1)
        = (run World.init scenarioRegistry,
            [Event.error ProtocolError.XDG_WM_BASE_ERROR_DEFUNCT_SURFACES])
    ∧ (step (run World.init (scenarioRegistry ++ [Op.xdg_surface_destroy 1]))
          (Op.xdg_wm_base_destroy 1)).2 = [] :=
  ⟨(registry_invariant scenarioRegistry 1).2.2.2.2.2.2.mpr
      ⟨1, { client := 1, surface := 6 }, by decide, rfl⟩,
   congrArg Prod.snd
    ((registry_invariant (scenarioRegistry ++ [Op.xdg_surface_destroy 1]) 1).2.2.2.2.2.1.mpr
      (by
        intro q xs h
        by_cases hq : q = 2
        · subst hq
          have : xs.client = 2 := by
            have h3 : (run World.init (scenarioRegistry ++ [Op.xdg_surface_destroy 1])
                ).xdgSurfaceObjects 2 = some { client := 2, surface := 7 } := by decide
            rw [h3] at h
            injection h with h
            rw [← h]
          rw [this]; decide
        · exfalso
          have h3 : ∀ q', q' ≠ 2 →
              (run World.init (scenarioRegistry ++ [Op.xdg_surface_destroy 1])
                ).xdgSurfaceObjects q' = none := by
            intro q' hq'
            show (Function.update (Function.update (Function.update
              (Function.update (Function.update (fun _ => none) 0 _) 1 _) 2 _) 0 none) 1 none) q'
              = none
            simp only [Function.update_apply]
            repeat' split
            all_goals rfl
          rw [h3 q hq] at h
          cases h))⟩

/-! ### Size limits: independent validation and limits with a zero component -/

/-- What `set_min_size` and `set_max_size` do, by the sign of the arguments
alone. -/
theorem set_size_limits (d : XdgToplevelInterfacePrivate) (width height : Int) :
    (0 ≤ width ∧ 0 ≤ height →
        XdgToplevelInterfacePrivate.xdg_toplevel_set_min_size d width height
          = ({ d with next := { d.next with minimumSize := ⟨width, height⟩ } }, [])
        ∧ XdgToplevelInterfacePrivate.xdg_toplevel_set_max_size d width height
          = ({ d with next := { d.next with maximumSize := ⟨width, height⟩ } }, []))
    ∧ (width < 0 ∨ height < 0 →
        XdgToplevelInterfacePrivate.xdg_toplevel_set_min_size d width height
          = (d, [Event.error ProtocolError.anonymous])
        ∧ XdgToplevelInterfacePrivate.xdg_toplevel_set_max_size d width height
          = (d, [Event.error ProtocolError.anonymous])) := by
  refine ⟨fun h => ?_, fun h => ?_⟩
  · have hn : ¬ (width < 0 ∨ height < 0) := by omega
    simp [XdgToplevelInterfacePrivate.xdg_toplevel_set_min_size,
      XdgToplevelInterfacePrivate.xdg_toplevel_set_max_size, hn]
  · simp [XdgToplevelInterfacePrivate.xdg_toplevel_set_min_size,
      XdgToplevelInterfacePrivate.xdg_toplevel_set_max_size, h]

/-- C32: the minimum and the maximum size are validated independently.  For
every toplevel and all arguments, `set_min_size` is rejected (with the
anonymous error, nothing stored) exactly when the width or the height is
negative, whatever the pending and current maximum are, and `set_max_size`
likewise, whatever the minimum is; an accepted request posts nothing and stores
the pending size.  So for all `a, b, c, e ≥ 1`, after `set_min_size(a, b)`,
`set_max_size(c, e)` and a commit on a configured toplevel, no error having
been posted, `minimumSize()` is `(a, b)` and `maximumSize()` is `(c, e)`,
also when `a > c` and `b > e`: scenario S1 continued with
`set_min_size(500, 500)`, `set_max_size(100, 100)` and a commit posts no error
and ends with the minimum (500, 500) above the maximum (100, 100). -/
theorem size_limits_independent (t : ToplevelId) (d : XdgToplevelInterfacePrivate)
    (xs : XdgSurfaceInterfacePrivate) (hconf : xs.isConfigured = true) :
    (∀ width height : Int,
        ((XdgToplevelInterfacePrivate.xdg_toplevel_set_min_size d width height).2 ≠ []
            ↔ width < 0 ∨ height < 0)
        ∧ ((XdgToplevelInterfacePrivate.xdg_toplevel_set_max_size d width height).2 ≠ []
            ↔ width < 0 ∨ height < 0)
        ∧ (width < 0 ∨ height < 0 →
            XdgToplevelInterfacePrivate.xdg_toplevel_set_min_size d width height
              = (d, [Event.error ProtocolError.anonymous])
            ∧ XdgToplevelInterfacePrivate.xdg_toplevel_set_max_size d width height
              = (d, [Event.error ProtocolError.anonymous]))
        ∧ (0 ≤ width ∧ 0 ≤ height →
            XdgToplevelInterfacePrivate.xdg_toplevel_set_min_size d width height
              = ({ d with next := { d.next with minimumSize := ⟨width, height⟩ } }, [])
            ∧ XdgToplevelInterfacePrivate.xdg_toplevel_set_max_size d width height
              = ({ d with next := { d.next with maximumSize := ⟨width, height⟩ } }, [])))
    ∧ (∀ a b c e : Int, 1 ≤ a → 1 ≤ b → 1 ≤ c → 1 ≤ e →
        (XdgToplevelInterfacePrivate.xdg_toplevel_set_min_size d a b).2 = []
        ∧ (XdgToplevelInterfacePrivate.xdg_toplevel_set_max_size
            (XdgToplevelInterfacePrivate.xdg_toplevel_set_min_size d a b).1 c e).2 = []
        ∧ errorsOf (XdgToplevelInterfacePrivate.commit t
            (XdgToplevelInterfacePrivate.xdg_toplevel_set_max_size
              (XdgToplevelInterfacePrivate.xdg_toplevel_set_min_size d a b).1 c e).1 xs).2.2 = []
        ∧ XdgToplevelInterface.minimumSize
            (XdgToplevelInterfacePrivate.commit t
              (XdgToplevelInterfacePrivate.xdg_toplevel_set_max_size
                (XdgToplevelInterfacePrivate.xdg_toplevel_set_min_size d a b).1 c e).1 xs).1
            = ⟨a, b⟩
        ∧ XdgToplevelInterface.maximumSize
            (XdgToplevelInterfacePrivate.commit t
              (XdgToplevelInterfacePrivate.xdg_toplevel_set_max_size
                (XdgToplevelInterfacePrivate.xdg_toplevel_set_min_size d a b).1 c e).1 xs).1
            = ⟨c, e⟩)
    ∧ errorsOf (runEvents World.init scenarioCrossed) = []
    ∧ ((run World.init scenarioCrossed).toplevels 1).map XdgToplevelInterface.minimumSize
        = some ⟨500, 500⟩
    ∧ ((run World.init scenarioCrossed).toplevels 1).map XdgToplevelInterface.maximumSize
        = some ⟨100, 100⟩ := by
  refine ⟨?_, ?_, by decide, by decide, by decide⟩
  · intro width height
    by_cases h : width < 0 ∨ height < 0
    · obtain ⟨e1, e2⟩ := (set_size_limits d width height).2 h
      refine ⟨?_, ?_, fun _ => ⟨e1, e2⟩, fun h' => ?_⟩
      · rw [e1]; simp [h]
      · rw [e2]; simp [h]
      · exfalso; omega
    · have h' : 0 ≤ width ∧ 0 ≤ height := by omega
      obtain ⟨e1, e2⟩ := (set_size_limits d width height).1 h'
      refine ⟨?_, ?_, fun hn => absurd hn h, fun _ => ⟨e1, e2⟩⟩
      · rw [e1]; simp [h]
      · rw [e2]; simp [h]
  · intro a b c e ha hb hc he
    have e1 := ((set_size_limits d a b).1 ⟨by omega, by omega⟩).1
    rw [e1]
    have e2 := ((set_size_limits { d with next := { d.next with minimumSize := ⟨a, b⟩ } } c e).1
      ⟨by omega, by omega⟩).2
    rw [e2]
    have n1 : ¬ (a < 1 ∨ b < 1) := by omega
    have n2 : ¬ (c < 1 ∨ e < 1) := by omega
    refine ⟨rfl, rfl, errorsOf_toplevel_commit _ _ _, ?_, ?_⟩
    · rw [(toplevel_commit_configured t _ xs hconf).1]
      simp [XdgToplevelInterface.minimumSize, QSize.isEmpty, n1]
    · rw [(toplevel_commit_configured t _ xs hconf).1]
      simp [XdgToplevelInterface.maximumSize, QSize.isEmpty, n2]

/-- C32, at a concrete input: `set_min_size(500, 500)`, `set_max_size(100, 100)`
and a commit on a configured toplevel without size limits. -/
theorem size_limits_independent_witness :
    XdgToplevelInterface.minimumSize
        (XdgToplevelInterfacePrivate.commit 1
          (XdgToplevelInterfacePrivate.xdg_toplevel_set_max_size
            (XdgToplevelInterfacePrivate.xdg_toplevel_set_min_size { xdgSurface := 0 }
              500 500).1 100 100).1
          { client := 1, surface := 5, toplevel := some 1, isConfigured := true }).1
        = ⟨500, 500⟩
    ∧ XdgToplevelInterface.maximumSize
        (XdgToplevelInterfacePrivate.commit 1
          (XdgToplevelInterfacePrivate.xdg_toplevel_set_max_size
            (XdgToplevelInterfacePrivate.xdg_toplevel_set_min_size { xdgSurface := 0 }
              500 500).1 100 100).1
          { client := 1, surface := 5, toplevel := some 1, isConfigured := true }).1
        = ⟨100, 100⟩ :=
  ⟨((size_limits_independent 1 { xdgSurface := 0 }
      { client := 1, surface := 5, toplevel := some 1, isConfigured := true } rfl).2.1
      500 500 100 100 (by decide) (by decide) (by decide) (by decide)).2.2.2.1,
   ((size_limits_independent 1 { xdgSurface := 0 }
      { client := 1, surface := 5, toplevel := some 1, isConfigured := true } rfl).2.1
      500 500 100 100 (by decide) (by decide) (by decide) (by decide)).2.2.2.2⟩

/-- A surface commit either keeps the current size limits of a toplevel or
announces the new ones. -/
theorem commit_step_toplevel (w : World) (s : SurfaceId) (t : ToplevelId)
    (d' : XdgToplevelInterfacePrivate)
    (h : (step w (Op.surface_commit s)).1.toplevels t = some d') :
    ∃ d, w.toplevels t = some d
      ∧ (d'.current.minimumSize = d.current.minimumSize
          ∨ Event.signal (Signal.minimumSizeChanged t d'.current.minimumSize)
              ∈ (step w (Op.surface_commit s)).2)
      ∧ (d'.current.maximumSize = d.current.maximumSize
          ∨ Event.signal (Signal.maximumSizeChanged t d'.current.maximumSize)
              ∈ (step w (Op.surface_commit s)).2) := by
  simp only [step, SurfaceInterface.commit] at h ⊢
  cases hr : SurfaceRole.get w s with
  | none =>
    simp only [hr] at h ⊢
    exact ⟨d', h, Or.inl rfl, Or.inl rfl⟩
  | some role =>
    cases role with
    | popup p =>
      simp only [hr, SurfaceRole.commit] at h ⊢
      cases hp : w.popups p with
      | none =>
        simp only [hp] at h ⊢
        exact ⟨d', h, Or.inl rfl, Or.inl rfl⟩
      | some dp =>
        cases hx : w.xdgSurfaceObjects dp.xdgSurface with
        | none =>
          simp only [hp, hx] at h ⊢
          exact ⟨d', h, Or.inl rfl, Or.inl rfl⟩
        | some xs =>
          simp only [hp, hx] at h ⊢
          exact ⟨d', h, Or.inl rfl, Or.inl rfl⟩
    | toplevel t0 =>
      simp only [hr, SurfaceRole.commit] at h ⊢
      cases ht0 : w.toplevels t0 with
      | none =>
        simp only [ht0] at h ⊢
        exact ⟨d', h, Or.inl rfl, Or.inl rfl⟩
      | some d0 =>
        cases hx : w.xdgSurfaceObjects d0.xdgSurface with
        | none =>
          simp only [ht0, hx] at h ⊢
          exact ⟨d', h, Or.inl rfl, Or.inl rfl⟩
        | some xs =>
          simp only [ht0, hx] at h ⊢
          by_cases htt : t = t0
          · subst htt
            simp only [Function.update_same, Option.some.injEq] at h
            subst h
            refine ⟨d0, ht0, ?_, ?_⟩
            · cases hc : xs.isConfigured with
              | false => rw [toplevel_commit_unconfigured t d0 xs hc]; exact Or.inl rfl
              | true =>
                obtain ⟨e1, _, e3⟩ := toplevel_commit_configured t d0 xs hc
                rw [e1, e3]
                by_cases hm : d0.current.minimumSize = d0.next.minimumSize
                · exact Or.inl hm.symm
                · right
                  simp [hm]
            · cases hc : xs.isConfigured with
              | false => rw [toplevel_commit_unconfigured t d0 xs hc]; exact Or.inl rfl
              | true =>
                obtain ⟨e1, _, e3⟩ := toplevel_commit_configured t d0 xs hc
                rw [e1, e3]
                by_cases hm : d0.current.maximumSize = d0.next.maximumSize
                · exact Or.inl hm.symm
                · right
                  simp [hm]
          · simp only [Function.update_apply, if_neg htt] at h
            exact ⟨d', h, Or.inl rfl, Or.inl rfl⟩

theorem sizesAnnounced_step (w : World) (op : Op) (es : List Event)
    (h : w.SizesAnnounced es) : (step w op).1.SizesAnnounced (es ++ (step w op).2) := by
  intro t d' hd'
  have key : (∃ d, w.toplevels t = some d
      ∧ (d'.current.minimumSize = d.current.minimumSize
          ∨ Event.signal (Signal.minimumSizeChanged t d'.current.minimumSize) ∈ (step w op).2)
      ∧ (d'.current.maximumSize = d.current.maximumSize
          ∨ Event.signal (Signal.maximumSizeChanged t d'.current.maximumSize) ∈ (step w op).2))
      ∨ (d'.current.minimumSize = QSize.default ∧ d'.current.maximumSize = QSize.default) := by
    by_cases hop : ∃ s, op = Op.surface_commit s
    · obtain ⟨s, rfl⟩ := hop
      exact Or.inl (commit_step_toplevel w s t d' hd')
    · rcases step_toplevel_frame w op t d' hd' with ⟨_, hc, _⟩ | ⟨d, hd, hcur⟩
      · right
        rw [hc]
        exact ⟨rfl, rfl⟩
      · left
        have := hcur (fun s e => hop ⟨s, e⟩)
        exact ⟨d, hd, Or.inl (by rw [this]), Or.inl (by rw [this])⟩
  rcases key with ⟨d, hd, hmin, hmax⟩ | ⟨h1, h2⟩
  · obtain ⟨a1, a2⟩ := h t d hd
    refine ⟨?_, ?_⟩
    · rcases hmin with e | e
      · rw [e]
        rcases a1 with a | a
        · exact Or.inl a
        · exact Or.inr (List.mem_append_left _ a)
      · exact Or.inr (List.mem_append_right _ e)
    · rcases hmax with e | e
      · rw [e]
        rcases a2 with a | a
        · exact Or.inl a
        · exact Or.inr (List.mem_append_left _ a)
      · exact Or.inr (List.mem_append_right _ e)
  · exact ⟨Or.inl h1, Or.inl h2⟩

theorem sizesAnnounced_run (ops : List Op) :
    (run World.init ops).SizesAnnounced (runEvents World.init ops) := by
  have : ∀ (w : World) (es : List Event), w.SizesAnnounced es →
      (run w ops).SizesAnnounced (es ++ runEvents w ops) := by
    induction ops with
    | nil => intro w es h; simpa [run, runEvents] using h
    | cons op ops ih =>
      intro w es h
      have := ih _ _ (sizesAnnounced_step w op es h)
      simpa [run, runEvents, List.append_assoc] using this
  have h0 := this World.init [] (fun t d hd => by cases hd)
  simpa using h0

/-- The two steps `set_min_size(a, b)` (or `set_max_size(a, b)`) and a commit of
the toplevel's surface, on a configured toplevel, with non-negative arguments:
the state of the toplevel afterwards, and the signal of the commit. -/
theorem set_size_commit_run (w : World) (t : ToplevelId) (s : SurfaceId)
    (d : XdgToplevelInterfacePrivate) (xs : XdgSurfaceInterfacePrivate) (a b : Int)
    (ht : w.toplevels t = some d) (hxs : w.xdgSurfaceObjects d.xdgSurface = some xs)
    (hconf : xs.isConfigured = true)
    (hrole : SurfaceRole.get w s = some (SurfaceRole.toplevel t))
    (ha : 0 ≤ a) (hb : 0 ≤ b) :
    ((run w [Op.xdg_toplevel_set_min_size t a b, Op.surface_commit s]).toplevels t
        = some { d with
            next := { d.next with minimumSize := ⟨a, b⟩ }
            current := { d.next with minimumSize := ⟨a, b⟩ } }
      ∧ (d.current.minimumSize ≠ ⟨a, b⟩ →
          Event.signal (Signal.minimumSizeChanged t ⟨a, b⟩)
            ∈ runEvents w [Op.xdg_toplevel_set_min_size t a b, Op.surface_commit s])
      ∧ errorsOf (runEvents w [Op.xdg_toplevel_set_min_size t a b, Op.surface_commit s]) = []
      ∧ ∀ x, Event.signal (Signal.minimumSizeChanged t x)
            ∈ runEvents w [Op.xdg_toplevel_set_min_size t a b, Op.surface_commit s] →
          x = ⟨a, b⟩)
    ∧ ((run w [Op.xdg_toplevel_set_max_size t a b, Op.surface_commit s]).toplevels t
        = some { d with
            next := { d.next with maximumSize := ⟨a, b⟩ }
            current := { d.next with maximumSize := ⟨a, b⟩ } }
      ∧ (d.current.maximumSize ≠ ⟨a, b⟩ →
          Event.signal (Signal.maximumSizeChanged t ⟨a, b⟩)
            ∈ runEvents w [Op.xdg_toplevel_set_max_size t a b, Op.surface_commit s])
      ∧ errorsOf (runEvents w [Op.xdg_toplevel_set_max_size t a b, Op.surface_commit s]) = []
      ∧ ∀ x, Event.signal (Signal.maximumSizeChanged t x)
            ∈ runEvents w [Op.xdg_toplevel_set_max_size t a b, Op.surface_commit s] →
          x = ⟨a, b⟩) := by
  have hrole' : (w.surfaces s).role = some (SurfaceRole.toplevel t) := hrole
  obtain ⟨emin, emax⟩ := (set_size_limits d a b).1 ⟨ha, hb⟩
  constructor
  · have h1 : step w (Op.xdg_toplevel_set_min_size t a b)
        = ({ w with
              toplevels := (Function.update w.toplevels t
                (some { d with next := { d.next with minimumSize := ⟨a, b⟩ } })) }, []) := by
      simp only [step, World.onToplevel, ht, emin]
    obtain ⟨c1, _, c3⟩ := toplevel_commit_configured t
      { d with next := { d.next with minimumSize := ⟨a, b⟩ } } xs hconf
    simp only [run, runEvents, h1]
    simp only [step, SurfaceInterface.commit, SurfaceRole.get, hrole',
      SurfaceRole.commit, Function.update_same, hxs, c1, c3, List.nil_append, List.append_nil]
    refine ⟨trivial, ?_, ?_, ?_⟩
    · intro hne
      simp [hne]
    · rw [errorsOf_append, errorsOf_append, errorsOf_xdgSurface_commit]
      split <;> split <;> rfl
    · intro x hx
      rw [xdgSurface_commit_snd] at hx
      simp only [List.mem_append] at hx
      rcases hx with (hx | hx) | hx
      · split at hx <;> simp at hx
      · split at hx
        · simp at hx
          rw [hx]
        · cases hx
      · split at hx <;> simp at hx
  · have h1 : step w (Op.xdg_toplevel_set_max_size t a b)
        = ({ w with
              toplevels := (Function.update w.toplevels t
                (some { d with next := { d.next with maximumSize := ⟨a, b⟩ } })) }, []) := by
      simp only [step, World.onToplevel, ht, emax]
    obtain ⟨c1, _, c3⟩ := toplevel_commit_configured t
      { d with next := { d.next with maximumSize := ⟨a, b⟩ } } xs hconf
    simp only [run, runEvents, h1]
    simp only [step, SurfaceInterface.commit, SurfaceRole.get, hrole',
      SurfaceRole.commit, Function.update_same, hxs, c1, c3, List.nil_append, List.append_nil]
    refine ⟨trivial, ?_, ?_, ?_⟩
    · intro hne
      simp [hne]
    · rw [errorsOf_append, errorsOf_append, errorsOf_xdgSurface_commit]
      split <;> split <;> rfl
    · intro x hx
      rw [xdgSurface_commit_snd] at hx
      simp only [List.mem_append] at hx
      rcases hx with (hx | hx) | hx
      · split at hx <;> simp at hx
      · split at hx <;> simp at hx
      · split at hx
        · simp at hx
          rw [hx]
        · cases hx

/-- C31: a size limit with exactly one zero component is discarded as a whole.
In every reachable state, on a toplevel whose xdg-surface is configured, for
`(a, b) = (w, 0)` or `(0, w)` with `w ≥ 1`: `set_min_size(a, b)` and a commit of
the toplevel's surface post no error and afterwards `minimumSize()` is
`(0, 0)`, not `(w, 0)` or `(0, w)`; `set_max_size(a, b)` and such a commit post
no error and afterwards `maximumSize()` is `(INT_MAX, INT_MAX)`.  Yet the raw
value has been announced: the trace from the initial state contains
`minimumSizeChanged` (respectively `maximumSizeChanged`) of the toplevel with
the value `(a, b)`; the commit itself emits it when the current value was a
different one, and emits no such signal with any other value. -/
theorem one_zero_size_limit (ops : List Op) (t : ToplevelId) (s : SurfaceId)
    (d : XdgToplevelInterfacePrivate) (xs : XdgSurfaceInterfacePrivate) (a b : Int)
    (ht : (run World.init ops).toplevels t = some d)
    (hxs : (run World.init ops).xdgSurfaceObjects d.xdgSurface = some xs)
    (hconf : xs.isConfigured = true)
    (hrole : SurfaceRole.get (run World.init ops) s = some (SurfaceRole.toplevel t))
    (hone : (1 ≤ a ∧ b = 0) ∨ (a = 0 ∧ 1 ≤ b)) :
    (errorsOf (runEvents (run World.init ops)
          [Op.xdg_toplevel_set_min_size t a b, Op.surface_commit s]) = []
      ∧ ((run World.init
            (ops ++ [Op.xdg_toplevel_set_min_size t a b, Op.surface_commit s])).toplevels t).map
          XdgToplevelInterface.minimumSize = some ⟨0, 0⟩
      ∧ Event.signal (Signal.minimumSizeChanged t ⟨a, b⟩)
          ∈ runEvents World.init
              (ops ++ [Op.xdg_toplevel_set_min_size t a b, Op.surface_commit s])
      ∧ (d.current.minimumSize ≠ ⟨a, b⟩ →
          Event.signal (Signal.minimumSizeChanged t ⟨a, b⟩)
            ∈ runEvents (run World.init ops)
                [Op.xdg_toplevel_set_min_size t a b, Op.surface_commit s])
      ∧ (∀ x, Event.signal (Signal.minimumSizeChanged t x)
            ∈ runEvents (run World.init ops)
                [Op.xdg_toplevel_set_min_size t a b, Op.surface_commit s] →
          x = ⟨a, b⟩))
    ∧ (errorsOf (runEvents (run World.init ops)
          [Op.xdg_toplevel_set_max_size t a b, Op.surface_commit s]) = []
      ∧ ((run World.init
            (ops ++ [Op.xdg_toplevel_set_max_size t a b, Op.surface_commit s])).toplevels t).map
          XdgToplevelInterface.maximumSize = some ⟨INT_MAX, INT_MAX⟩
      ∧ Event.signal (Signal.maximumSizeChanged t ⟨a, b⟩)
          ∈ runEvents World.init
              (ops ++ [Op.xdg_toplevel_set_max_size t a b, Op.surface_commit s])
      ∧ (d.current.maximumSize ≠ ⟨a, b⟩ →
          Event.signal (Signal.maximumSizeChanged t ⟨a, b⟩)
            ∈ runEvents (run World.init ops)
                [Op.xdg_toplevel_set_max_size t a b, Op.surface_commit s])
      ∧ (∀ x, Event.signal (Signal.maximumSizeChanged t x)
            ∈ runEvents (run World.init ops)
                [Op.xdg_toplevel_set_max_size t a b, Op.surface_commit s] →
          x = ⟨a, b⟩)) := by
  have ha : 0 ≤ a := by omega
  have hb : 0 ≤ b := by omega
  have hempty : (a < 1 ∨ b < 1) := by omega
  have hdef : QSize.default ≠ (⟨a, b⟩ : QSize) := by
    intro h
    have h1 : (-1 : Int) = a := congrArg QSize.wd h
    omega
  obtain ⟨hann1, hann2⟩ := sizesAnnounced_run ops t d ht
  obtain ⟨⟨m1, m2, m3, m4⟩, ⟨x1, x2, x3, x4⟩⟩ :=
    set_size_commit_run (run World.init ops) t s d xs a b ht hxs hconf hrole ha hb
  refine ⟨⟨m3, ?_, ?_, m2, m4⟩, ⟨x3, ?_, ?_, x2, x4⟩⟩
  · rw [run_append, m1]
    simp [XdgToplevelInterface.minimumSize, QSize.isEmpty, hempty]
  · rw [runEvents_append]
    by_cases hcur : d.current.minimumSize = ⟨a, b⟩
    · rcases hann1 with h | h
      · exact absurd (h.symm.trans hcur) hdef
      · rw [hcur] at h
        exact List.mem_append_left _ h
    · exact List.mem_append_right _ (m2 hcur)
  · rw [run_append, x1]
    simp [XdgToplevelInterface.maximumSize, QSize.isEmpty, hempty]
  · rw [runEvents_append]
    by_cases hcur : d.current.maximumSize = ⟨a, b⟩
    · rcases hann2 with h | h
      · exact absurd (h.symm.trans hcur) hdef
      · rw [hcur] at h
        exact List.mem_append_left _ h
    · exact List.mem_append_right _ (x2 hcur)

/-- C31, at a concrete input: after scenario S1's first configure,
`set_min_size(300, 0)` and a commit leave `minimumSize()` at (0, 0), and
`minimumSizeChanged` was emitted with (300, 0). -/
theorem one_zero_size_limit_witness :
    ((run World.init scenarioOneZero).toplevels 1).map XdgToplevelInterface.minimumSize
        = some ⟨0, 0⟩
    ∧ Event.signal (Signal.minimumSizeChanged 1 ⟨300, 0⟩)
        ∈ runEvents World.init scenarioOneZero :=
  ⟨(one_zero_size_limit (scenarioS1.take 6) 1 5 { xdgSurface := 0, windowTitle := "Hello" }
      { client := 1, surface := 5, toplevel := some 1, isConfigured := true } 300 0
      (by decide) (by decide) rfl (by decide) (Or.inl (by decide))).1.2.1,
   (one_zero_size_limit (scenarioS1.take 6) 1 5 { xdgSurface := 0, windowTitle := "Hello" }
      { client := 1, surface := 5, toplevel := some 1, isConfigured := true } 300 0
      (by decide) (by decide) rfl (by decide) (Or.inl (by decide))).1.2.2.1⟩

/-! ### The positioner of a popup behind its shared pointer -/

theorem holders_update_ge (f : Nat → Option Nat) (c i n : Nat) (v : Option Nat) (h : n ≤ i) :
    holders (Function.update f i v) c n = holders f c n := by
  induction n with
  | zero => rfl
  | succ n ih =>
    have hne : n ≠ i := by omega
    simp only [holders, Function.update_noteq hne]
    rw [ih (by omega)]

theorem holders_update_lt (f : Nat → Option Nat) (c i n : Nat) (v : Option Nat) (h : i < n) :
    holders (Function.update f i v) c n + (if f i = some c then 1 else 0)
      = holders f c n + (if v = some c then 1 else 0) := by
  induction n with
  | zero => omega
  | succ n ih =>
    by_cases hin : i = n
    · subst hin
      simp only [holders, Function.update_same]
      rw [holders_update_ge f c i i v (le_refl _)]
      omega
    · have hne : n ≠ i := fun e => hin e.symm
      simp only [holders, Function.update_noteq hne]
      have := ih (by omega)
      omega

theorem holders_pos (f : Nat → Option Nat) (c i n : Nat) (h : i < n) (hf : f i = some c) :
    1 ≤ holders f c n := by
  induction n with
  | zero => omega
  | succ n ih =>
    by_cases hin : i = n
    · subst hin
      simp only [holders, hf, if_true]
      omega
    · have := ih (by omega)
      simp only [holders]
      omega

theorem holders_zero (f : Nat → Option Nat) (c n : Nat) (h : ∀ i, i < n → f i ≠ some c) :
    holders f c n = 0 := by
  induction n with
  | zero => rfl
  | succ n ih =>
    simp only [holders, if_neg (h n (Nat.lt_succ_self n)), add_zero]
    exact ih (fun i hi => h i (by omega))

theorem holders_le (f : Nat → Option Nat) (c n m : Nat) (hnm : n ≤ m)
    (h : ∀ i, n ≤ i → f i = none) : holders f c m = holders f c n := by
  induction m with
  | zero =>
    have : n = 0 := by omega
    subst this
    rfl
  | succ m ih =>
    by_cases hn : n = m + 1
    · subst hn; rfl
    · have hm : n ≤ m := by omega
      simp only [holders, h m hm]
      simp only [reduceCtorEq, if_false, add_zero]
      exact ih hm

theorem holders_congr (f g : Nat → Option Nat) (c n : Nat) (h : ∀ i, i < n → f i = g i) :
    holders f c n = holders g c n := by
  induction n with
  | zero => rfl
  | succ n ih =>
    simp only [holders, h n (Nat.lt_succ_self n)]
    rw [ih (fun i hi => h i (by omega))]

theorem deref_frame (h : PositionerHeap) (c : Nat) :
    (h.deref c).next = h.next ∧ (h.deref c).resources = h.resources
      ∧ (h.deref c).popups = h.popups := by
  unfold PositionerHeap.deref
  split
  · exact ⟨rfl, rfl, rfl⟩
  · split <;> exact ⟨rfl, rfl, rfl⟩

theorem deref_cells_ne (h : PositionerHeap) (c x : Nat) (hx : x ≠ c) :
    (h.deref c).cells x = h.cells x := by
  unfold PositionerHeap.deref
  split
  · rfl
  · split <;> simp [Function.update_apply, hx]

theorem deref_cells_self (h : PositionerHeap) (c : Nat) (cell : SharedPositionerData)
    (hc : h.cells c = some cell) :
    (h.deref c).cells c
      = if cell.ref - 1 = 0 then none else some { cell with ref := cell.ref - 1 } := by
  unfold PositionerHeap.deref
  rw [hc]
  dsimp only
  split <;> simp

theorem ref_frame (h : PositionerHeap) (c : Nat) :
    (h.ref c).next = h.next ∧ (h.ref c).resources = h.resources
      ∧ (h.ref c).popups = h.popups := by
  unfold PositionerHeap.ref
  split <;> exact ⟨rfl, rfl, rfl⟩

theorem ref_cells_ne (h : PositionerHeap) (c x : Nat) (hx : x ≠ c) :
    (h.ref c).cells x = h.cells x := by
  unfold PositionerHeap.ref
  split
  · rfl
  · simp [Function.update_apply, hx]

theorem ref_cells_self (h : PositionerHeap) (c : Nat) (cell : SharedPositionerData)
    (hc : h.cells c = some cell) :
    (h.ref c).cells c = some { cell with ref := cell.ref + 1 } := by
  unfold PositionerHeap.ref
  rw [hc]
  simp

theorem counted_mono (h : PositionerHeap) (n m : Nat) (hc : h.Counted n) (hnm : n ≤ m) :
    h.Counted m := by
  obtain ⟨b1, b2, l1, l2, cnt⟩ := hc
  refine ⟨b1, fun i hi => b2 i (by omega), l1, l2, ?_⟩
  intro c cell hcell
  rw [holders_le h.resources c n m hnm (fun i hi => (b2 i hi).1),
    holders_le h.popups c n m hnm (fun i hi => (b2 i hi).2)]
  exact cnt c cell hcell

theorem counted_init : ({} : PositionerHeap).Counted 0 :=
  ⟨fun _ _ => rfl, fun _ _ => ⟨rfl, rfl⟩, fun _ _ h => (by cases h), fun _ _ h => (by cases h),
    fun _ _ h => (by cases h)⟩

theorem counted_lt (h : PositionerHeap) (n : Nat) (hc : h.Counted n) :
    (∀ i c, h.resources i = some c → i < n ∧ c < h.next ∧ ∃ cell, h.cells c = some cell)
    ∧ (∀ i c, h.popups i = some c → i < n ∧ c < h.next ∧ ∃ cell, h.cells c = some cell) := by
  obtain ⟨b1, b2, l1, l2, _⟩ := hc
  constructor
  · intro i c hi
    have hl := l1 i c hi
    refine ⟨?_, ?_, Option.isSome_iff_exists.mp hl⟩
    · by_contra hcon
      rw [(b2 i (Nat.le_of_not_lt hcon)).1] at hi
      cases hi
    · by_contra hcon
      rw [b1 c (Nat.le_of_not_lt hcon)] at hl
      cases hl
  · intro i c hi
    have hl := l2 i c hi
    refine ⟨?_, ?_, Option.isSome_iff_exists.mp hl⟩
    · by_contra hcon
      rw [(b2 i (Nat.le_of_not_lt hcon)).2] at hi
      cases hi
    · by_contra hcon
      rw [b1 c (Nat.le_of_not_lt hcon)] at hl
      cases hl

theorem counted_positioner_destroy (h : PositionerHeap) (n : Nat) (resource : PositionerId)
    (hc : h.Counted n) : (h.xdg_positioner_destroy resource).Counted n := by
  unfold PositionerHeap.xdg_positioner_destroy
  cases hP : h.resources resource with
  | none => exact hc
  | some c =>
    dsimp only
    obtain ⟨hPn, hcn, cell, hcell⟩ := (counted_lt h n hc).1 resource c hP
    have hlt := counted_lt h n hc
    obtain ⟨b1, b2, l1, l2, cnt⟩ := hc
    have hcount := cnt c cell hcell
    have hupd := holders_update_lt h.resources c resource n none hPn
    rw [hP] at hupd
    simp only [if_true, reduceCtorEq, if_false, add_zero] at hupd
    refine ⟨?_, ?_, ?_, ?_, ?_⟩
    · intro x hx
      have hx' : (h.deref c).next ≤ x := hx
      rw [(deref_frame h c).1] at hx'
      have hxc : x ≠ c := by omega
      show (h.deref c).cells x = none
      rw [deref_cells_ne h c x hxc]
      exact b1 x hx'
    · intro i hi
      show Function.update (h.deref c).resources resource none i = none
        ∧ (h.deref c).popups i = none
      rw [(deref_frame h c).2.1, (deref_frame h c).2.2]
      refine ⟨?_, (b2 i hi).2⟩
      simp only [Function.update_apply]
      split
      · rfl
      · exact (b2 i hi).1
    · intro i x hi
      show ((h.deref c).cells x).isSome = true
      have hi' : Function.update h.resources resource none i = some x := by
        rw [← (deref_frame h c).2.1]
        exact hi
      have hiP : i ≠ resource := by
        rintro rfl
        simp at hi'
      have hi2 := hi'
      rw [Function.update_noteq hiP] at hi2
      by_cases hxc : x = c
      · subst hxc
        rw [deref_cells_self h x cell hcell]
        have h1 : 1 ≤ holders (Function.update h.resources resource none) x n :=
          holders_pos _ x i n (hlt.1 i x hi2).1 hi'
        have h2 : cell.ref - 1 ≠ 0 := by omega
        rw [if_neg h2]
        rfl
      · rw [deref_cells_ne h c x hxc]
        exact l1 i x hi2
    · intro i x hi
      show ((h.deref c).cells x).isSome = true
      have hi' : h.popups i = some x := by
        rw [← (deref_frame h c).2.2]
        exact hi
      by_cases hxc : x = c
      · subst hxc
        rw [deref_cells_self h x cell hcell]
        have h1 : 1 ≤ holders h.popups x n := holders_pos _ x i n (hlt.2 i x hi').1 hi'
        have h2 : cell.ref - 1 ≠ 0 := by omega
        rw [if_neg h2]
        rfl
      · rw [deref_cells_ne h c x hxc]
        exact l2 i x hi'
    · intro x cell' hx
      show holders (Function.update (h.deref c).resources resource none) x n
        + holders (h.deref c).popups x n ≤ cell'.ref
      rw [(deref_frame h c).2.1, (deref_frame h c).2.2]
      have hx' : (h.deref c).cells x = some cell' := hx
      by_cases hxc : x = c
      · subst hxc
        rw [deref_cells_self h x cell hcell] at hx'
        split at hx'
        · cases hx'
        · injection hx' with hx'
          subst hx'
          show _ ≤ cell.ref - 1
          omega
      · rw [deref_cells_ne h c x hxc] at hx'
        have hu := holders_update_lt h.resources x resource n none hPn
        rw [hP] at hu
        have hne : ¬ (some c = some x) := fun e => hxc (Option.some.inj e).symm
        simp only [if_neg hne, reduceCtorEq, if_false, add_zero] at hu
        rw [hu]
        exact cnt x cell' hx'

theorem counted_popup_destroy (h : PositionerHeap) (n : Nat) (q : PopupId)
    (hc : h.Counted n) : (h.xdg_popup_destroy q).Counted n := by
  unfold PositionerHeap.xdg_popup_destroy
  cases hP : h.popups q with
  | none => exact hc
  | some c =>
    dsimp only
    obtain ⟨hPn, hcn, cell, hcell⟩ := (counted_lt h n hc).2 q c hP
    have hlt := counted_lt h n hc
    obtain ⟨b1, b2, l1, l2, cnt⟩ := hc
    have hcount := cnt c cell hcell
    have hupd := holders_update_lt h.popups c q n none hPn
    rw [hP] at hupd
    simp only [if_true, reduceCtorEq, if_false, add_zero] at hupd
    refine ⟨?_, ?_, ?_, ?_, ?_⟩
    · intro x hx
      have hx' : (h.deref c).next ≤ x := hx
      rw [(deref_frame h c).1] at hx'
      have hxc : x ≠ c := by omega
      show (h.deref c).cells x = none
      rw [deref_cells_ne h c x hxc]
      exact b1 x hx'
    · intro i hi
      show (h.deref c).resources i = none
        ∧ Function.update (h.deref c).popups q none i = none
      rw [(deref_frame h c).2.1, (deref_frame h c).2.2]
      refine ⟨(b2 i hi).1, ?_⟩
      simp only [Function.update_apply]
      split
      · rfl
      · exact (b2 i hi).2
    · intro i x hi
      show ((h.deref c).cells x).isSome = true
      have hi' : h.resources i = some x := by
        rw [← (deref_frame h c).2.1]
        exact hi
      by_cases hxc : x = c
      · subst hxc
        rw [deref_cells_self h x cell hcell]
        have h1 : 1 ≤ holders h.resources x n := holders_pos _ x i n (hlt.1 i x hi').1 hi'
        have h2 : cell.ref - 1 ≠ 0 := by omega
        rw [if_neg h2]
        rfl
      · rw [deref_cells_ne h c x hxc]
        exact l1 i x hi'
    · intro i x hi
      show ((h.deref c).cells x).isSome = true
      have hi' : Function.update h.popups q none i = some x := by
        rw [← (deref_frame h c).2.2]
        exact hi
      have hiP : i ≠ q := by
        rintro rfl
        simp at hi'
      have hi2 := hi'
      rw [Function.update_noteq hiP] at hi2
      by_cases hxc : x = c
      · subst hxc
        rw [deref_cells_self h x cell hcell]
        have h1 : 1 ≤ holders (Function.update h.popups q none) x n :=
          holders_pos _ x i n (hlt.2 i x hi2).1 hi'
        have h2 : cell.ref - 1 ≠ 0 := by omega
        rw [if_neg h2]
        rfl
      · rw [deref_cells_ne h c x hxc]
        exact l2 i x hi2
    · intro x cell' hx
      show holders (h.deref c).resources x n
        + holders (Function.update (h.deref c).popups q none) x n ≤ cell'.ref
      rw [(deref_frame h c).2.1, (deref_frame h c).2.2]
      have hx' : (h.deref c).cells x = some cell' := hx
      by_cases hxc : x = c
      · subst hxc
        rw [deref_cells_self h x cell hcell] at hx'
        split at hx'
        · cases hx'
        · injection hx' with hx'
          subst hx'
          show _ ≤ cell.ref - 1
          omega
      · rw [deref_cells_ne h c x hxc] at hx'
        have hu := holders_update_lt h.popups x q n none hPn
        rw [hP] at hu
        have hne : ¬ (some c = some x) := fun e => hxc (Option.some.inj e).symm
        simp only [if_neg hne, reduceCtorEq, if_false, add_zero] at hu
        rw [hu]
        exact cnt x cell' hx'

theorem holders_succ_none (f : Nat → Option Nat) (c n : Nat) (h : f n = none) :
    holders f c (n + 1) = holders f c n := by
  simp [holders, h]

theorem holders_unheld (h : PositionerHeap) (n : Nat) (hc : h.Counted n) (c : Nat)
    (hcell : h.cells c = none) :
    holders h.resources c n = 0 ∧ holders h.popups c n = 0 := by
  obtain ⟨_, _, l1, l2, _⟩ := hc
  constructor
  · refine holders_zero _ c n (fun i _ hi => ?_)
    have := l1 i c hi
    rw [hcell] at this
    cases this
  · refine holders_zero _ c n (fun i _ hi => ?_)
    have := l2 i c hi
    rw [hcell] at this
    cases this

theorem counted_create_positioner (w : World) (h : PositionerHeap) (hc : h.Counted w.fresh) :
    (h.xdg_wm_base_create_positioner w).Counted (w.fresh + 1) := by
  have hlt := counted_lt h w.fresh hc
  have hun := holders_unheld h w.fresh hc h.next (hc.1 h.next (le_refl _))
  obtain ⟨b1, b2, l1, l2, cnt⟩ := hc
  refine ⟨?_, ?_, ?_, ?_, ?_⟩
  · intro x hx
    have hx' : h.next + 1 ≤ x := hx
    show Function.update h.cells h.next _ x = none
    rw [Function.update_noteq (by omega)]
    exact b1 x (by omega)
  · intro i hi
    have hi' : w.fresh < i := hi
    show Function.update h.resources w.fresh (some h.next) i = none ∧ h.popups i = none
    rw [Function.update_noteq (Nat.ne_of_gt hi')]
    exact b2 i (Nat.le_of_lt hi')
  · intro i x hi
    have hi' : Function.update h.resources w.fresh (some h.next) i = some x := hi
    show (Function.update h.cells h.next _ x).isSome = true
    by_cases hin : i = w.fresh
    · subst hin
      rw [Function.update_same] at hi'
      injection hi' with hi'
      subst hi'
      rw [Function.update_same]
      rfl
    · rw [Function.update_noteq hin] at hi'
      have hxn : x ≠ h.next := Nat.ne_of_lt (hlt.1 i x hi').2.1
      rw [Function.update_noteq hxn]
      exact l1 i x hi'
  · intro i x hi
    have hi' : h.popups i = some x := hi
    show (Function.update h.cells h.next _ x).isSome = true
    have hxn : x ≠ h.next := Nat.ne_of_lt (hlt.2 i x hi').2.1
    rw [Function.update_noteq hxn]
    exact l2 i x hi'
  · intro x cell' hx
    have hx' : Function.update h.cells h.next (some ⟨1, {}⟩) x = some cell' := hx
    show holders (Function.update h.resources w.fresh (some h.next)) x (w.fresh + 1)
      + holders h.popups x (w.fresh + 1) ≤ cell'.ref
    rw [holders_succ_none h.popups x w.fresh (b2 w.fresh (le_refl _)).2]
    simp only [holders, Function.update_same]
    rw [holders_update_ge h.resources x w.fresh w.fresh _ (le_refl _)]
    by_cases hxn : x = h.next
    · subst hxn
      rw [Function.update_same] at hx'
      injection hx' with hx'
      subst hx'
      rw [hun.1, hun.2]
      simp
    · rw [Function.update_noteq hxn] at hx'
      have hne : ¬ (some h.next = some x) := fun e => hxn (Option.some.inj e).symm
      rw [if_neg hne]
      exact cnt x cell' hx'

theorem assign_cases (h : PositionerHeap) (n : Nat) (resource : PositionerId)
    (data : XdgPositionerData) (hc : h.Counted n) (c : Nat) (hP : h.resources resource = some c) :
    ∃ cell, h.cells c = some cell ∧
      ((cell.ref = 1
          ∧ (∀ x, (h.assign resource data).cells x
              = if x = c then some { cell with data := data } else h.cells x)
          ∧ (h.assign resource data).next = h.next
          ∧ (h.assign resource data).resources = h.resources
          ∧ (h.assign resource data).popups = h.popups)
        ∨ (2 ≤ cell.ref
          ∧ (∀ x, (h.assign resource data).cells x
              = if x = h.next then some ⟨1, data⟩
                else if x = c then some { cell with ref := cell.ref - 1 } else h.cells x)
          ∧ (h.assign resource data).next = h.next + 1
          ∧ (h.assign resource data).resources
              = Function.update h.resources resource (some h.next)
          ∧ (h.assign resource data).popups = h.popups)) := by
  obtain ⟨hPn, hcn, cell, hcell⟩ := (counted_lt h n hc).1 resource c hP
  have href : 1 ≤ cell.ref :=
    le_trans (le_trans (holders_pos h.resources c resource n hPn hP) (Nat.le_add_right _ _))
      (hc.2.2.2.2 c cell hcell)
  refine ⟨cell, hcell, ?_⟩
  by_cases h1 : cell.ref = 1
  · left
    have hd : h.detach resource = h := by
      simp [PositionerHeap.detach, hP, hcell, h1]
    simp only [PositionerHeap.assign, hd, hP, hcell]
    refine ⟨h1, fun x => ?_, ?_, ?_, ?_⟩
    · simp only [Function.update_apply]
    all_goals trivial
  · right
    have hcn' : c ≠ h.next := Nat.ne_of_lt hcn
    have h2 : ¬ (cell.ref - 1 = 0) := by omega
    have hcr : (h.create cell.data).1.cells c = some cell := by
      simp [PositionerHeap.create, Function.update_apply, hcn', hcell]
    have hd : h.detach resource
        = { (h.create cell.data).1.deref c with
            resources := Function.update ((h.create cell.data).1.deref c).resources resource
              (some h.next) } := by
      simp [PositionerHeap.detach, hP, hcell, h1, PositionerHeap.create]
    have hdc : ∀ x, ((h.create cell.data).1.deref c).cells x
        = if x = c then some { cell with ref := cell.ref - 1 }
          else if x = h.next then some ⟨1, cell.data⟩ else h.cells x := by
      intro x
      by_cases hx : x = c
      · subst hx
        rw [deref_cells_self _ x cell hcr, if_neg h2, if_pos rfl]
      · rw [deref_cells_ne _ c x hx, if_neg hx]
        simp [PositionerHeap.create, Function.update_apply]
    have hres : (h.detach resource).resources resource = some h.next := by
      rw [hd]
      simp
    have hcell' : (h.detach resource).cells h.next = some ⟨1, cell.data⟩ := by
      rw [hd]
      show ((h.create cell.data).1.deref c).cells h.next = _
      rw [hdc, if_neg (Ne.symm hcn'), if_pos rfl]
    simp only [PositionerHeap.assign, hres, hcell']
    refine ⟨by omega, fun x => ?_, ?_, ?_, ?_⟩
    · simp only [Function.update_apply]
      by_cases hx : x = h.next
      · simp [hx]
      · rw [if_neg hx, if_neg hx, hd]
        show ((h.create cell.data).1.deref c).cells x = _
        rw [hdc, if_neg hx]
    · rw [hd]
      show ((h.create cell.data).1.deref c).next = _
      rw [(deref_frame _ c).1]
      rfl
    · rw [hd]
      show Function.update ((h.create cell.data).1.deref c).resources resource (some h.next) = _
      rw [(deref_frame _ c).2.1]
      rfl
    · rw [hd]
      show ((h.create cell.data).1.deref c).popups = _
      rw [(deref_frame _ c).2.2]
      rfl

theorem counted_assign (h : PositionerHeap) (n : Nat) (resource : PositionerId)
    (data : XdgPositionerData) (hc : h.Counted n) (c : Nat) (hP : h.resources resource = some c) :
    (h.assign resource data).Counted n := by
  obtain ⟨hPn, hcn, _, _⟩ := (counted_lt h n hc).1 resource c hP
  have hlt := counted_lt h n hc
  have hun := holders_unheld h n hc h.next (hc.1 h.next (le_refl _))
  obtain ⟨cell, hcell, hcase⟩ := assign_cases h n resource data hc c hP
  obtain ⟨b1, b2, l1, l2, cnt⟩ := hc
  have hcn' : c ≠ h.next := Nat.ne_of_lt hcn
  rcases hcase with ⟨href, hcells, hnext, hres, hpop⟩ | ⟨href, hcells, hnext, hres, hpop⟩
  · refine ⟨?_, ?_, ?_, ?_, ?_⟩
    · intro x hx
      rw [hnext] at hx
      rw [hcells, if_neg (by omega)]
      exact b1 x hx
    · intro i hi
      rw [hres, hpop]
      exact b2 i hi
    · intro i x hi
      rw [hres] at hi
      rw [hcells]
      split
      · rfl
      · exact l1 i x hi
    · intro i x hi
      rw [hpop] at hi
      rw [hcells]
      split
      · rfl
      · exact l2 i x hi
    · intro x cell' hx
      rw [hres, hpop]
      rw [hcells] at hx
      split at hx
      · rename_i hxc
        subst hxc
        injection hx with hx
        subst hx
        exact cnt x cell hcell
      · exact cnt x cell' hx
  · refine ⟨?_, ?_, ?_, ?_, ?_⟩
    · intro x hx
      rw [hnext] at hx
      rw [hcells, if_neg (by omega), if_neg (by omega)]
      exact b1 x (by omega)
    · intro i hi
      rw [hres, hpop]
      have hiP : i ≠ resource := fun e => by
        rw [e] at hi
        exact absurd hPn (Nat.not_lt.mpr hi)
      rw [Function.update_noteq hiP]
      exact b2 i hi
    · intro i x hi
      rw [hres] at hi
      rw [hcells]
      by_cases hiP : i = resource
      · subst hiP
        rw [Function.update_same] at hi
        injection hi with hi
        subst hi
        rw [if_pos rfl]
        rfl
      · rw [Function.update_noteq hiP] at hi
        split
        · rfl
        · split
          · rfl
          · exact l1 i x hi
    · intro i x hi
      rw [hpop] at hi
      rw [hcells]
      split
      · rfl
      · split
        · rfl
        · exact l2 i x hi
    · intro x cell' hx
      rw [hres, hpop]
      rw [hcells] at hx
      have hu := holders_update_lt h.resources x resource n (some h.next) hPn
      rw [hP] at hu
      by_cases hxn : x = h.next
      · subst hxn
        rw [if_pos rfl] at hx
        injection hx with hx
        subst hx
        have hne : ¬ (some c = some h.next) := fun e => hcn' (Option.some.inj e)
        rw [if_neg hne, if_pos rfl, hun.1] at hu
        rw [hun.2]
        show _ ≤ 1
        omega
      · rw [if_neg hxn] at hx
        have hne2 : ¬ (some h.next = some x) := fun e => hxn (Option.some.inj e).symm
        rw [if_neg hne2] at hu
        by_cases hxc : x = c
        · subst hxc
          rw [if_pos rfl] at hx
          injection hx with hx
          subst hx
          rw [if_pos rfl] at hu
          have := cnt x cell hcell
          show _ ≤ cell.ref - 1
          omega
        · rw [if_neg hxc] at hx
          have hne : ¬ (some c = some x) := fun e => hxc (Option.some.inj e).symm
          rw [if_neg hne] at hu
          have := cnt x cell' hx
          omega

theorem counted_request (h : PositionerHeap) (n : Nat) (resource : PositionerId)
    (r : PositionerRequest) (hc : h.Counted n) : (h.request resource r).Counted n := by
  unfold PositionerHeap.request
  cases hP : h.resources resource with
  | none => exact hc
  | some c =>
    dsimp only
    split
    · exact counted_assign h n resource _ hc c hP
    · exact hc

theorem create_frame (h : PositionerHeap) (data : XdgPositionerData) :
    (h.create data).2 = h.next ∧ (h.create data).1.next = h.next + 1
      ∧ (h.create data).1.resources = h.resources ∧ (h.create data).1.popups = h.popups
      ∧ ∀ x, (h.create data).1.cells x = if x = h.next then some ⟨1, data⟩ else h.cells x := by
  refine ⟨rfl, rfl, rfl, rfl, fun x => ?_⟩
  simp [PositionerHeap.create, Function.update_apply]

theorem get_payload (h : PositionerHeap) (resource : PositionerId) :
    (h.get resource).1.payload (h.get resource).2
      = match h.resources resource with
        | some c => h.payload c
        | none => {} := by
  unfold PositionerHeap.get
  cases hP : h.resources resource with
  | none =>
    simp [PositionerHeap.payload, PositionerHeap.create]
  | some c =>
    dsimp only
    unfold PositionerHeap.payload
    cases hcell : h.cells c with
    | none => simp [PositionerHeap.ref, hcell]
    | some cell => rw [ref_cells_self h c cell hcell]

theorem create_deref_unchanged (h : PositionerHeap) (data : XdgPositionerData)
    (hn : h.cells h.next = none) :
    h.Unchanged ((h.create data).1.deref (h.create data).2) := by
  have hcr := create_frame h data
  show h.Unchanged ((h.create data).1.deref h.next)
  refine ⟨fun x => ?_, ?_, ?_, ?_⟩
  · by_cases hx : x = h.next
    · subst hx
      rw [deref_cells_self _ _ ⟨1, data⟩ (by rw [hcr.2.2.2.2, if_pos rfl]), hn]
      rfl
    · rw [deref_cells_ne _ _ x hx, hcr.2.2.2.2, if_neg hx]
  · rw [(deref_frame _ _).1, hcr.2.1]
    exact Nat.le_succ _
  · rw [(deref_frame _ _).2.1, hcr.2.2.1]
  · rw [(deref_frame _ _).2.2, hcr.2.2.2.1]

theorem get_deref_unchanged (h : PositionerHeap) (n : Nat) (hc : h.Counted n)
    (resource : PositionerId) :
    h.Unchanged ((h.get resource).1.deref (h.get resource).2) := by
  unfold PositionerHeap.get
  cases hP : h.resources resource with
  | none => exact create_deref_unchanged h _ (hc.1 _ (le_refl _))
  | some c =>
    dsimp only
    obtain ⟨hPn, _, cell, hcell⟩ := (counted_lt h n hc).1 resource c hP
    have href : 1 ≤ cell.ref :=
      le_trans (le_trans (holders_pos h.resources c resource n hPn hP) (Nat.le_add_right _ _))
        (hc.2.2.2.2 c cell hcell)
    refine ⟨fun x => ?_, ?_, ?_, ?_⟩
    · by_cases hx : x = c
      · subst hx
        rw [deref_cells_self _ x _ (ref_cells_self h x cell hcell), hcell]
        have h0 : ¬ (cell.ref = 0) := by omega
        simp only [Nat.add_sub_cancel, if_neg h0]
      · rw [deref_cells_ne _ c x hx, ref_cells_ne h c x hx]
    · rw [(deref_frame _ _).1, (ref_frame _ _).1]
    · rw [(deref_frame _ _).2.1, (ref_frame _ _).2.1]
    · rw [(deref_frame _ _).2.2, (ref_frame _ _).2.2]

theorem get_popup_heap (w : World) (h : PositionerHeap) (n : Nat) (hc : h.Counted n)
    (q : XdgSurfaceId) (parent : Option XdgSurfaceId) (resource : PositionerId) :
    (h.Unchanged (h.xdg_surface_get_popup w q parent resource)
      ∧ ¬ (∃ d, w.xdgSurfaceObjects q = some d ∧ (SurfaceRole.get w d.surface).isSome = false
            ∧ XdgPositioner.isComplete ((h.get resource).1.payload (h.get resource).2) = true
            ∧ (XdgSurfaceInterface.get w parent).isSome = true))
    ∨ ((∃ d, w.xdgSurfaceObjects q = some d ∧ (SurfaceRole.get w d.surface).isSome = false
            ∧ XdgPositioner.isComplete ((h.get resource).1.payload (h.get resource).2) = true
            ∧ (XdgSurfaceInterface.get w parent).isSome = true)
        ∧ ∃ c cell, h.resources resource = some c ∧ h.cells c = some cell
          ∧ (∀ x, (h.xdg_surface_get_popup w q parent resource).cells x
              = if x = c then some { cell with ref := cell.ref + 1 } else h.cells x)
          ∧ (h.xdg_surface_get_popup w q parent resource).next = h.next + 1
          ∧ (h.xdg_surface_get_popup w q parent resource).resources = h.resources
          ∧ (h.xdg_surface_get_popup w q parent resource).popups
              = Function.update h.popups w.fresh (some c)) := by
  have hself : h.Unchanged h := ⟨fun _ => rfl, le_refl _, rfl, rfl⟩
  unfold PositionerHeap.xdg_surface_get_popup
  cases hq : w.xdgSurfaceObjects q with
  | none =>
    left
    exact ⟨hself, by rintro ⟨d, hd, _⟩; cases hd⟩
  | some d =>
    dsimp only
    by_cases hrole : (SurfaceRole.get w d.surface).isSome = true
    · left
      rw [if_pos hrole]
      refine ⟨hself, ?_⟩
      rintro ⟨d', hd', hr, _⟩
      injection hd' with hd'
      subst hd'
      rw [hrole] at hr
      cases hr
    · rw [if_neg hrole]
      by_cases hcomp : XdgPositioner.isComplete ((h.get resource).1.payload (h.get resource).2)
          = true
      · have hnot : ¬ ((!XdgPositioner.isComplete
            ((h.get resource).1.payload (h.get resource).2)) = true) := by
          rw [hcomp]
          decide
        rw [if_neg hnot]
        cases hpar : XdgSurfaceInterface.get w parent with
        | none =>
          left
          refine ⟨get_deref_unchanged h n hc resource, ?_⟩
          rintro ⟨_, _, _, _, hp⟩
          cases hp
        | some parentSurface =>
          right
          refine ⟨⟨d, rfl, by simpa using hrole, hcomp, rfl⟩, ?_⟩
          dsimp only
          cases hP : h.resources resource with
          | none =>
            have hd : XdgPositioner.isComplete ({} : XdgPositionerData) = false := by decide
            rw [get_payload, hP] at hcomp
            dsimp only at hcomp
            rw [hd] at hcomp
            cases hcomp
          | some c =>
            obtain ⟨_, hcn, cell, hcell⟩ := (counted_lt h n hc).1 resource c hP
            have hcn' : c ≠ h.next := Nat.ne_of_lt hcn
            have hget : h.get resource = (h.ref c, c) := by
              simp [PositionerHeap.get, hP]
            rw [hget]
            dsimp only
            have hcr := create_frame (h.ref c) {}
            rw [(ref_frame h c).1] at hcr
            have e1 : ((h.ref c).create {}).1.cells c = some { cell with ref := cell.ref + 1 } := by
              rw [hcr.2.2.2.2, if_neg hcn', ref_cells_self h c cell hcell]
            have e2 : ((((h.ref c).create {}).1.ref c)).cells h.next = some ⟨1, {}⟩ := by
              rw [ref_cells_ne _ c _ (Ne.symm hcn'), hcr.2.2.2.2, if_pos rfl]
            have e3 : ((((h.ref c).create {}).1.ref c).deref h.next).cells c
                = some { cell with ref := cell.ref + 1 + 1 } := by
              rw [deref_cells_ne _ _ _ hcn', ref_cells_self _ c _ e1]
            refine ⟨c, cell, rfl, hcell, fun x => ?_, ?_, ?_, ?_⟩
            · by_cases hx : x = c
              · subst hx
                rw [if_pos rfl]
                rw [deref_cells_self _ x { cell with ref := cell.ref + 1 + 1 }
                  (by rw [hcr.1]; exact e3)]
                simp
              · rw [if_neg hx, deref_cells_ne _ c x hx]
                show ((((h.ref c).create {}).1.ref c).deref ((h.ref c).create {}).2).cells x = _
                rw [hcr.1]
                by_cases hxn : x = h.next
                · subst hxn
                  rw [deref_cells_self _ _ _ e2, hc.1 _ (le_refl _)]
                  rfl
                · rw [deref_cells_ne _ _ x hxn, ref_cells_ne _ c x hx, hcr.2.2.2.2, if_neg hxn,
                    ref_cells_ne h c x hx]
            · rw [(deref_frame _ _).1]
              show ((((h.ref c).create {}).1.ref c).deref ((h.ref c).create {}).2).next = _
              rw [(deref_frame _ _).1, (ref_frame _ _).1, hcr.2.1]
            · rw [(deref_frame _ _).2.1]
              show ((((h.ref c).create {}).1.ref c).deref ((h.ref c).create {}).2).resources = _
              rw [(deref_frame _ _).2.1, (ref_frame _ _).2.1, hcr.2.2.1, (ref_frame _ _).2.1]
            · rw [(deref_frame _ _).2.2]
              show Function.update
                ((((h.ref c).create {}).1.ref c).deref ((h.ref c).create {}).2).popups w.fresh
                  (some c) = _
              rw [(deref_frame _ _).2.2, (ref_frame _ _).2.2, hcr.2.2.2.1, (ref_frame _ _).2.2]
      · left
        have hyes : (!XdgPositioner.isComplete
            ((h.get resource).1.payload (h.get resource).2)) = true := by
          simpa using hcomp
        rw [if_pos hyes]
        refine ⟨get_deref_unchanged h n hc resource, ?_⟩
        rintro ⟨_, _, _, hcm, _⟩
        exact hcomp hcm

theorem counted_unchanged (h h' : PositionerHeap) (n : Nat) (hc : h.Counted n)
    (hu : h.Unchanged h') : h'.Counted n := by
  obtain ⟨hcells, hnext, hres, hpop⟩ := hu
  obtain ⟨b1, b2, l1, l2, cnt⟩ := hc
  refine ⟨?_, ?_, ?_, ?_, ?_⟩
  · intro x hx
    rw [hcells]
    exact b1 x (le_trans hnext hx)
  · intro i hi
    rw [hres, hpop]
    exact b2 i hi
  · intro i x hi
    rw [hres] at hi
    rw [hcells]
    exact l1 i x hi
  · intro i x hi
    rw [hpop] at hi
    rw [hcells]
    exact l2 i x hi
  · intro x cell hx
    rw [hcells] at hx
    rw [hres, hpop]
    exact cnt x cell hx

theorem payload_congr (h h' : PositionerHeap) (x : Nat) (hx : h'.cells x = h.cells x) :
    h'.payload x = h.payload x := by
  unfold PositionerHeap.payload
  rw [hx]

theorem deref_payload (h : PositionerHeap) (c x : Nat)
    (hlive : ((h.deref c).cells x).isSome = true) : (h.deref c).payload x = h.payload x := by
  by_cases hx : x = c
  · subst hx
    cases hcell : h.cells x with
    | none =>
      have : h.deref x = h := by simp [PositionerHeap.deref, hcell]
      rw [this]
    | some cell =>
      rw [deref_cells_self h x cell hcell] at hlive
      unfold PositionerHeap.payload
      rw [deref_cells_self h x cell hcell, hcell]
      split at hlive
      · cases hlive
      · rename_i h0
        rw [if_neg h0]
  · exact payload_congr _ _ x (deref_cells_ne h c x hx)

theorem assign_payload (h : PositionerHeap) (n : Nat) (resource : PositionerId)
    (data : XdgPositionerData) (hc : h.Counted n) (c : Nat) (hP : h.resources resource = some c) :
    (h.assign resource data).popups = h.popups
    ∧ (∃ c', (h.assign resource data).resources = Function.update h.resources resource (some c')
        ∧ (h.assign resource data).payload c' = data)
    ∧ (∀ i x, i ≠ resource → h.resources i = some x →
        (h.assign resource data).payload x = h.payload x)
    ∧ (∀ i x, h.popups i = some x → (h.assign resource data).payload x = h.payload x) := by
  obtain ⟨hPn, hcn, _, _⟩ := (counted_lt h n hc).1 resource c hP
  have hlt := counted_lt h n hc
  obtain ⟨cell, hcell, hcase⟩ := assign_cases h n resource data hc c hP
  have hcount := hc.2.2.2.2 c cell hcell
  rcases hcase with ⟨href, hcells, hnext, hres, hpop⟩ | ⟨href, hcells, hnext, hres, hpop⟩
  · refine ⟨hpop, ⟨c, ?_, ?_⟩, ?_, ?_⟩
    · rw [hres, ← hP, Function.update_eq_self]
    · unfold PositionerHeap.payload
      rw [hcells, if_pos rfl]
    · intro i x hi hx
      have hxc : x ≠ c := by
        rintro rfl
        have hu := holders_update_lt h.resources x resource n none hPn
        rw [hP] at hu
        simp only [if_true, reduceCtorEq, if_false, add_zero] at hu
        have h1 : 1 ≤ holders (Function.update h.resources resource none) x n :=
          holders_pos _ x i n (hlt.1 i x hx).1 (by rw [Function.update_noteq hi]; exact hx)
        omega
      exact payload_congr _ _ x (by rw [hcells, if_neg hxc])
    · intro i x hx
      have hxc : x ≠ c := by
        rintro rfl
        have h1 := holders_pos h.resources x resource n hPn hP
        have h2 := holders_pos h.popups x i n (hlt.2 i x hx).1 hx
        omega
      exact payload_congr _ _ x (by rw [hcells, if_neg hxc])
  · have hold : ∀ x, x < h.next → (h.assign resource data).payload x = h.payload x := by
      intro x hx
      unfold PositionerHeap.payload
      rw [hcells, if_neg (Nat.ne_of_lt hx)]
      by_cases hxc : x = c
      · subst hxc
        rw [if_pos rfl, hcell]
      · rw [if_neg hxc]
    refine ⟨hpop, ⟨h.next, hres, ?_⟩, ?_, ?_⟩
    · unfold PositionerHeap.payload
      rw [hcells, if_pos rfl]
    · intro i x _ hx
      exact hold x (hlt.1 i x hx).2.1
    · intro i x hx
      exact hold x (hlt.2 i x hx).2.1

theorem represents_create_positioner (w : World) (h : PositionerHeap) (client : ClientId)
    (hc : h.Counted w.fresh) (hr : h.Represents w) :
    (h.xdg_wm_base_create_positioner w).Represents
      (XdgShellInterfacePrivate.xdg_wm_base_create_positioner w client).1 := by
  have hlt := counted_lt h w.fresh hc
  have hold : ∀ x, x < h.next → (h.xdg_wm_base_create_positioner w).payload x = h.payload x := by
    intro x hx
    refine payload_congr _ _ x ?_
    show Function.update h.cells h.next _ x = h.cells x
    rw [Function.update_noteq (Nat.ne_of_lt hx)]
  constructor
  · intro resource
    show Function.update w.positioners w.fresh (some {}) resource
      = (Function.update h.resources w.fresh (some h.next) resource).map
          (h.xdg_wm_base_create_positioner w).payload
    by_cases hx : resource = w.fresh
    · subst hx
      simp [PositionerHeap.payload, PositionerHeap.xdg_wm_base_create_positioner,
        PositionerHeap.create]
    · rw [Function.update_noteq hx, Function.update_noteq hx, hr.1]
      cases hres : h.resources resource with
      | none => rfl
      | some c =>
        simp only [Option.map_some']
        rw [hold c (hlt.1 resource c hres).2.1]
  · intro q
    show (w.popups q).map XdgPopupInterface.positioner
      = (h.popups q).map (h.xdg_wm_base_create_positioner w).payload
    rw [hr.2]
    cases hres : h.popups q with
    | none => rfl
    | some c =>
      simp only [Option.map_some']
      rw [hold c (hlt.2 q c hres).2.1]

theorem represents_positioner_destroy (w : World) (h : PositionerHeap) (n : Nat)
    (resource : PositionerId) (hc : h.Counted n) (hr : h.Represents w) :
    (h.xdg_positioner_destroy resource).Represents
      (XdgPositionerPrivate.xdg_positioner_destroy w resource).1 := by
  have hc' := counted_positioner_destroy h n resource hc
  unfold PositionerHeap.xdg_positioner_destroy at hc' ⊢
  cases hP : h.resources resource with
  | none =>
    constructor
    · intro i
      show Function.update w.positioners resource none i = _
      by_cases hi : i = resource
      · subst hi
        rw [Function.update_same, hP]
        rfl
      · rw [Function.update_noteq hi]
        exact hr.1 i
    · exact hr.2
  | some c =>
    rw [hP] at hc'
    dsimp only at hc' ⊢
    have hpl : ∀ x, ((h.deref c).cells x).isSome = true →
        PositionerHeap.payload
          { h.deref c with resources := Function.update (h.deref c).resources resource none } x
          = h.payload x := fun x hx => deref_payload h c x hx
    constructor
    · intro i
      show Function.update w.positioners resource none i
        = (Function.update (h.deref c).resources resource none i).map _
      by_cases hi : i = resource
      · subst hi
        rw [Function.update_same, Function.update_same]
        rfl
      · rw [Function.update_noteq hi, Function.update_noteq hi, (deref_frame h c).2.1, hr.1]
        cases hres : h.resources i with
        | none => rfl
        | some x =>
          have hl := hc'.2.2.1 i x (by
            show Function.update (h.deref c).resources resource none i = some x
            rw [Function.update_noteq hi, (deref_frame h c).2.1]
            exact hres)
          exact congrArg some (hpl x hl).symm
    · intro q
      show (w.popups q).map XdgPopupInterface.positioner = ((h.deref c).popups q).map _
      rw [(deref_frame h c).2.2, hr.2]
      cases hres : h.popups q with
      | none => rfl
      | some x =>
        have hl := hc'.2.2.2.1 q x (by
          show (h.deref c).popups q = some x
          rw [(deref_frame h c).2.2]
          exact hres)
        exact congrArg some (hpl x hl).symm

theorem popup_destroy_world (w : World) (q : PopupId) :
    (XdgPopupInterfacePrivate.xdg_popup_destroy_resource w q).positioners = w.positioners
    ∧ (XdgPopupInterfacePrivate.xdg_popup_destroy_resource w q).popups
        = Function.update w.popups q none := by
  unfold XdgPopupInterfacePrivate.xdg_popup_destroy_resource
  cases hq : w.popups q with
  | none =>
    refine ⟨rfl, ?_⟩
    have hu := Function.update_eq_self q w.popups
    rw [hq] at hu
    exact hu.symm
  | some d =>
    dsimp only
    unfold XdgSurfaceInterfacePrivate.clearPopup
    split
    · exact ⟨rfl, rfl⟩
    · split <;> exact ⟨rfl, rfl⟩

theorem represents_popup_destroy (w : World) (h : PositionerHeap) (n : Nat)
    (q : PopupId) (hc : h.Counted n) (hr : h.Represents w) :
    (h.xdg_popup_destroy q).Represents (XdgPopupInterfacePrivate.xdg_popup_destroy w q).1 := by
  have hc' := counted_popup_destroy h n q hc
  have hw := popup_destroy_world w q
  unfold XdgPopupInterfacePrivate.xdg_popup_destroy
  unfold PositionerHeap.xdg_popup_destroy at hc' ⊢
  cases hP : h.popups q with
  | none =>
    constructor
    · intro i
      show (XdgPopupInterfacePrivate.xdg_popup_destroy_resource w q).positioners i = _
      rw [hw.1]
      exact hr.1 i
    · intro i
      show ((XdgPopupInterfacePrivate.xdg_popup_destroy_resource w q).popups i).map _ = _
      rw [hw.2]
      by_cases hi : i = q
      · subst hi
        rw [Function.update_same, hP]
        rfl
      · rw [Function.update_noteq hi]
        exact hr.2 i
  | some c =>
    rw [hP] at hc'
    dsimp only at hc' ⊢
    have hpl : ∀ x, ((h.deref c).cells x).isSome = true →
        PositionerHeap.payload
          { h.deref c with popups := Function.update (h.deref c).popups q none } x
          = h.payload x := fun x hx => deref_payload h c x hx
    constructor
    · intro i
      show (XdgPopupInterfacePrivate.xdg_popup_destroy_resource w q).positioners i
        = ((h.deref c).resources i).map _
      rw [hw.1, (deref_frame h c).2.1, hr.1]
      cases hres : h.resources i with
      | none => rfl
      | some x =>
        have hl := hc'.2.2.1 i x (by
          show (h.deref c).resources i = some x
          rw [(deref_frame h c).2.1]
          exact hres)
        exact congrArg some (hpl x hl).symm
    · intro i
      show ((XdgPopupInterfacePrivate.xdg_popup_destroy_resource w q).popups i).map _
        = (Function.update (h.deref c).popups q none i).map _
      rw [hw.2]
      by_cases hi : i = q
      · subst hi
        rw [Function.update_same, Function.update_same]
        rfl
      · rw [Function.update_noteq hi, Function.update_noteq hi, (deref_frame h c).2.2, hr.2]
        cases hres : h.popups i with
        | none => rfl
        | some x =>
          have hl := hc'.2.2.2.1 i x (by
            show Function.update (h.deref c).popups q none i = some x
            rw [Function.update_noteq hi, (deref_frame h c).2.2]
            exact hres)
          exact congrArg some (hpl x hl).symm

theorem exists_error (es : List Event) (h : errorsOf es ≠ []) : ∃ c, Event.error c ∈ es := by
  induction es with
  | nil => exact absurd rfl h
  | cons e es ih =>
    cases e with
    | error c => exact ⟨c, List.mem_cons_self _ _⟩
    | send e =>
      obtain ⟨c, hc⟩ := ih (by simpa [errorsOf] using h)
      exact ⟨c, List.mem_cons_of_mem _ hc⟩
    | signal s =>
      obtain ⟨c, hc⟩ := ih (by simpa [errorsOf] using h)
      exact ⟨c, List.mem_cons_of_mem _ hc⟩
    | warning =>
      obtain ⟨c, hc⟩ := ih (by simpa [errorsOf] using h)
      exact ⟨c, List.mem_cons_of_mem _ hc⟩

theorem represents_request (w : World) (h : PositionerHeap) (n : Nat)
    (resource : PositionerId) (r : PositionerRequest) (hc : h.Counted n) (hr : h.Represents w) :
    (h.request resource r).Represents
      (w.onPositioner resource (fun data => XdgPositionerPrivate.request data r)).1 := by
  unfold PositionerHeap.request World.onPositioner
  have hP0 := hr.1 resource
  cases hP : h.resources resource with
  | none =>
    rw [hP] at hP0
    rw [hP0]
    exact hr
  | some c =>
    rw [hP] at hP0
    simp only [Option.map_some'] at hP0
    rw [hP0]
    dsimp only
    by_cases herr : errorsOf (XdgPositionerPrivate.request (h.payload c) r).2 = []
    · rw [if_pos herr]
      obtain ⟨hpop, ⟨c', hres, hpay⟩, hothers, hpops⟩ :=
        assign_payload h n resource (XdgPositionerPrivate.request (h.payload c) r).1 hc c hP
      constructor
      · intro i
        show Function.update w.positioners resource _ i = _
        rw [hres]
        by_cases hi : i = resource
        · subst hi
          rw [Function.update_same, Function.update_same]
          exact congrArg some hpay.symm
        · rw [Function.update_noteq hi, Function.update_noteq hi, hr.1]
          cases hres' : h.resources i with
          | none => rfl
          | some x => exact congrArg some (hothers i x hi hres').symm
      · intro i
        show (w.popups i).map _ = _
        rw [hpop, hr.2]
        cases hres' : h.popups i with
        | none => rfl
        | some x => exact congrArg some (hpops i x hres').symm
    · rw [if_neg herr]
      obtain ⟨e, he⟩ := exists_error _ herr
      have hsame := (atomic_positioner r (h.payload c) e he).1
      constructor
      · intro i
        show Function.update w.positioners resource _ i = _
        by_cases hi : i = resource
        · subst hi
          rw [Function.update_same, hsame, hP]
          rfl
        · rw [Function.update_noteq hi]
          exact hr.1 i
      · exact hr.2

theorem get_world_heap (w : World) (h : PositionerHeap) (resource : PositionerId)
    (hr : h.Represents w) :
    XdgPositioner.get w resource = (h.get resource).1.payload (h.get resource).2 := by
  rw [get_payload]
  unfold XdgPositioner.get
  rw [hr.1 resource]
  cases h.resources resource <;> rfl

theorem get_popup_world (w : World) (q : XdgSurfaceId) (parent : Option XdgSurfaceId)
    (resource : PositionerId) :
    ((∃ d, w.xdgSurfaceObjects q = some d ∧ (SurfaceRole.get w d.surface).isSome = false
          ∧ XdgPositioner.isComplete (XdgPositioner.get w resource) = true
          ∧ (XdgSurfaceInterface.get w parent).isSome = true)
      ∧ (XdgSurfaceInterfacePrivate.xdg_surface_get_popup w q parent resource).1.positioners
          = w.positioners
      ∧ (∀ p, ((XdgSurfaceInterfacePrivate.xdg_surface_get_popup w q parent resource).1.popups
            p).map XdgPopupInterface.positioner
          = if p = w.fresh then some (XdgPositioner.get w resource)
            else (w.popups p).map XdgPopupInterface.positioner)
      ∧ (XdgSurfaceInterfacePrivate.xdg_surface_get_popup w q parent resource).1.fresh
          = w.fresh + 1)
    ∨ (¬ (∃ d, w.xdgSurfaceObjects q = some d ∧ (SurfaceRole.get w d.surface).isSome = false
          ∧ XdgPositioner.isComplete (XdgPositioner.get w resource) = true
          ∧ (XdgSurfaceInterface.get w parent).isSome = true)
      ∧ (XdgSurfaceInterfacePrivate.xdg_surface_get_popup w q parent resource).1 = w) := by
  unfold XdgSurfaceInterfacePrivate.xdg_surface_get_popup
  cases hq : w.xdgSurfaceObjects q with
  | none =>
    right
    exact ⟨(by rintro ⟨d, hd, _⟩; cases hd), rfl⟩
  | some d =>
    dsimp only
    by_cases hrole : (SurfaceRole.get w d.surface).isSome = true
    · right
      rw [if_pos hrole]
      refine ⟨?_, rfl⟩
      rintro ⟨d', hd', hr, _⟩
      injection hd' with hd'
      subst hd'
      rw [hrole] at hr
      cases hr
    · rw [if_neg hrole]
      by_cases hcomp : XdgPositioner.isComplete (XdgPositioner.get w resource) = true
      · have hnot : ¬ ((!XdgPositioner.isComplete (XdgPositioner.get w resource)) = true) := by
          rw [hcomp]
          decide
        rw [if_neg hnot]
        cases hpar : XdgSurfaceInterface.get w parent with
        | none =>
          right
          refine ⟨?_, rfl⟩
          rintro ⟨_, _, _, _, hp⟩
          cases hp
        | some parentSurface =>
          left
          refine ⟨⟨d, rfl, by simpa using hrole, hcomp, rfl⟩, rfl, fun p => ?_, rfl⟩
          simp only [SurfaceRole.attach, Function.update_apply]
          split
          · rfl
          · rfl
      · right
        have hyes : (!XdgPositioner.isComplete (XdgPositioner.get w resource)) = true := by
          simpa using hcomp
        rw [if_pos hyes]
        refine ⟨?_, rfl⟩
        rintro ⟨_, _, _, hcm, _⟩
        exact hcomp hcm

theorem sound_get_popup (w : World) (h : PositionerHeap) (q : XdgSurfaceId)
    (parent : Option XdgSurfaceId) (resource : PositionerId)
    (hc : h.Counted w.fresh) (hr : h.Represents w) :
    (h.xdg_surface_get_popup w q parent resource).Counted
        (XdgSurfaceInterfacePrivate.xdg_surface_get_popup w q parent resource).1.fresh
    ∧ (h.xdg_surface_get_popup w q parent resource).Represents
        (XdgSurfaceInterfacePrivate.xdg_surface_get_popup w q parent resource).1 := by
  have hlink := get_world_heap w h resource hr
  have hlt := counted_lt h w.fresh hc
  rcases get_popup_heap w h w.fresh hc q parent resource with
    ⟨hun, hno⟩ | ⟨hyes, c, cell, hP, hcell, hcells, hnext, hres, hpop⟩
  · rcases get_popup_world w q parent resource with ⟨hcond, _⟩ | ⟨_, hw⟩
    · rw [hlink] at hcond
      exact absurd hcond hno
    · rw [hw]
      refine ⟨counted_unchanged h _ w.fresh hc hun, ?_⟩
      obtain ⟨hcells, _, hres, hpop⟩ := hun
      constructor
      · intro i
        rw [hres, hr.1]
        cases h.resources i with
        | none => rfl
        | some x => exact congrArg some (payload_congr _ _ x (hcells x)).symm
      · intro i
        rw [hpop, hr.2]
        cases h.popups i with
        | none => rfl
        | some x => exact congrArg some (payload_congr _ _ x (hcells x)).symm
  · rcases get_popup_world w q parent resource with ⟨_, hwpos, hwpop, hwfresh⟩ | ⟨hno, _⟩
    · have hpay : ∀ x, (h.xdg_surface_get_popup w q parent resource).payload x = h.payload x := by
        intro x
        by_cases hx : x = c
        · subst hx
          unfold PositionerHeap.payload
          rw [hcells, if_pos rfl, hcell]
        · exact payload_congr _ _ x (by rw [hcells, if_neg hx])
      obtain ⟨b1, b2, l1, l2, cnt⟩ := hc
      refine ⟨⟨?_, ?_, ?_, ?_, ?_⟩, ?_, ?_⟩
      · intro x hx
        rw [hnext] at hx
        have hxc : x ≠ c := by
          have := (hlt.1 resource c hP).2.1
          omega
        rw [hcells, if_neg hxc]
        exact b1 x (by omega)
      · intro i hi
        rw [hwfresh] at hi
        have hi' : w.fresh < i := hi
        rw [hres, hpop, Function.update_noteq (Nat.ne_of_gt hi')]
        exact b2 i (Nat.le_of_lt hi')
      · intro i x hi
        rw [hres] at hi
        rw [hcells]
        split
        · rfl
        · exact l1 i x hi
      · intro i x hi
        rw [hpop] at hi
        rw [hcells]
        split
        · rfl
        · rename_i hxc
          by_cases hin : i = w.fresh
          · subst hin
            rw [Function.update_same] at hi
            injection hi with hi
            exact absurd hi.symm hxc
          · rw [Function.update_noteq hin] at hi
            exact l2 i x hi
      · intro x cell' hx
        rw [hwfresh, hres, hpop]
        rw [hcells] at hx
        rw [holders_succ_none h.resources x w.fresh (b2 w.fresh (le_refl _)).1]
        simp only [holders, Function.update_same]
        rw [holders_update_ge h.popups x w.fresh w.fresh _ (le_refl _)]
        by_cases hxc : x = c
        · subst hxc
          rw [if_pos rfl] at hx
          injection hx with hx
          subst hx
          have := cnt x cell hcell
          simp only [if_true]
          show _ ≤ cell.ref + 1
          omega
        · rw [if_neg hxc] at hx
          have hne : ¬ (some c = some x) := fun e => hxc (Option.some.inj e).symm
          rw [if_neg hne]
          exact cnt x cell' hx
      · intro i
        rw [hwpos, hres, hr.1]
        cases h.resources i with
        | none => rfl
        | some x => exact congrArg some (hpay x).symm
      · intro i
        rw [hwpop, hpop]
        by_cases hi : i = w.fresh
        · subst hi
          rw [if_pos rfl, Function.update_same]
          simp only [Option.map_some']
          rw [hpay, XdgPositioner.get, hr.1 resource, hP]
          rfl
        · rw [if_neg hi, Function.update_noteq hi, hr.2]
          cases h.popups i with
          | none => rfl
          | some x => exact congrArg some (hpay x).symm
    · rw [hlink] at hno
      exact absurd hyes hno

theorem step_positioners_frame (w : World) (op : Op)
    (h1 : ∀ client, op ≠ Op.xdg_wm_base_create_positioner client)
    (h2 : ∀ q parent positioner, op ≠ Op.xdg_surface_get_popup q parent positioner)
    (h3 : ∀ q, op ≠ Op.xdg_popup_destroy q)
    (h4 : ∀ resource, op ≠ Op.xdg_positioner_destroy resource)
    (h5 : ∀ resource r, op ≠ PositionerRequest.toOp resource r) :
    (step w op).1.positioners = w.positioners ∧ (step w op).1.popups = w.popups := by
  cases op
  case xdg_wm_base_create_positioner client => exact absurd rfl (h1 client)
  case xdg_surface_get_popup q parent positioner => exact absurd rfl (h2 q parent positioner)
  case xdg_popup_destroy q => exact absurd rfl (h3 q)
  case xdg_positioner_destroy resource => exact absurd rfl (h4 resource)
  case xdg_positioner_set_size resource width height =>
    exact absurd rfl (h5 resource (PositionerRequest.set_size width height))
  case xdg_positioner_set_anchor_rect resource x y width height =>
    exact absurd rfl (h5 resource (PositionerRequest.set_anchor_rect x y width height))
  case xdg_positioner_set_anchor resource anchor =>
    exact absurd rfl (h5 resource (PositionerRequest.set_anchor anchor))
  case xdg_positioner_set_gravity resource gravity =>
    exact absurd rfl (h5 resource (PositionerRequest.set_gravity gravity))
  case xdg_positioner_set_constraint_adjustment resource mask =>
    exact absurd rfl (h5 resource (PositionerRequest.set_constraint_adjustment mask))
  case xdg_positioner_set_offset resource x y =>
    exact absurd rfl (h5 resource (PositionerRequest.set_offset x y))
  all_goals clear h1 h2 h3 h4 h5
  all_goals simp only [step, SurfaceInterface.commit, SurfaceRole.commit,
    XdgShellInterfacePrivate.bind, XdgShellInterfacePrivate.xdg_wm_base_destroy,
    XdgShellInterfacePrivate.xdg_wm_base_get_xdg_surface,
    XdgShellInterfacePrivate.xdg_wm_base_pong, XdgShellInterface.ping,
    XdgShellInterfacePrivate.pingTimerTimeout, XdgShellInterfacePrivate.registerPing,
    XdgShellInterfacePrivate.registerXdgSurface, XdgShellInterfacePrivate.unregisterXdgSurface,
    XdgSurfaceInterfacePrivate.xdg_surface_destroy,
    XdgSurfaceInterfacePrivate.xdg_surface_destroy_resource,
    XdgSurfaceInterfacePrivate.xdg_surface_get_toplevel, SurfaceRole.attach,
    World.onXdgSurface, World.onToplevel, World.readToplevel,
    XdgToplevelInterface.sendConfigure, XdgPopupInterface.sendConfigure, clientFromXdgSurface,
    XdgToplevelInterfacePrivate.xdg_toplevel_destroy,
    XdgToplevelInterfacePrivate.xdg_toplevel_destroy_resource,
    XdgSurfaceInterfacePrivate.clearToplevel, SurfaceRole.detach]
  all_goals repeat' split
  all_goals first
    | exact ⟨rfl, rfl⟩
    | exact ⟨trivial, rfl⟩
    | exact ⟨rfl, trivial⟩
    | trivial

theorem heap_step_other (w : World) (h : PositionerHeap) (op : Op)
    (h1 : ∀ client, op ≠ Op.xdg_wm_base_create_positioner client)
    (h2 : ∀ q parent positioner, op ≠ Op.xdg_surface_get_popup q parent positioner)
    (h3 : ∀ q, op ≠ Op.xdg_popup_destroy q)
    (h4 : ∀ resource, op ≠ Op.xdg_positioner_destroy resource)
    (h5 : ∀ resource r, op ≠ PositionerRequest.toOp resource r) :
    PositionerHeap.step w h op = h := by
  cases op
  case xdg_wm_base_create_positioner client => exact absurd rfl (h1 client)
  case xdg_surface_get_popup q parent positioner => exact absurd rfl (h2 q parent positioner)
  case xdg_popup_destroy q => exact absurd rfl (h3 q)
  case xdg_positioner_destroy resource => exact absurd rfl (h4 resource)
  case xdg_positioner_set_size resource width height =>
    exact absurd rfl (h5 resource (PositionerRequest.set_size width height))
  case xdg_positioner_set_anchor_rect resource x y width height =>
    exact absurd rfl (h5 resource (PositionerRequest.set_anchor_rect x y width height))
  case xdg_positioner_set_anchor resource anchor =>
    exact absurd rfl (h5 resource (PositionerRequest.set_anchor anchor))
  case xdg_positioner_set_gravity resource gravity =>
    exact absurd rfl (h5 resource (PositionerRequest.set_gravity gravity))
  case xdg_positioner_set_constraint_adjustment resource mask =>
    exact absurd rfl (h5 resource (PositionerRequest.set_constraint_adjustment mask))
  case xdg_positioner_set_offset resource x y =>
    exact absurd rfl (h5 resource (PositionerRequest.set_offset x y))
  all_goals rfl

theorem heap_step_request (w : World) (h : PositionerHeap) (resource : PositionerId)
    (r : PositionerRequest) :
    PositionerHeap.step w h (PositionerRequest.toOp resource r) = h.request resource r := by
  cases r <;> rfl

theorem onPositioner_fresh (w : World) (resource : PositionerId)
    (f : XdgPositionerData → XdgPositionerData × List Event) :
    (w.onPositioner resource f).1.fresh = w.fresh := by
  unfold World.onPositioner
  split <;> rfl

theorem popup_destroy_fresh (w : World) (q : PopupId) :
    (XdgPopupInterfacePrivate.xdg_popup_destroy_resource w q).fresh = w.fresh := by
  unfold XdgPopupInterfacePrivate.xdg_popup_destroy_resource
  split
  · rfl
  · exact (clearPopup_frame _ _ _).2.2.2

/-- One step keeps the pointers sound: the reference counts cover the pointers
and the state records the payloads the pointers lead to. -/
theorem sound_step (w : World) (h : PositionerHeap) (op : Op)
    (hc : h.Counted w.fresh) (hr : h.Represents w) :
    (PositionerHeap.step w h op).Counted (step w op).1.fresh
    ∧ (PositionerHeap.step w h op).Represents (step w op).1 := by
  by_cases h1 : ∃ client, op = Op.xdg_wm_base_create_positioner client
  · obtain ⟨client, rfl⟩ := h1
    exact ⟨counted_create_positioner w h hc, represents_create_positioner w h client hc hr⟩
  by_cases h2 : ∃ q parent positioner, op = Op.xdg_surface_get_popup q parent positioner
  · obtain ⟨q, parent, positioner, rfl⟩ := h2
    exact sound_get_popup w h q parent positioner hc hr
  by_cases h3 : ∃ q, op = Op.xdg_popup_destroy q
  · obtain ⟨q, rfl⟩ := h3
    refine ⟨?_, represents_popup_destroy w h w.fresh q hc hr⟩
    show (h.xdg_popup_destroy q).Counted
      (XdgPopupInterfacePrivate.xdg_popup_destroy_resource w q).fresh
    rw [popup_destroy_fresh]
    exact counted_popup_destroy h w.fresh q hc
  by_cases h4 : ∃ resource, op = Op.xdg_positioner_destroy resource
  · obtain ⟨resource, rfl⟩ := h4
    exact ⟨counted_positioner_destroy h w.fresh resource hc,
      represents_positioner_destroy w h w.fresh resource hc hr⟩
  by_cases h5 : ∃ resource r, op = PositionerRequest.toOp resource r
  · obtain ⟨resource, r, rfl⟩ := h5
    rw [heap_step_request, positioner_request_step]
    refine ⟨?_, represents_request w h w.fresh resource r hc hr⟩
    rw [onPositioner_fresh]
    exact counted_request h w.fresh resource r hc
  have e1 : ∀ client, op ≠ Op.xdg_wm_base_create_positioner client := fun c hc' => h1 ⟨c, hc'⟩
  have e2 : ∀ q parent positioner, op ≠ Op.xdg_surface_get_popup q parent positioner :=
    fun q a b hq => h2 ⟨q, a, b, hq⟩
  have e3 : ∀ q, op ≠ Op.xdg_popup_destroy q := fun q hq => h3 ⟨q, hq⟩
  have e4 : ∀ resource, op ≠ Op.xdg_positioner_destroy resource := fun r hr' => h4 ⟨r, hr'⟩
  have e5 : ∀ resource r, op ≠ PositionerRequest.toOp resource r :=
    fun a b hab => h5 ⟨a, b, hab⟩
  rw [heap_step_other w h op e1 e2 e3 e4 e5]
  obtain ⟨hpos, hpop⟩ := step_positioners_frame w op e1 e2 e3 e4 e5
  refine ⟨counted_mono h _ _ hc (step_fresh_le w op), ?_, ?_⟩
  · intro i
    rw [hpos]
    exact hr.1 i
  · intro i
    rw [hpop]
    exact hr.2 i

theorem sound_run (ops : List Op) :
    ∀ (w : World) (h : PositionerHeap), h.Counted w.fresh → h.Represents w →
      (PositionerHeap.run w h ops).Counted (run w ops).fresh
      ∧ (PositionerHeap.run w h ops).Represents (run w ops) := by
  induction ops with
  | nil => intro w h hc hr; exact ⟨hc, hr⟩
  | cons op ops ih =>
    intro w h hc hr
    obtain ⟨hc', hr'⟩ := sound_step w h op hc hr
    exact ih _ _ hc' hr'

theorem represents_init : ({} : PositionerHeap).Represents World.init :=
  ⟨fun _ => rfl, fun _ => rfl⟩

theorem heap_positioner_requests (w : World) (h : PositionerHeap)
    (hc : h.Counted w.fresh) (hr : h.Represents w) (q : PopupId)
    (resource : PositionerId) (reqs : List PositionerRequest) :
    (PositionerHeap.run w h (reqs.map (PositionerRequest.toOp resource))).positioner q
      = (w.popups q).map XdgPopupInterface.positioner
    ∧ h.positioner q = (w.popups q).map XdgPopupInterface.positioner := by
  obtain ⟨_, hr'⟩ := sound_run (reqs.map (PositionerRequest.toOp resource)) w h hc hr
  refine ⟨?_, (hr.2 q).symm⟩
  unfold PositionerHeap.positioner
  rw [← hr'.2 q, (positioner_requests_run resource reqs w).1]

theorem popup_kept_run (q : PopupId) (d : XdgPopupInterfacePrivate) (ops : List Op) :
    ∀ w : World, w.popups q = some d → q < w.fresh → Op.xdg_popup_destroy q ∉ ops →
      (run w ops).popups q = some d := by
  induction ops with
  | nil => intro w h _ _; exact h
  | cons op ops ih =>
    intro w h hq hd
    refine ih (step w op).1 ?_ (lt_of_lt_of_le hq (step_fresh_le w op)) ?_
    · refine step_popup_live w op q d h ?_ (Nat.ne_of_lt hq)
      intro e
      exact hd (e ▸ List.mem_cons_self _ _)
    · intro hm
      exact hd (List.mem_cons_of_mem _ hm)

theorem toOp_ne_popup_destroy (resource : PositionerId) (q : PopupId)
    (reqs : List PositionerRequest) :
    Op.xdg_popup_destroy q ∉ reqs.map (PositionerRequest.toOp resource) := by
  intro hm
  obtain ⟨r, _, hr⟩ := List.mem_map.mp hm
  cases r <;> cases hr

theorem get_popup_created (w : World) (q : XdgSurfaceId) (parent : Option XdgSurfaceId)
    (resource : PositionerId) (popup : PopupId)
    (h : (step w (Op.xdg_surface_get_popup q parent resource)).2
      = [Event.signal (Signal.popupCreated popup)]) :
    popup = w.fresh
    ∧ ∃ d, w.xdgSurfaceObjects q = some d ∧ (SurfaceRole.get w d.surface).isSome = false
        ∧ XdgPositioner.isComplete (XdgPositioner.get w resource) = true
        ∧ (XdgSurfaceInterface.get w parent).isSome = true := by
  simp only [step, XdgSurfaceInterfacePrivate.xdg_surface_get_popup] at h
  cases hx : w.xdgSurfaceObjects q with
  | none => simp [hx] at h
  | some d =>
    simp only [hx] at h
    split at h
    · simp at h
    · rename_i hrole
      split at h
      · simp at h
      · rename_i hpos
        split at h
        · simp at h
        · rename_i r hpar
          simp only [List.cons.injEq, Event.signal.injEq, Signal.popupCreated.injEq,
            and_true] at h
          refine ⟨h.symm, d, rfl, by simpa using hrole, by simpa using hpos, ?_⟩
          rw [hpar]
          rfl

/-- C24: the popup holds a snapshot of its positioner.  In every reachable
state, when `get_popup` with the positioner resource `resource` constructs the
popup `popup`, the popup's pointer and the resource's pointer lead to the same
payload, and `positioner()` of the popup, read through the popup's pointer, is
the value the resource has at that moment; it still is that value after every
later sequence of requests on the resource (accepted or rejected), and after
every later sequence of operations of any kind that does not destroy the
popup. -/
theorem popup_positioner_snapshot (ops : List Op) (q : XdgSurfaceId)
    (parent : Option XdgSurfaceId) (resource : PositionerId) (popup : PopupId)
    (hcreated : (step (run World.init ops) (Op.xdg_surface_get_popup q parent resource)).2
      = [Event.signal (Signal.popupCreated popup)]) :
    (PositionerHeap.step (run World.init ops) (PositionerHeap.run World.init {} ops)
        (Op.xdg_surface_get_popup q parent resource)).popups popup
      = (PositionerHeap.step (run World.init ops) (PositionerHeap.run World.init {} ops)
          (Op.xdg_surface_get_popup q parent resource)).resources resource
    ∧ ((PositionerHeap.step (run World.init ops) (PositionerHeap.run World.init {} ops)
        (Op.xdg_surface_get_popup q parent resource)).popups popup).isSome = true
    ∧ (PositionerHeap.step (run World.init ops) (PositionerHeap.run World.init {} ops)
        (Op.xdg_surface_get_popup q parent resource)).positioner popup
      = some (XdgPositioner.get (run World.init ops) resource)
    ∧ (∀ reqs : List PositionerRequest,
        (PositionerHeap.run
          (step (run World.init ops) (Op.xdg_surface_get_popup q parent resource)).1
          (PositionerHeap.step (run World.init ops) (PositionerHeap.run World.init {} ops)
            (Op.xdg_surface_get_popup q parent resource))
          (reqs.map (PositionerRequest.toOp resource))).positioner popup
        = some (XdgPositioner.get (run World.init ops) resource))
    ∧ (∀ later : List Op, Op.xdg_popup_destroy popup ∉ later →
        (PositionerHeap.run
          (step (run World.init ops) (Op.xdg_surface_get_popup q parent resource)).1
          (PositionerHeap.step (run World.init ops) (PositionerHeap.run World.init {} ops)
            (Op.xdg_surface_get_popup q parent resource))
          later).positioner popup
        = some (XdgPositioner.get (run World.init ops) resource)) := by
  obtain ⟨hc, hr⟩ := sound_run ops World.init {} counted_init represents_init
  obtain ⟨hp, hcond⟩ := get_popup_created _ q parent resource popup hcreated
  subst hp
  obtain ⟨hc1, hr1⟩ := sound_step _ _ (Op.xdg_surface_get_popup q parent resource) hc hr
  have hlink := get_world_heap _ _ resource hr
  have hw := get_popup_world (run World.init ops) q parent resource
  have hpopW : ((step (run World.init ops) (Op.xdg_surface_get_popup q parent resource)).1.popups
      (run World.init ops).fresh).map XdgPopupInterface.positioner
      = some (XdgPositioner.get (run World.init ops) resource) := by
    rcases hw with ⟨_, _, hwpop, _⟩ | ⟨hno, _⟩
    · have := hwpop (run World.init ops).fresh
      rw [if_pos rfl] at this
      exact this
    · exact absurd hcond hno
  have hfresh : (run World.init ops).fresh
      < (step (run World.init ops) (Op.xdg_surface_get_popup q parent resource)).1.fresh := by
    rcases hw with ⟨_, _, _, hwf⟩ | ⟨hno, _⟩
    · show _ < (XdgSurfaceInterfacePrivate.xdg_surface_get_popup _ q parent resource).1.fresh
      rw [hwf]
      exact Nat.lt_succ_self _
    · exact absurd hcond hno
  have hlater : ∀ later : List Op, Op.xdg_popup_destroy (run World.init ops).fresh ∉ later →
      (PositionerHeap.run
        (step (run World.init ops) (Op.xdg_surface_get_popup q parent resource)).1
        (PositionerHeap.step (run World.init ops) (PositionerHeap.run World.init {} ops)
          (Op.xdg_surface_get_popup q parent resource))
        later).positioner (run World.init ops).fresh
      = some (XdgPositioner.get (run World.init ops) resource) := by
    intro later hkept
    obtain ⟨_, hr2⟩ := sound_run later _ _ hc1 hr1
    cases hd : (step (run World.init ops)
        (Op.xdg_surface_get_popup q parent resource)).1.popups (run World.init ops).fresh with
    | none =>
      rw [hd] at hpopW
      cases hpopW
    | some d =>
      unfold PositionerHeap.positioner
      rw [← hr2.2, popup_kept_run _ d later _ hd hfresh hkept, ← hd]
      exact hpopW
  have h0 := hlater [] (List.not_mem_nil _)
  refine ⟨?_, ?_, h0, fun reqs => hlater _ (toOp_ne_popup_destroy resource _ reqs), hlater⟩
  · rcases get_popup_heap (run World.init ops) (PositionerHeap.run World.init {} ops)
      (run World.init ops).fresh hc q parent resource with
      ⟨_, hno⟩ | ⟨_, c, cell, hP, _, _, _, hres, hpop⟩
    · rw [hlink] at hcond
      exact absurd hcond hno
    · show (PositionerHeap.xdg_surface_get_popup _ _ q parent resource).popups _
        = (PositionerHeap.xdg_surface_get_popup _ _ q parent resource).resources _
      rw [hpop, hres, Function.update_same, hP]
  · have h2 : (PositionerHeap.step (run World.init ops) (PositionerHeap.run World.init {} ops)
        (Op.xdg_surface_get_popup q parent resource)).positioner (run World.init ops).fresh
        = some (XdgPositioner.get (run World.init ops) resource) := h0
    unfold PositionerHeap.positioner at h2
    cases hpp : (PositionerHeap.step (run World.init ops) (PositionerHeap.run World.init {} ops)
        (Op.xdg_surface_get_popup q parent resource)).popups (run World.init ops).fresh with
    | none =>
      rw [hpp] at h2
      cases h2
    | some c => rfl

/-- C24, at a concrete input: the popup 4 of scenario S3 is constructed from the
positioner 3 and shares its payload; after the client has set the size (1, 1)
and the anchor `left` on the positioner 3, whose pointer now leads to a payload
of its own with the new size, the popup's `positioner()` still has the size
(100, 50) and the anchor edges top and right. -/
theorem popup_positioner_snapshot_witness :
    (PositionerHeap.step (run World.init scenarioS3Ops)
        (PositionerHeap.run World.init {} scenarioS3Ops)
        (Op.xdg_surface_get_popup 2 (some 0) 3)).popups 4
      = (PositionerHeap.step (run World.init scenarioS3Ops)
          (PositionerHeap.run World.init {} scenarioS3Ops)
          (Op.xdg_surface_get_popup 2 (some 0) 3)).resources 3
    ∧ (PositionerHeap.run
        (step (run World.init scenarioS3Ops) (Op.xdg_surface_get_popup 2 (some 0) 3)).1
        (PositionerHeap.step (run World.init scenarioS3Ops)
          (PositionerHeap.run World.init {} scenarioS3Ops)
          (Op.xdg_surface_get_popup 2 (some 0) 3))
        (scenarioAfterPopup.map (PositionerRequest.toOp 3))).positioner 4
      = some (XdgPositioner.get (run World.init scenarioS3Ops) 3)
    ∧ XdgPositioner.get (run World.init scenarioS3Ops) 3
      = { size := ⟨100, 50⟩, anchorRect := QRect.fromXYWH 10 10 1 1,
          anchorEdges := { top := true, right := true },
          gravityEdges := { bottom := true, right := true } }
    ∧ ((PositionerHeap.run
        (step (run World.init scenarioS3Ops) (Op.xdg_surface_get_popup 2 (some 0) 3)).1
        (PositionerHeap.step (run World.init scenarioS3Ops)
          (PositionerHeap.run World.init {} scenarioS3Ops)
          (Op.xdg_surface_get_popup 2 (some 0) 3))
        (scenarioAfterPopup.map (PositionerRequest.toOp 3))).resources 3).map
          (fun c => ((PositionerHeap.run
            (step (run World.init scenarioS3Ops) (Op.xdg_surface_get_popup 2 (some 0) 3)).1
            (PositionerHeap.step (run World.init scenarioS3Ops)
              (PositionerHeap.run World.init {} scenarioS3Ops)
              (Op.xdg_surface_get_popup 2 (some 0) 3))
            (scenarioAfterPopup.map (PositionerRequest.toOp 3))).payload c).size)
      = some ⟨1, 1⟩ :=
  ⟨(popup_positioner_snapshot scenarioS3Ops 2 (some 0) 3 4 (by decide)).1,
   (popup_positioner_snapshot scenarioS3Ops 2 (some 0) 3 4 (by decide)).2.2.2.1
      scenarioAfterPopup,
   by decide, by decide⟩

end KWin
